import Mathlib

/-!
# Barotropic model, A-grid, implicit-midpoint integrator

A shallow embedding of `BarotropicModel_A_ImplicitMidpoint.cpp` in exact arithmetic.
Floating-point numbers are read as elements of an ordered field `α`, arrays as total
functions of their integer indices, `for` loops as folds that run the body for each index in
increasing order, and the square root of `<cmath>` as a parameter `sqrt : α → α`.

The quotient `/` is that of the field, where `x / 0 = 0`, and `sqrt` is a total function: the
embedding agrees with the exact reading of the code where no divisor is zero and no square
root is taken of a negative number. Where the code would compute NaN the theorems carry the
hypotheses that exclude it.
-/

namespace Barotropic

/-! ## Loops and arrays -/

/-- The first `n` passes of a loop whose variable starts at `lo` and increases by one. -/
def forLoopAux {σ : Type} (body : Int → σ → σ) (lo : Int) : Nat → σ → σ
  | 0, s => s
  | n + 1, s => body (lo + (n : Int)) (forLoopAux body lo n s)

/-- The loop `for (int k = lo; k <= hi; ++k) body`, as a state transformer. -/
def forLoop {σ : Type} (lo hi : Int) (body : Int → σ → σ) (s : σ) : σ :=
  forLoopAux body lo (hi + 1 - lo).toNat s

/-- A single-level field `Field<double>`: a value for every index pair `(i, j)`. -/
abbrev Field (α : Type) := Int → Int → α

/-- Modelled from the spec: the time slots of a double-buffered field with a half level
(`TimeLevelIndex` of the geomtk library, not part of the sources). The two full slots
alternate between the old and the new role; there is one half slot. -/
inductive TimeLevelIndex where
  | full (k : Bool)
  | half
  deriving DecidableEq

namespace TimeLevelIndex

/-- Modelled from the spec: the offset `idx + 0.5` (and `idx - 0.5`) of a full slot selects the
half slot. -/
def plusHalf : TimeLevelIndex → TimeLevelIndex
  | _ => half

/-- Modelled from the spec: the offset `idx + 1` (and `idx - 1`) of a full slot selects the other
full slot. -/
def plusOne : TimeLevelIndex → TimeLevelIndex
  | full k => full (!k)
  | half => half

end TimeLevelIndex

/-- A field with time levels, `Field<double, 2>` created with `HAS_HALF_LEVEL`. -/
abbrev TimeField (α : Type) := TimeLevelIndex → Int → Int → α

/-- The assignment `f(i, j) = x`. -/
def setCell {α : Type} (f : Field α) (i j : Int) (x : α) : Field α :=
  fun i' j' => if i' = i ∧ j' = j then x else f i' j'

/-- The assignment `f(t, i, j) = x`. -/
def setCellAt {α : Type} (f : TimeField α) (t : TimeLevelIndex) (i j : Int) (x : α) :
    TimeField α :=
  fun t' i' j' => if t' = t ∧ i' = i ∧ j' = j then x else f t' i' j'

/-- The assignment `v[j] = x` of a coefficient vector. -/
def setRow {α : Type} (v : Int → α) (j : Int) (x : α) : Int → α :=
  fun j' => if j' = j then x else v j'

/-! ## The mesh and the model state -/

/-- The stagger placement passed to mesh queries. -/
inductive GridType where
  | FULL
  | HALF
  deriving DecidableEq

open GridType

/-- Modelled from the spec: the answers of the Domain/Mesh service (geomtk, not part of the
sources) to the queries the model makes: index ranges per placement, number of grid points per
axis, grid interval per axis, and the trigonometric functions of latitude at a row. -/
structure Mesh (α : Type) where
  is : GridType → Int
  ie : GridType → Int
  js : GridType → Int
  je : GridType → Int
  getNumGrid : Nat → GridType → Int
  getGridInterval : Nat → GridType → Int → α
  getCosLat : GridType → Int → α
  getSinLat : GridType → Int → α
  getTanLat : GridType → Int → α

/-- The data members of `BarotropicModel_A_ImplicitMidpoint` (with those of its base class
`BarotropicModel`), `radius` being the radius stored in the domain object. -/
structure BarotropicModel (α : Type) where
  mesh : Mesh α
  radius : α
  dlon : α
  dlat : α
  u : TimeField α
  v : TimeField α
  gd : TimeField α
  ghs : Field α
  dut : Field α
  dvt : Field α
  dgd : Field α
  ut : TimeField α
  vt : TimeField α
  gdt : TimeField α
  gdu : Field α
  gdv : Field α
  fu : Field α
  fv : Field α
  cosLat : Int → α
  tanLat : Int → α
  factorCor : Int → α
  factorCur : Int → α
  factorLon : Int → α
  factorLat : Int → α
  firstRun : Bool

variable {α : Type} [LinearOrderedField α]

/-! ## `init` -/

/-- The part of `init` under "initialize domain" and "initialize mesh": the radius given to the
domain, the mesh that `mesh->init(numLon, numLat)` builds, and the two grid intervals. -/
def initDomainAndMesh (mesh : Mesh α) (m : BarotropicModel α) : BarotropicModel α :=
  let m : BarotropicModel α := { m with radius := 6.371e6 }
  let m : BarotropicModel α := { m with mesh := mesh }
  let m : BarotropicModel α := { m with dlon := m.mesh.getGridInterval 0 FULL 0 }
  { m with dlat := m.mesh.getGridInterval 1 FULL 0 }

/-- The part of `init` that sets `cosLat`: the rows between the poles, then the two pole rows. -/
def setCosLat (m : BarotropicModel α) : BarotropicModel α :=
  let m : BarotropicModel α := forLoop (m.mesh.js FULL + 1) (m.mesh.je FULL - 1)
    (fun j m => { m with cosLat := setRow m.cosLat j (m.mesh.getCosLat FULL j) }) m
  let m : BarotropicModel α :=
    { m with
      cosLat := setRow m.cosLat (m.mesh.js FULL)
        (m.mesh.getCosLat HALF (m.mesh.js HALF) * 0.25) }
  { m with
    cosLat := setRow m.cosLat (m.mesh.je FULL)
      (m.mesh.getCosLat HALF (m.mesh.je HALF) * 0.25) }

/-- The part of `init` that sets `tanLat`: the rows between the poles, then the two pole rows. -/
def setTanLat (m : BarotropicModel α) : BarotropicModel α :=
  let m : BarotropicModel α := forLoop (m.mesh.js FULL + 1) (m.mesh.je FULL - 1)
    (fun j m => { m with tanLat := setRow m.tanLat j (m.mesh.getTanLat FULL j) }) m
  let m : BarotropicModel α :=
    { m with tanLat := setRow m.tanLat (m.mesh.js FULL) (-1 / m.cosLat (m.mesh.js FULL)) }
  { m with tanLat := setRow m.tanLat (m.mesh.je FULL) (1 / m.cosLat (m.mesh.je FULL)) }

/-- The loop of `init` that sets `factorCor`. -/
def setFactorCor (OMEGA : α) (m : BarotropicModel α) : BarotropicModel α :=
  forLoop (m.mesh.js FULL) (m.mesh.je FULL)
    (fun j m =>
      { m with factorCor := setRow m.factorCor j (2 * OMEGA * m.mesh.getSinLat FULL j) }) m

/-- The loop of `init` that sets `factorCur`. -/
def setFactorCur (m : BarotropicModel α) : BarotropicModel α :=
  forLoop (m.mesh.js FULL) (m.mesh.je FULL)
    (fun j m => { m with factorCur := setRow m.factorCur j (m.tanLat j / m.radius) }) m

/-- The loop of `init` that sets `factorLon`. -/
def setFactorLon (m : BarotropicModel α) : BarotropicModel α :=
  forLoop (m.mesh.js FULL) (m.mesh.je FULL)
    (fun j m =>
      { m with factorLon := setRow m.factorLon j (1 / (2 * m.dlon * m.radius * m.cosLat j)) }) m

/-- The loop of `init` that sets `factorLat`. -/
def setFactorLat (m : BarotropicModel α) : BarotropicModel α :=
  forLoop (m.mesh.js FULL) (m.mesh.je FULL)
    (fun j m =>
      { m with factorLat := setRow m.factorLat j (1 / (2 * m.dlat * m.radius * m.cosLat j)) }) m

/-- The loop of `init` under "set variables in Poles". -/
def setPoleVariables (m : BarotropicModel α) : BarotropicModel α :=
  forLoop (m.mesh.is FULL - 1) (m.mesh.ie FULL + 1)
    (fun i m =>
      let m : BarotropicModel α := { m with dut := setCell m.dut i (m.mesh.js FULL) 0 }
      let m : BarotropicModel α := { m with dut := setCell m.dut i (m.mesh.je FULL) 0 }
      let m : BarotropicModel α := { m with dvt := setCell m.dvt i (m.mesh.js FULL) 0 }
      let m : BarotropicModel α := { m with dvt := setCell m.dvt i (m.mesh.je FULL) 0 }
      let m : BarotropicModel α := { m with gdu := setCell m.gdu i (m.mesh.js FULL) 0 }
      let m : BarotropicModel α := { m with gdu := setCell m.gdu i (m.mesh.je FULL) 0 }
      let m : BarotropicModel α := { m with gdv := setCell m.gdv i (m.mesh.js FULL) 0 }
      { m with gdv := setCell m.gdv i (m.mesh.je FULL) 0 }) m

/-- The method `init`: `mesh` is the mesh that `mesh->init(numLon, numLat)` builds and `OMEGA` the
rotation rate constant; the fields keep the contents they are created with. -/
def init (mesh : Mesh α) (OMEGA : α) (m : BarotropicModel α) : BarotropicModel α :=
  -- initialize domain, initialize mesh
  let m : BarotropicModel α := initDomainAndMesh mesh m
  -- set coefficients
  let m : BarotropicModel α := setCosLat m
  let m : BarotropicModel α := setTanLat m
  let m : BarotropicModel α := setFactorCor OMEGA m
  let m : BarotropicModel α := setFactorCur m
  let m : BarotropicModel α := setFactorLon m
  let m : BarotropicModel α := setFactorLat m
  -- set variables in Poles
  setPoleVariables m

/-! ## Diagnostics -/

/-- The method `calcTotalEnergy`. -/
def calcTotalEnergy (timeIdx : TimeLevelIndex) (m : BarotropicModel α) : α :=
  forLoop (m.mesh.js FULL) (m.mesh.je FULL)
    (fun j totalEnergy => forLoop (m.mesh.is FULL) (m.mesh.ie FULL)
      (fun i totalEnergy =>
        totalEnergy + (m.ut timeIdx i j ^ 2 + m.vt timeIdx i j ^ 2 +
          (m.gd timeIdx i j + m.ghs i j) ^ 2) * m.cosLat j) totalEnergy) 0

/-- The method `calcTotalMass`. -/
def calcTotalMass (timeIdx : TimeLevelIndex) (m : BarotropicModel α) : α :=
  forLoop (m.mesh.js FULL) (m.mesh.je FULL)
    (fun j totalMass => forLoop (m.mesh.is FULL) (m.mesh.ie FULL)
      (fun i totalMass => totalMass + m.gd timeIdx i j * m.cosLat j) totalMass) 0

/-! ## Tendencies -/

/-- The method `calcGeopotentialDepthTendency` as compiled with `NDEBUG`: the mass fluxes, the
tendency on the rows between the poles, and the tendency on the two pole rows. -/
def calcGeopotentialDepthTendency (timeIdx : TimeLevelIndex) (m : BarotropicModel α) :
    BarotropicModel α :=
  -- calculate intermediate variables
  let m : BarotropicModel α := forLoop (m.mesh.js FULL + 1) (m.mesh.je FULL - 1)
    (fun j m => forLoop (m.mesh.is FULL - 1) (m.mesh.ie FULL + 1)
      (fun i m =>
        let m : BarotropicModel α :=
          { m with gdu := setCell m.gdu i j (m.ut timeIdx i j * m.gdt timeIdx i j) }
        { m with gdv := setCell m.gdv i j (m.vt timeIdx i j * m.gdt timeIdx i j * m.cosLat j) })
      m) m
  -- normal grids
  let m : BarotropicModel α := forLoop (m.mesh.js FULL + 1) (m.mesh.je FULL - 1)
    (fun j m => forLoop (m.mesh.is FULL) (m.mesh.ie FULL)
      (fun i m =>
        { m with
          dgd := setCell m.dgd i j
            ((m.gdu (i + 1) j - m.gdu (i - 1) j) * m.factorLon j +
             (m.gdv i (j + 1) - m.gdv i (j - 1)) * m.factorLat j) }) m) m
  -- pole grids
  let js := m.mesh.js FULL
  let jn := m.mesh.je FULL
  let dgdsn : α × α := forLoop (m.mesh.is FULL) (m.mesh.ie FULL)
    (fun i d => (d.1 + m.gdv i (js + 1), d.2 - m.gdv i (jn - 1))) (0, 0)
  let dgds := dgdsn.1 * (m.factorLat js / (m.mesh.getNumGrid 0 FULL : α))
  let dgdn := dgdsn.2 * (m.factorLat jn / (m.mesh.getNumGrid 0 FULL : α))
  forLoop (m.mesh.is FULL) (m.mesh.ie FULL)
    (fun i m =>
      let m : BarotropicModel α := { m with dgd := setCell m.dgd i js dgds }
      { m with dgd := setCell m.dgd i jn dgdn }) m

/-- The sum `tmp` that the debug build of `calcGeopotentialDepthTendency` accumulates over the
grid once the tendency is computed. -/
def massTendencySum (m : BarotropicModel α) : α :=
  forLoop (m.mesh.js FULL) (m.mesh.je FULL)
    (fun j tmp => forLoop (m.mesh.is FULL) (m.mesh.ie FULL)
      (fun i tmp => tmp + m.dgd i j * m.cosLat j) tmp) 0

/-- The method `calcGeopotentialDepthTendency` as compiled without `NDEBUG`: the result is `none`
when `assert(fabs(tmp) < 1.0e-10)` fails. -/
def calcGeopotentialDepthTendencyDebug (timeIdx : TimeLevelIndex) (m : BarotropicModel α) :
    Option (BarotropicModel α) :=
  let m : BarotropicModel α := calcGeopotentialDepthTendency timeIdx m
  if |massTendencySum m| < 1.0e-10 then some m else none

/-- The method `calcZonalWindAdvection`. -/
def calcZonalWindAdvection (timeIdx : TimeLevelIndex) (m : BarotropicModel α) :
    BarotropicModel α :=
  let m : BarotropicModel α := forLoop (m.mesh.js FULL + 1) (m.mesh.je FULL - 1)
    (fun j m => forLoop (m.mesh.is FULL - 1) (m.mesh.ie FULL + 1)
      (fun i m =>
        let m : BarotropicModel α :=
          { m with fu := setCell m.fu i j (m.ut timeIdx i j * m.u timeIdx i j) }
        { m with fv := setCell m.fv i j (m.ut timeIdx i j * m.v timeIdx i j * m.cosLat j) })
      m) m
  -- normal grids
  forLoop (m.mesh.js FULL + 1) (m.mesh.je FULL - 1)
    (fun j m => forLoop (m.mesh.is FULL) (m.mesh.ie FULL)
      (fun i m =>
        let dx1 := m.fu (i + 1) j - m.fu (i - 1) j
        let dy1 := m.fv i (j + 1) - m.fv i (j - 1)
        let dx2 := m.u timeIdx i j * (m.ut timeIdx (i + 1) j - m.ut timeIdx (i - 1) j)
        let dy2 := m.v timeIdx i j * (m.ut timeIdx i (j + 1) - m.ut timeIdx i (j - 1)) *
          m.cosLat j
        { m with
          dut := setCell m.dut i j
            (0.5 * ((dx1 + dx2) * m.factorLon j + (dy1 + dy2) * m.factorLat j)) }) m) m

/-- The method `calcMeridionalWindAdvection`. -/
def calcMeridionalWindAdvection (timeIdx : TimeLevelIndex) (m : BarotropicModel α) :
    BarotropicModel α :=
  let m : BarotropicModel α := forLoop (m.mesh.js FULL + 1) (m.mesh.je FULL - 1)
    (fun j m => forLoop (m.mesh.is FULL - 1) (m.mesh.ie FULL + 1)
      (fun i m =>
        let m : BarotropicModel α :=
          { m with fu := setCell m.fu i j (m.vt timeIdx i j * m.u timeIdx i j) }
        { m with fv := setCell m.fv i j (m.vt timeIdx i j * m.v timeIdx i j * m.cosLat j) })
      m) m
  -- normal grids
  forLoop (m.mesh.js FULL + 1) (m.mesh.je FULL - 1)
    (fun j m => forLoop (m.mesh.is FULL) (m.mesh.ie FULL)
      (fun i m =>
        let dx1 := m.fu (i + 1) j - m.fu (i - 1) j
        let dy1 := m.fv i (j + 1) - m.fv i (j - 1)
        let dx2 := m.u timeIdx i j * (m.vt timeIdx (i + 1) j - m.vt timeIdx (i - 1) j)
        let dy2 := m.v timeIdx i j * (m.vt timeIdx i (j + 1) - m.vt timeIdx i (j - 1)) *
          m.cosLat j
        { m with
          dvt := setCell m.dvt i j
            (0.5 * ((dx1 + dx2) * m.factorLon j + (dy1 + dy2) * m.factorLat j)) }) m) m

/-- The method `calcZonalWindCoriolis`. -/
def calcZonalWindCoriolis (timeIdx : TimeLevelIndex) (m : BarotropicModel α) :
    BarotropicModel α :=
  forLoop (m.mesh.js FULL + 1) (m.mesh.je FULL - 1)
    (fun j m => forLoop (m.mesh.is FULL) (m.mesh.ie FULL)
      (fun i m =>
        let f := m.factorCor j + m.u timeIdx i j * m.factorCur j
        { m with dut := setCell m.dut i j (m.dut i j - f * m.vt timeIdx i j) }) m) m

/-- The method `calcMeridionalWindCoriolis`. -/
def calcMeridionalWindCoriolis (timeIdx : TimeLevelIndex) (m : BarotropicModel α) :
    BarotropicModel α :=
  forLoop (m.mesh.js FULL + 1) (m.mesh.je FULL - 1)
    (fun j m => forLoop (m.mesh.is FULL) (m.mesh.ie FULL)
      (fun i m =>
        let f := m.factorCor j + m.u timeIdx i j * m.factorCur j
        { m with dvt := setCell m.dvt i j (m.dvt i j + f * m.ut timeIdx i j) }) m) m

/-- The method `calcZonalWindPressureGradient`. -/
def calcZonalWindPressureGradient (timeIdx : TimeLevelIndex) (m : BarotropicModel α) :
    BarotropicModel α :=
  forLoop (m.mesh.js FULL + 1) (m.mesh.je FULL - 1)
    (fun j m => forLoop (m.mesh.is FULL) (m.mesh.ie FULL)
      (fun i m =>
        { m with
          dut := setCell m.dut i j
            (m.dut i j + (m.gd timeIdx (i + 1) j - m.gd timeIdx (i - 1) j +
                m.ghs (i + 1) j - m.ghs (i - 1) j) *
              m.factorLon j * m.gdt timeIdx i j) }) m) m

/-- The method `calcMeridionalWindPressureGradient`. -/
def calcMeridionalWindPressureGradient (timeIdx : TimeLevelIndex) (m : BarotropicModel α) :
    BarotropicModel α :=
  forLoop (m.mesh.js FULL + 1) (m.mesh.je FULL - 1)
    (fun j m => forLoop (m.mesh.is FULL) (m.mesh.ie FULL)
      (fun i m =>
        { m with
          dvt := setCell m.dvt i j
            (m.dvt i j + (m.gd timeIdx i (j + 1) - m.gd timeIdx i (j - 1) +
                m.ghs i (j + 1) - m.ghs i (j - 1)) *
              m.factorLat j * m.cosLat j * m.gdt timeIdx i j) }) m) m

/-- The method `calcZonalWindTendency`. -/
def calcZonalWindTendency (timeIdx : TimeLevelIndex) (m : BarotropicModel α) :
    BarotropicModel α :=
  let m : BarotropicModel α := calcZonalWindAdvection timeIdx m
  let m : BarotropicModel α := calcZonalWindCoriolis timeIdx m
  calcZonalWindPressureGradient timeIdx m

/-- The method `calcMeridionalWindTendency`. -/
def calcMeridionalWindTendency (timeIdx : TimeLevelIndex) (m : BarotropicModel α) :
    BarotropicModel α :=
  let m : BarotropicModel α := calcMeridionalWindAdvection timeIdx m
  let m : BarotropicModel α := calcMeridionalWindCoriolis timeIdx m
  calcMeridionalWindPressureGradient timeIdx m

/-! ## Boundary conditions -/

/-- Modelled from the spec: the longitude part of the boundary-condition pass, a periodic wrap
that fills the halo columns `is-1` and `ie+1` of one level. -/
def periodicWrap (mesh : Mesh α) (f : Field α) : Field α :=
  fun i j =>
    if i = mesh.is FULL - 1 then f (mesh.ie FULL) j
    else if i = mesh.ie FULL + 1 then f (mesh.is FULL) j
    else f i j

/-- Modelled from the spec: the latitude part of the boundary-condition pass, a reflection at
the poles that fills the halo rows `js-1` and `je+1` of one level. -/
def poleReflect (mesh : Mesh α) (f : Field α) : Field α :=
  fun i j =>
    if j = mesh.js FULL - 1 then f i (mesh.js FULL + 1)
    else if j = mesh.je FULL + 1 then f i (mesh.je FULL - 1)
    else f i j

/-- Modelled from the spec: `applyBndCond(timeIdx, UPDATE_HALF_LEVEL)` of the geomtk field class,
not part of the sources. The pass fills the halo of level `timeIdx`; with `updateHalfLevel` it
then sets the half level to the arithmetic mean of the old level and level `timeIdx`. -/
def applyBndCond (mesh : Mesh α) (f : TimeField α) (timeIdx : TimeLevelIndex)
    (updateHalfLevel : Bool) : TimeField α :=
  let f : TimeField α := fun t =>
    if t = timeIdx then poleReflect mesh (periodicWrap mesh (f t)) else f t
  if updateHalfLevel then
    fun t =>
      if t = timeIdx.plusHalf then fun i j => (f timeIdx.plusOne i j + f timeIdx i j) * 0.5
      else f t
  else f

/-- The call `gd.applyBndCond(timeIdx, UPDATE_HALF_LEVEL)`. -/
def applyBndCondGd (timeIdx : TimeLevelIndex) (m : BarotropicModel α) : BarotropicModel α :=
  { m with gd := applyBndCond m.mesh m.gd timeIdx true }

/-- The call `gdt.applyBndCond(timeIdx, UPDATE_HALF_LEVEL)`. -/
def applyBndCondGdt (timeIdx : TimeLevelIndex) (m : BarotropicModel α) : BarotropicModel α :=
  { m with gdt := applyBndCond m.mesh m.gdt timeIdx true }

/-- The call `ut.applyBndCond(timeIdx, UPDATE_HALF_LEVEL)`. -/
def applyBndCondUt (timeIdx : TimeLevelIndex) (m : BarotropicModel α) : BarotropicModel α :=
  { m with ut := applyBndCond m.mesh m.ut timeIdx true }

/-- The call `vt.applyBndCond(timeIdx, UPDATE_HALF_LEVEL)`. -/
def applyBndCondVt (timeIdx : TimeLevelIndex) (m : BarotropicModel α) : BarotropicModel α :=
  { m with vt := applyBndCond m.mesh m.vt timeIdx true }

/-- The call `u.applyBndCond(timeIdx, UPDATE_HALF_LEVEL)`. -/
def applyBndCondU (timeIdx : TimeLevelIndex) (m : BarotropicModel α) : BarotropicModel α :=
  { m with u := applyBndCond m.mesh m.u timeIdx true }

/-- The call `v.applyBndCond(timeIdx, UPDATE_HALF_LEVEL)`. -/
def applyBndCondV (timeIdx : TimeLevelIndex) (m : BarotropicModel α) : BarotropicModel α :=
  { m with v := applyBndCond m.mesh m.v timeIdx true }

/-! ## `integrate` -/

/-- The block `if (firstRun) { ... }` of `integrate`: the loops that copy the old level to the
half level and transform it, and the reset of the flag. -/
def copyStates (sqrt : α → α) (oldTimeIdx halfTimeIdx : TimeLevelIndex)
    (m : BarotropicModel α) : BarotropicModel α :=
  let m : BarotropicModel α := forLoop (m.mesh.js FULL) (m.mesh.je FULL)
    (fun j m => forLoop (m.mesh.is FULL - 1) (m.mesh.ie FULL + 1)
      (fun i m =>
        let m : BarotropicModel α :=
          { m with u := setCellAt m.u halfTimeIdx i j (m.u oldTimeIdx i j) }
        let m : BarotropicModel α :=
          { m with v := setCellAt m.v halfTimeIdx i j (m.v oldTimeIdx i j) }
        let m : BarotropicModel α :=
          { m with gd := setCellAt m.gd halfTimeIdx i j (m.gd oldTimeIdx i j) }
        let m : BarotropicModel α :=
          { m with gdt := setCellAt m.gdt oldTimeIdx i j (sqrt (m.gd oldTimeIdx i j)) }
        let m : BarotropicModel α :=
          { m with gdt := setCellAt m.gdt halfTimeIdx i j (m.gdt oldTimeIdx i j) }
        let m : BarotropicModel α :=
          { m with
            ut := setCellAt m.ut oldTimeIdx i j (m.u oldTimeIdx i j * m.gdt oldTimeIdx i j) }
        let m : BarotropicModel α :=
          { m with ut := setCellAt m.ut halfTimeIdx i j (m.ut oldTimeIdx i j) }
        let m : BarotropicModel α :=
          { m with
            vt := setCellAt m.vt oldTimeIdx i j (m.v oldTimeIdx i j * m.gdt oldTimeIdx i j) }
        { m with vt := setCellAt m.vt halfTimeIdx i j (m.vt oldTimeIdx i j) }) m) m
  { m with firstRun := false }

/-- The loop of `integrate` that advances `gd` to the new level. -/
def updateGeopotentialDepth (oldTimeIdx newTimeIdx : TimeLevelIndex) (dt : α)
    (m : BarotropicModel α) : BarotropicModel α :=
  forLoop (m.mesh.js FULL) (m.mesh.je FULL)
    (fun j m => forLoop (m.mesh.is FULL) (m.mesh.ie FULL)
      (fun i m =>
        { m with gd := setCellAt m.gd newTimeIdx i j (m.gd oldTimeIdx i j - dt * m.dgd i j) })
      m) m

/-- The loop of `integrate` that transforms the new `gd`. -/
def transformGeopotentialDepth (sqrt : α → α) (newTimeIdx : TimeLevelIndex)
    (m : BarotropicModel α) : BarotropicModel α :=
  forLoop (m.mesh.js FULL) (m.mesh.je FULL)
    (fun j m => forLoop (m.mesh.is FULL) (m.mesh.ie FULL)
      (fun i m =>
        { m with gdt := setCellAt m.gdt newTimeIdx i j (sqrt (m.gd newTimeIdx i j)) }) m) m

/-- The loop of `integrate` that advances `ut` and `vt` to the new level. -/
def updateVelocity (oldTimeIdx newTimeIdx : TimeLevelIndex) (dt : α)
    (m : BarotropicModel α) : BarotropicModel α :=
  forLoop (m.mesh.js FULL) (m.mesh.je FULL)
    (fun j m => forLoop (m.mesh.is FULL) (m.mesh.ie FULL)
      (fun i m =>
        let m : BarotropicModel α :=
          { m with ut := setCellAt m.ut newTimeIdx i j (m.ut oldTimeIdx i j - dt * m.dut i j) }
        { m with vt := setCellAt m.vt newTimeIdx i j (m.vt oldTimeIdx i j - dt * m.dvt i j) })
      m) m

/-- The loop of `integrate` that transforms the new `ut` and `vt` back to `u` and `v`. The
quotients are those of the field: where `gdt` is zero they are zero, where the code has NaN. -/
def transformBackVelocity (newTimeIdx : TimeLevelIndex) (m : BarotropicModel α) :
    BarotropicModel α :=
  forLoop (m.mesh.js FULL) (m.mesh.je FULL)
    (fun j m => forLoop (m.mesh.is FULL) (m.mesh.ie FULL)
      (fun i m =>
        let m : BarotropicModel α :=
          { m with u := setCellAt m.u newTimeIdx i j (m.ut newTimeIdx i j / m.gdt newTimeIdx i j) }
        { m with v := setCellAt m.v newTimeIdx i j (m.vt newTimeIdx i j / m.gdt newTimeIdx i j) })
      m) m

/-- One pass of the body of the iteration loop of `integrate` as compiled with `NDEBUG`, up to
and including the boundary-condition passes of `u` and `v`. The pass of the build with the
assertion is `iterationBodyDebug`. -/
def iterationBody (sqrt : α → α) (oldTimeIdx halfTimeIdx newTimeIdx : TimeLevelIndex) (dt : α)
    (m : BarotropicModel α) : BarotropicModel α :=
  -- update geopotential height
  let m : BarotropicModel α := calcGeopotentialDepthTendency halfTimeIdx m
  let m : BarotropicModel α := updateGeopotentialDepth oldTimeIdx newTimeIdx dt m
  let m : BarotropicModel α := applyBndCondGd newTimeIdx m
  -- transform geopotential height
  let m : BarotropicModel α := transformGeopotentialDepth sqrt newTimeIdx m
  let m : BarotropicModel α := applyBndCondGdt newTimeIdx m
  -- update velocity
  let m : BarotropicModel α := calcZonalWindTendency halfTimeIdx m
  let m : BarotropicModel α := calcMeridionalWindTendency halfTimeIdx m
  let m : BarotropicModel α := updateVelocity oldTimeIdx newTimeIdx dt m
  let m : BarotropicModel α := applyBndCondUt newTimeIdx m
  let m : BarotropicModel α := applyBndCondVt newTimeIdx m
  -- transform back velocity on half time level
  let m : BarotropicModel α := transformBackVelocity newTimeIdx m
  let m : BarotropicModel α := applyBndCondU newTimeIdx m
  applyBndCondV newTimeIdx m

/-- The test `fabs(e1-e0)*2/(e1+e0) < 5.0e-15` that ends the iterations early. The quotient is
that of the field: where `e1 + e0` is zero the test holds here, while the code has NaN or an
infinity there and its test fails. -/
def energyCriterion (e0 e1 : α) : Bool :=
  decide (|e1 - e0| * 2 / (e1 + e0) < 5.0e-15)

/-- The loop `for (iter = 1; iter <= 8; ++iter) { ...; if (...) break; }` of `integrate`, as
compiled with `NDEBUG`, with `remaining` passes left and the loop variable at `iter`; the result
is the final value of `iter` and the final state. After a `break` in pass `k` the variable is
`k`. -/
def runIterations (sqrt : α → α) (oldTimeIdx halfTimeIdx newTimeIdx : TimeLevelIndex)
    (dt e0 : α) : Nat → Nat → BarotropicModel α → Nat × BarotropicModel α
  | 0, iter, m => (iter, m)
  | remaining + 1, iter, m =>
    let m : BarotropicModel α := iterationBody sqrt oldTimeIdx halfTimeIdx newTimeIdx dt m
    -- get new total energy and mass
    let e1 := calcTotalEnergy newTimeIdx m
    if energyCriterion e0 e1 then (iter, m)
    else runIterations sqrt oldTimeIdx halfTimeIdx newTimeIdx dt e0 remaining (iter + 1) m

/-- The state in which `integrate` enters its iteration loop: the input state, after the copy of
the old level when this is the first run. -/
def startState (sqrt : α → α) (oldTimeIdx : TimeLevelIndex) (m : BarotropicModel α) :
    BarotropicModel α :=
  if m.firstRun then copyStates sqrt oldTimeIdx oldTimeIdx.plusHalf m else m

/-- The method `integrate` as compiled with `NDEBUG` (output to `cout` left out): the final
value of the loop variable `iter` and the final state. The build with the assertion is
`integrateDebug`. -/
def integrate (sqrt : α → α) (oldTimeIdx : TimeLevelIndex) (dt : α) (m : BarotropicModel α) :
    Nat × BarotropicModel α :=
  -- set time level indices
  let halfTimeIdx := oldTimeIdx.plusHalf
  let newTimeIdx := oldTimeIdx.plusOne
  -- copy states
  let m : BarotropicModel α := startState sqrt oldTimeIdx m
  -- get old total energy and mass
  let e0 := calcTotalEnergy oldTimeIdx m
  -- run iterations
  runIterations sqrt oldTimeIdx halfTimeIdx newTimeIdx dt e0 8 1 m

/-! ## Conditions on the mesh and the state -/

/-- The cell-centre index ranges describe a grid with at least one longitude and with two
distinct pole rows, and the mesh reports `ie - is + 1` as its number of longitudes. -/
def Mesh.WellFormed (mesh : Mesh α) : Prop :=
  mesh.is FULL ≤ mesh.ie FULL ∧ mesh.js FULL < mesh.je FULL ∧
    mesh.getNumGrid 0 FULL = mesh.ie FULL - mesh.is FULL + 1

/-- The cell `(i, j)` lies on a row `js..je`, at a longitude `is..ie`. -/
def GridCell (mesh : Mesh α) (i j : Int) : Prop :=
  (mesh.js FULL ≤ j ∧ j ≤ mesh.je FULL) ∧ (mesh.is FULL ≤ i ∧ i ≤ mesh.ie FULL)

instance (mesh : Mesh α) (i j : Int) : Decidable (GridCell mesh i j) := by
  unfold GridCell
  infer_instance

/-- The cell `(i, j)` lies on a row `js..je`, at a longitude `is-1..ie+1`. -/
def HaloCell (mesh : Mesh α) (i j : Int) : Prop :=
  (mesh.js FULL ≤ j ∧ j ≤ mesh.je FULL) ∧ (mesh.is FULL - 1 ≤ i ∧ i ≤ mesh.ie FULL + 1)

instance (mesh : Mesh α) (i j : Int) : Decidable (HaloCell mesh i j) := by
  unfold HaloCell
  infer_instance

/-- The cell `(i, j)` lies between the poles, at a longitude `is..ie`. -/
def InnerCell (mesh : Mesh α) (i j : Int) : Prop :=
  (mesh.js FULL + 1 ≤ j ∧ j ≤ mesh.je FULL - 1) ∧ (mesh.is FULL ≤ i ∧ i ≤ mesh.ie FULL)

instance (mesh : Mesh α) (i j : Int) : Decidable (InnerCell mesh i j) := by
  unfold InnerCell
  infer_instance

/-- On every row of the grid the two halo columns of `f` hold the periodic images: column
`is - 1` equals column `ie` and column `ie + 1` equals column `is`. -/
def PeriodicHalo (mesh : Mesh α) (f : Field α) : Prop :=
  ∀ j, mesh.js FULL ≤ j → j ≤ mesh.je FULL →
    f (mesh.is FULL - 1) j = f (mesh.ie FULL) j ∧ f (mesh.ie FULL + 1) j = f (mesh.is FULL) j

/-- The field `f` vanishes at every longitude `is..ie` of both pole rows. -/
def ZeroAtPoles (mesh : Mesh α) (f : Field α) : Prop :=
  ∀ i, mesh.is FULL ≤ i → i ≤ mesh.ie FULL → f i (mesh.js FULL) = 0 ∧ f i (mesh.je FULL) = 0

/-- The field `f` has one value across the longitudes `is..ie` of the south pole row and one
across those of the north pole row. -/
def UniformAtPoles (mesh : Mesh α) (f : Field α) : Prop :=
  ∀ i i', mesh.is FULL ≤ i → i ≤ mesh.ie FULL → mesh.is FULL ≤ i' → i' ≤ mesh.ie FULL →
    f i (mesh.js FULL) = f i' (mesh.js FULL) ∧ f i (mesh.je FULL) = f i' (mesh.je FULL)

/-- No row of the grid has a zero `cosLat`. -/
def CosLatNonzero (m : BarotropicModel α) : Prop :=
  ∀ j, m.mesh.js FULL ≤ j → j ≤ m.mesh.je FULL → m.cosLat j ≠ 0

/-- On every row of the grid `factorLon` and `factorLat` are the values that `init` computes
from `dlon`, `dlat`, the radius and `cosLat`. -/
def InitFactors (m : BarotropicModel α) : Prop :=
  ∀ j, m.mesh.js FULL ≤ j → j ≤ m.mesh.je FULL →
    m.factorLon j = 1 / (2 * m.dlon * m.radius * m.cosLat j) ∧
    m.factorLat j = 1 / (2 * m.dlat * m.radius * m.cosLat j)

/-! ## The fields that the methods leave -/

/-- The sum of `f k` over the passes `k = lo, ..., hi` of a loop. -/
def loopSum (lo hi : Int) (f : Int → α) : α :=
  ∑ x in Finset.range (hi + 1 - lo).toNat, f (lo + (x : Int))

/-- The vector `cosLat` that `setCosLat` leaves. -/
def cosLatSet (m : BarotropicModel α) : Int → α :=
  fun j =>
    if j = m.mesh.je FULL then m.mesh.getCosLat HALF (m.mesh.je HALF) * 0.25
    else if j = m.mesh.js FULL then m.mesh.getCosLat HALF (m.mesh.js HALF) * 0.25
    else if m.mesh.js FULL + 1 ≤ j ∧ j ≤ m.mesh.je FULL - 1 then m.mesh.getCosLat FULL j
    else m.cosLat j

/-- The vector `tanLat` that `setTanLat` leaves. -/
def tanLatSet (m : BarotropicModel α) : Int → α :=
  fun j =>
    if j = m.mesh.je FULL then 1 / m.cosLat (m.mesh.je FULL)
    else if j = m.mesh.js FULL then -1 / m.cosLat (m.mesh.js FULL)
    else if m.mesh.js FULL + 1 ≤ j ∧ j ≤ m.mesh.je FULL - 1 then m.mesh.getTanLat FULL j
    else m.tanLat j

/-- A field after the loop of `init` that zeroes it on the two pole rows. -/
def zeroPoleRows (lo hi js je : Int) (f : Field α) : Field α :=
  fun i j => if lo ≤ i ∧ i ≤ hi then (if j = je then 0 else if j = js then 0 else f i j) else f i j

/-- The mass flux `gdu` once `calcGeopotentialDepthTendency` has run. -/
def massFluxU (timeIdx : TimeLevelIndex) (m : BarotropicModel α) : Field α :=
  fun i j =>
    if (m.mesh.js FULL + 1 ≤ j ∧ j ≤ m.mesh.je FULL - 1) ∧
        (m.mesh.is FULL - 1 ≤ i ∧ i ≤ m.mesh.ie FULL + 1)
    then m.ut timeIdx i j * m.gdt timeIdx i j else m.gdu i j

/-- The mass flux `gdv` once `calcGeopotentialDepthTendency` has run. -/
def massFluxV (timeIdx : TimeLevelIndex) (m : BarotropicModel α) : Field α :=
  fun i j =>
    if (m.mesh.js FULL + 1 ≤ j ∧ j ≤ m.mesh.je FULL - 1) ∧
        (m.mesh.is FULL - 1 ≤ i ∧ i ≤ m.mesh.ie FULL + 1)
    then m.vt timeIdx i j * m.gdt timeIdx i j * m.cosLat j else m.gdv i j

/-- The value `dgds` that `calcGeopotentialDepthTendency` gives to the south pole row. -/
def southPoleTendency (timeIdx : TimeLevelIndex) (m : BarotropicModel α) : α :=
  (0 + loopSum (m.mesh.is FULL) (m.mesh.ie FULL)
      (fun i => massFluxV timeIdx m i (m.mesh.js FULL + 1))) *
    (m.factorLat (m.mesh.js FULL) / (m.mesh.getNumGrid 0 FULL : α))

/-- The value `dgdn` that `calcGeopotentialDepthTendency` gives to the north pole row. -/
def northPoleTendency (timeIdx : TimeLevelIndex) (m : BarotropicModel α) : α :=
  (0 - loopSum (m.mesh.is FULL) (m.mesh.ie FULL)
      (fun i => massFluxV timeIdx m i (m.mesh.je FULL - 1))) *
    (m.factorLat (m.mesh.je FULL) / (m.mesh.getNumGrid 0 FULL : α))

/-- The tendency `dgd` once `calcGeopotentialDepthTendency` has run. -/
def depthTendency (timeIdx : TimeLevelIndex) (m : BarotropicModel α) : Field α :=
  fun i j =>
    if m.mesh.is FULL ≤ i ∧ i ≤ m.mesh.ie FULL then
      if j = m.mesh.je FULL then northPoleTendency timeIdx m
      else if j = m.mesh.js FULL then southPoleTendency timeIdx m
      else if m.mesh.js FULL + 1 ≤ j ∧ j ≤ m.mesh.je FULL - 1 then
        (massFluxU timeIdx m (i + 1) j - massFluxU timeIdx m (i - 1) j) * m.factorLon j +
          (massFluxV timeIdx m i (j + 1) - massFluxV timeIdx m i (j - 1)) * m.factorLat j
      else m.dgd i j
    else m.dgd i j

/-- The momentum flux `fu` once an advection method has run for the transformed wind `w`. -/
def momentumFluxU (w : TimeField α) (timeIdx : TimeLevelIndex) (m : BarotropicModel α) :
    Field α :=
  fun i j =>
    if (m.mesh.js FULL + 1 ≤ j ∧ j ≤ m.mesh.je FULL - 1) ∧
        (m.mesh.is FULL - 1 ≤ i ∧ i ≤ m.mesh.ie FULL + 1)
    then w timeIdx i j * m.u timeIdx i j else m.fu i j

/-- The momentum flux `fv` once an advection method has run for the transformed wind `w`. -/
def momentumFluxV (w : TimeField α) (timeIdx : TimeLevelIndex) (m : BarotropicModel α) :
    Field α :=
  fun i j =>
    if (m.mesh.js FULL + 1 ≤ j ∧ j ≤ m.mesh.je FULL - 1) ∧
        (m.mesh.is FULL - 1 ≤ i ∧ i ≤ m.mesh.ie FULL + 1)
    then w timeIdx i j * m.v timeIdx i j * m.cosLat j else m.fv i j

/-- The value that an advection method assigns to the tendency of the transformed wind `w` at
a cell between the poles. -/
def advectionValue (w : TimeField α) (timeIdx : TimeLevelIndex) (m : BarotropicModel α)
    (i j : Int) : α :=
  0.5 * ((momentumFluxU w timeIdx m (i + 1) j - momentumFluxU w timeIdx m (i - 1) j +
        m.u timeIdx i j * (w timeIdx (i + 1) j - w timeIdx (i - 1) j)) * m.factorLon j +
    (momentumFluxV w timeIdx m i (j + 1) - momentumFluxV w timeIdx m i (j - 1) +
        m.v timeIdx i j * (w timeIdx i (j + 1) - w timeIdx i (j - 1)) * m.cosLat j) *
      m.factorLat j)

/-- The value that `calcZonalWindTendency` assigns to `dut` at a cell between the poles. -/
def zonalTendencyValue (timeIdx : TimeLevelIndex) (m : BarotropicModel α) (i j : Int) : α :=
  advectionValue m.ut timeIdx m i j -
    (m.factorCor j + m.u timeIdx i j * m.factorCur j) * m.vt timeIdx i j +
    (m.gd timeIdx (i + 1) j - m.gd timeIdx (i - 1) j + m.ghs (i + 1) j - m.ghs (i - 1) j) *
      m.factorLon j * m.gdt timeIdx i j

/-- The value that `calcMeridionalWindTendency` assigns to `dvt` at a cell between the
poles. -/
def meridionalTendencyValue (timeIdx : TimeLevelIndex) (m : BarotropicModel α) (i j : Int) : α :=
  advectionValue m.vt timeIdx m i j +
    (m.factorCor j + m.u timeIdx i j * m.factorCur j) * m.ut timeIdx i j +
    (m.gd timeIdx i (j + 1) - m.gd timeIdx i (j - 1) + m.ghs i (j + 1) - m.ghs i (j - 1)) *
      m.factorLat j * m.cosLat j * m.gdt timeIdx i j

/-- One level of a field once the boundary-condition pass has filled its halo. -/
def fillHalo (mesh : Mesh α) (f : Field α) : Field α :=
  poleReflect mesh (periodicWrap mesh f)

/-- The field `gd` once a pass of the iteration loop has updated it. -/
def newGd (oldTimeIdx halfTimeIdx newTimeIdx : TimeLevelIndex) (dt : α)
    (m : BarotropicModel α) : TimeField α :=
  applyBndCond m.mesh
    (fun t i j =>
      if t = newTimeIdx ∧ GridCell m.mesh i j then
        m.gd oldTimeIdx i j - dt * depthTendency halfTimeIdx m i j
      else m.gd t i j) newTimeIdx true

/-- The field `gdt` once a pass of the iteration loop has updated it. -/
def newGdt (sqrt : α → α) (oldTimeIdx halfTimeIdx newTimeIdx : TimeLevelIndex) (dt : α)
    (m : BarotropicModel α) : TimeField α :=
  applyBndCond m.mesh
    (fun t i j =>
      if t = newTimeIdx ∧ GridCell m.mesh i j then
        sqrt (newGd oldTimeIdx halfTimeIdx newTimeIdx dt m newTimeIdx i j)
      else m.gdt t i j) newTimeIdx true

/-- The state of a pass of the iteration loop once `gd` and `gdt` are updated. -/
def depthStage (sqrt : α → α) (oldTimeIdx halfTimeIdx newTimeIdx : TimeLevelIndex) (dt : α)
    (m : BarotropicModel α) : BarotropicModel α :=
  { m with
    gdu := massFluxU halfTimeIdx m
    gdv := massFluxV halfTimeIdx m
    dgd := depthTendency halfTimeIdx m
    gd := newGd oldTimeIdx halfTimeIdx newTimeIdx dt m
    gdt := newGdt sqrt oldTimeIdx halfTimeIdx newTimeIdx dt m }

/-- The tendency `dut` that a pass of the iteration loop computes. -/
def newDut (sqrt : α → α) (oldTimeIdx halfTimeIdx newTimeIdx : TimeLevelIndex) (dt : α)
    (m : BarotropicModel α) : Field α :=
  fun i j =>
    if InnerCell m.mesh i j then
      zonalTendencyValue halfTimeIdx (depthStage sqrt oldTimeIdx halfTimeIdx newTimeIdx dt m) i j
    else m.dut i j

/-- The state of a pass of the iteration loop once `calcZonalWindTendency` has run. -/
def zonalStage (sqrt : α → α) (oldTimeIdx halfTimeIdx newTimeIdx : TimeLevelIndex) (dt : α)
    (m : BarotropicModel α) : BarotropicModel α :=
  { depthStage sqrt oldTimeIdx halfTimeIdx newTimeIdx dt m with
    fu := momentumFluxU m.ut halfTimeIdx
      (depthStage sqrt oldTimeIdx halfTimeIdx newTimeIdx dt m)
    fv := momentumFluxV m.ut halfTimeIdx
      (depthStage sqrt oldTimeIdx halfTimeIdx newTimeIdx dt m)
    dut := newDut sqrt oldTimeIdx halfTimeIdx newTimeIdx dt m }

/-- The tendency `dvt` that a pass of the iteration loop computes. -/
def newDvt (sqrt : α → α) (oldTimeIdx halfTimeIdx newTimeIdx : TimeLevelIndex) (dt : α)
    (m : BarotropicModel α) : Field α :=
  fun i j =>
    if InnerCell m.mesh i j then
      meridionalTendencyValue halfTimeIdx
        (zonalStage sqrt oldTimeIdx halfTimeIdx newTimeIdx dt m) i j
    else m.dvt i j

/-- The field `ut` once a pass of the iteration loop has updated it. -/
def newUt (sqrt : α → α) (oldTimeIdx halfTimeIdx newTimeIdx : TimeLevelIndex) (dt : α)
    (m : BarotropicModel α) : TimeField α :=
  applyBndCond m.mesh
    (fun t i j =>
      if t = newTimeIdx ∧ GridCell m.mesh i j then
        m.ut oldTimeIdx i j - dt * newDut sqrt oldTimeIdx halfTimeIdx newTimeIdx dt m i j
      else m.ut t i j) newTimeIdx true

/-- The field `vt` once a pass of the iteration loop has updated it. -/
def newVt (sqrt : α → α) (oldTimeIdx halfTimeIdx newTimeIdx : TimeLevelIndex) (dt : α)
    (m : BarotropicModel α) : TimeField α :=
  applyBndCond m.mesh
    (fun t i j =>
      if t = newTimeIdx ∧ GridCell m.mesh i j then
        m.vt oldTimeIdx i j - dt * newDvt sqrt oldTimeIdx halfTimeIdx newTimeIdx dt m i j
      else m.vt t i j) newTimeIdx true

/-- The field `u` once a pass of the iteration loop has updated it. -/
def newU (sqrt : α → α) (oldTimeIdx halfTimeIdx newTimeIdx : TimeLevelIndex) (dt : α)
    (m : BarotropicModel α) : TimeField α :=
  applyBndCond m.mesh
    (fun t i j =>
      if t = newTimeIdx ∧ GridCell m.mesh i j then
        newUt sqrt oldTimeIdx halfTimeIdx newTimeIdx dt m newTimeIdx i j /
          newGdt sqrt oldTimeIdx halfTimeIdx newTimeIdx dt m newTimeIdx i j
      else m.u t i j) newTimeIdx true

/-- The field `v` once a pass of the iteration loop has updated it. -/
def newV (sqrt : α → α) (oldTimeIdx halfTimeIdx newTimeIdx : TimeLevelIndex) (dt : α)
    (m : BarotropicModel α) : TimeField α :=
  applyBndCond m.mesh
    (fun t i j =>
      if t = newTimeIdx ∧ GridCell m.mesh i j then
        newVt sqrt oldTimeIdx halfTimeIdx newTimeIdx dt m newTimeIdx i j /
          newGdt sqrt oldTimeIdx halfTimeIdx newTimeIdx dt m newTimeIdx i j
      else m.v t i j) newTimeIdx true

/-! ## The passes of the iteration loop -/

/-- The state of `integrate` once the body of its iteration loop has run `n` times. -/
def afterPasses (sqrt : α → α) (oldTimeIdx : TimeLevelIndex) (dt : α) (n : Nat)
    (m : BarotropicModel α) : BarotropicModel α :=
  (iterationBody sqrt oldTimeIdx oldTimeIdx.plusHalf oldTimeIdx.plusOne dt)^[n]
    (startState sqrt oldTimeIdx m)

/-- The outcome of the test that ends pass `n` of the iteration loop of `integrate`: `e0` is the
energy of the old level before the loop, `e1` the energy of the new level of pass `n`. -/
def criterionAt (sqrt : α → α) (oldTimeIdx : TimeLevelIndex) (dt : α) (n : Nat)
    (m : BarotropicModel α) : Bool :=
  energyCriterion (calcTotalEnergy oldTimeIdx (startState sqrt oldTimeIdx m))
    (calcTotalEnergy oldTimeIdx.plusOne (afterPasses sqrt oldTimeIdx dt n m))

/-- The number of times `integrate` has run the body of its loop, read off the final value of
the loop variable: `iter` after a `break` in pass `iter`, 8 when the loop ran to its end. -/
def passesRun (iter : Nat) : Nat :=
  min iter 8

/-- What the passes of the iteration loop of `integrate` keep true of the state `s`, for the
mass balance: `s` has the mesh, the coefficients and the old-level `gd` of the input state `m`,
no mass flux through the pole rows, and periodic halos of `ut` and `gdt` at the old and the
half level. -/
structure MassInvariant (k : Bool) (m s : BarotropicModel α) : Prop where
  mesh : s.mesh = m.mesh
  cosLat : s.cosLat = m.cosLat
  factorLon : s.factorLon = m.factorLon
  factorLat : s.factorLat = m.factorLat
  dlon : s.dlon = m.dlon
  dlat : s.dlat = m.dlat
  radius : s.radius = m.radius
  gdv : ZeroAtPoles m.mesh s.gdv
  utOld : PeriodicHalo m.mesh (s.ut (.full k))
  gdtOld : PeriodicHalo m.mesh (s.gdt (.full k))
  utHalf : PeriodicHalo m.mesh (s.ut .half)
  gdtHalf : PeriodicHalo m.mesh (s.gdt .half)
  gdOld : s.gd (.full k) = m.gd (.full k)

/-- What the passes of the iteration loop of `integrate` keep true of the state `s`, for the
winds at the poles: `s` has the mesh of the input state `m`, and its old-level `ut` and `vt`
and its tendencies `dut` and `dvt` vanish on the pole rows. -/
structure PoleWindInvariant (k : Bool) (m s : BarotropicModel α) : Prop where
  mesh : s.mesh = m.mesh
  utOld : ZeroAtPoles m.mesh (s.ut (.full k))
  vtOld : ZeroAtPoles m.mesh (s.vt (.full k))
  dut : ZeroAtPoles m.mesh s.dut
  dvt : ZeroAtPoles m.mesh s.dvt

/-- What the passes of the iteration loop of `integrate` keep true of the state `s`, for the
symmetry at the poles: `s` has the mesh of the input state `m`, its old-level `gd`, `ut` and
`vt` are uniform along each pole row, and `dut` and `dvt` vanish there. -/
structure PoleUniformInvariant (k : Bool) (m s : BarotropicModel α) : Prop where
  mesh : s.mesh = m.mesh
  gdOld : UniformAtPoles m.mesh (s.gd (.full k))
  utOld : UniformAtPoles m.mesh (s.ut (.full k))
  vtOld : UniformAtPoles m.mesh (s.vt (.full k))
  dut : ZeroAtPoles m.mesh s.dut
  dvt : ZeroAtPoles m.mesh s.dvt

/-! ## A small grid -/

/-- A mesh of two longitudes (columns 1 and 2, halo columns 0 and 3) and three latitude rows:
the south pole (row 0), the equator (row 1) and the north pole (row 2), with two half-level
rows between them. The cosine of the half-level latitudes is given as 7/10. -/
def exampleMesh (α : Type) [LinearOrderedField α] : Mesh α where
  is := fun _ => 1
  ie := fun _ => 2
  js := fun _ => 0
  je := fun g => match g with
    | FULL => 2
    | HALF => 1
  getNumGrid := fun axis g => if axis = 0 then 2 else match g with
    | FULL => 3
    | HALF => 2
  getGridInterval := fun axis _ _ => if axis = 0 then 3 else 3 / 2
  getCosLat := fun g j => match g with
    | FULL => if j = 1 then 1 else 0
    | HALF => 7 / 10
  getSinLat := fun _ j => if j = 0 then -1 else if j = 1 then 0 else 1
  getTanLat := fun _ _ => 0

/-- The memory of a model object before `init`: the flag `firstRun` set by the constructor, and
buffers that hold zero everywhere. -/
def exampleRaw (α : Type) [LinearOrderedField α] : BarotropicModel α where
  mesh := exampleMesh α
  radius := 0
  dlon := 0
  dlat := 0
  u := fun _ _ _ => 0
  v := fun _ _ _ => 0
  gd := fun _ _ _ => 0
  ghs := fun _ _ => 0
  dut := fun _ _ => 0
  dvt := fun _ _ => 0
  dgd := fun _ _ => 0
  ut := fun _ _ _ => 0
  vt := fun _ _ _ => 0
  gdt := fun _ _ _ => 0
  gdu := fun _ _ => 0
  gdv := fun _ _ => 0
  fu := fun _ _ => 0
  fv := fun _ _ => 0
  cosLat := fun _ => 0
  tanLat := fun _ => 0
  factorCor := fun _ => 0
  factorCur := fun _ => 0
  factorLon := fun _ => 0
  factorLat := fun _ => 0
  firstRun := true

/-- The values `-b, b` that a field takes in the columns 1 and 2 of a row, with their periodic
images `b, -b` in the halo columns 0 and 3. -/
def alternating (b : α) (i : Int) : α :=
  if i = 1 ∨ i = 3 then -b else b

/-- The model on the small grid after `init`, with the state of rest `u = v = 0`, `gd = 1` as
its initial condition, over a surface geopotential `ghs` that is zero but on the north pole row,
where it is 3000 in column 1 and -3000 in column 2. -/
def exampleModel (α : Type) [LinearOrderedField α] : BarotropicModel α :=
  { init (exampleMesh α) 7.292e-5 (exampleRaw α) with
    gd := fun _ _ _ => 1
    ghs := fun i j => if j = 2 then alternating (-3000) i else 0 }

/-- The model on the small grid with a flow in its transformed fields: `ut` alternates between
1 and 2 from one column to the next, `vt` is 3 and `gdt` is 2. -/
def exampleFlow (α : Type) [LinearOrderedField α] : BarotropicModel α :=
  { exampleModel α with
    ut := fun _ i _ => if i % 2 = 0 then 1 else 2
    vt := fun _ _ _ => 3
    gdt := fun _ _ _ => 2 }

/-- What the passes of the iteration loop keep true of a state `s` when `integrate` runs on
`exampleModel`, the old level in slot `full false`: the coefficients and the buffers that the
passes read are those of `exampleModel`, the old level is at rest, and on the half level `gd`
and `gdt` are 1, the zonal wind is zero and the meridional wind on the equator row alternates
with amplitude `b`. -/
structure ExampleInvariant (b : α) (s : BarotropicModel α) : Prop where
  mesh : s.mesh = exampleMesh α
  cosLat : s.cosLat = (exampleModel α).cosLat
  factorCor : s.factorCor = (exampleModel α).factorCor
  factorCur : s.factorCur = (exampleModel α).factorCur
  factorLon : s.factorLon = (exampleModel α).factorLon
  factorLat : s.factorLat = (exampleModel α).factorLat
  ghs : s.ghs = fun i j => if j = 2 then alternating (-3000) i else 0
  fv : ∀ i, s.fv i 0 = 0 ∧ s.fv i 2 = 0
  dut : ∀ i, s.dut i 0 = 0 ∧ s.dut i 2 = 0
  dvt : ∀ i, s.dvt i 0 = 0 ∧ s.dvt i 2 = 0
  gdv : ∀ i, s.gdv i 0 = 0 ∧ s.gdv i 2 = 0
  old : ∀ i j, HaloCell (exampleMesh α) i j →
    s.u (.full false) i j = 0 ∧ s.v (.full false) i j = 0 ∧ s.gd (.full false) i j = 1 ∧
    s.gdt (.full false) i j = 1 ∧ s.ut (.full false) i j = 0 ∧ s.vt (.full false) i j = 0
  halfDepth : ∀ i j, HaloCell (exampleMesh α) i j → s.gd .half i j = 1 ∧ s.gdt .half i j = 1
  halfEquator : ∀ i, 0 ≤ i → i ≤ 3 →
    s.u .half i 1 = 0 ∧ s.v .half i 1 = alternating b i ∧
    s.ut .half i 1 = 0 ∧ s.vt .half i 1 = alternating b i
  halfPoles : ∀ i, 0 ≤ i → i ≤ 3 →
    s.ut .half i 0 = 0 ∧ s.ut .half i 2 = 0 ∧ s.vt .half i 0 = 0 ∧ s.vt .half i 2 = 0

/-- The energy `e0` that `integrate` computes once, before its iteration loop. -/
def energyBefore (sqrt : α → α) (oldTimeIdx : TimeLevelIndex) (m : BarotropicModel α) : α :=
  calcTotalEnergy oldTimeIdx (startState sqrt oldTimeIdx m)

/-- The energy `e1` that `integrate` computes at the end of pass `n` of its iteration loop. -/
def energyAfterPass (sqrt : α → α) (oldTimeIdx : TimeLevelIndex) (dt : α) (n : Nat)
    (m : BarotropicModel α) : α :=
  calcTotalEnergy oldTimeIdx.plusOne (afterPasses sqrt oldTimeIdx dt n m)

/-- The test that ends a pass of the iteration loop of `integrate`, as an inequality between the
energy `e0` of the old level and the energy `e1` of the new level. -/
def EnergyConverged (e0 e1 : α) : Prop :=
  |e1 - e0| * 2 / (e1 + e0) < 5.0e-15

/-! ## The Rossby-Haurwitz test case -/

/-- The data members of `RossbyHaurwitzTestCase`: the wave number `R`, the rate `omega` and the
base geopotential depth `phi0`. -/
structure RossbyHaurwitzTestCase (α : Type) where
  R : Nat
  omega : α
  phi0 : α

/-- The constructor of `RossbyHaurwitzTestCase`; `G` is the gravity constant of the commons
header, which is not part of the sources. -/
def rossbyHaurwitzTestCase (G : α) : RossbyHaurwitzTestCase α where
  R := 4
  omega := 3.924e-6
  phi0 := G * 8e3

/-- The stagger placement of a field along its two axes (`gridType(0)`, `gridType(1)` of the
geomtk field class, a parameter of the test case). -/
abbrev FieldGridType := Nat → GridType

/-- The placement of a field at the cell centres on both axes. -/
def centerGridType : FieldGridType :=
  fun _ => FULL

/-- The loop of `calcInitCond` under "zonal wind speed". The function `cos` is that of
`<cmath>`, `gridCoordComp` that of the mesh; `mesh` and `Re` are the locals that `calcInitCond`
sets before its loops. -/
def setZonalWind (cos : α → α) (gridCoordComp : Nat → GridType → Int → α)
    (uGridType : FieldGridType) (tc : RossbyHaurwitzTestCase α) (initTimeIdx : TimeLevelIndex)
    (mesh : Mesh α) (Re : α) (m : BarotropicModel α) : BarotropicModel α :=
  let js := mesh.js FULL
  let jn := mesh.je FULL
  forLoop (mesh.js (uGridType 1)) (mesh.je (uGridType 1))
    (fun j m =>
      if uGridType 1 = FULL ∧ (j = js ∨ j = jn) then m
      else
        let cosLat := mesh.getCosLat (uGridType 1) j
        let sinLat := mesh.getSinLat (uGridType 1) j
        let cosLatR := cosLat ^ tc.R
        forLoop (mesh.is (uGridType 0)) (mesh.ie (uGridType 0))
          (fun i m =>
            let lon := gridCoordComp 0 (uGridType 0) i
            let cosRLon := cos ((tc.R : α) * lon)
            let a := cosLat
            let b := cosLatR / cosLat * sinLat * sinLat * cosRLon * (tc.R : α)
            let c := -cosLatR * cosLat * cosRLon
            { m with u := setCellAt m.u initTimeIdx i j ((a + b + c) * Re * tc.omega) })
          m) m

/-- The loop of `calcInitCond` under "meridional wind speed". -/
def setMeridionalWind (sin : α → α) (gridCoordComp : Nat → GridType → Int → α)
    (vGridType : FieldGridType) (tc : RossbyHaurwitzTestCase α) (initTimeIdx : TimeLevelIndex)
    (mesh : Mesh α) (Re : α) (m : BarotropicModel α) : BarotropicModel α :=
  let js := mesh.js FULL
  let jn := mesh.je FULL
  forLoop (mesh.js (vGridType 1)) (mesh.je (vGridType 1))
    (fun j m =>
      if vGridType 1 = FULL ∧ (j = js ∨ j = jn) then m
      else
        let cosLat := mesh.getCosLat (vGridType 1) j
        let sinLat := mesh.getSinLat (vGridType 1) j
        let cosLatR := cosLat ^ tc.R
        forLoop (mesh.is (vGridType 0)) (mesh.ie (vGridType 0))
          (fun i m =>
            let lon := gridCoordComp 0 (vGridType 0) i
            let sinRLon := sin ((tc.R : α) * lon)
            { m with
              v := setCellAt m.v initTimeIdx i j
                (-Re * tc.omega * (tc.R : α) * cosLatR / cosLat * sinLat * sinRLon) })
          m) m

/-- The loop of `calcInitCond` under "surface geopotential height and geopotential depth";
`R2`, `R_1`, `R_2` and `omega2` are the locals that `calcInitCond` sets before its loops. -/
def setGeopotential (cos : α → α) (gridCoordComp : Nat → GridType → Int → α) (OMEGA : α)
    (tc : RossbyHaurwitzTestCase α) (initTimeIdx : TimeLevelIndex) (mesh : Mesh α)
    (Re R2 R_1 R_2 omega2 : α) (m : BarotropicModel α) : BarotropicModel α :=
  forLoop (mesh.js FULL + 1) (mesh.je FULL - 1)
    (fun j m =>
      let cosLat := mesh.getCosLat FULL j
      let cosLat2 := cosLat * cosLat
      let cosLatR := cosLat ^ tc.R
      let cosLatR2 := cosLatR * cosLatR
      let a := (tc.omega * OMEGA + 0.5 * omega2) * cosLat2 +
        0.25 * omega2 * cosLatR2 *
          (R_1 * cosLat2 + (2 * R2 - (tc.R : α) - 2) - 2 * R2 / cosLat2)
      let b := 2 * (tc.omega * OMEGA + omega2) * cosLatR *
        ((R2 + 2 * (tc.R : α) + 2) - R_1 * R_1 * cosLat2) / R_1 / R_2
      let c := 0.25 * omega2 * cosLatR2 * (R_1 * cosLat2 - R_2)
      forLoop (mesh.is FULL) (mesh.ie FULL)
        (fun i m =>
          let lon := gridCoordComp 0 FULL i
          let cosRLon := cos ((tc.R : α) * lon)
          let cos2RLon := cos (2 * (tc.R : α) * lon)
          let m : BarotropicModel α :=
            { m with
              gd := setCellAt m.gd initTimeIdx i j
                (tc.phi0 + Re * Re * (a + b * cosRLon + c * cos2RLon)) }
          { m with ghs := setCell m.ghs i j 0 }) m) m

/-- The loop of `calcInitCond` under "set Poles". -/
def setPoles (uGridType vGridType : FieldGridType) (tc : RossbyHaurwitzTestCase α)
    (initTimeIdx : TimeLevelIndex) (mesh : Mesh α) (m : BarotropicModel α) :
    BarotropicModel α :=
  let js := mesh.js FULL
  let jn := mesh.je FULL
  forLoop (mesh.is FULL) (mesh.ie FULL)
    (fun i m =>
      let m : BarotropicModel α :=
        if uGridType 1 = FULL then
          let m : BarotropicModel α := { m with u := setCellAt m.u initTimeIdx i js 0 }
          { m with u := setCellAt m.u initTimeIdx i jn 0 }
        else m
      let m : BarotropicModel α :=
        if vGridType 1 = FULL then
          let m : BarotropicModel α := { m with v := setCellAt m.v initTimeIdx i js 0 }
          { m with v := setCellAt m.v initTimeIdx i jn 0 }
        else m
      let m : BarotropicModel α := { m with gd := setCellAt m.gd initTimeIdx i js tc.phi0 }
      let m : BarotropicModel α := { m with gd := setCellAt m.gd initTimeIdx i jn tc.phi0 }
      let m : BarotropicModel α := { m with ghs := setCell m.ghs i js 0 }
      { m with ghs := setCell m.ghs i jn 0 }) m

/-- Modelled from the spec: `applyBndCond()` of a field with a single level (geomtk, not part of
the sources): the periodic wrap in longitude and the reflection at the poles fill the halo. -/
def applyBndCondStatic (mesh : Mesh α) (f : Field α) : Field α :=
  poleReflect mesh (periodicWrap mesh f)

/-- The four boundary-condition passes that end `calcInitCond`. -/
def applyBndCondInit (initTimeIdx : TimeLevelIndex) (mesh : Mesh α) (m : BarotropicModel α) :
    BarotropicModel α :=
  let m : BarotropicModel α := { m with u := applyBndCond mesh m.u initTimeIdx false }
  let m : BarotropicModel α := { m with v := applyBndCond mesh m.v initTimeIdx false }
  let m : BarotropicModel α := { m with gd := applyBndCond mesh m.gd initTimeIdx false }
  { m with ghs := applyBndCondStatic mesh m.ghs }

/-- The method `RossbyHaurwitzTestCase::calcInitCond` as compiled with `NDEBUG`. The result is
`none` when the domain of the model is not a sphere domain and `REPORT_ERROR` ends the run.
`sphere` tells whether the domain is a sphere domain, `uGridType` and `vGridType` are the
placements of `u` and `v`, `initTimeIdx` is the time index that the method constructs, and
`cos`, `sin`, `gridCoordComp`, `OMEGA` are the functions and the constant of `<cmath>`, of the
mesh and of the commons header. -/
def calcInitCond (cos sin : α → α) (gridCoordComp : Nat → GridType → Int → α) (OMEGA : α)
    (sphere : Bool) (uGridType vGridType : FieldGridType) (tc : RossbyHaurwitzTestCase α)
    (initTimeIdx : TimeLevelIndex) (m : BarotropicModel α) : Option (BarotropicModel α) :=
  if sphere then
    let mesh := m.mesh
    let Re := m.radius
    let R2 := (tc.R : α) * (tc.R : α)
    let R_1 := (tc.R : α) + 1
    let R_2 := (tc.R : α) + 2
    let omega2 := tc.omega * tc.omega
    -- zonal wind speed
    let m : BarotropicModel α :=
      setZonalWind cos gridCoordComp uGridType tc initTimeIdx mesh Re m
    -- meridional wind speed
    let m : BarotropicModel α :=
      setMeridionalWind sin gridCoordComp vGridType tc initTimeIdx mesh Re m
    -- surface geopotential height and geopotential depth
    let m : BarotropicModel α :=
      setGeopotential cos gridCoordComp OMEGA tc initTimeIdx mesh Re R2 R_1 R_2 omega2 m
    -- set Poles
    let m : BarotropicModel α := setPoles uGridType vGridType tc initTimeIdx mesh m
    some (applyBndCondInit initTimeIdx mesh m)
  else none

/-- The cells that a wind loop of `calcInitCond` writes for a field of placement `g`: the rows
and columns of that placement, without the two pole rows when the field is at the cell centres
in latitude. -/
def WindCell (g : FieldGridType) (mesh : Mesh α) (i j : Int) : Prop :=
  ((mesh.js (g 1) ≤ j ∧ j ≤ mesh.je (g 1)) ∧
      ¬ (g 1 = FULL ∧ (j = mesh.js FULL ∨ j = mesh.je FULL))) ∧
    (mesh.is (g 0) ≤ i ∧ i ≤ mesh.ie (g 0))

instance (g : FieldGridType) (mesh : Mesh α) (i j : Int) : Decidable (WindCell g mesh i j) := by
  unfold WindCell
  infer_instance

/-- The value that the loop "zonal wind speed" of `calcInitCond` gives to `u` at a cell. -/
def zonalWindValue (cos : α → α) (gridCoordComp : Nat → GridType → Int → α)
    (uGridType : FieldGridType) (tc : RossbyHaurwitzTestCase α) (mesh : Mesh α) (Re : α)
    (i j : Int) : α :=
  (mesh.getCosLat (uGridType 1) j +
    mesh.getCosLat (uGridType 1) j ^ tc.R / mesh.getCosLat (uGridType 1) j *
      mesh.getSinLat (uGridType 1) j * mesh.getSinLat (uGridType 1) j *
      cos ((tc.R : α) * gridCoordComp 0 (uGridType 0) i) * (tc.R : α) +
    -mesh.getCosLat (uGridType 1) j ^ tc.R * mesh.getCosLat (uGridType 1) j *
      cos ((tc.R : α) * gridCoordComp 0 (uGridType 0) i)) * Re * tc.omega

/-- The value that the loop "meridional wind speed" of `calcInitCond` gives to `v` at a
cell. -/
def meridionalWindValue (sin : α → α) (gridCoordComp : Nat → GridType → Int → α)
    (vGridType : FieldGridType) (tc : RossbyHaurwitzTestCase α) (mesh : Mesh α) (Re : α)
    (i j : Int) : α :=
  -Re * tc.omega * (tc.R : α) * mesh.getCosLat (vGridType 1) j ^ tc.R /
    mesh.getCosLat (vGridType 1) j * mesh.getSinLat (vGridType 1) j *
    sin ((tc.R : α) * gridCoordComp 0 (vGridType 0) i)

/-- The value that the loop "surface geopotential height and geopotential depth" of
`calcInitCond` gives to `gd` at a cell. -/
def depthValue (cos : α → α) (gridCoordComp : Nat → GridType → Int → α) (OMEGA : α)
    (tc : RossbyHaurwitzTestCase α) (mesh : Mesh α) (Re R2 R_1 R_2 omega2 : α)
    (i j : Int) : α :=
  tc.phi0 + Re * Re *
    ((tc.omega * OMEGA + 0.5 * omega2) * (mesh.getCosLat FULL j * mesh.getCosLat FULL j) +
        0.25 * omega2 * (mesh.getCosLat FULL j ^ tc.R * mesh.getCosLat FULL j ^ tc.R) *
          (R_1 * (mesh.getCosLat FULL j * mesh.getCosLat FULL j) +
            (2 * R2 - (tc.R : α) - 2) -
            2 * R2 / (mesh.getCosLat FULL j * mesh.getCosLat FULL j)) +
      2 * (tc.omega * OMEGA + omega2) * mesh.getCosLat FULL j ^ tc.R *
          ((R2 + 2 * (tc.R : α) + 2) -
            R_1 * R_1 * (mesh.getCosLat FULL j * mesh.getCosLat FULL j)) / R_1 / R_2 *
        cos ((tc.R : α) * gridCoordComp 0 FULL i) +
      0.25 * omega2 * (mesh.getCosLat FULL j ^ tc.R * mesh.getCosLat FULL j ^ tc.R) *
          (R_1 * (mesh.getCosLat FULL j * mesh.getCosLat FULL j) - R_2) *
        cos (2 * (tc.R : α) * gridCoordComp 0 FULL i))

/-- The cell `(i, j)` lies on a pole row, at a longitude `is..ie`. -/
def PoleCell (mesh : Mesh α) (i j : Int) : Prop :=
  (j = mesh.js FULL ∨ j = mesh.je FULL) ∧ (mesh.is FULL ≤ i ∧ i ≤ mesh.ie FULL)

instance (mesh : Mesh α) (i j : Int) : Decidable (PoleCell mesh i j) := by
  unfold PoleCell
  infer_instance

/-- The longitudes of the columns of the small grid: column 1 at longitude 0, column 2 at
longitude 3. -/
def exampleLon (α : Type) [LinearOrderedField α] : Nat → GridType → Int → α :=
  fun _ _ i => ((i : α) - 1) * 3

/-- The zonal wind that the documentation comment of `calcInitCond` gives:
`u = a ω (cos φ + R sin² φ cos^(R-1) φ cos Rλ - cos^(R+1) φ sin φ cos Rλ)`, with `cosLat`,
`sinLat` the cosine and sine of the latitude `φ` and `cosRLon` the cosine of `R λ`. -/
def documentedZonalWind (tc : RossbyHaurwitzTestCase α) (Re cosLat sinLat cosRLon : α) : α :=
  Re * tc.omega * (cosLat + (tc.R : α) * sinLat ^ 2 * cosLat ^ (tc.R - 1) * cosRLon -
    cosLat ^ (tc.R + 1) * sinLat * cosRLon)

/-- The zonal wind that the loop of `calcInitCond` computes, in the notation of the
documentation comment: `u = a ω (cos φ + R sin² φ cos^(R-1) φ cos Rλ - cos^(R+1) φ cos Rλ)`. -/
def computedZonalWind (tc : RossbyHaurwitzTestCase α) (Re cosLat sinLat cosRLon : α) : α :=
  Re * tc.omega * (cosLat + (tc.R : α) * sinLat ^ 2 * cosLat ^ (tc.R - 1) * cosRLon -
    cosLat ^ (tc.R + 1) * cosRLon)

/-! ## Rows that the tendency operators leave alone -/

/-- The state `s` holds the same `dut`, `dvt`, `gdu` and `gdv` as the state `m` on every row
that does not lie strictly between the poles, the two pole rows among them. -/
def PoleRowsKept (m s : BarotropicModel α) : Prop :=
  ∀ i j, ¬ (m.mesh.js FULL < j ∧ j < m.mesh.je FULL) →
    s.dut i j = m.dut i j ∧ s.dvt i j = m.dvt i j ∧ s.gdu i j = m.gdu i j ∧ s.gdv i j = m.gdv i j

/-- The state `s` holds the same `fu` and `fv` as the state `m` on every row that does not lie
strictly between the poles, the two pole rows among them. -/
def PoleFluxKept (m s : BarotropicModel α) : Prop :=
  ∀ i j, ¬ (m.mesh.js FULL < j ∧ j < m.mesh.je FULL) →
    s.fu i j = m.fu i j ∧ s.fv i j = m.fv i j

/-! ## The parts of a pass of the iteration loop -/

/-- The statements of the body of the iteration loop of `integrate` under "update geopotential
height" and "transform geopotential height": the state in which the pass calls
`calcZonalWindTendency`. -/
def depthPart (sqrt : α → α) (oldTimeIdx halfTimeIdx newTimeIdx : TimeLevelIndex) (dt : α)
    (m : BarotropicModel α) : BarotropicModel α :=
  -- update geopotential height
  let m : BarotropicModel α := calcGeopotentialDepthTendency halfTimeIdx m
  let m : BarotropicModel α := updateGeopotentialDepth oldTimeIdx newTimeIdx dt m
  let m : BarotropicModel α := applyBndCondGd newTimeIdx m
  -- transform geopotential height
  let m : BarotropicModel α := transformGeopotentialDepth sqrt newTimeIdx m
  applyBndCondGdt newTimeIdx m

/-- A sequence of calls of the two advection methods: each item tells the method
(`true` for `calcZonalWindAdvection`, `false` for `calcMeridionalWindAdvection`) and the time
level of the call. -/
def advectionCalls : List (Bool × TimeLevelIndex) → BarotropicModel α → BarotropicModel α
  | [], m => m
  | (zonal, timeIdx) :: rest, m =>
    advectionCalls rest
      (if zonal then calcZonalWindAdvection timeIdx m else calcMeridionalWindAdvection timeIdx m)

/-! ## Further states on the small grid -/

/-- The memory of a model object before `init` in which the storage of `fv` holds 1 in every
cell, and zero in every other buffer. -/
def exampleStale (α : Type) [LinearOrderedField α] : BarotropicModel α :=
  { exampleRaw α with fv := fun _ _ => 1 }

/-- The model on the small grid over a flat surface, with a wind on the equator row and none
on the pole rows: `ut` alternates between 1 and 2 from one column to the next, `vt` is 3,
`gdt` is 2 and `gd` is 1 in every cell, and `u`, `v` are `ut / 2`, `vt / 2`. -/
def exampleWind (α : Type) [LinearOrderedField α] : BarotropicModel α :=
  { exampleModel α with
    u := fun _ i j => if j = 1 then (if i % 2 = 0 then 1 / 2 else 1) else 0
    v := fun _ _ j => if j = 1 then 3 / 2 else 0
    ut := fun _ i j => if j = 1 then (if i % 2 = 0 then 1 else 2) else 0
    vt := fun _ _ j => if j = 1 then 3 else 0
    gdt := fun _ _ _ => 2
    ghs := fun _ _ => 0 }

/-! ## States at rest -/

/-- What a pass of the iteration loop needs of the state `s` it starts from to see no wind:
on a mesh with two distinct pole rows, `u`, `v`, `ut`, `vt` are zero on the half level and
`ut`, `vt` on the old level, at every cell of the rows `js..je` and the columns `is-1..ie+1`,
and the buffers `fv`, `gdv`, `dut`, `dvt` are zero on the pole rows. -/
structure WindFree (k : Bool) (s : BarotropicModel α) : Prop where
  mesh : s.mesh.WellFormed
  half : ∀ i j, HaloCell s.mesh i j →
    s.u .half i j = 0 ∧ s.v .half i j = 0 ∧ s.ut .half i j = 0 ∧ s.vt .half i j = 0
  old : ∀ i j, HaloCell s.mesh i j → s.ut (.full k) i j = 0 ∧ s.vt (.full k) i j = 0
  fv : ZeroAtPoles s.mesh s.fv
  gdv : ZeroAtPoles s.mesh s.gdv
  dut : ZeroAtPoles s.mesh s.dut
  dvt : ZeroAtPoles s.mesh s.dvt

/-- The state `m` in which `integrate` is called for the first time on a model at rest: the
flag `firstRun` is set, the mesh has two distinct pole rows, `u` and `v` at the old level are
zero at every cell of the rows `js..je` and the columns `is-1..ie+1`, and the buffers `fv`,
`gdv`, `dut`, `dvt` are zero on the pole rows. -/
structure AtRest (k : Bool) (m : BarotropicModel α) : Prop where
  mesh : m.mesh.WellFormed
  firstRun : m.firstRun = true
  wind : ∀ i j, HaloCell m.mesh i j → m.u (.full k) i j = 0 ∧ m.v (.full k) i j = 0
  fv : ZeroAtPoles m.mesh m.fv
  gdv : ZeroAtPoles m.mesh m.gdv
  dut : ZeroAtPoles m.mesh m.dut
  dvt : ZeroAtPoles m.mesh m.dvt

/-- The model on the small grid after `init`, at rest, with `gd + ghs = 4` in every cell: the
surface geopotential is 3 in the halo column 0 and 0 elsewhere, so that its halo columns are
not periodic images, and `gd` is 1 in column 0 and 4 elsewhere. -/
def exampleRest (α : Type) [LinearOrderedField α] : BarotropicModel α :=
  { init (exampleMesh α) 7.292e-5 (exampleRaw α) with
    gd := fun _ i _ => if i = 0 then 1 else 4
    ghs := fun i _ => if i = 0 then 3 else 0 }

/-- The model on the small grid after `init`, at rest, with `gd + ghs = 4` in every cell and
periodic halo columns: the surface geopotential is 3 in the columns 0 and 2 and 0 in the
columns 1 and 3, and `gd` is 1 in the columns 0 and 2 and 4 in the columns 1 and 3. -/
def exampleCalm (α : Type) [LinearOrderedField α] : BarotropicModel α :=
  { init (exampleMesh α) 7.292e-5 (exampleRaw α) with
    gd := fun _ i _ => if i = 0 ∨ i = 2 then 1 else 4
    ghs := fun i _ => if i = 0 ∨ i = 2 then 3 else 0 }

/-! ## The build with assertions -/

/-- The condition `fabs(tmp) < 1.0e-10` that `calcGeopotentialDepthTendency`, compiled without
`NDEBUG`, asserts once it has computed the tendency of the state `m`. -/
def DebugAssertion (timeIdx : TimeLevelIndex) (m : BarotropicModel α) : Prop :=
  |massTendencySum (calcGeopotentialDepthTendency timeIdx m)| < 1.0e-10

instance (timeIdx : TimeLevelIndex) (m : BarotropicModel α) :
    Decidable (DebugAssertion timeIdx m) := by
  unfold DebugAssertion
  infer_instance

/-- One pass of the body of the iteration loop of `integrate` as compiled without `NDEBUG`: the
pass of `iterationBody` with the call of `calcGeopotentialDepthTendency` replaced by the one
that asserts, and `none` when the assertion fails. -/
def iterationBodyDebug (sqrt : α → α) (oldTimeIdx halfTimeIdx newTimeIdx : TimeLevelIndex)
    (dt : α) (m : BarotropicModel α) : Option (BarotropicModel α) :=
  -- update geopotential height
  match calcGeopotentialDepthTendencyDebug halfTimeIdx m with
  | none => none
  | some m =>
    let m : BarotropicModel α := updateGeopotentialDepth oldTimeIdx newTimeIdx dt m
    let m : BarotropicModel α := applyBndCondGd newTimeIdx m
    -- transform geopotential height
    let m : BarotropicModel α := transformGeopotentialDepth sqrt newTimeIdx m
    let m : BarotropicModel α := applyBndCondGdt newTimeIdx m
    -- update velocity
    let m : BarotropicModel α := calcZonalWindTendency halfTimeIdx m
    let m : BarotropicModel α := calcMeridionalWindTendency halfTimeIdx m
    let m : BarotropicModel α := updateVelocity oldTimeIdx newTimeIdx dt m
    let m : BarotropicModel α := applyBndCondUt newTimeIdx m
    let m : BarotropicModel α := applyBndCondVt newTimeIdx m
    -- transform back velocity on half time level
    let m : BarotropicModel α := transformBackVelocity newTimeIdx m
    let m : BarotropicModel α := applyBndCondU newTimeIdx m
    some (applyBndCondV newTimeIdx m)

/-- The iteration loop of `integrate` as compiled without `NDEBUG`, with `remaining` passes left
and the loop variable at `iter`: `none` when the assertion fails in a pass, else the final value
of `iter` and the final state. The output to `cout` and the mass `m1` that this build computes
for it are left out. -/
def runIterationsDebug (sqrt : α → α) (oldTimeIdx halfTimeIdx newTimeIdx : TimeLevelIndex)
    (dt e0 : α) : Nat → Nat → BarotropicModel α → Option (Nat × BarotropicModel α)
  | 0, iter, m => some (iter, m)
  | remaining + 1, iter, m =>
    match iterationBodyDebug sqrt oldTimeIdx halfTimeIdx newTimeIdx dt m with
    | none => none
    | some m =>
      -- get new total energy and mass
      let e1 := calcTotalEnergy newTimeIdx m
      if energyCriterion e0 e1 then some (iter, m)
      else runIterationsDebug sqrt oldTimeIdx halfTimeIdx newTimeIdx dt e0 remaining (iter + 1) m

/-- The method `integrate` as compiled without `NDEBUG` (output to `cout` left out): `none`
when the assertion of `calcGeopotentialDepthTendency` fails in a pass of the loop, else the
final value of the loop variable `iter` and the final state. -/
def integrateDebug (sqrt : α → α) (oldTimeIdx : TimeLevelIndex) (dt : α)
    (m : BarotropicModel α) : Option (Nat × BarotropicModel α) :=
  -- set time level indices
  let halfTimeIdx := oldTimeIdx.plusHalf
  let newTimeIdx := oldTimeIdx.plusOne
  -- copy states
  let m : BarotropicModel α := startState sqrt oldTimeIdx m
  -- get old total energy and mass
  let e0 := calcTotalEnergy oldTimeIdx m
  -- run iterations
  runIterationsDebug sqrt oldTimeIdx halfTimeIdx newTimeIdx dt e0 8 1 m

/-! ## Two more states on the small grid -/

/-- The model on the small grid after `init`, with `gd = 1` and no wind but in the halo column
3 of the equator row, where `u` is 1: the halo columns of `u` are not periodic images. -/
def exampleOpen (α : Type) [LinearOrderedField α] : BarotropicModel α :=
  { exampleModel α with u := fun _ i j => if i = 3 ∧ j = 1 then 1 else 0 }

/-- The model on the small grid after `init`, with `gd = 1`, no zonal wind, and a meridional
wind `v` that is 1 on the equator row and zero on the pole rows. -/
def exampleDrift (α : Type) [LinearOrderedField α] : BarotropicModel α :=
  { exampleModel α with v := fun _ _ j => if j = 1 then 1 else 0 }

/-! # Theorems -/

theorem forLoopAux_succ {σ : Type} (body : Int → σ → σ) (lo : Int) (n : Nat) (s : σ) :
    forLoopAux body lo (n + 1) s = body (lo + (n : Int)) (forLoopAux body lo n s) := rfl

/-- Membership in the index range of a loop, in terms of the number of its passes. -/
theorem mem_loop_range (lo hi k : Int) :
    (lo ≤ k ∧ k < lo + ((hi + 1 - lo).toNat : Int)) ↔ (lo ≤ k ∧ k ≤ hi) := by
  constructor <;> rintro ⟨h1, h2⟩ <;> refine ⟨h1, ?_⟩ <;> omega

/-- A loop whose pass `k` rewrites only the cell `k` of one component of the state, as a
function of the old content of that cell and of the rest of the state, rewrites the cells of
its range and nothing else. -/
theorem forLoopAux_cells {σ C : Type} (get : σ → Int → C) (set : σ → (Int → C) → σ)
    (g : Int → σ → C → C) (body : Int → σ → σ)
    (hgs : ∀ s c, get (set s c) = c) (hss : ∀ s c c', set (set s c) c' = set s c')
    (hsg : ∀ s, set s (get s) = s)
    (hg : ∀ k s c, g k (set s c) = g k s)
    (hbody : ∀ k s, body k s = set s (fun k' => if k' = k then g k s (get s k) else get s k'))
    (lo : Int) (n : Nat) (s : σ) :
    forLoopAux body lo n s =
      set s (fun k' => if lo ≤ k' ∧ k' < lo + (n : Int) then g k' s (get s k') else get s k') := by
  induction n with
  | zero =>
    have : (fun k' => if lo ≤ k' ∧ k' < lo + ((0 : Nat) : Int) then g k' s (get s k')
        else get s k') = get s := by
      funext k'
      rw [if_neg]
      omega
    rw [this, hsg]
    rfl
  | succ n ih =>
    rw [forLoopAux_succ, ih, hbody, hss, hgs, hg]
    congr 1
    funext k'
    by_cases h : k' = lo + (n : Int)
    · subst h
      rw [if_pos rfl, if_neg (by omega), if_pos (by constructor <;> push_cast <;> omega)]
    · rw [if_neg h]
      by_cases h2 : lo ≤ k' ∧ k' < lo + (n : Int)
      · rw [if_pos h2, if_pos (by constructor <;> push_cast <;> omega)]
      · rw [if_neg h2, if_neg (by push_cast; omega)]

theorem forLoop_cells {σ C : Type} (get : σ → Int → C) (set : σ → (Int → C) → σ)
    (g : Int → σ → C → C) (body : Int → σ → σ)
    (hgs : ∀ s c, get (set s c) = c) (hss : ∀ s c c', set (set s c) c' = set s c')
    (hsg : ∀ s, set s (get s) = s)
    (hg : ∀ k s c, g k (set s c) = g k s)
    (hbody : ∀ k s, body k s = set s (fun k' => if k' = k then g k s (get s k) else get s k'))
    (lo hi : Int) (s : σ) :
    forLoop lo hi body s =
      set s (fun k' => if lo ≤ k' ∧ k' ≤ hi then g k' s (get s k') else get s k') := by
  unfold forLoop
  rw [forLoopAux_cells get set g body hgs hss hsg hg hbody]
  congr 1
  funext k'
  simp only [mem_loop_range]

/-- Two nested loops whose pass `(i, j)` rewrites only the cell `(i, j)` of one component of
the state rewrite the cells of their index rectangle and nothing else. -/
theorem forLoop_forLoop_cells {σ C : Type} (get : σ → Int → Int → C)
    (set : σ → (Int → Int → C) → σ) (g : Int → Int → σ → C → C) (body : Int → Int → σ → σ)
    (ilo ihi : σ → Int)
    (hgs : ∀ s c, get (set s c) = c) (hss : ∀ s c c', set (set s c) c' = set s c')
    (hsg : ∀ s, set s (get s) = s)
    (hg : ∀ i j s c, g i j (set s c) = g i j s)
    (hlo : ∀ s c, ilo (set s c) = ilo s) (hhi : ∀ s c, ihi (set s c) = ihi s)
    (hbody : ∀ i j s, body i j s =
      set s (fun i' j' => if i' = i ∧ j' = j then g i j s (get s i j) else get s i' j'))
    (jlo jhi : Int) (s : σ) :
    forLoop jlo jhi (fun j s => forLoop (ilo s) (ihi s) (fun i s => body i j s) s) s =
      set s (fun i' j' =>
        if (jlo ≤ j' ∧ j' ≤ jhi) ∧ (ilo s ≤ i' ∧ i' ≤ ihi s) then g i' j' s (get s i' j')
        else get s i' j') := by
  -- the inner loop rewrites the cells of its range in row `j`
  have inner : ∀ (j : Int) (s : σ) (lo hi : Int),
      forLoop lo hi (fun i s => body i j s) s =
        set s (fun i' j' => if j' = j ∧ (lo ≤ i' ∧ i' ≤ hi) then g i' j s (get s i' j)
          else get s i' j') := by
    intro j s lo hi
    have h := forLoop_cells (fun s i => get s i j)
      (fun s r => set s (fun i' j' => if j' = j then r i' else get s i' j'))
      (fun i s c => g i j s c) (fun i s => body i j s)
      (by intro s c; simp only [hgs, if_true])
      (by
        intro s c c'
        simp only [hss, hgs]
        congr 1
        funext i' j'
        by_cases h : j' = j <;> simp [h])
      (by
        intro s
        have : (fun i' j' => if j' = j then get s i' j else get s i' j') = get s := by
          funext i' j'
          by_cases h : j' = j <;> simp [h]
        simp only [this, hsg])
      (by intro k s c; funext x; simp only [hg])
      (by
        intro k s
        simp only [hbody]
        congr 1
        funext i' j'
        by_cases h : j' = j <;> by_cases h' : i' = k <;> simp [h, h'])
      lo hi s
    rw [h]
    congr 1
    funext i' j'
    by_cases h : j' = j <;> by_cases h' : lo ≤ i' ∧ i' ≤ hi <;> simp [h, h']
  have h := forLoop_cells (fun s j i => get s i j) (fun s R => set s (fun i j => R j i))
    (fun j s row i' => if ilo s ≤ i' ∧ i' ≤ ihi s then g i' j s (row i') else row i')
    (fun j s => forLoop (ilo s) (ihi s) (fun i s => body i j s) s)
    (by intro s c; simp only [hgs])
    (by intro s c c'; simp only [hss])
    (by intro s; exact hsg s)
    (by intro k s c; funext row i'; simp only [hg, hlo, hhi])
    (by
      intro k s
      show forLoop (ilo s) (ihi s) (fun i s => body i k s) s = set s _
      rw [inner]
      congr 1
      funext i' j'
      by_cases h : j' = k <;> by_cases h' : ilo s ≤ i' ∧ i' ≤ ihi s <;> simp [h, h'])
    jlo jhi s
  rw [h]
  congr 1
  funext i' j'
  by_cases h : jlo ≤ j' ∧ j' ≤ jhi <;> by_cases h' : ilo s ≤ i' ∧ i' ≤ ihi s <;> simp [h, h']

theorem forLoopAux_add (f : Int → α) (lo : Int) (n : Nat) (a : α) :
    forLoopAux (fun k acc => acc + f k) lo n a =
      a + ∑ x in Finset.range n, f (lo + (x : Int)) := by
  induction n with
  | zero => simp [forLoopAux]
  | succ n ih => rw [forLoopAux_succ, ih, Finset.sum_range_succ, add_assoc]

theorem forLoop_add (f : Int → α) (lo hi : Int) (a : α) :
    forLoop lo hi (fun k acc => acc + f k) a = a + loopSum lo hi f :=
  forLoopAux_add f lo _ a

theorem forLoop_forLoop_add (f : Int → Int → α) (jlo jhi ilo ihi : Int) (a : α) :
    forLoop jlo jhi (fun j acc => forLoop ilo ihi (fun i acc => acc + f i j) acc) a =
      a + loopSum jlo jhi (fun j => loopSum ilo ihi (fun i => f i j)) := by
  have h : (fun j acc => forLoop ilo ihi (fun i acc => acc + f i j) acc) =
      (fun j acc => acc + loopSum ilo ihi (fun i => f i j)) := by
    funext j acc
    exact forLoop_add (fun i => f i j) ilo ihi acc
  rw [h, forLoop_add]

theorem forLoop_add_sub (f h : Int → α) (lo hi : Int) (a b : α) :
    forLoop lo hi (fun k (d : α × α) => (d.1 + f k, d.2 - h k)) (a, b) =
      (a + loopSum lo hi f, b - loopSum lo hi h) := by
  unfold forLoop loopSum
  induction (hi + 1 - lo).toNat with
  | zero => simp [forLoopAux]
  | succ n ih =>
    rw [forLoopAux_succ, ih, Finset.sum_range_succ, Finset.sum_range_succ]
    ext <;> simp <;> ring

theorem loopSum_eq_sum_Icc (lo hi : Int) (f : Int → α) :
    loopSum lo hi f = ∑ k in Finset.Icc lo hi, f k := by
  unfold loopSum
  have key : ∀ n : Nat, ∑ x in Finset.range n, f (lo + (x : Int)) =
      ∑ k in Finset.Icc lo (lo + (n : Int) - 1), f k := by
    intro n
    induction n with
    | zero => simp
    | succ n ih =>
      rw [Finset.sum_range_succ, ih]
      have hins : Finset.Icc lo (lo + ((n + 1 : Nat) : Int) - 1) =
          insert (lo + (n : Int)) (Finset.Icc lo (lo + (n : Int) - 1)) := by
        ext k
        simp only [Finset.mem_Icc, Finset.mem_insert]
        push_cast
        omega
      rw [hins, Finset.sum_insert (by simp), add_comm]
  rw [key]
  by_cases h : lo ≤ hi + 1
  · congr 2
    omega
  · rw [Finset.Icc_eq_empty (by omega), Finset.Icc_eq_empty (by omega)]

theorem massFlux_loop (timeIdx : TimeLevelIndex) (jlo jhi : Int) (m : BarotropicModel α) :
    forLoop jlo jhi
      (fun j m => forLoop (m.mesh.is FULL - 1) (m.mesh.ie FULL + 1)
        (fun i m =>
          let m : BarotropicModel α :=
            { m with gdu := setCell m.gdu i j (m.ut timeIdx i j * m.gdt timeIdx i j) }
          { m with gdv := setCell m.gdv i j (m.vt timeIdx i j * m.gdt timeIdx i j * m.cosLat j) })
        m) m =
    { m with
      gdu := fun i j =>
        if (jlo ≤ j ∧ j ≤ jhi) ∧ (m.mesh.is FULL - 1 ≤ i ∧ i ≤ m.mesh.ie FULL + 1)
        then m.ut timeIdx i j * m.gdt timeIdx i j else m.gdu i j
      gdv := fun i j =>
        if (jlo ≤ j ∧ j ≤ jhi) ∧ (m.mesh.is FULL - 1 ≤ i ∧ i ≤ m.mesh.ie FULL + 1)
        then m.vt timeIdx i j * m.gdt timeIdx i j * m.cosLat j else m.gdv i j } := by
  have h := forLoop_forLoop_cells
    (fun (m : BarotropicModel α) i j => (m.gdu i j, m.gdv i j))
    (fun m c => { m with gdu := fun i j => (c i j).1, gdv := fun i j => (c i j).2 })
    (fun i j m _ => (m.ut timeIdx i j * m.gdt timeIdx i j,
      m.vt timeIdx i j * m.gdt timeIdx i j * m.cosLat j))
    (fun i j m =>
      let m : BarotropicModel α :=
        { m with gdu := setCell m.gdu i j (m.ut timeIdx i j * m.gdt timeIdx i j) }
      { m with gdv := setCell m.gdv i j (m.vt timeIdx i j * m.gdt timeIdx i j * m.cosLat j) })
    (fun m => m.mesh.is FULL - 1) (fun m => m.mesh.ie FULL + 1)
    (fun _ _ => rfl) (fun _ _ _ => rfl) (fun _ => rfl) (fun _ _ _ _ => rfl) (fun _ _ => rfl)
    (fun _ _ => rfl)
    (by
      intro i j m
      dsimp only
      congr 1 <;> funext i' j' <;> by_cases h : i' = i ∧ j' = j <;> simp [setCell, h])
    jlo jhi m
  rw [h]
  clear h
  congr 1 <;> funext i' j' <;> dsimp only <;> split_ifs <;> rfl

theorem interiorDepthTendency_loop (jlo jhi : Int) (m : BarotropicModel α) :
    forLoop jlo jhi
      (fun j m => forLoop (m.mesh.is FULL) (m.mesh.ie FULL)
        (fun i m =>
          { m with
            dgd := setCell m.dgd i j
              ((m.gdu (i + 1) j - m.gdu (i - 1) j) * m.factorLon j +
               (m.gdv i (j + 1) - m.gdv i (j - 1)) * m.factorLat j) }) m) m =
    { m with
      dgd := fun i j =>
        if (jlo ≤ j ∧ j ≤ jhi) ∧ (m.mesh.is FULL ≤ i ∧ i ≤ m.mesh.ie FULL)
        then (m.gdu (i + 1) j - m.gdu (i - 1) j) * m.factorLon j +
          (m.gdv i (j + 1) - m.gdv i (j - 1)) * m.factorLat j
        else m.dgd i j } :=
  forLoop_forLoop_cells
    (fun (m : BarotropicModel α) => m.dgd)
    (fun m c => { m with dgd := c })
    (fun i j m _ => (m.gdu (i + 1) j - m.gdu (i - 1) j) * m.factorLon j +
               (m.gdv i (j + 1) - m.gdv i (j - 1)) * m.factorLat j)
    (fun i j m =>
          { m with
            dgd := setCell m.dgd i j
              ((m.gdu (i + 1) j - m.gdu (i - 1) j) * m.factorLon j +
               (m.gdv i (j + 1) - m.gdv i (j - 1)) * m.factorLat j) })
    (fun m => m.mesh.is FULL) (fun m => m.mesh.ie FULL)
    (fun _ _ => rfl) (fun _ _ _ => rfl) (fun _ => rfl) (fun _ _ _ _ => rfl) (fun _ _ => rfl)
    (fun _ _ => rfl)
    (fun _ _ _ => rfl)
    jlo jhi m

theorem poleDepthTendency_loop (ilo ihi : Int) (m : BarotropicModel α) (js jn : Int)
    (dgds dgdn : α) :
    forLoop ilo ihi
      (fun i m =>
        let m : BarotropicModel α := { m with dgd := setCell m.dgd i js dgds }
        { m with dgd := setCell m.dgd i jn dgdn }) m =
    { m with
      dgd := fun i j =>
        if ilo ≤ i ∧ i ≤ ihi then
          if j = jn then dgdn else if j = js then dgds else m.dgd i j
        else m.dgd i j } := by
  have h := forLoop_cells
    (fun (m : BarotropicModel α) => m.dgd)
    (fun m c => { m with dgd := c })
    (fun _ _ col j => if j = jn then dgdn else if j = js then dgds else col j)
    (fun i m =>
        let m : BarotropicModel α := { m with dgd := setCell m.dgd i js dgds }
        { m with dgd := setCell m.dgd i jn dgdn })
    (fun _ _ => rfl) (fun _ _ _ => rfl) (fun _ => rfl) (fun _ _ _ => rfl)
    (by
      intro i m
      dsimp only
      congr 1
      funext i' j'
      by_cases h : i' = i <;> by_cases h' : j' = jn <;> by_cases h'' : j' = js <;>
        simp [setCell, h, h', h''])
    ilo ihi m
  rw [h]
  clear h
  congr 1
  funext i' j'
  dsimp only
  split_ifs <;> simp_all

/-- The state that `calcGeopotentialDepthTendency` leaves, field by field. -/
theorem calcGeopotentialDepthTendency_eq (timeIdx : TimeLevelIndex) (m : BarotropicModel α) :
    calcGeopotentialDepthTendency timeIdx m =
      { m with
        gdu := massFluxU timeIdx m
        gdv := massFluxV timeIdx m
        dgd := depthTendency timeIdx m } := by
  unfold calcGeopotentialDepthTendency
  simp only [massFlux_loop, interiorDepthTendency_loop, poleDepthTendency_loop, forLoop_add_sub]
  congr 1
  funext i j
  simp only [depthTendency, northPoleTendency, southPoleTendency, massFluxU, massFluxV]
  split_ifs <;> first | rfl | (exfalso; omega)

theorem loopSum_congr {lo hi : Int} {f g : Int → α}
    (h : ∀ k, lo ≤ k → k ≤ hi → f k = g k) : loopSum lo hi f = loopSum lo hi g := by
  rw [loopSum_eq_sum_Icc, loopSum_eq_sum_Icc]
  exact Finset.sum_congr rfl (fun k hk => h k (Finset.mem_Icc.mp hk).1 (Finset.mem_Icc.mp hk).2)

theorem loopSum_add (lo hi : Int) (f g : Int → α) :
    loopSum lo hi (fun k => f k + g k) = loopSum lo hi f + loopSum lo hi g :=
  Finset.sum_add_distrib

theorem loopSum_mul_right (lo hi : Int) (f : Int → α) (c : α) :
    loopSum lo hi (fun k => f k * c) = loopSum lo hi f * c :=
  (Finset.sum_mul _ _ _).symm

theorem loopSum_swap (jlo jhi ilo ihi : Int) (f : Int → Int → α) :
    loopSum jlo jhi (fun j => loopSum ilo ihi (fun i => f i j)) =
      loopSum ilo ihi (fun i => loopSum jlo jhi (fun j => f i j)) :=
  Finset.sum_comm

theorem loopSum_const (lo hi : Int) (c : α) (h : lo ≤ hi + 1) :
    loopSum lo hi (fun _ => c) = ((hi + 1 - lo : Int) : α) * c := by
  unfold loopSum
  rw [Finset.sum_const, Finset.card_range, nsmul_eq_mul]
  congr 1
  have : (((hi + 1 - lo).toNat : Int) : α) = ((hi + 1 - lo : Int) : α) := by
    congr 1
    omega
  rw [← this, Int.cast_natCast]

theorem loopSum_telescope (g : Int → α) (lo hi : Int) (h : lo ≤ hi + 1) :
    loopSum lo hi (fun k => g (k + 1) - g (k - 1)) = g (hi + 1) + g hi - g lo - g (lo - 1) := by
  unfold loopSum
  have key : ∀ n : Nat, ∑ x in Finset.range n, (g (lo + (x : Int) + 1) - g (lo + (x : Int) - 1)) =
      g (lo + (n : Int)) + g (lo + (n : Int) - 1) - g lo - g (lo - 1) := by
    intro n
    induction n with
    | zero => simp
    | succ n ih =>
      rw [Finset.sum_range_succ, ih]
      push_cast
      have e1 : lo + ((n : Int) + 1) = lo + (n : Int) + 1 := by ring
      have e2 : lo + (n : Int) + 1 - 1 = lo + (n : Int) := by ring
      rw [e1, e2]
      ring
  rw [key]
  have e : lo + ((hi + 1 - lo).toNat : Int) = hi + 1 := by omega
  rw [e]
  have e' : hi + 1 - 1 = hi := by ring
  rw [e']

theorem loopSum_split_ends (lo hi : Int) (f : Int → α) (h : lo < hi) :
    loopSum lo hi f = f lo + loopSum (lo + 1) (hi - 1) f + f hi := by
  rw [loopSum_eq_sum_Icc, loopSum_eq_sum_Icc]
  have hins : Finset.Icc lo hi = insert lo (insert hi (Finset.Icc (lo + 1) (hi - 1))) := by
    ext k
    simp only [Finset.mem_Icc, Finset.mem_insert]
    omega
  rw [hins, Finset.sum_insert, Finset.sum_insert]
  · ring
  · simp
  · simp only [Finset.mem_insert, Finset.mem_Icc]
    omega

/-- The discrete divergence theorem behind the mass balance: with periodic zonal fluxes and
no meridional flux through the pole rows, the area-weighted tendencies of all cells cancel. -/
theorem divergence_sum_zero (is ie js je : Int) (n : α) (gdu gdv dgd : Int → Int → α)
    (cosLat fLon fLat : Int → α) (cL cT : α)
    (hi : is ≤ ie) (hj : js < je) (hn : n = ((ie - is + 1 : Int) : α))
    (hper : ∀ j, js + 1 ≤ j → j ≤ je - 1 →
      gdu (is - 1) j = gdu ie j ∧ gdu (ie + 1) j = gdu is j)
    (hpole : ∀ i, is ≤ i → i ≤ ie → gdv i js = 0 ∧ gdv i je = 0)
    (hL : ∀ j, js ≤ j → j ≤ je → fLon j * cosLat j = cL)
    (hT : ∀ j, js ≤ j → j ≤ je → fLat j * cosLat j = cT)
    (hS : ∀ i, is ≤ i → i ≤ ie →
      dgd i js = (0 + loopSum is ie (fun k => gdv k (js + 1))) * (fLat js / n))
    (hN : ∀ i, is ≤ i → i ≤ ie →
      dgd i je = (0 - loopSum is ie (fun k => gdv k (je - 1))) * (fLat je / n))
    (hI : ∀ i j, is ≤ i → i ≤ ie → js + 1 ≤ j → j ≤ je - 1 →
      dgd i j = (gdu (i + 1) j - gdu (i - 1) j) * fLon j +
        (gdv i (j + 1) - gdv i (j - 1)) * fLat j) :
    loopSum js je (fun j => loopSum is ie (fun i => dgd i j * cosLat j)) = 0 := by
  have hn0 : n ≠ 0 := by
    rw [hn]
    have : (0 : Int) < ie - is + 1 := by omega
    exact_mod_cast this.ne'
  have hcount : ((ie + 1 - is : Int) : α) = n := by
    rw [hn]
    congr 1
    ring
  -- the south pole row
  have hsouth : loopSum is ie (fun i => dgd i js * cosLat js) =
      loopSum is ie (fun k => gdv k (js + 1)) * cT := by
    rw [loopSum_congr (g := fun _ => (0 + loopSum is ie (fun k => gdv k (js + 1))) *
      (fLat js / n) * cosLat js) (fun i h1 h2 => by rw [hS i h1 h2]),
      loopSum_const _ _ _ (by omega), hcount, ← hT js (le_refl _) hj.le]
    field_simp
    ring
  -- the north pole row
  have hnorth : loopSum is ie (fun i => dgd i je * cosLat je) =
      -(loopSum is ie (fun k => gdv k (je - 1)) * cT) := by
    rw [loopSum_congr (g := fun _ => (0 - loopSum is ie (fun k => gdv k (je - 1))) *
      (fLat je / n) * cosLat je) (fun i h1 h2 => by rw [hN i h1 h2]),
      loopSum_const _ _ _ (by omega), hcount, ← hT je hj.le (le_refl _)]
    field_simp
    ring
  -- the rows between the poles
  have hzonal : ∀ j, js + 1 ≤ j → j ≤ je - 1 →
      loopSum is ie (fun i => gdu (i + 1) j - gdu (i - 1) j) = 0 := by
    intro j h1 h2
    rw [loopSum_telescope (fun i => gdu i j) is ie (by omega)]
    obtain ⟨e1, e2⟩ := hper j h1 h2
    rw [e1, e2]
    ring
  have hmerid : ∀ i, is ≤ i → i ≤ ie →
      loopSum (js + 1) (je - 1) (fun j => gdv i (j + 1) - gdv i (j - 1)) =
        gdv i (je - 1) - gdv i (js + 1) := by
    intro i h1 h2
    rw [loopSum_telescope (fun j => gdv i j) (js + 1) (je - 1) (by omega)]
    obtain ⟨e1, e2⟩ := hpole i h1 h2
    have a1 : je - 1 + 1 = je := by ring
    have a2 : js + 1 - 1 = js := by ring
    rw [a1, a2, e1, e2]
    ring
  have hinner : loopSum (js + 1) (je - 1) (fun j => loopSum is ie (fun i => dgd i j * cosLat j)) =
      (loopSum is ie (fun k => gdv k (je - 1)) - loopSum is ie (fun k => gdv k (js + 1))) * cT := by
    have step1 : loopSum (js + 1) (je - 1)
        (fun j => loopSum is ie (fun i => dgd i j * cosLat j)) =
        loopSum (js + 1) (je - 1)
          (fun j => loopSum is ie (fun i => (gdv i (j + 1) - gdv i (j - 1)) * cT)) := by
      apply loopSum_congr
      intro j h1 h2
      have e : loopSum is ie (fun i => dgd i j * cosLat j) =
          loopSum is ie (fun i => (gdu (i + 1) j - gdu (i - 1) j) * cL +
            (gdv i (j + 1) - gdv i (j - 1)) * cT) := by
        apply loopSum_congr
        intro i h3 h4
        rw [hI i j h3 h4 h1 h2, ← hL j (by omega) (by omega), ← hT j (by omega) (by omega)]
        ring
      rw [e, loopSum_add, loopSum_mul_right, hzonal j h1 h2]
      simp
    rw [step1, loopSum_swap]
    have step2 : loopSum is ie
        (fun i => loopSum (js + 1) (je - 1) (fun j => (gdv i (j + 1) - gdv i (j - 1)) * cT)) =
        loopSum is ie (fun i => (gdv i (je - 1) - gdv i (js + 1)) * cT) := by
      apply loopSum_congr
      intro i h1 h2
      rw [loopSum_mul_right, hmerid i h1 h2]
    rw [step2, loopSum_mul_right]
    congr 1
    have : (fun i => gdv i (je - 1) - gdv i (js + 1)) =
        (fun i => gdv i (je - 1) + (-1) * gdv i (js + 1)) := by
      funext i
      ring
    rw [this, loopSum_add]
    have e3 : loopSum is ie (fun i => (-1) * gdv i (js + 1)) =
        - loopSum is ie (fun i => gdv i (js + 1)) := by
      have : (fun i => (-1) * gdv i (js + 1)) = (fun i => gdv i (js + 1) * (-1)) := by
        funext i
        ring
      rw [this, loopSum_mul_right]
      ring
    rw [e3]
    ring
  rw [loopSum_split_ends js je _ hj, hsouth, hnorth, hinner]
  ring

theorem one_div_mul_mul_cancel (a c : α) (hc : c ≠ 0) : 1 / (a * c) * c = 1 / a := by
  rw [one_div, mul_inv, mul_assoc, inv_mul_cancel₀ hc, mul_one, one_div]

theorem InitFactors.factorLon_mul_cosLat {m : BarotropicModel α} (hf : InitFactors m)
    (hc : CosLatNonzero m) (j : Int) (h1 : m.mesh.js FULL ≤ j) (h2 : j ≤ m.mesh.je FULL) :
    m.factorLon j * m.cosLat j = 1 / (2 * m.dlon * m.radius) := by
  rw [(hf j h1 h2).1, one_div_mul_mul_cancel _ _ (hc j h1 h2)]

theorem InitFactors.factorLat_mul_cosLat {m : BarotropicModel α} (hf : InitFactors m)
    (hc : CosLatNonzero m) (j : Int) (h1 : m.mesh.js FULL ≤ j) (h2 : j ≤ m.mesh.je FULL) :
    m.factorLat j * m.cosLat j = 1 / (2 * m.dlat * m.radius) := by
  rw [(hf j h1 h2).2, one_div_mul_mul_cancel _ _ (hc j h1 h2)]

theorem massTendencySum_eq (m : BarotropicModel α) :
    massTendencySum m = 0 + loopSum (m.mesh.js FULL) (m.mesh.je FULL)
      (fun j => loopSum (m.mesh.is FULL) (m.mesh.ie FULL) (fun i => m.dgd i j * m.cosLat j)) :=
  forLoop_forLoop_add _ _ _ _ _ _

theorem depthTendency_south (timeIdx : TimeLevelIndex) (m : BarotropicModel α) (i : Int)
    (h1 : m.mesh.is FULL ≤ i) (h2 : i ≤ m.mesh.ie FULL) (hj : m.mesh.js FULL < m.mesh.je FULL) :
    depthTendency timeIdx m i (m.mesh.js FULL) = southPoleTendency timeIdx m := by
  unfold depthTendency
  rw [if_pos ⟨h1, h2⟩, if_neg (by omega), if_pos rfl]

theorem depthTendency_north (timeIdx : TimeLevelIndex) (m : BarotropicModel α) (i : Int)
    (h1 : m.mesh.is FULL ≤ i) (h2 : i ≤ m.mesh.ie FULL) :
    depthTendency timeIdx m i (m.mesh.je FULL) = northPoleTendency timeIdx m := by
  unfold depthTendency
  rw [if_pos ⟨h1, h2⟩, if_pos rfl]

theorem depthTendency_interior (timeIdx : TimeLevelIndex) (m : BarotropicModel α) (i j : Int)
    (h1 : m.mesh.is FULL ≤ i) (h2 : i ≤ m.mesh.ie FULL)
    (h3 : m.mesh.js FULL + 1 ≤ j) (h4 : j ≤ m.mesh.je FULL - 1) :
    depthTendency timeIdx m i j =
      (massFluxU timeIdx m (i + 1) j - massFluxU timeIdx m (i - 1) j) * m.factorLon j +
        (massFluxV timeIdx m i (j + 1) - massFluxV timeIdx m i (j - 1)) * m.factorLat j := by
  unfold depthTendency
  rw [if_pos ⟨h1, h2⟩, if_neg (by omega), if_neg (by omega), if_pos ⟨h3, h4⟩]

theorem depthTendency_weighted_sum (timeIdx : TimeLevelIndex) (m : BarotropicModel α)
    (hmesh : m.mesh.WellFormed)
    (hut : PeriodicHalo m.mesh (m.ut timeIdx)) (hgdt : PeriodicHalo m.mesh (m.gdt timeIdx))
    (hgdv : ZeroAtPoles m.mesh m.gdv) (hcos : CosLatNonzero m) (hfac : InitFactors m) :
    loopSum (m.mesh.js FULL) (m.mesh.je FULL)
      (fun j => loopSum (m.mesh.is FULL) (m.mesh.ie FULL)
        (fun i => depthTendency timeIdx m i j * m.cosLat j)) = 0 := by
  obtain ⟨hi, hj, hn⟩ := hmesh
  apply divergence_sum_zero (m.mesh.is FULL) (m.mesh.ie FULL) (m.mesh.js FULL) (m.mesh.je FULL)
    (m.mesh.getNumGrid 0 FULL : α) (massFluxU timeIdx m) (massFluxV timeIdx m)
    (depthTendency timeIdx m) m.cosLat m.factorLon m.factorLat
    (1 / (2 * m.dlon * m.radius)) (1 / (2 * m.dlat * m.radius)) hi hj (by rw [hn])
  · intro j h1 h2
    obtain ⟨a1, a2⟩ := hut j (by omega) (by omega)
    obtain ⟨b1, b2⟩ := hgdt j (by omega) (by omega)
    have c1 : (m.mesh.js FULL + 1 ≤ j ∧ j ≤ m.mesh.je FULL - 1) := ⟨h1, h2⟩
    simp only [massFluxU, c1, true_and]
    rw [if_pos (by omega), if_pos (by omega), if_pos (by omega), if_pos (by omega),
      a1, a2, b1, b2]
    exact ⟨rfl, rfl⟩
  · intro i h1 h2
    obtain ⟨a1, a2⟩ := hgdv i h1 h2
    simp only [massFluxV]
    rw [if_neg (by omega), if_neg (by omega)]
    exact ⟨a1, a2⟩
  · exact fun j h1 h2 => hfac.factorLon_mul_cosLat hcos j h1 h2
  · exact fun j h1 h2 => hfac.factorLat_mul_cosLat hcos j h1 h2
  · intro i h1 h2
    rw [depthTendency_south timeIdx m i h1 h2 hj]
    rfl
  · intro i h1 h2
    rw [depthTendency_north timeIdx m i h1 h2]
    rfl
  · intro i j h1 h2 h3 h4
    exact depthTendency_interior timeIdx m i j h1 h2 h3 h4

theorem cosLat_loop (lo hi : Int) (m : BarotropicModel α) :
    forLoop lo hi
      (fun j m => { m with cosLat := setRow m.cosLat j (m.mesh.getCosLat FULL j) }) m =
    { m with
      cosLat := fun j => if lo ≤ j ∧ j ≤ hi then m.mesh.getCosLat FULL j else m.cosLat j } :=
  forLoop_cells (fun (m : BarotropicModel α) => m.cosLat) (fun m c => { m with cosLat := c })
    (fun j m _ => m.mesh.getCosLat FULL j)
    (fun j m => { m with cosLat := setRow m.cosLat j (m.mesh.getCosLat FULL j) })
    (fun _ _ => rfl) (fun _ _ _ => rfl) (fun _ => rfl) (fun _ _ _ => rfl) (fun _ _ => rfl)
    lo hi m

theorem tanLat_loop (lo hi : Int) (m : BarotropicModel α) :
    forLoop lo hi
      (fun j m => { m with tanLat := setRow m.tanLat j (m.mesh.getTanLat FULL j) }) m =
    { m with
      tanLat := fun j => if lo ≤ j ∧ j ≤ hi then m.mesh.getTanLat FULL j else m.tanLat j } :=
  forLoop_cells (fun (m : BarotropicModel α) => m.tanLat) (fun m c => { m with tanLat := c })
    (fun j m _ => m.mesh.getTanLat FULL j)
    (fun j m => { m with tanLat := setRow m.tanLat j (m.mesh.getTanLat FULL j) })
    (fun _ _ => rfl) (fun _ _ _ => rfl) (fun _ => rfl) (fun _ _ _ => rfl) (fun _ _ => rfl)
    lo hi m

theorem factorCor_loop (OMEGA : α) (lo hi : Int) (m : BarotropicModel α) :
    forLoop lo hi
      (fun j m =>
        { m with factorCor := setRow m.factorCor j (2 * OMEGA * m.mesh.getSinLat FULL j) }) m =
    { m with
      factorCor := fun j =>
        if lo ≤ j ∧ j ≤ hi then 2 * OMEGA * m.mesh.getSinLat FULL j else m.factorCor j } :=
  forLoop_cells (fun (m : BarotropicModel α) => m.factorCor)
    (fun m c => { m with factorCor := c })
    (fun j m _ => 2 * OMEGA * m.mesh.getSinLat FULL j)
    (fun j m =>
      { m with factorCor := setRow m.factorCor j (2 * OMEGA * m.mesh.getSinLat FULL j) })
    (fun _ _ => rfl) (fun _ _ _ => rfl) (fun _ => rfl) (fun _ _ _ => rfl) (fun _ _ => rfl)
    lo hi m

theorem factorCur_loop (lo hi : Int) (m : BarotropicModel α) :
    forLoop lo hi
      (fun j m => { m with factorCur := setRow m.factorCur j (m.tanLat j / m.radius) }) m =
    { m with
      factorCur := fun j => if lo ≤ j ∧ j ≤ hi then m.tanLat j / m.radius else m.factorCur j } :=
  forLoop_cells (fun (m : BarotropicModel α) => m.factorCur)
    (fun m c => { m with factorCur := c })
    (fun j m _ => m.tanLat j / m.radius)
    (fun j m => { m with factorCur := setRow m.factorCur j (m.tanLat j / m.radius) })
    (fun _ _ => rfl) (fun _ _ _ => rfl) (fun _ => rfl) (fun _ _ _ => rfl) (fun _ _ => rfl)
    lo hi m

theorem factorLon_loop (lo hi : Int) (m : BarotropicModel α) :
    forLoop lo hi
      (fun j m =>
        { m with
          factorLon := setRow m.factorLon j (1 / (2 * m.dlon * m.radius * m.cosLat j)) }) m =
    { m with
      factorLon := fun j =>
        if lo ≤ j ∧ j ≤ hi then 1 / (2 * m.dlon * m.radius * m.cosLat j) else m.factorLon j } :=
  forLoop_cells (fun (m : BarotropicModel α) => m.factorLon)
    (fun m c => { m with factorLon := c })
    (fun j m _ => 1 / (2 * m.dlon * m.radius * m.cosLat j))
    (fun j m =>
      { m with factorLon := setRow m.factorLon j (1 / (2 * m.dlon * m.radius * m.cosLat j)) })
    (fun _ _ => rfl) (fun _ _ _ => rfl) (fun _ => rfl) (fun _ _ _ => rfl) (fun _ _ => rfl)
    lo hi m

theorem factorLat_loop (lo hi : Int) (m : BarotropicModel α) :
    forLoop lo hi
      (fun j m =>
        { m with
          factorLat := setRow m.factorLat j (1 / (2 * m.dlat * m.radius * m.cosLat j)) }) m =
    { m with
      factorLat := fun j =>
        if lo ≤ j ∧ j ≤ hi then 1 / (2 * m.dlat * m.radius * m.cosLat j) else m.factorLat j } :=
  forLoop_cells (fun (m : BarotropicModel α) => m.factorLat)
    (fun m c => { m with factorLat := c })
    (fun j m _ => 1 / (2 * m.dlat * m.radius * m.cosLat j))
    (fun j m =>
      { m with factorLat := setRow m.factorLat j (1 / (2 * m.dlat * m.radius * m.cosLat j)) })
    (fun _ _ => rfl) (fun _ _ _ => rfl) (fun _ => rfl) (fun _ _ _ => rfl) (fun _ _ => rfl)
    lo hi m

theorem setCell_setCell_zero_poles (f : Field α) (i js je : Int) :
    setCell (setCell f i js 0) i je 0 =
      fun i' j' => if i' = i then (if j' = je then 0 else if j' = js then 0 else f i' j')
        else f i' j' := by
  funext i' j'
  by_cases h : i' = i <;> by_cases h' : j' = je <;> by_cases h'' : j' = js <;>
    simp [setCell, h, h', h'']

theorem pole_loop (lo hi : Int) (m : BarotropicModel α) :
    forLoop lo hi
      (fun i m =>
        let m : BarotropicModel α := { m with dut := setCell m.dut i (m.mesh.js FULL) 0 }
        let m : BarotropicModel α := { m with dut := setCell m.dut i (m.mesh.je FULL) 0 }
        let m : BarotropicModel α := { m with dvt := setCell m.dvt i (m.mesh.js FULL) 0 }
        let m : BarotropicModel α := { m with dvt := setCell m.dvt i (m.mesh.je FULL) 0 }
        let m : BarotropicModel α := { m with gdu := setCell m.gdu i (m.mesh.js FULL) 0 }
        let m : BarotropicModel α := { m with gdu := setCell m.gdu i (m.mesh.je FULL) 0 }
        let m : BarotropicModel α := { m with gdv := setCell m.gdv i (m.mesh.js FULL) 0 }
        { m with gdv := setCell m.gdv i (m.mesh.je FULL) 0 }) m =
    { m with
      dut := zeroPoleRows lo hi (m.mesh.js FULL) (m.mesh.je FULL) m.dut
      dvt := zeroPoleRows lo hi (m.mesh.js FULL) (m.mesh.je FULL) m.dvt
      gdu := zeroPoleRows lo hi (m.mesh.js FULL) (m.mesh.je FULL) m.gdu
      gdv := zeroPoleRows lo hi (m.mesh.js FULL) (m.mesh.je FULL) m.gdv } := by
  have h := forLoop_cells
    (fun (m : BarotropicModel α) i => (m.dut i, m.dvt i, m.gdu i, m.gdv i))
    (fun m c =>
      { m with
        dut := fun i => (c i).1
        dvt := fun i => (c i).2.1
        gdu := fun i => (c i).2.2.1
        gdv := fun i => (c i).2.2.2 })
    (fun _ m c =>
      (fun j => if j = m.mesh.je FULL then 0 else if j = m.mesh.js FULL then 0 else c.1 j,
       fun j => if j = m.mesh.je FULL then 0 else if j = m.mesh.js FULL then 0 else c.2.1 j,
       fun j => if j = m.mesh.je FULL then 0 else if j = m.mesh.js FULL then 0 else c.2.2.1 j,
       fun j => if j = m.mesh.je FULL then 0 else if j = m.mesh.js FULL then 0 else c.2.2.2 j))
    (fun i m =>
        let m : BarotropicModel α := { m with dut := setCell m.dut i (m.mesh.js FULL) 0 }
        let m : BarotropicModel α := { m with dut := setCell m.dut i (m.mesh.je FULL) 0 }
        let m : BarotropicModel α := { m with dvt := setCell m.dvt i (m.mesh.js FULL) 0 }
        let m : BarotropicModel α := { m with dvt := setCell m.dvt i (m.mesh.je FULL) 0 }
        let m : BarotropicModel α := { m with gdu := setCell m.gdu i (m.mesh.js FULL) 0 }
        let m : BarotropicModel α := { m with gdu := setCell m.gdu i (m.mesh.je FULL) 0 }
        let m : BarotropicModel α := { m with gdv := setCell m.gdv i (m.mesh.js FULL) 0 }
        { m with gdv := setCell m.gdv i (m.mesh.je FULL) 0 })
    (fun _ _ => rfl) (fun _ _ _ => rfl) (fun _ => rfl) (fun _ _ _ => rfl)
    (by
      intro i m
      dsimp only
      simp only [setCell_setCell_zero_poles]
      congr 1 <;> funext i' <;> by_cases h : i' = i <;> simp [h])
    lo hi m
  rw [h]
  clear h
  congr 1 <;> funext i' j' <;> simp only [zeroPoleRows] <;> split_ifs <;> simp_all

theorem initDomainAndMesh_eq (mesh : Mesh α) (m : BarotropicModel α) :
    initDomainAndMesh mesh m =
      { m with
        radius := 6.371e6
        mesh := mesh
        dlon := mesh.getGridInterval 0 FULL 0
        dlat := mesh.getGridInterval 1 FULL 0 } := rfl

theorem setCosLat_eq (m : BarotropicModel α) :
    setCosLat m = { m with cosLat := cosLatSet m } := by
  unfold setCosLat
  simp only [cosLat_loop]
  congr 1

theorem setTanLat_eq (m : BarotropicModel α) :
    setTanLat m = { m with tanLat := tanLatSet m } := by
  unfold setTanLat
  simp only [tanLat_loop]
  congr 1

theorem setFactorCor_eq (OMEGA : α) (m : BarotropicModel α) :
    setFactorCor OMEGA m =
      { m with
        factorCor := fun j =>
          if m.mesh.js FULL ≤ j ∧ j ≤ m.mesh.je FULL then 2 * OMEGA * m.mesh.getSinLat FULL j
          else m.factorCor j } :=
  factorCor_loop OMEGA _ _ m

theorem setFactorCur_eq (m : BarotropicModel α) :
    setFactorCur m =
      { m with
        factorCur := fun j =>
          if m.mesh.js FULL ≤ j ∧ j ≤ m.mesh.je FULL then m.tanLat j / m.radius
          else m.factorCur j } :=
  factorCur_loop _ _ m

theorem setFactorLon_eq (m : BarotropicModel α) :
    setFactorLon m =
      { m with
        factorLon := fun j =>
          if m.mesh.js FULL ≤ j ∧ j ≤ m.mesh.je FULL then
            1 / (2 * m.dlon * m.radius * m.cosLat j)
          else m.factorLon j } :=
  factorLon_loop _ _ m

theorem setFactorLat_eq (m : BarotropicModel α) :
    setFactorLat m =
      { m with
        factorLat := fun j =>
          if m.mesh.js FULL ≤ j ∧ j ≤ m.mesh.je FULL then
            1 / (2 * m.dlat * m.radius * m.cosLat j)
          else m.factorLat j } :=
  factorLat_loop _ _ m

theorem setPoleVariables_eq (m : BarotropicModel α) :
    setPoleVariables m =
      { m with
        dut := zeroPoleRows (m.mesh.is FULL - 1) (m.mesh.ie FULL + 1) (m.mesh.js FULL)
          (m.mesh.je FULL) m.dut
        dvt := zeroPoleRows (m.mesh.is FULL - 1) (m.mesh.ie FULL + 1) (m.mesh.js FULL)
          (m.mesh.je FULL) m.dvt
        gdu := zeroPoleRows (m.mesh.is FULL - 1) (m.mesh.ie FULL + 1) (m.mesh.js FULL)
          (m.mesh.je FULL) m.gdu
        gdv := zeroPoleRows (m.mesh.is FULL - 1) (m.mesh.ie FULL + 1) (m.mesh.js FULL)
          (m.mesh.je FULL) m.gdv } :=
  pole_loop _ _ m

/-- The state that `init` leaves, field by field. -/
theorem init_eq (mesh : Mesh α) (OMEGA : α) (m : BarotropicModel α) :
    init mesh OMEGA m =
      { m with
        radius := 6.371e6
        mesh := mesh
        dlon := mesh.getGridInterval 0 FULL 0
        dlat := mesh.getGridInterval 1 FULL 0
        cosLat := cosLatSet { m with mesh := mesh }
        tanLat := tanLatSet { m with mesh := mesh, cosLat := cosLatSet { m with mesh := mesh } }
        factorCor := fun j =>
          if mesh.js FULL ≤ j ∧ j ≤ mesh.je FULL then 2 * OMEGA * mesh.getSinLat FULL j
          else m.factorCor j
        factorCur := fun j =>
          if mesh.js FULL ≤ j ∧ j ≤ mesh.je FULL then
            tanLatSet { m with mesh := mesh, cosLat := cosLatSet { m with mesh := mesh } } j /
              6.371e6
          else m.factorCur j
        factorLon := fun j =>
          if mesh.js FULL ≤ j ∧ j ≤ mesh.je FULL then
            1 / (2 * mesh.getGridInterval 0 FULL 0 * 6.371e6 *
              cosLatSet { m with mesh := mesh } j)
          else m.factorLon j
        factorLat := fun j =>
          if mesh.js FULL ≤ j ∧ j ≤ mesh.je FULL then
            1 / (2 * mesh.getGridInterval 1 FULL 0 * 6.371e6 *
              cosLatSet { m with mesh := mesh } j)
          else m.factorLat j
        dut := zeroPoleRows (mesh.is FULL - 1) (mesh.ie FULL + 1) (mesh.js FULL) (mesh.je FULL)
          m.dut
        dvt := zeroPoleRows (mesh.is FULL - 1) (mesh.ie FULL + 1) (mesh.js FULL) (mesh.je FULL)
          m.dvt
        gdu := zeroPoleRows (mesh.is FULL - 1) (mesh.ie FULL + 1) (mesh.js FULL) (mesh.je FULL)
          m.gdu
        gdv := zeroPoleRows (mesh.is FULL - 1) (mesh.ie FULL + 1) (mesh.js FULL) (mesh.je FULL)
          m.gdv } := by
  unfold init
  simp only [initDomainAndMesh_eq, setCosLat_eq, setTanLat_eq, setFactorCor_eq, setFactorCur_eq,
    setFactorLon_eq, setFactorLat_eq, setPoleVariables_eq]
  congr 1

/-! ### The loops of the wind tendencies -/

theorem zonalFlux_loop (timeIdx : TimeLevelIndex) (jlo jhi : Int) (m : BarotropicModel α) :
    forLoop jlo jhi
      (fun j m => forLoop (m.mesh.is FULL - 1) (m.mesh.ie FULL + 1)
        (fun i m =>
          let m : BarotropicModel α :=
            { m with fu := setCell m.fu i j (m.ut timeIdx i j * m.u timeIdx i j) }
          { m with fv := setCell m.fv i j (m.ut timeIdx i j * m.v timeIdx i j * m.cosLat j) })
        m) m =
    { m with
      fu := fun i j =>
        if (jlo ≤ j ∧ j ≤ jhi) ∧ (m.mesh.is FULL - 1 ≤ i ∧ i ≤ m.mesh.ie FULL + 1)
        then m.ut timeIdx i j * m.u timeIdx i j else m.fu i j
      fv := fun i j =>
        if (jlo ≤ j ∧ j ≤ jhi) ∧ (m.mesh.is FULL - 1 ≤ i ∧ i ≤ m.mesh.ie FULL + 1)
        then m.ut timeIdx i j * m.v timeIdx i j * m.cosLat j else m.fv i j } := by
  have h := forLoop_forLoop_cells
    (fun (m : BarotropicModel α) i j => (m.fu i j, m.fv i j))
    (fun m c => { m with fu := fun i j => (c i j).1, fv := fun i j => (c i j).2 })
    (fun i j m _ => (m.ut timeIdx i j * m.u timeIdx i j,
      m.ut timeIdx i j * m.v timeIdx i j * m.cosLat j))
    (fun i j m =>
      let m : BarotropicModel α :=
        { m with fu := setCell m.fu i j (m.ut timeIdx i j * m.u timeIdx i j) }
      { m with fv := setCell m.fv i j (m.ut timeIdx i j * m.v timeIdx i j * m.cosLat j) })
    (fun m => m.mesh.is FULL - 1) (fun m => m.mesh.ie FULL + 1)
    (fun _ _ => rfl) (fun _ _ _ => rfl) (fun _ => rfl) (fun _ _ _ _ => rfl) (fun _ _ => rfl)
    (fun _ _ => rfl)
    (by
      intro i j m
      dsimp only
      congr 1 <;> funext i' j' <;> by_cases h : i' = i ∧ j' = j <;> simp [setCell, h])
    jlo jhi m
  rw [h]
  clear h
  congr 1 <;> funext i' j' <;> dsimp only <;> split_ifs <;> rfl

theorem meridionalFlux_loop (timeIdx : TimeLevelIndex) (jlo jhi : Int)
    (m : BarotropicModel α) :
    forLoop jlo jhi
      (fun j m => forLoop (m.mesh.is FULL - 1) (m.mesh.ie FULL + 1)
        (fun i m =>
          let m : BarotropicModel α :=
            { m with fu := setCell m.fu i j (m.vt timeIdx i j * m.u timeIdx i j) }
          { m with fv := setCell m.fv i j (m.vt timeIdx i j * m.v timeIdx i j * m.cosLat j) })
        m) m =
    { m with
      fu := fun i j =>
        if (jlo ≤ j ∧ j ≤ jhi) ∧ (m.mesh.is FULL - 1 ≤ i ∧ i ≤ m.mesh.ie FULL + 1)
        then m.vt timeIdx i j * m.u timeIdx i j else m.fu i j
      fv := fun i j =>
        if (jlo ≤ j ∧ j ≤ jhi) ∧ (m.mesh.is FULL - 1 ≤ i ∧ i ≤ m.mesh.ie FULL + 1)
        then m.vt timeIdx i j * m.v timeIdx i j * m.cosLat j else m.fv i j } := by
  have h := forLoop_forLoop_cells
    (fun (m : BarotropicModel α) i j => (m.fu i j, m.fv i j))
    (fun m c => { m with fu := fun i j => (c i j).1, fv := fun i j => (c i j).2 })
    (fun i j m _ => (m.vt timeIdx i j * m.u timeIdx i j,
      m.vt timeIdx i j * m.v timeIdx i j * m.cosLat j))
    (fun i j m =>
      let m : BarotropicModel α :=
        { m with fu := setCell m.fu i j (m.vt timeIdx i j * m.u timeIdx i j) }
      { m with fv := setCell m.fv i j (m.vt timeIdx i j * m.v timeIdx i j * m.cosLat j) })
    (fun m => m.mesh.is FULL - 1) (fun m => m.mesh.ie FULL + 1)
    (fun _ _ => rfl) (fun _ _ _ => rfl) (fun _ => rfl) (fun _ _ _ _ => rfl) (fun _ _ => rfl)
    (fun _ _ => rfl)
    (by
      intro i j m
      dsimp only
      congr 1 <;> funext i' j' <;> by_cases h : i' = i ∧ j' = j <;> simp [setCell, h])
    jlo jhi m
  rw [h]
  clear h
  congr 1 <;> funext i' j' <;> dsimp only <;> split_ifs <;> rfl

/-- A loop nest over the cells `is..ie` of the rows `jlo..jhi` that assigns to `dut(i, j)` a
value computed from the model and the old `dut(i, j)`. -/
theorem dut_loop (val : Int → Int → BarotropicModel α → α → α)
    (hval : ∀ i j m c, val i j { m with dut := c } = val i j m)
    (jlo jhi : Int) (m : BarotropicModel α) :
    forLoop jlo jhi
      (fun j m => forLoop (m.mesh.is FULL) (m.mesh.ie FULL)
        (fun i m => { m with dut := setCell m.dut i j (val i j m (m.dut i j)) }) m) m =
    { m with
      dut := fun i j =>
        if (jlo ≤ j ∧ j ≤ jhi) ∧ (m.mesh.is FULL ≤ i ∧ i ≤ m.mesh.ie FULL)
        then val i j m (m.dut i j) else m.dut i j } :=
  forLoop_forLoop_cells
    (fun (m : BarotropicModel α) => m.dut)
    (fun m c => { m with dut := c })
    val
    (fun i j m => { m with dut := setCell m.dut i j (val i j m (m.dut i j)) })
    (fun m => m.mesh.is FULL) (fun m => m.mesh.ie FULL)
    (fun _ _ => rfl) (fun _ _ _ => rfl) (fun _ => rfl) hval (fun _ _ => rfl)
    (fun _ _ => rfl)
    (fun _ _ _ => rfl)
    jlo jhi m

/-- A loop nest over the cells `is..ie` of the rows `jlo..jhi` that assigns to `dvt(i, j)` a
value computed from the model and the old `dvt(i, j)`. -/
theorem dvt_loop (val : Int → Int → BarotropicModel α → α → α)
    (hval : ∀ i j m c, val i j { m with dvt := c } = val i j m)
    (jlo jhi : Int) (m : BarotropicModel α) :
    forLoop jlo jhi
      (fun j m => forLoop (m.mesh.is FULL) (m.mesh.ie FULL)
        (fun i m => { m with dvt := setCell m.dvt i j (val i j m (m.dvt i j)) }) m) m =
    { m with
      dvt := fun i j =>
        if (jlo ≤ j ∧ j ≤ jhi) ∧ (m.mesh.is FULL ≤ i ∧ i ≤ m.mesh.ie FULL)
        then val i j m (m.dvt i j) else m.dvt i j } :=
  forLoop_forLoop_cells
    (fun (m : BarotropicModel α) => m.dvt)
    (fun m c => { m with dvt := c })
    val
    (fun i j m => { m with dvt := setCell m.dvt i j (val i j m (m.dvt i j)) })
    (fun m => m.mesh.is FULL) (fun m => m.mesh.ie FULL)
    (fun _ _ => rfl) (fun _ _ _ => rfl) (fun _ => rfl) hval (fun _ _ => rfl)
    (fun _ _ => rfl)
    (fun _ _ _ => rfl)
    jlo jhi m

/-- The state that `calcZonalWindAdvection` leaves, field by field. -/
theorem calcZonalWindAdvection_eq (timeIdx : TimeLevelIndex) (m : BarotropicModel α) :
    calcZonalWindAdvection timeIdx m =
      { m with
        fu := momentumFluxU m.ut timeIdx m
        fv := momentumFluxV m.ut timeIdx m
        dut := fun i j =>
          if InnerCell m.mesh i j then advectionValue m.ut timeIdx m i j else m.dut i j } := by
  unfold calcZonalWindAdvection
  simp only [zonalFlux_loop]
  exact dut_loop
    (fun i j m _ =>
      0.5 * ((m.fu (i + 1) j - m.fu (i - 1) j +
          m.u timeIdx i j * (m.ut timeIdx (i + 1) j - m.ut timeIdx (i - 1) j)) * m.factorLon j +
        (m.fv i (j + 1) - m.fv i (j - 1) +
          m.v timeIdx i j * (m.ut timeIdx i (j + 1) - m.ut timeIdx i (j - 1)) * m.cosLat j) *
          m.factorLat j))
    (fun _ _ _ _ => rfl) _ _ _

/-- The state that `calcMeridionalWindAdvection` leaves, field by field. -/
theorem calcMeridionalWindAdvection_eq (timeIdx : TimeLevelIndex) (m : BarotropicModel α) :
    calcMeridionalWindAdvection timeIdx m =
      { m with
        fu := momentumFluxU m.vt timeIdx m
        fv := momentumFluxV m.vt timeIdx m
        dvt := fun i j =>
          if InnerCell m.mesh i j then advectionValue m.vt timeIdx m i j else m.dvt i j } := by
  unfold calcMeridionalWindAdvection
  simp only [meridionalFlux_loop]
  exact dvt_loop
    (fun i j m _ =>
      0.5 * ((m.fu (i + 1) j - m.fu (i - 1) j +
          m.u timeIdx i j * (m.vt timeIdx (i + 1) j - m.vt timeIdx (i - 1) j)) * m.factorLon j +
        (m.fv i (j + 1) - m.fv i (j - 1) +
          m.v timeIdx i j * (m.vt timeIdx i (j + 1) - m.vt timeIdx i (j - 1)) * m.cosLat j) *
          m.factorLat j))
    (fun _ _ _ _ => rfl) _ _ _

/-- The state that `calcZonalWindCoriolis` leaves, field by field. -/
theorem calcZonalWindCoriolis_eq (timeIdx : TimeLevelIndex) (m : BarotropicModel α) :
    calcZonalWindCoriolis timeIdx m =
      { m with
        dut := fun i j =>
          if InnerCell m.mesh i j then
            m.dut i j - (m.factorCor j + m.u timeIdx i j * m.factorCur j) * m.vt timeIdx i j
          else m.dut i j } :=
  dut_loop
    (fun i j m d => d - (m.factorCor j + m.u timeIdx i j * m.factorCur j) * m.vt timeIdx i j)
    (fun _ _ _ _ => rfl) _ _ _

/-- The state that `calcMeridionalWindCoriolis` leaves, field by field. -/
theorem calcMeridionalWindCoriolis_eq (timeIdx : TimeLevelIndex) (m : BarotropicModel α) :
    calcMeridionalWindCoriolis timeIdx m =
      { m with
        dvt := fun i j =>
          if InnerCell m.mesh i j then
            m.dvt i j + (m.factorCor j + m.u timeIdx i j * m.factorCur j) * m.ut timeIdx i j
          else m.dvt i j } :=
  dvt_loop
    (fun i j m d => d + (m.factorCor j + m.u timeIdx i j * m.factorCur j) * m.ut timeIdx i j)
    (fun _ _ _ _ => rfl) _ _ _

/-- The state that `calcZonalWindPressureGradient` leaves, field by field. -/
theorem calcZonalWindPressureGradient_eq (timeIdx : TimeLevelIndex) (m : BarotropicModel α) :
    calcZonalWindPressureGradient timeIdx m =
      { m with
        dut := fun i j =>
          if InnerCell m.mesh i j then
            m.dut i j + (m.gd timeIdx (i + 1) j - m.gd timeIdx (i - 1) j +
                m.ghs (i + 1) j - m.ghs (i - 1) j) *
              m.factorLon j * m.gdt timeIdx i j
          else m.dut i j } :=
  dut_loop
    (fun i j m d => d + (m.gd timeIdx (i + 1) j - m.gd timeIdx (i - 1) j +
                m.ghs (i + 1) j - m.ghs (i - 1) j) *
              m.factorLon j * m.gdt timeIdx i j)
    (fun _ _ _ _ => rfl) _ _ _

/-- The state that `calcMeridionalWindPressureGradient` leaves, field by field. -/
theorem calcMeridionalWindPressureGradient_eq (timeIdx : TimeLevelIndex)
    (m : BarotropicModel α) :
    calcMeridionalWindPressureGradient timeIdx m =
      { m with
        dvt := fun i j =>
          if InnerCell m.mesh i j then
            m.dvt i j + (m.gd timeIdx i (j + 1) - m.gd timeIdx i (j - 1) +
                m.ghs i (j + 1) - m.ghs i (j - 1)) *
              m.factorLat j * m.cosLat j * m.gdt timeIdx i j
          else m.dvt i j } :=
  dvt_loop
    (fun i j m d => d + (m.gd timeIdx i (j + 1) - m.gd timeIdx i (j - 1) +
                m.ghs i (j + 1) - m.ghs i (j - 1)) *
              m.factorLat j * m.cosLat j * m.gdt timeIdx i j)
    (fun _ _ _ _ => rfl) _ _ _

/-- The state that `calcZonalWindTendency` leaves, field by field. -/
theorem calcZonalWindTendency_eq (timeIdx : TimeLevelIndex) (m : BarotropicModel α) :
    calcZonalWindTendency timeIdx m =
      { m with
        fu := momentumFluxU m.ut timeIdx m
        fv := momentumFluxV m.ut timeIdx m
        dut := fun i j =>
          if InnerCell m.mesh i j then zonalTendencyValue timeIdx m i j else m.dut i j } := by
  unfold calcZonalWindTendency
  simp only [calcZonalWindAdvection_eq, calcZonalWindCoriolis_eq,
    calcZonalWindPressureGradient_eq]
  congr 1
  funext i j
  by_cases h : InnerCell m.mesh i j
  · simp only [if_pos h]
    rfl
  · simp only [if_neg h]

/-- The state that `calcMeridionalWindTendency` leaves, field by field. -/
theorem calcMeridionalWindTendency_eq (timeIdx : TimeLevelIndex) (m : BarotropicModel α) :
    calcMeridionalWindTendency timeIdx m =
      { m with
        fu := momentumFluxU m.vt timeIdx m
        fv := momentumFluxV m.vt timeIdx m
        dvt := fun i j =>
          if InnerCell m.mesh i j then meridionalTendencyValue timeIdx m i j
          else m.dvt i j } := by
  unfold calcMeridionalWindTendency
  simp only [calcMeridionalWindAdvection_eq, calcMeridionalWindCoriolis_eq,
    calcMeridionalWindPressureGradient_eq]
  congr 1
  funext i j
  by_cases h : InnerCell m.mesh i j
  · simp only [if_pos h]
    rfl
  · simp only [if_neg h]

/-- The state that `updateGeopotentialDepth` leaves, field by field. -/
theorem updateGeopotentialDepth_eq (oldTimeIdx newTimeIdx : TimeLevelIndex) (dt : α)
    (m : BarotropicModel α) :
    updateGeopotentialDepth oldTimeIdx newTimeIdx dt m =
      { m with
        gd := fun t i j =>
          if t = newTimeIdx ∧ GridCell m.mesh i j then m.gd oldTimeIdx i j - dt * m.dgd i j
          else m.gd t i j } := by
  have h := forLoop_forLoop_cells
    (fun (m : BarotropicModel α) i j t => m.gd t i j)
    (fun m c => { m with gd := fun t i j => c i j t })
    (fun i j m col t => if t = newTimeIdx then col oldTimeIdx - dt * m.dgd i j else col t)
    (fun i j m =>
      { m with gd := setCellAt m.gd newTimeIdx i j (m.gd oldTimeIdx i j - dt * m.dgd i j) })
    (fun m => m.mesh.is FULL) (fun m => m.mesh.ie FULL)
    (fun _ _ => rfl) (fun _ _ _ => rfl) (fun _ => rfl) (fun _ _ _ _ => rfl) (fun _ _ => rfl)
    (fun _ _ => rfl)
    (by
      intro i j m
      dsimp only
      congr 1
      funext t i' j'
      by_cases h : i' = i ∧ j' = j <;> by_cases h' : t = newTimeIdx <;>
        simp [setCellAt, h, h'])
    (m.mesh.js FULL) (m.mesh.je FULL) m
  unfold updateGeopotentialDepth
  rw [h]
  clear h
  congr 1
  funext t i j
  by_cases h : GridCell m.mesh i j <;> by_cases h' : t = newTimeIdx <;>
    simp only [h, h', and_true, and_false, true_and, false_and, if_true, if_false] <;>
    simp only [GridCell] at h <;> simp [h, h']

/-- The state that `transformGeopotentialDepth` leaves, field by field. -/
theorem transformGeopotentialDepth_eq (sqrt : α → α) (newTimeIdx : TimeLevelIndex)
    (m : BarotropicModel α) :
    transformGeopotentialDepth sqrt newTimeIdx m =
      { m with
        gdt := fun t i j =>
          if t = newTimeIdx ∧ GridCell m.mesh i j then sqrt (m.gd newTimeIdx i j)
          else m.gdt t i j } := by
  have h := forLoop_forLoop_cells
    (fun (m : BarotropicModel α) i j t => m.gdt t i j)
    (fun m c => { m with gdt := fun t i j => c i j t })
    (fun i j m col t => if t = newTimeIdx then sqrt (m.gd newTimeIdx i j) else col t)
    (fun i j m =>
      { m with gdt := setCellAt m.gdt newTimeIdx i j (sqrt (m.gd newTimeIdx i j)) })
    (fun m => m.mesh.is FULL) (fun m => m.mesh.ie FULL)
    (fun _ _ => rfl) (fun _ _ _ => rfl) (fun _ => rfl) (fun _ _ _ _ => rfl) (fun _ _ => rfl)
    (fun _ _ => rfl)
    (by
      intro i j m
      dsimp only
      congr 1
      funext t i' j'
      by_cases h : i' = i ∧ j' = j <;> by_cases h' : t = newTimeIdx <;>
        simp [setCellAt, h, h'])
    (m.mesh.js FULL) (m.mesh.je FULL) m
  unfold transformGeopotentialDepth
  rw [h]
  clear h
  congr 1
  funext t i j
  by_cases h : GridCell m.mesh i j <;> by_cases h' : t = newTimeIdx <;>
    simp only [h, h', and_true, and_false, true_and, false_and, if_true, if_false] <;>
    simp only [GridCell] at h <;> simp [h, h']

/-- The state that `updateVelocity` leaves, field by field. -/
theorem updateVelocity_eq (oldTimeIdx newTimeIdx : TimeLevelIndex) (dt : α)
    (m : BarotropicModel α) :
    updateVelocity oldTimeIdx newTimeIdx dt m =
      { m with
        ut := fun t i j =>
          if t = newTimeIdx ∧ GridCell m.mesh i j then m.ut oldTimeIdx i j - dt * m.dut i j
          else m.ut t i j
        vt := fun t i j =>
          if t = newTimeIdx ∧ GridCell m.mesh i j then m.vt oldTimeIdx i j - dt * m.dvt i j
          else m.vt t i j } := by
  have h := forLoop_forLoop_cells
    (fun (m : BarotropicModel α) i j => (fun t => m.ut t i j, fun t => m.vt t i j))
    (fun m c => { m with ut := fun t i j => (c i j).1 t, vt := fun t i j => (c i j).2 t })
    (fun i j m col =>
      (fun t => if t = newTimeIdx then col.1 oldTimeIdx - dt * m.dut i j else col.1 t,
       fun t => if t = newTimeIdx then col.2 oldTimeIdx - dt * m.dvt i j else col.2 t))
    (fun i j m =>
      let m : BarotropicModel α :=
        { m with ut := setCellAt m.ut newTimeIdx i j (m.ut oldTimeIdx i j - dt * m.dut i j) }
      { m with vt := setCellAt m.vt newTimeIdx i j (m.vt oldTimeIdx i j - dt * m.dvt i j) })
    (fun m => m.mesh.is FULL) (fun m => m.mesh.ie FULL)
    (fun _ _ => rfl) (fun _ _ _ => rfl) (fun _ => rfl) (fun _ _ _ _ => rfl) (fun _ _ => rfl)
    (fun _ _ => rfl)
    (by
      intro i j m
      dsimp only
      congr 1 <;> funext t i' j' <;>
      by_cases h : i' = i ∧ j' = j <;> by_cases h' : t = newTimeIdx <;>
        simp [setCellAt, h, h'])
    (m.mesh.js FULL) (m.mesh.je FULL) m
  unfold updateVelocity
  rw [h]
  clear h
  congr 1 <;> funext t i j <;>
  by_cases h : GridCell m.mesh i j <;> by_cases h' : t = newTimeIdx <;>
    simp only [h, h', and_true, and_false, true_and, false_and, if_true, if_false] <;>
    simp only [GridCell] at h <;> simp [h, h']

/-- The state that `transformBackVelocity` leaves, field by field. -/
theorem transformBackVelocity_eq (newTimeIdx : TimeLevelIndex) (m : BarotropicModel α) :
    transformBackVelocity newTimeIdx m =
      { m with
        u := fun t i j =>
          if t = newTimeIdx ∧ GridCell m.mesh i j then
            m.ut newTimeIdx i j / m.gdt newTimeIdx i j
          else m.u t i j
        v := fun t i j =>
          if t = newTimeIdx ∧ GridCell m.mesh i j then
            m.vt newTimeIdx i j / m.gdt newTimeIdx i j
          else m.v t i j } := by
  have h := forLoop_forLoop_cells
    (fun (m : BarotropicModel α) i j => (fun t => m.u t i j, fun t => m.v t i j))
    (fun m c => { m with u := fun t i j => (c i j).1 t, v := fun t i j => (c i j).2 t })
    (fun i j m col =>
      (fun t => if t = newTimeIdx then m.ut newTimeIdx i j / m.gdt newTimeIdx i j else col.1 t,
       fun t => if t = newTimeIdx then m.vt newTimeIdx i j / m.gdt newTimeIdx i j else col.2 t))
    (fun i j m =>
      let m : BarotropicModel α :=
        { m with u := setCellAt m.u newTimeIdx i j (m.ut newTimeIdx i j / m.gdt newTimeIdx i j) }
      { m with v := setCellAt m.v newTimeIdx i j (m.vt newTimeIdx i j / m.gdt newTimeIdx i j) })
    (fun m => m.mesh.is FULL) (fun m => m.mesh.ie FULL)
    (fun _ _ => rfl) (fun _ _ _ => rfl) (fun _ => rfl) (fun _ _ _ _ => rfl) (fun _ _ => rfl)
    (fun _ _ => rfl)
    (by
      intro i j m
      dsimp only
      congr 1 <;> funext t i' j' <;>
      by_cases h : i' = i ∧ j' = j <;> by_cases h' : t = newTimeIdx <;>
        simp [setCellAt, h, h'])
    (m.mesh.js FULL) (m.mesh.je FULL) m
  unfold transformBackVelocity
  rw [h]
  clear h
  congr 1 <;> funext t i j <;>
  by_cases h : GridCell m.mesh i j <;> by_cases h' : t = newTimeIdx <;>
    simp only [h, h', and_true, and_false, true_and, false_and, if_true, if_false] <;>
    simp only [GridCell] at h <;> simp [h, h']

/-- The state that `copyStates` leaves, field by field, when the old and the half level are
different slots. -/
theorem copyStates_eq (sqrt : α → α) (oldTimeIdx halfTimeIdx : TimeLevelIndex)
    (hne : oldTimeIdx ≠ halfTimeIdx) (m : BarotropicModel α) :
    copyStates sqrt oldTimeIdx halfTimeIdx m =
      { m with
        u := fun t i j =>
          if t = halfTimeIdx ∧ HaloCell m.mesh i j then m.u oldTimeIdx i j else m.u t i j
        v := fun t i j =>
          if t = halfTimeIdx ∧ HaloCell m.mesh i j then m.v oldTimeIdx i j else m.v t i j
        gd := fun t i j =>
          if t = halfTimeIdx ∧ HaloCell m.mesh i j then m.gd oldTimeIdx i j else m.gd t i j
        gdt := fun t i j =>
          if (t = halfTimeIdx ∨ t = oldTimeIdx) ∧ HaloCell m.mesh i j then
            sqrt (m.gd oldTimeIdx i j)
          else m.gdt t i j
        ut := fun t i j =>
          if (t = halfTimeIdx ∨ t = oldTimeIdx) ∧ HaloCell m.mesh i j then
            m.u oldTimeIdx i j * sqrt (m.gd oldTimeIdx i j)
          else m.ut t i j
        vt := fun t i j =>
          if (t = halfTimeIdx ∨ t = oldTimeIdx) ∧ HaloCell m.mesh i j then
            m.v oldTimeIdx i j * sqrt (m.gd oldTimeIdx i j)
          else m.vt t i j
        firstRun := false } := by
  have hne' : halfTimeIdx ≠ oldTimeIdx := Ne.symm hne
  have h := forLoop_forLoop_cells
    (fun (m : BarotropicModel α) i j =>
      (fun t => m.u t i j, fun t => m.v t i j, fun t => m.gd t i j, fun t => m.gdt t i j,
        fun t => m.ut t i j, fun t => m.vt t i j))
    (fun m c =>
      { m with
        u := fun t i j => (c i j).1 t
        v := fun t i j => (c i j).2.1 t
        gd := fun t i j => (c i j).2.2.1 t
        gdt := fun t i j => (c i j).2.2.2.1 t
        ut := fun t i j => (c i j).2.2.2.2.1 t
        vt := fun t i j => (c i j).2.2.2.2.2 t })
    (fun _ _ _ col =>
      (fun t => if t = halfTimeIdx then col.1 oldTimeIdx else col.1 t,
       fun t => if t = halfTimeIdx then col.2.1 oldTimeIdx else col.2.1 t,
       fun t => if t = halfTimeIdx then col.2.2.1 oldTimeIdx else col.2.2.1 t,
       fun t => if t = halfTimeIdx ∨ t = oldTimeIdx then sqrt (col.2.2.1 oldTimeIdx)
         else col.2.2.2.1 t,
       fun t => if t = halfTimeIdx ∨ t = oldTimeIdx then
           col.1 oldTimeIdx * sqrt (col.2.2.1 oldTimeIdx)
         else col.2.2.2.2.1 t,
       fun t => if t = halfTimeIdx ∨ t = oldTimeIdx then
           col.2.1 oldTimeIdx * sqrt (col.2.2.1 oldTimeIdx)
         else col.2.2.2.2.2 t))
    (fun i j m =>
        let m : BarotropicModel α :=
          { m with u := setCellAt m.u halfTimeIdx i j (m.u oldTimeIdx i j) }
        let m : BarotropicModel α :=
          { m with v := setCellAt m.v halfTimeIdx i j (m.v oldTimeIdx i j) }
        let m : BarotropicModel α :=
          { m with gd := setCellAt m.gd halfTimeIdx i j (m.gd oldTimeIdx i j) }
        let m : BarotropicModel α :=
          { m with gdt := setCellAt m.gdt oldTimeIdx i j (sqrt (m.gd oldTimeIdx i j)) }
        let m : BarotropicModel α :=
          { m with gdt := setCellAt m.gdt halfTimeIdx i j (m.gdt oldTimeIdx i j) }
        let m : BarotropicModel α :=
          { m with
            ut := setCellAt m.ut oldTimeIdx i j (m.u oldTimeIdx i j * m.gdt oldTimeIdx i j) }
        let m : BarotropicModel α :=
          { m with ut := setCellAt m.ut halfTimeIdx i j (m.ut oldTimeIdx i j) }
        let m : BarotropicModel α :=
          { m with
            vt := setCellAt m.vt oldTimeIdx i j (m.v oldTimeIdx i j * m.gdt oldTimeIdx i j) }
        { m with vt := setCellAt m.vt halfTimeIdx i j (m.vt oldTimeIdx i j) })
    (fun m => m.mesh.is FULL - 1) (fun m => m.mesh.ie FULL + 1)
    (fun _ _ => rfl) (fun _ _ _ => rfl) (fun _ => rfl) (fun _ _ _ _ => rfl) (fun _ _ => rfl)
    (fun _ _ => rfl)
    (by
      intro i j m
      dsimp only
      congr 1 <;> funext t i' j' <;>
      by_cases h : i' = i ∧ j' = j <;> by_cases h' : t = halfTimeIdx <;>
      by_cases h'' : t = oldTimeIdx <;>
        simp [setCellAt, h, h', h'', hne, hne'] <;> simp_all)
    (m.mesh.js FULL) (m.mesh.je FULL) m
  unfold copyStates
  rw [h]
  clear h
  dsimp only
  congr 1 <;> funext t i j <;> by_cases h : HaloCell m.mesh i j
  all_goals
    first
    | (have h2 : (m.mesh.js FULL ≤ j ∧ j ≤ m.mesh.je FULL) ∧
          (m.mesh.is FULL - 1 ≤ i ∧ i ≤ m.mesh.ie FULL + 1) := h
       simp only [if_pos h2, h, and_true])
    | (have h2 : ¬((m.mesh.js FULL ≤ j ∧ j ≤ m.mesh.je FULL) ∧
          (m.mesh.is FULL - 1 ≤ i ∧ i ≤ m.mesh.ie FULL + 1)) := h
       simp only [if_neg h2, h, and_false, if_false])

/-! ### The boundary-condition pass -/

theorem applyBndCondGd_eq (timeIdx : TimeLevelIndex) (m : BarotropicModel α) :
    applyBndCondGd timeIdx m = { m with gd := applyBndCond m.mesh m.gd timeIdx true } := rfl

theorem applyBndCondGdt_eq (timeIdx : TimeLevelIndex) (m : BarotropicModel α) :
    applyBndCondGdt timeIdx m = { m with gdt := applyBndCond m.mesh m.gdt timeIdx true } := rfl

theorem applyBndCondUt_eq (timeIdx : TimeLevelIndex) (m : BarotropicModel α) :
    applyBndCondUt timeIdx m = { m with ut := applyBndCond m.mesh m.ut timeIdx true } := rfl

theorem applyBndCondVt_eq (timeIdx : TimeLevelIndex) (m : BarotropicModel α) :
    applyBndCondVt timeIdx m = { m with vt := applyBndCond m.mesh m.vt timeIdx true } := rfl

theorem applyBndCondU_eq (timeIdx : TimeLevelIndex) (m : BarotropicModel α) :
    applyBndCondU timeIdx m = { m with u := applyBndCond m.mesh m.u timeIdx true } := rfl

theorem applyBndCondV_eq (timeIdx : TimeLevelIndex) (m : BarotropicModel α) :
    applyBndCondV timeIdx m = { m with v := applyBndCond m.mesh m.v timeIdx true } := rfl

theorem fillHalo_gridCell (mesh : Mesh α) (f : Field α) (i j : Int) (h : GridCell mesh i j) :
    fillHalo mesh f i j = f i j := by
  obtain ⟨⟨h1, h2⟩, h3, h4⟩ := h
  unfold fillHalo poleReflect periodicWrap
  rw [if_neg (by omega), if_neg (by omega), if_neg (by omega), if_neg (by omega)]

theorem fillHalo_west (mesh : Mesh α) (f : Field α) (j : Int)
    (h1 : mesh.js FULL ≤ j) (h2 : j ≤ mesh.je FULL) :
    fillHalo mesh f (mesh.is FULL - 1) j = f (mesh.ie FULL) j := by
  unfold fillHalo poleReflect periodicWrap
  rw [if_neg (by omega), if_neg (by omega), if_pos rfl]

theorem fillHalo_east (mesh : Mesh α) (f : Field α) (j : Int)
    (h1 : mesh.js FULL ≤ j) (h2 : j ≤ mesh.je FULL) (h3 : mesh.is FULL ≤ mesh.ie FULL) :
    fillHalo mesh f (mesh.ie FULL + 1) j = f (mesh.is FULL) j := by
  unfold fillHalo poleReflect periodicWrap
  rw [if_neg (by omega), if_neg (by omega), if_neg (by omega), if_pos rfl]

theorem fillHalo_periodic (mesh : Mesh α) (f : Field α) (h : mesh.is FULL ≤ mesh.ie FULL) :
    PeriodicHalo mesh (fillHalo mesh f) := by
  intro j h1 h2
  rw [fillHalo_west mesh f j h1 h2, fillHalo_east mesh f j h1 h2 h,
    fillHalo_gridCell mesh f _ j ⟨⟨h1, h2⟩, h, le_refl _⟩,
    fillHalo_gridCell mesh f _ j ⟨⟨h1, h2⟩, le_refl _, h⟩]
  exact ⟨rfl, rfl⟩

/-- The levels of a field once `applyBndCond(newTimeIdx, UPDATE_HALF_LEVEL)` has run. -/
theorem applyBndCond_eq (mesh : Mesh α) (f : TimeField α) (k : Bool) :
    applyBndCond mesh f (.full (!k)) true =
      fun t =>
        if t = .half then
          fun i j => (f (.full k) i j + fillHalo mesh (f (.full (!k))) i j) * 0.5
        else if t = .full (!k) then fillHalo mesh (f (.full (!k)))
        else f t := by
  funext t
  cases t with
  | half =>
    cases k <;> simp [applyBndCond, TimeLevelIndex.plusHalf, TimeLevelIndex.plusOne, fillHalo]
  | full b =>
    cases k <;> cases b <;>
      simp [applyBndCond, TimeLevelIndex.plusHalf, TimeLevelIndex.plusOne, fillHalo]

theorem applyBndCond_old (mesh : Mesh α) (f : TimeField α) (k : Bool) :
    applyBndCond mesh f (.full (!k)) true (.full k) = f (.full k) := by
  rw [applyBndCond_eq]
  cases k <;> simp

theorem applyBndCond_new (mesh : Mesh α) (f : TimeField α) (k : Bool) :
    applyBndCond mesh f (.full (!k)) true (.full (!k)) = fillHalo mesh (f (.full (!k))) := by
  rw [applyBndCond_eq]
  simp

theorem applyBndCond_half (mesh : Mesh α) (f : TimeField α) (k : Bool) :
    applyBndCond mesh f (.full (!k)) true .half =
      fun i j => (f (.full k) i j + fillHalo mesh (f (.full (!k))) i j) * 0.5 := by
  rw [applyBndCond_eq]
  simp

/-! ### One pass of the iteration loop, field by field -/

/-- The state that one pass of the iteration loop leaves, field by field. -/
theorem iterationBody_eq (sqrt : α → α) (oldTimeIdx halfTimeIdx newTimeIdx : TimeLevelIndex)
    (dt : α) (m : BarotropicModel α) :
    iterationBody sqrt oldTimeIdx halfTimeIdx newTimeIdx dt m =
      { m with
        gdu := massFluxU halfTimeIdx m
        gdv := massFluxV halfTimeIdx m
        dgd := depthTendency halfTimeIdx m
        gd := newGd oldTimeIdx halfTimeIdx newTimeIdx dt m
        gdt := newGdt sqrt oldTimeIdx halfTimeIdx newTimeIdx dt m
        fu := momentumFluxU m.vt halfTimeIdx
          (zonalStage sqrt oldTimeIdx halfTimeIdx newTimeIdx dt m)
        fv := momentumFluxV m.vt halfTimeIdx
          (zonalStage sqrt oldTimeIdx halfTimeIdx newTimeIdx dt m)
        dut := newDut sqrt oldTimeIdx halfTimeIdx newTimeIdx dt m
        dvt := newDvt sqrt oldTimeIdx halfTimeIdx newTimeIdx dt m
        ut := newUt sqrt oldTimeIdx halfTimeIdx newTimeIdx dt m
        vt := newVt sqrt oldTimeIdx halfTimeIdx newTimeIdx dt m
        u := newU sqrt oldTimeIdx halfTimeIdx newTimeIdx dt m
        v := newV sqrt oldTimeIdx halfTimeIdx newTimeIdx dt m } := by
  unfold iterationBody
  simp only [calcGeopotentialDepthTendency_eq, updateGeopotentialDepth_eq, applyBndCondGd_eq,
    transformGeopotentialDepth_eq, applyBndCondGdt_eq, calcZonalWindTendency_eq,
    calcMeridionalWindTendency_eq, updateVelocity_eq, applyBndCondUt_eq, applyBndCondVt_eq,
    transformBackVelocity_eq, applyBndCondU_eq, applyBndCondV_eq]
  rfl

/-! ### The iteration loop -/

theorem runIterations_zero (sqrt : α → α) (o h n : TimeLevelIndex) (dt e0 : α) (iter : Nat)
    (m : BarotropicModel α) : runIterations sqrt o h n dt e0 0 iter m = (iter, m) := rfl

theorem runIterations_succ (sqrt : α → α) (o h n : TimeLevelIndex) (dt e0 : α)
    (remaining iter : Nat) (m : BarotropicModel α) :
    runIterations sqrt o h n dt e0 (remaining + 1) iter m =
      if energyCriterion e0 (calcTotalEnergy n (iterationBody sqrt o h n dt m)) then
        (iter, iterationBody sqrt o h n dt m)
      else runIterations sqrt o h n dt e0 remaining (iter + 1) (iterationBody sqrt o h n dt m) :=
  rfl

/-- A loop whose test fails in each of its `remaining` passes runs them all. -/
theorem runIterations_exhausted (sqrt : α → α) (o h n : TimeLevelIndex) (dt e0 : α)
    (remaining iter : Nat) (m : BarotropicModel α)
    (hc : ∀ k, 1 ≤ k → k ≤ remaining →
      energyCriterion e0 (calcTotalEnergy n ((iterationBody sqrt o h n dt)^[k] m)) = false) :
    runIterations sqrt o h n dt e0 remaining iter m =
      (iter + remaining, (iterationBody sqrt o h n dt)^[remaining] m) := by
  induction remaining generalizing iter m with
  | zero => rfl
  | succ r ih =>
    rw [runIterations_succ]
    have h1 := hc 1 (le_refl _) (by omega)
    rw [Function.iterate_one] at h1
    rw [h1]
    simp only [Bool.false_eq_true, if_false]
    rw [ih]
    · rw [Function.iterate_succ_apply]
      congr 1
      omega
    · intro k hk1 hk2
      have := hc (k + 1) (by omega) (by omega)
      rwa [Function.iterate_succ_apply] at this

/-- A loop whose test first succeeds in pass `k` stops there, with the loop variable at its value
of pass `k`. -/
theorem runIterations_break (sqrt : α → α) (o h n : TimeLevelIndex) (dt e0 : α)
    (remaining iter k : Nat) (m : BarotropicModel α) (hk1 : 1 ≤ k) (hk2 : k ≤ remaining)
    (hc : ∀ k', 1 ≤ k' → k' < k →
      energyCriterion e0 (calcTotalEnergy n ((iterationBody sqrt o h n dt)^[k'] m)) = false)
    (hk : energyCriterion e0 (calcTotalEnergy n ((iterationBody sqrt o h n dt)^[k] m)) = true) :
    runIterations sqrt o h n dt e0 remaining iter m =
      (iter + k - 1, (iterationBody sqrt o h n dt)^[k] m) := by
  induction remaining generalizing iter m k with
  | zero => omega
  | succ r ih =>
    rw [runIterations_succ]
    by_cases h1 : k = 1
    · subst h1
      rw [Function.iterate_one] at hk
      rw [hk]
      simp
    · have hf := hc 1 (le_refl _) (by omega)
      rw [Function.iterate_one] at hf
      rw [hf]
      simp only [Bool.false_eq_true, if_false]
      rw [ih (iter + 1) (k - 1) _ (by omega) (by omega)]
      · have e : (k - 1).succ = k := by omega
        rw [← Function.iterate_succ_apply, e]
        congr 1
        omega
      · intro k' h1' h2'
        have := hc (k' + 1) (by omega) (by omega)
        rwa [Function.iterate_succ_apply] at this
      · have e : (k - 1).succ = k := by omega
        rw [← Function.iterate_succ_apply, e]
        exact hk

theorem integrate_eq (sqrt : α → α) (oldTimeIdx : TimeLevelIndex) (dt : α)
    (m : BarotropicModel α) :
    integrate sqrt oldTimeIdx dt m =
      runIterations sqrt oldTimeIdx oldTimeIdx.plusHalf oldTimeIdx.plusOne dt
        (calcTotalEnergy oldTimeIdx (startState sqrt oldTimeIdx m)) 8 1
        (startState sqrt oldTimeIdx m) := rfl

/-- When the test fails in each of the eight passes, `integrate` runs them all. -/
theorem integrate_exhausted (sqrt : α → α) (oldTimeIdx : TimeLevelIndex) (dt : α)
    (m : BarotropicModel α)
    (hc : ∀ k, 1 ≤ k → k ≤ 8 → criterionAt sqrt oldTimeIdx dt k m = false) :
    integrate sqrt oldTimeIdx dt m = (9, afterPasses sqrt oldTimeIdx dt 8 m) := by
  rw [integrate_eq, runIterations_exhausted _ _ _ _ _ _ _ _ _ hc]
  rfl

/-- When the test first succeeds in pass `k`, `integrate` stops there with `iter = k`. -/
theorem integrate_break (sqrt : α → α) (oldTimeIdx : TimeLevelIndex) (dt : α)
    (m : BarotropicModel α) (k : Nat) (hk1 : 1 ≤ k) (hk2 : k ≤ 8)
    (hc : ∀ k', 1 ≤ k' → k' < k → criterionAt sqrt oldTimeIdx dt k' m = false)
    (hk : criterionAt sqrt oldTimeIdx dt k m = true) :
    integrate sqrt oldTimeIdx dt m = (k, afterPasses sqrt oldTimeIdx dt k m) := by
  rw [integrate_eq, runIterations_break _ _ _ _ _ _ _ _ k _ hk1 hk2 hc hk]
  congr 1
  omega

/-- Either some pass of `integrate` is the first whose test succeeds, or none of the eight
is. -/
theorem criterion_first_or_never (sqrt : α → α) (oldTimeIdx : TimeLevelIndex) (dt : α)
    (m : BarotropicModel α) :
    (∃ k, 1 ≤ k ∧ k ≤ 8 ∧ criterionAt sqrt oldTimeIdx dt k m = true ∧
      ∀ k', 1 ≤ k' → k' < k → criterionAt sqrt oldTimeIdx dt k' m = false) ∨
    (∀ k, 1 ≤ k → k ≤ 8 → criterionAt sqrt oldTimeIdx dt k m = false) := by
  by_cases h : ∃ k, (1 ≤ k ∧ k ≤ 8) ∧ criterionAt sqrt oldTimeIdx dt k m = true
  · left
    classical
    refine ⟨Nat.find h, (Nat.find_spec h).1.1, (Nat.find_spec h).1.2, (Nat.find_spec h).2, ?_⟩
    intro k' h1 h2
    have hmin := Nat.find_min h h2
    have hle : Nat.find h ≤ 8 := (Nat.find_spec h).1.2
    by_contra hne
    exact hmin ⟨⟨h1, by omega⟩, by simpa using hne⟩
  · right
    intro k h1 h2
    by_contra hne
    exact h ⟨k, ⟨h1, h2⟩, by simpa using hne⟩

/-! ### What one pass leaves in each field -/

section pass

variable (sqrt : α → α) (k : Bool) (dt : α) (m : BarotropicModel α)

theorem full_ne_not (k : Bool) : TimeLevelIndex.full k ≠ TimeLevelIndex.full (!k) := by
  cases k <;> simp

theorem iterationBody_mesh :
    (iterationBody sqrt (.full k) .half (.full (!k)) dt m).mesh = m.mesh := by
  rw [iterationBody_eq]

theorem iterationBody_cosLat :
    (iterationBody sqrt (.full k) .half (.full (!k)) dt m).cosLat = m.cosLat := by
  rw [iterationBody_eq]

theorem iterationBody_factorLon :
    (iterationBody sqrt (.full k) .half (.full (!k)) dt m).factorLon = m.factorLon := by
  rw [iterationBody_eq]

theorem iterationBody_factorLat :
    (iterationBody sqrt (.full k) .half (.full (!k)) dt m).factorLat = m.factorLat := by
  rw [iterationBody_eq]

theorem iterationBody_factorCor :
    (iterationBody sqrt (.full k) .half (.full (!k)) dt m).factorCor = m.factorCor := by
  rw [iterationBody_eq]

theorem iterationBody_factorCur :
    (iterationBody sqrt (.full k) .half (.full (!k)) dt m).factorCur = m.factorCur := by
  rw [iterationBody_eq]

theorem iterationBody_dlon :
    (iterationBody sqrt (.full k) .half (.full (!k)) dt m).dlon = m.dlon := by
  rw [iterationBody_eq]

theorem iterationBody_dlat :
    (iterationBody sqrt (.full k) .half (.full (!k)) dt m).dlat = m.dlat := by
  rw [iterationBody_eq]

theorem iterationBody_radius :
    (iterationBody sqrt (.full k) .half (.full (!k)) dt m).radius = m.radius := by
  rw [iterationBody_eq]

theorem iterationBody_ghs :
    (iterationBody sqrt (.full k) .half (.full (!k)) dt m).ghs = m.ghs := by
  rw [iterationBody_eq]

theorem iterationBody_firstRun :
    (iterationBody sqrt (.full k) .half (.full (!k)) dt m).firstRun = m.firstRun := by
  rw [iterationBody_eq]

/-- After the pass of a field that writes the cells of the new level, the old level is
untouched. -/
theorem applyBndCond_update_old (mesh : Mesh α) (f : TimeField α) (x : Int → Int → α) :
    applyBndCond mesh
      (fun t i j => if t = .full (!k) ∧ GridCell mesh i j then x i j else f t i j)
      (.full (!k)) true (.full k) = f (.full k) := by
  rw [applyBndCond_old]
  funext i j
  rw [if_neg (fun h => full_ne_not k h.1)]

/-- After the pass of a field that writes the cells of the new level, the new level holds
the written values with their halo. -/
theorem applyBndCond_update_new (mesh : Mesh α) (f : TimeField α) (x : Int → Int → α) :
    applyBndCond mesh
      (fun t i j => if t = .full (!k) ∧ GridCell mesh i j then x i j else f t i j)
      (.full (!k)) true (.full (!k)) =
    fillHalo mesh (fun i j => if GridCell mesh i j then x i j else f (.full (!k)) i j) := by
  rw [applyBndCond_new]
  congr 1
  funext i j
  simp only [true_and]

theorem applyBndCond_update_new_cell (mesh : Mesh α) (f : TimeField α) (x : Int → Int → α)
    (i j : Int) (h : GridCell mesh i j) :
    applyBndCond mesh
      (fun t i j => if t = .full (!k) ∧ GridCell mesh i j then x i j else f t i j)
      (.full (!k)) true (.full (!k)) i j = x i j := by
  rw [applyBndCond_update_new, fillHalo_gridCell _ _ _ _ h, if_pos h]

/-- After the pass of a field that writes the cells of the new level, the half level is the
mean of the old and the new level. -/
theorem applyBndCond_update_half (mesh : Mesh α) (f : TimeField α) (x : Int → Int → α)
    (i j : Int) :
    applyBndCond mesh
      (fun t i j => if t = .full (!k) ∧ GridCell mesh i j then x i j else f t i j)
      (.full (!k)) true .half i j =
    (f (.full k) i j +
      applyBndCond mesh
        (fun t i j => if t = .full (!k) ∧ GridCell mesh i j then x i j else f t i j)
        (.full (!k)) true (.full (!k)) i j) * 0.5 := by
  rw [applyBndCond_half, applyBndCond_new]
  simp only
  rw [if_neg (fun h => full_ne_not k h.1)]

theorem iterationBody_gd_old :
    (iterationBody sqrt (.full k) .half (.full (!k)) dt m).gd (.full k) = m.gd (.full k) := by
  rw [iterationBody_eq]
  exact applyBndCond_update_old k _ _ _

theorem iterationBody_gdt_old :
    (iterationBody sqrt (.full k) .half (.full (!k)) dt m).gdt (.full k) = m.gdt (.full k) := by
  rw [iterationBody_eq]
  exact applyBndCond_update_old k _ _ _

theorem iterationBody_ut_old :
    (iterationBody sqrt (.full k) .half (.full (!k)) dt m).ut (.full k) = m.ut (.full k) := by
  rw [iterationBody_eq]
  exact applyBndCond_update_old k _ _ _

theorem iterationBody_vt_old :
    (iterationBody sqrt (.full k) .half (.full (!k)) dt m).vt (.full k) = m.vt (.full k) := by
  rw [iterationBody_eq]
  exact applyBndCond_update_old k _ _ _

theorem iterationBody_u_old :
    (iterationBody sqrt (.full k) .half (.full (!k)) dt m).u (.full k) = m.u (.full k) := by
  rw [iterationBody_eq]
  exact applyBndCond_update_old k _ _ _

theorem iterationBody_v_old :
    (iterationBody sqrt (.full k) .half (.full (!k)) dt m).v (.full k) = m.v (.full k) := by
  rw [iterationBody_eq]
  exact applyBndCond_update_old k _ _ _

theorem iterationBody_gd_new (i j : Int) (h : GridCell m.mesh i j) :
    (iterationBody sqrt (.full k) .half (.full (!k)) dt m).gd (.full (!k)) i j =
      m.gd (.full k) i j - dt * depthTendency .half m i j := by
  rw [iterationBody_eq]
  exact applyBndCond_update_new_cell k _ _ _ i j h

theorem iterationBody_gdt_new (i j : Int) (h : GridCell m.mesh i j) :
    (iterationBody sqrt (.full k) .half (.full (!k)) dt m).gdt (.full (!k)) i j =
      sqrt ((iterationBody sqrt (.full k) .half (.full (!k)) dt m).gd (.full (!k)) i j) := by
  rw [iterationBody_eq]
  exact applyBndCond_update_new_cell k _ _ _ i j h

theorem iterationBody_dut :
    (iterationBody sqrt (.full k) .half (.full (!k)) dt m).dut =
      newDut sqrt (.full k) .half (.full (!k)) dt m := by
  rw [iterationBody_eq]

theorem iterationBody_dvt :
    (iterationBody sqrt (.full k) .half (.full (!k)) dt m).dvt =
      newDvt sqrt (.full k) .half (.full (!k)) dt m := by
  rw [iterationBody_eq]

theorem iterationBody_dgd :
    (iterationBody sqrt (.full k) .half (.full (!k)) dt m).dgd = depthTendency .half m := by
  rw [iterationBody_eq]

theorem iterationBody_gdu :
    (iterationBody sqrt (.full k) .half (.full (!k)) dt m).gdu = massFluxU .half m := by
  rw [iterationBody_eq]

theorem iterationBody_gdv :
    (iterationBody sqrt (.full k) .half (.full (!k)) dt m).gdv = massFluxV .half m := by
  rw [iterationBody_eq]

theorem iterationBody_ut_new (i j : Int) (h : GridCell m.mesh i j) :
    (iterationBody sqrt (.full k) .half (.full (!k)) dt m).ut (.full (!k)) i j =
      m.ut (.full k) i j - dt * newDut sqrt (.full k) .half (.full (!k)) dt m i j := by
  rw [iterationBody_eq]
  exact applyBndCond_update_new_cell k _ _ _ i j h

theorem iterationBody_vt_new (i j : Int) (h : GridCell m.mesh i j) :
    (iterationBody sqrt (.full k) .half (.full (!k)) dt m).vt (.full (!k)) i j =
      m.vt (.full k) i j - dt * newDvt sqrt (.full k) .half (.full (!k)) dt m i j := by
  rw [iterationBody_eq]
  exact applyBndCond_update_new_cell k _ _ _ i j h

theorem iterationBody_u_new (i j : Int) (h : GridCell m.mesh i j) :
    (iterationBody sqrt (.full k) .half (.full (!k)) dt m).u (.full (!k)) i j =
      (iterationBody sqrt (.full k) .half (.full (!k)) dt m).ut (.full (!k)) i j /
        (iterationBody sqrt (.full k) .half (.full (!k)) dt m).gdt (.full (!k)) i j := by
  rw [iterationBody_eq]
  exact applyBndCond_update_new_cell k _ _ _ i j h

theorem iterationBody_v_new (i j : Int) (h : GridCell m.mesh i j) :
    (iterationBody sqrt (.full k) .half (.full (!k)) dt m).v (.full (!k)) i j =
      (iterationBody sqrt (.full k) .half (.full (!k)) dt m).vt (.full (!k)) i j /
        (iterationBody sqrt (.full k) .half (.full (!k)) dt m).gdt (.full (!k)) i j := by
  rw [iterationBody_eq]
  exact applyBndCond_update_new_cell k _ _ _ i j h

end pass

section pass

variable (sqrt : α → α) (k : Bool) (dt : α) (m : BarotropicModel α)

theorem applyBndCond_update_new_periodic (mesh : Mesh α) (f : TimeField α)
    (x : Int → Int → α) (h : mesh.is FULL ≤ mesh.ie FULL) :
    PeriodicHalo mesh (applyBndCond mesh
      (fun t i j => if t = .full (!k) ∧ GridCell mesh i j then x i j else f t i j)
      (.full (!k)) true (.full (!k))) := by
  rw [applyBndCond_update_new]
  exact fillHalo_periodic mesh _ h

theorem applyBndCond_update_half_periodic (mesh : Mesh α) (f : TimeField α)
    (x : Int → Int → α) (h : mesh.is FULL ≤ mesh.ie FULL)
    (hold : PeriodicHalo mesh (f (.full k))) :
    PeriodicHalo mesh (applyBndCond mesh
      (fun t i j => if t = .full (!k) ∧ GridCell mesh i j then x i j else f t i j)
      (.full (!k)) true .half) := by
  intro j h1 h2
  obtain ⟨a1, a2⟩ := applyBndCond_update_new_periodic k mesh f x h j h1 h2
  obtain ⟨b1, b2⟩ := hold j h1 h2
  simp only [applyBndCond_update_half]
  rw [a1, a2, b1, b2]
  exact ⟨rfl, rfl⟩

theorem iterationBody_gd_half (i j : Int) :
    (iterationBody sqrt (.full k) .half (.full (!k)) dt m).gd .half i j =
      (m.gd (.full k) i j +
        (iterationBody sqrt (.full k) .half (.full (!k)) dt m).gd (.full (!k)) i j) * 0.5 := by
  rw [iterationBody_eq]
  exact applyBndCond_update_half k _ _ _ i j

theorem iterationBody_gdt_half (i j : Int) :
    (iterationBody sqrt (.full k) .half (.full (!k)) dt m).gdt .half i j =
      (m.gdt (.full k) i j +
        (iterationBody sqrt (.full k) .half (.full (!k)) dt m).gdt (.full (!k)) i j) * 0.5 := by
  rw [iterationBody_eq]
  exact applyBndCond_update_half k _ _ _ i j

theorem iterationBody_ut_half (i j : Int) :
    (iterationBody sqrt (.full k) .half (.full (!k)) dt m).ut .half i j =
      (m.ut (.full k) i j +
        (iterationBody sqrt (.full k) .half (.full (!k)) dt m).ut (.full (!k)) i j) * 0.5 := by
  rw [iterationBody_eq]
  exact applyBndCond_update_half k _ _ _ i j

theorem iterationBody_vt_half (i j : Int) :
    (iterationBody sqrt (.full k) .half (.full (!k)) dt m).vt .half i j =
      (m.vt (.full k) i j +
        (iterationBody sqrt (.full k) .half (.full (!k)) dt m).vt (.full (!k)) i j) * 0.5 := by
  rw [iterationBody_eq]
  exact applyBndCond_update_half k _ _ _ i j

theorem iterationBody_u_half (i j : Int) :
    (iterationBody sqrt (.full k) .half (.full (!k)) dt m).u .half i j =
      (m.u (.full k) i j +
        (iterationBody sqrt (.full k) .half (.full (!k)) dt m).u (.full (!k)) i j) * 0.5 := by
  rw [iterationBody_eq]
  exact applyBndCond_update_half k _ _ _ i j

theorem iterationBody_v_half (i j : Int) :
    (iterationBody sqrt (.full k) .half (.full (!k)) dt m).v .half i j =
      (m.v (.full k) i j +
        (iterationBody sqrt (.full k) .half (.full (!k)) dt m).v (.full (!k)) i j) * 0.5 := by
  rw [iterationBody_eq]
  exact applyBndCond_update_half k _ _ _ i j

theorem iterationBody_gd_new_periodic (h : m.mesh.is FULL ≤ m.mesh.ie FULL) :
    PeriodicHalo m.mesh
      ((iterationBody sqrt (.full k) .half (.full (!k)) dt m).gd (.full (!k))) := by
  rw [iterationBody_eq]
  exact applyBndCond_update_new_periodic k _ _ _ h

theorem iterationBody_gdt_new_periodic (h : m.mesh.is FULL ≤ m.mesh.ie FULL) :
    PeriodicHalo m.mesh
      ((iterationBody sqrt (.full k) .half (.full (!k)) dt m).gdt (.full (!k))) := by
  rw [iterationBody_eq]
  exact applyBndCond_update_new_periodic k _ _ _ h

theorem iterationBody_ut_new_periodic (h : m.mesh.is FULL ≤ m.mesh.ie FULL) :
    PeriodicHalo m.mesh
      ((iterationBody sqrt (.full k) .half (.full (!k)) dt m).ut (.full (!k))) := by
  rw [iterationBody_eq]
  exact applyBndCond_update_new_periodic k _ _ _ h

theorem iterationBody_vt_new_periodic (h : m.mesh.is FULL ≤ m.mesh.ie FULL) :
    PeriodicHalo m.mesh
      ((iterationBody sqrt (.full k) .half (.full (!k)) dt m).vt (.full (!k))) := by
  rw [iterationBody_eq]
  exact applyBndCond_update_new_periodic k _ _ _ h

theorem iterationBody_gdt_half_periodic (h : m.mesh.is FULL ≤ m.mesh.ie FULL)
    (hold : PeriodicHalo m.mesh (m.gdt (.full k))) :
    PeriodicHalo m.mesh ((iterationBody sqrt (.full k) .half (.full (!k)) dt m).gdt .half) := by
  rw [iterationBody_eq]
  exact applyBndCond_update_half_periodic k _ _ _ h hold

theorem iterationBody_ut_half_periodic (h : m.mesh.is FULL ≤ m.mesh.ie FULL)
    (hold : PeriodicHalo m.mesh (m.ut (.full k))) :
    PeriodicHalo m.mesh ((iterationBody sqrt (.full k) .half (.full (!k)) dt m).ut .half) := by
  rw [iterationBody_eq]
  exact applyBndCond_update_half_periodic k _ _ _ h hold

end pass

/-! ### The state in which the iterations start -/

theorem startState_of_firstRun (sqrt : α → α) (k : Bool) (m : BarotropicModel α)
    (h : m.firstRun = true) :
    startState sqrt (.full k) m = copyStates sqrt (.full k) .half m := by
  unfold startState
  rw [if_pos h]
  rfl

theorem startState_of_not_firstRun (sqrt : α → α) (k : Bool) (m : BarotropicModel α)
    (h : m.firstRun = false) : startState sqrt (.full k) m = m := by
  unfold startState
  rw [if_neg (by simp [h])]

theorem full_ne_half (k : Bool) : TimeLevelIndex.full k ≠ TimeLevelIndex.half := by
  simp

section start

variable (sqrt : α → α) (k : Bool) (m : BarotropicModel α)

/-- The copy of the old level changes no field but `u`, `v`, `gd`, `gdt`, `ut`, `vt` and
the flag. -/
theorem startState_frame :
    (startState sqrt (.full k) m).mesh = m.mesh ∧
    (startState sqrt (.full k) m).radius = m.radius ∧
    (startState sqrt (.full k) m).dlon = m.dlon ∧
    (startState sqrt (.full k) m).dlat = m.dlat ∧
    (startState sqrt (.full k) m).ghs = m.ghs ∧
    (startState sqrt (.full k) m).dut = m.dut ∧
    (startState sqrt (.full k) m).dvt = m.dvt ∧
    (startState sqrt (.full k) m).dgd = m.dgd ∧
    (startState sqrt (.full k) m).gdu = m.gdu ∧
    (startState sqrt (.full k) m).gdv = m.gdv ∧
    (startState sqrt (.full k) m).fu = m.fu ∧
    (startState sqrt (.full k) m).fv = m.fv ∧
    (startState sqrt (.full k) m).cosLat = m.cosLat ∧
    (startState sqrt (.full k) m).tanLat = m.tanLat ∧
    (startState sqrt (.full k) m).factorCor = m.factorCor ∧
    (startState sqrt (.full k) m).factorCur = m.factorCur ∧
    (startState sqrt (.full k) m).factorLon = m.factorLon ∧
    (startState sqrt (.full k) m).factorLat = m.factorLat := by
  by_cases hf : m.firstRun = true
  · rw [startState_of_firstRun sqrt k m hf, copyStates_eq sqrt _ _ (full_ne_half k)]
    exact ⟨rfl, rfl, rfl, rfl, rfl, rfl, rfl, rfl, rfl, rfl, rfl, rfl, rfl, rfl, rfl, rfl, rfl,
      rfl⟩
  · rw [startState_of_not_firstRun sqrt k m (by simpa using hf)]
    exact ⟨rfl, rfl, rfl, rfl, rfl, rfl, rfl, rfl, rfl, rfl, rfl, rfl, rfl, rfl, rfl, rfl, rfl,
      rfl⟩

theorem startState_mesh : (startState sqrt (.full k) m).mesh = m.mesh :=
  (startState_frame sqrt k m).1

/-- The copy of the old level leaves the old level of `u`, `v` and `gd` as it is. -/
theorem startState_old :
    (startState sqrt (.full k) m).u (.full k) = m.u (.full k) ∧
    (startState sqrt (.full k) m).v (.full k) = m.v (.full k) ∧
    (startState sqrt (.full k) m).gd (.full k) = m.gd (.full k) := by
  by_cases hf : m.firstRun = true
  · rw [startState_of_firstRun sqrt k m hf, copyStates_eq sqrt _ _ (full_ne_half k)]
    refine ⟨?_, ?_, ?_⟩ <;> funext i j <;> dsimp only <;>
      rw [if_neg (fun h => full_ne_half k h.1)]
  · rw [startState_of_not_firstRun sqrt k m (by simpa using hf)]
    exact ⟨rfl, rfl, rfl⟩

/-- On the first run the copy of the old level transforms it: `gdt`, `ut` and `vt` at the old
level of every cell of the grid and its halo columns. -/
theorem startState_transformed (hf : m.firstRun = true) (i j : Int)
    (hc : HaloCell m.mesh i j) :
    (startState sqrt (.full k) m).gdt (.full k) i j = sqrt (m.gd (.full k) i j) ∧
    (startState sqrt (.full k) m).ut (.full k) i j =
      m.u (.full k) i j * sqrt (m.gd (.full k) i j) ∧
    (startState sqrt (.full k) m).vt (.full k) i j =
      m.v (.full k) i j * sqrt (m.gd (.full k) i j) := by
  rw [startState_of_firstRun sqrt k m hf, copyStates_eq sqrt _ _ (full_ne_half k)]
  refine ⟨?_, ?_, ?_⟩ <;> dsimp only <;>
    rw [if_pos (show (TimeLevelIndex.full k = .half ∨ TimeLevelIndex.full k = .full k) ∧
      HaloCell m.mesh i j from ⟨Or.inr rfl, hc⟩)]

/-- On the first run the copy of the old level seeds the half level of every cell of the grid
and its halo columns. -/
theorem startState_half (hf : m.firstRun = true) (i j : Int) (hc : HaloCell m.mesh i j) :
    (startState sqrt (.full k) m).u .half i j = m.u (.full k) i j ∧
    (startState sqrt (.full k) m).v .half i j = m.v (.full k) i j ∧
    (startState sqrt (.full k) m).gd .half i j = m.gd (.full k) i j ∧
    (startState sqrt (.full k) m).gdt .half i j = sqrt (m.gd (.full k) i j) ∧
    (startState sqrt (.full k) m).ut .half i j =
      m.u (.full k) i j * sqrt (m.gd (.full k) i j) ∧
    (startState sqrt (.full k) m).vt .half i j =
      m.v (.full k) i j * sqrt (m.gd (.full k) i j) := by
  rw [startState_of_firstRun sqrt k m hf, copyStates_eq sqrt _ _ (full_ne_half k)]
  refine ⟨?_, ?_, ?_, ?_, ?_, ?_⟩ <;> dsimp only <;>
    first
    | rw [if_pos (show TimeLevelIndex.half = .half ∧ HaloCell m.mesh i j from ⟨rfl, hc⟩)]
    | rw [if_pos (show (TimeLevelIndex.half = .half ∨ TimeLevelIndex.half = .full k) ∧
        HaloCell m.mesh i j from ⟨Or.inl rfl, hc⟩)]

end start

theorem loopSum_sub (lo hi : Int) (f g : Int → α) :
    loopSum lo hi (fun k => f k - g k) = loopSum lo hi f - loopSum lo hi g :=
  Finset.sum_sub_distrib

theorem loopSum_mul_left (lo hi : Int) (f : Int → α) (c : α) :
    loopSum lo hi (fun k => c * f k) = c * loopSum lo hi f :=
  (Finset.mul_sum _ _ _).symm

theorem calcTotalMass_eq (timeIdx : TimeLevelIndex) (m : BarotropicModel α) :
    calcTotalMass timeIdx m = 0 + loopSum (m.mesh.js FULL) (m.mesh.je FULL)
      (fun j => loopSum (m.mesh.is FULL) (m.mesh.ie FULL)
        (fun i => m.gd timeIdx i j * m.cosLat j)) :=
  forLoop_forLoop_add _ _ _ _ _ _

theorem calcTotalEnergy_eq (timeIdx : TimeLevelIndex) (m : BarotropicModel α) :
    calcTotalEnergy timeIdx m = 0 + loopSum (m.mesh.js FULL) (m.mesh.je FULL)
      (fun j => loopSum (m.mesh.is FULL) (m.mesh.ie FULL)
        (fun i => (m.ut timeIdx i j ^ 2 + m.vt timeIdx i j ^ 2 +
          (m.gd timeIdx i j + m.ghs i j) ^ 2) * m.cosLat j)) :=
  forLoop_forLoop_add _ _ _ _ _ _

section mass

variable (sqrt : α → α) (k : Bool) (dt : α)

/-- Cells of one row that hold equal halo images keep them under a cell-wise rule. -/
theorem periodicHalo_seed (mesh : Mesh α) (hi : mesh.is FULL ≤ mesh.ie FULL)
    (P : TimeLevelIndex → Prop) [DecidablePred P] (x : Int → Int → α) (f : TimeField α)
    (hx : ∀ j, mesh.js FULL ≤ j → j ≤ mesh.je FULL →
      x (mesh.is FULL - 1) j = x (mesh.ie FULL) j ∧ x (mesh.ie FULL + 1) j = x (mesh.is FULL) j)
    (t : TimeLevelIndex) (ht : P t) :
    PeriodicHalo mesh
      ((fun t i j => if P t ∧ HaloCell mesh i j then x i j else f t i j) t) := by
  intro j h1 h2
  obtain ⟨a1, a2⟩ := hx j h1 h2
  simp only
  rw [if_pos ⟨ht, ⟨h1, h2⟩, by omega, by omega⟩, if_pos ⟨ht, ⟨h1, h2⟩, by omega, by omega⟩,
    if_pos ⟨ht, ⟨h1, h2⟩, by omega, by omega⟩, if_pos ⟨ht, ⟨h1, h2⟩, by omega, by omega⟩]
  exact ⟨a1, a2⟩

theorem massInvariant_start (m : BarotropicModel α) (hmesh : m.mesh.WellFormed)
    (hgdv : ZeroAtPoles m.mesh m.gdv)
    (hhalo : if m.firstRun then
        PeriodicHalo m.mesh (m.u (.full k)) ∧ PeriodicHalo m.mesh (m.gd (.full k))
      else
        PeriodicHalo m.mesh (m.ut (.full k)) ∧ PeriodicHalo m.mesh (m.gdt (.full k)) ∧
        PeriodicHalo m.mesh (m.ut .half) ∧ PeriodicHalo m.mesh (m.gdt .half)) :
    MassInvariant k m (startState sqrt (.full k) m) := by
  by_cases hf : m.firstRun = true
  · rw [startState_of_firstRun sqrt k m hf, copyStates_eq sqrt _ _ (full_ne_half k)]
    rw [if_pos hf] at hhalo
    obtain ⟨hu, hgd⟩ := hhalo
    have hgdt : ∀ j, m.mesh.js FULL ≤ j → j ≤ m.mesh.je FULL →
        sqrt (m.gd (.full k) (m.mesh.is FULL - 1) j) = sqrt (m.gd (.full k) (m.mesh.ie FULL) j) ∧
        sqrt (m.gd (.full k) (m.mesh.ie FULL + 1) j) =
          sqrt (m.gd (.full k) (m.mesh.is FULL) j) := by
      intro j h1 h2
      obtain ⟨a1, a2⟩ := hgd j h1 h2
      rw [a1, a2]
      exact ⟨rfl, rfl⟩
    have hut : ∀ j, m.mesh.js FULL ≤ j → j ≤ m.mesh.je FULL →
        m.u (.full k) (m.mesh.is FULL - 1) j * sqrt (m.gd (.full k) (m.mesh.is FULL - 1) j) =
          m.u (.full k) (m.mesh.ie FULL) j * sqrt (m.gd (.full k) (m.mesh.ie FULL) j) ∧
        m.u (.full k) (m.mesh.ie FULL + 1) j * sqrt (m.gd (.full k) (m.mesh.ie FULL + 1) j) =
          m.u (.full k) (m.mesh.is FULL) j * sqrt (m.gd (.full k) (m.mesh.is FULL) j) := by
      intro j h1 h2
      obtain ⟨a1, a2⟩ := hgd j h1 h2
      obtain ⟨b1, b2⟩ := hu j h1 h2
      rw [a1, a2, b1, b2]
      exact ⟨rfl, rfl⟩
    refine ⟨rfl, rfl, rfl, rfl, rfl, rfl, rfl, hgdv, ?_, ?_, ?_, ?_, ?_⟩
    · exact periodicHalo_seed m.mesh hmesh.1 (fun t => t = .half ∨ t = .full k)
        (fun i j => m.u (.full k) i j * sqrt (m.gd (.full k) i j)) m.ut hut (.full k)
        (Or.inr rfl)
    · exact periodicHalo_seed m.mesh hmesh.1 (fun t => t = .half ∨ t = .full k)
        (fun i j => sqrt (m.gd (.full k) i j)) m.gdt hgdt (.full k) (Or.inr rfl)
    · exact periodicHalo_seed m.mesh hmesh.1 (fun t => t = .half ∨ t = .full k)
        (fun i j => m.u (.full k) i j * sqrt (m.gd (.full k) i j)) m.ut hut .half
        (Or.inl rfl)
    · exact periodicHalo_seed m.mesh hmesh.1 (fun t => t = .half ∨ t = .full k)
        (fun i j => sqrt (m.gd (.full k) i j)) m.gdt hgdt .half (Or.inl rfl)
    · funext i j
      simp only
      rw [if_neg (fun h => full_ne_half k h.1)]
  · have hf' : m.firstRun = false := by simpa using hf
    rw [startState_of_not_firstRun sqrt k m hf']
    rw [if_neg hf] at hhalo
    obtain ⟨h1, h2, h3, h4⟩ := hhalo
    exact ⟨rfl, rfl, rfl, rfl, rfl, rfl, rfl, hgdv, h1, h2, h3, h4, rfl⟩

theorem massInvariant_step {m s : BarotropicModel α} (hinv : MassInvariant k m s)
    (hmesh : m.mesh.WellFormed) :
    MassInvariant k m (iterationBody sqrt (.full k) .half (.full (!k)) dt s) := by
  have hi : s.mesh.is FULL ≤ s.mesh.ie FULL := by
    rw [hinv.mesh]
    exact hmesh.1
  refine ⟨?_, ?_, ?_, ?_, ?_, ?_, ?_, ?_, ?_, ?_, ?_, ?_, ?_⟩
  · rw [iterationBody_mesh, hinv.mesh]
  · rw [iterationBody_cosLat, hinv.cosLat]
  · rw [iterationBody_factorLon, hinv.factorLon]
  · rw [iterationBody_factorLat, hinv.factorLat]
  · rw [iterationBody_dlon, hinv.dlon]
  · rw [iterationBody_dlat, hinv.dlat]
  · rw [iterationBody_radius, hinv.radius]
  · intro i h1 h2
    rw [iterationBody_gdv]
    obtain ⟨a1, a2⟩ := hinv.gdv i h1 h2
    unfold massFluxV
    rw [hinv.mesh, if_neg (by omega), if_neg (by omega)]
    exact ⟨a1, a2⟩
  · rw [iterationBody_ut_old]
    exact hinv.utOld
  · rw [iterationBody_gdt_old]
    exact hinv.gdtOld
  · have := iterationBody_ut_half_periodic sqrt k dt s hi (by rw [hinv.mesh]; exact hinv.utOld)
    rwa [hinv.mesh] at this
  · have := iterationBody_gdt_half_periodic sqrt k dt s hi (by rw [hinv.mesh]; exact hinv.gdtOld)
    rwa [hinv.mesh] at this
  · rw [iterationBody_gd_old, hinv.gdOld]

/-- One pass of the iteration loop leaves in the new level the total mass of the old level. -/
theorem MassInvariant.mass {m s : BarotropicModel α} (hinv : MassInvariant k m s)
    (hmesh : m.mesh.WellFormed) (hcos : CosLatNonzero m) (hfac : InitFactors m) :
    calcTotalMass (.full (!k)) (iterationBody sqrt (.full k) .half (.full (!k)) dt s) =
      calcTotalMass (.full k) m := by
  have hzero : loopSum (s.mesh.js FULL) (s.mesh.je FULL)
      (fun j => loopSum (s.mesh.is FULL) (s.mesh.ie FULL)
        (fun i => depthTendency .half s i j * s.cosLat j)) = 0 := by
    apply depthTendency_weighted_sum
    · rw [hinv.mesh]; exact hmesh
    · rw [hinv.mesh]; exact hinv.utHalf
    · rw [hinv.mesh]; exact hinv.gdtHalf
    · rw [hinv.mesh]; exact hinv.gdv
    · intro j h1 h2
      rw [hinv.cosLat]
      rw [hinv.mesh] at h1 h2
      exact hcos j h1 h2
    · intro j h1 h2
      rw [hinv.factorLon, hinv.factorLat, hinv.dlon, hinv.dlat, hinv.radius, hinv.cosLat]
      rw [hinv.mesh] at h1 h2
      exact hfac j h1 h2
  rw [calcTotalMass_eq, calcTotalMass_eq, iterationBody_mesh, iterationBody_cosLat]
  have e : loopSum (s.mesh.js FULL) (s.mesh.je FULL)
      (fun j => loopSum (s.mesh.is FULL) (s.mesh.ie FULL)
        (fun i => (iterationBody sqrt (.full k) .half (.full (!k)) dt s).gd (.full (!k)) i j *
          s.cosLat j)) =
      loopSum (s.mesh.js FULL) (s.mesh.je FULL)
        (fun j => loopSum (s.mesh.is FULL) (s.mesh.ie FULL)
          (fun i => s.gd (.full k) i j * s.cosLat j)) -
      dt * loopSum (s.mesh.js FULL) (s.mesh.je FULL)
        (fun j => loopSum (s.mesh.is FULL) (s.mesh.ie FULL)
          (fun i => depthTendency .half s i j * s.cosLat j)) := by
    rw [← loopSum_mul_left, ← loopSum_sub]
    apply loopSum_congr
    intro j h1 h2
    rw [← loopSum_mul_left, ← loopSum_sub]
    apply loopSum_congr
    intro i h3 h4
    rw [iterationBody_gd_new sqrt k dt s i j ⟨⟨h1, h2⟩, h3, h4⟩]
    ring
  rw [e, hzero, hinv.gdOld, hinv.mesh, hinv.cosLat]
  ring

theorem massInvariant_afterPasses (m : BarotropicModel α) (hmesh : m.mesh.WellFormed)
    (hgdv : ZeroAtPoles m.mesh m.gdv)
    (hhalo : if m.firstRun then
        PeriodicHalo m.mesh (m.u (.full k)) ∧ PeriodicHalo m.mesh (m.gd (.full k))
      else
        PeriodicHalo m.mesh (m.ut (.full k)) ∧ PeriodicHalo m.mesh (m.gdt (.full k)) ∧
        PeriodicHalo m.mesh (m.ut .half) ∧ PeriodicHalo m.mesh (m.gdt .half))
    (n : Nat) : MassInvariant k m (afterPasses sqrt (.full k) dt n m) := by
  induction n with
  | zero => exact massInvariant_start sqrt k m hmesh hgdv hhalo
  | succ n ih =>
    unfold Barotropic.afterPasses at ih ⊢
    rw [Function.iterate_succ_apply']
    exact massInvariant_step sqrt k dt ih hmesh

end mass

/-- The state that `integrate` returns is the state after `n` passes of its loop body, for the
number `n` of passes, between one and eight, that its loop variable tells. -/
theorem integrate_result (sqrt : α → α) (oldTimeIdx : TimeLevelIndex) (dt : α)
    (m : BarotropicModel α) :
    ∃ n, 1 ≤ n ∧ n ≤ 8 ∧ passesRun (integrate sqrt oldTimeIdx dt m).1 = n ∧
      (integrate sqrt oldTimeIdx dt m).2 = afterPasses sqrt oldTimeIdx dt n m := by
  rcases criterion_first_or_never sqrt oldTimeIdx dt m with ⟨n, h1, h2, h3, h4⟩ | h
  · refine ⟨n, h1, h2, ?_, ?_⟩
    · rw [integrate_break sqrt oldTimeIdx dt m n h1 h2 h4 h3]
      unfold passesRun
      simp only
      omega
    · rw [integrate_break sqrt oldTimeIdx dt m n h1 h2 h4 h3]
  · refine ⟨8, by omega, le_refl _, ?_, ?_⟩
    · rw [integrate_exhausted sqrt oldTimeIdx dt m h]
      rfl
    · rw [integrate_exhausted sqrt oldTimeIdx dt m h]

theorem afterPasses_succ (sqrt : α → α) (k : Bool) (dt : α) (n : Nat)
    (m : BarotropicModel α) :
    afterPasses sqrt (.full k) dt (n + 1) m =
      iterationBody sqrt (.full k) .half (.full (!k)) dt (afterPasses sqrt (.full k) dt n m) := by
  unfold afterPasses
  rw [Function.iterate_succ_apply']
  rfl

theorem afterPasses_zero (sqrt : α → α) (k : Bool) (dt : α) (m : BarotropicModel α) :
    afterPasses sqrt (.full k) dt 0 m = startState sqrt (.full k) m := rfl

theorem depthTendency_southRow (timeIdx : TimeLevelIndex) (m : BarotropicModel α)
    (i : Int) (h1 : m.mesh.is FULL ≤ i) (h2 : i ≤ m.mesh.ie FULL) :
    depthTendency timeIdx m i (m.mesh.js FULL) =
      if m.mesh.js FULL = m.mesh.je FULL then northPoleTendency timeIdx m
      else southPoleTendency timeIdx m := by
  unfold depthTendency
  rw [if_pos (show m.mesh.is FULL ≤ i ∧ i ≤ m.mesh.ie FULL from ⟨h1, h2⟩)]
  by_cases h : m.mesh.js FULL = m.mesh.je FULL
  · rw [if_pos h, if_pos h]
  · rw [if_neg h, if_neg h, if_pos rfl]

theorem depthTendency_pole_uniform (timeIdx : TimeLevelIndex) (m : BarotropicModel α)
    (i i' : Int) (h1 : m.mesh.is FULL ≤ i) (h2 : i ≤ m.mesh.ie FULL)
    (h1' : m.mesh.is FULL ≤ i') (h2' : i' ≤ m.mesh.ie FULL) :
    depthTendency timeIdx m i (m.mesh.js FULL) = depthTendency timeIdx m i' (m.mesh.js FULL) ∧
    depthTendency timeIdx m i (m.mesh.je FULL) = depthTendency timeIdx m i' (m.mesh.je FULL) := by
  rw [depthTendency_southRow timeIdx m i h1 h2, depthTendency_southRow timeIdx m i' h1' h2',
    depthTendency_north timeIdx m i h1 h2, depthTendency_north timeIdx m i' h1' h2']
  exact ⟨rfl, rfl⟩

theorem newDut_pole (sqrt : α → α) (o h n : TimeLevelIndex) (dt : α) (m : BarotropicModel α)
    (i : Int) :
    newDut sqrt o h n dt m i (m.mesh.js FULL) = m.dut i (m.mesh.js FULL) ∧
    newDut sqrt o h n dt m i (m.mesh.je FULL) = m.dut i (m.mesh.je FULL) := by
  unfold newDut InnerCell
  rw [if_neg (by omega), if_neg (by omega)]
  exact ⟨rfl, rfl⟩

theorem newDvt_pole (sqrt : α → α) (o h n : TimeLevelIndex) (dt : α) (m : BarotropicModel α)
    (i : Int) :
    newDvt sqrt o h n dt m i (m.mesh.js FULL) = m.dvt i (m.mesh.js FULL) ∧
    newDvt sqrt o h n dt m i (m.mesh.je FULL) = m.dvt i (m.mesh.je FULL) := by
  unfold newDvt InnerCell
  rw [if_neg (by omega), if_neg (by omega)]
  exact ⟨rfl, rfl⟩

section poles

variable (sqrt : α → α) (k : Bool) (dt : α)

theorem poleWindInvariant_start (m : BarotropicModel α) (hmesh : m.mesh.WellFormed)
    (hfirst : m.firstRun = true)
    (hu : ZeroAtPoles m.mesh (m.u (.full k))) (hv : ZeroAtPoles m.mesh (m.v (.full k)))
    (hdut : ZeroAtPoles m.mesh m.dut) (hdvt : ZeroAtPoles m.mesh m.dvt) :
    PoleWindInvariant k m (startState sqrt (.full k) m) := by
  obtain ⟨hi, hj, -⟩ := hmesh
  have hs : ∀ i, m.mesh.is FULL ≤ i → i ≤ m.mesh.ie FULL → HaloCell m.mesh i (m.mesh.js FULL) :=
    fun i h1 h2 => ⟨⟨le_refl _, hj.le⟩, by omega, by omega⟩
  have hn : ∀ i, m.mesh.is FULL ≤ i → i ≤ m.mesh.ie FULL → HaloCell m.mesh i (m.mesh.je FULL) :=
    fun i h1 h2 => ⟨⟨hj.le, le_refl _⟩, by omega, by omega⟩
  refine ⟨startState_mesh sqrt k m, ?_, ?_, ?_, ?_⟩
  · intro i h1 h2
    rw [(startState_transformed sqrt k m hfirst i _ (hs i h1 h2)).2.1,
      (startState_transformed sqrt k m hfirst i _ (hn i h1 h2)).2.1,
      (hu i h1 h2).1, (hu i h1 h2).2]
    simp
  · intro i h1 h2
    rw [(startState_transformed sqrt k m hfirst i _ (hs i h1 h2)).2.2,
      (startState_transformed sqrt k m hfirst i _ (hn i h1 h2)).2.2,
      (hv i h1 h2).1, (hv i h1 h2).2]
    simp
  · rw [(startState_frame sqrt k m).2.2.2.2.2.1]
    exact hdut
  · rw [(startState_frame sqrt k m).2.2.2.2.2.2.1]
    exact hdvt

theorem poleWindInvariant_step {m s : BarotropicModel α} (hinv : PoleWindInvariant k m s) :
    PoleWindInvariant k m (iterationBody sqrt (.full k) .half (.full (!k)) dt s) := by
  refine ⟨?_, ?_, ?_, ?_, ?_⟩
  · rw [iterationBody_mesh, hinv.mesh]
  · rw [iterationBody_ut_old]
    exact hinv.utOld
  · rw [iterationBody_vt_old]
    exact hinv.vtOld
  · intro i h1 h2
    rw [iterationBody_dut, ← hinv.mesh, (newDut_pole sqrt _ _ _ dt s i).1,
      (newDut_pole sqrt _ _ _ dt s i).2, hinv.mesh]
    exact hinv.dut i h1 h2
  · intro i h1 h2
    rw [iterationBody_dvt, ← hinv.mesh, (newDvt_pole sqrt _ _ _ dt s i).1,
      (newDvt_pole sqrt _ _ _ dt s i).2, hinv.mesh]
    exact hinv.dvt i h1 h2

/-- One pass of the iteration loop leaves zero winds on the pole rows of the new level. -/
theorem poleWindInvariant_new {m s : BarotropicModel α} (hinv : PoleWindInvariant k m s)
    (hmesh : m.mesh.WellFormed) :
    ZeroAtPoles m.mesh ((iterationBody sqrt (.full k) .half (.full (!k)) dt s).ut (.full (!k))) ∧
    ZeroAtPoles m.mesh ((iterationBody sqrt (.full k) .half (.full (!k)) dt s).vt (.full (!k))) ∧
    ZeroAtPoles m.mesh ((iterationBody sqrt (.full k) .half (.full (!k)) dt s).u (.full (!k))) ∧
    ZeroAtPoles m.mesh ((iterationBody sqrt (.full k) .half (.full (!k)) dt s).v (.full (!k))) := by
  obtain ⟨hi, hj, -⟩ := hmesh
  have cs : ∀ i, m.mesh.is FULL ≤ i → i ≤ m.mesh.ie FULL → GridCell s.mesh i (s.mesh.js FULL) := by
    intro i h1 h2
    rw [hinv.mesh]
    exact ⟨⟨le_refl _, hj.le⟩, h1, h2⟩
  have cn : ∀ i, m.mesh.is FULL ≤ i → i ≤ m.mesh.ie FULL → GridCell s.mesh i (s.mesh.je FULL) := by
    intro i h1 h2
    rw [hinv.mesh]
    exact ⟨⟨hj.le, le_refl _⟩, h1, h2⟩
  have hut : ZeroAtPoles m.mesh
      ((iterationBody sqrt (.full k) .half (.full (!k)) dt s).ut (.full (!k))) := by
    intro i h1 h2
    have a := iterationBody_ut_new sqrt k dt s i _ (cs i h1 h2)
    have b := iterationBody_ut_new sqrt k dt s i _ (cn i h1 h2)
    rw [(newDut_pole sqrt _ _ _ dt s i).1] at a
    rw [(newDut_pole sqrt _ _ _ dt s i).2] at b
    rw [hinv.mesh] at a b
    rw [a, b, (hinv.utOld i h1 h2).1, (hinv.utOld i h1 h2).2, (hinv.dut i h1 h2).1,
      (hinv.dut i h1 h2).2]
    simp
  have hvt : ZeroAtPoles m.mesh
      ((iterationBody sqrt (.full k) .half (.full (!k)) dt s).vt (.full (!k))) := by
    intro i h1 h2
    have a := iterationBody_vt_new sqrt k dt s i _ (cs i h1 h2)
    have b := iterationBody_vt_new sqrt k dt s i _ (cn i h1 h2)
    rw [(newDvt_pole sqrt _ _ _ dt s i).1] at a
    rw [(newDvt_pole sqrt _ _ _ dt s i).2] at b
    rw [hinv.mesh] at a b
    rw [a, b, (hinv.vtOld i h1 h2).1, (hinv.vtOld i h1 h2).2, (hinv.dvt i h1 h2).1,
      (hinv.dvt i h1 h2).2]
    simp
  refine ⟨hut, hvt, ?_, ?_⟩
  · intro i h1 h2
    have a := iterationBody_u_new sqrt k dt s i _ (cs i h1 h2)
    have b := iterationBody_u_new sqrt k dt s i _ (cn i h1 h2)
    rw [hinv.mesh] at a b
    rw [a, b, (hut i h1 h2).1, (hut i h1 h2).2]
    simp
  · intro i h1 h2
    have a := iterationBody_v_new sqrt k dt s i _ (cs i h1 h2)
    have b := iterationBody_v_new sqrt k dt s i _ (cn i h1 h2)
    rw [hinv.mesh] at a b
    rw [a, b, (hvt i h1 h2).1, (hvt i h1 h2).2]
    simp

theorem poleWindInvariant_afterPasses (m : BarotropicModel α) (hmesh : m.mesh.WellFormed)
    (hfirst : m.firstRun = true)
    (hu : ZeroAtPoles m.mesh (m.u (.full k))) (hv : ZeroAtPoles m.mesh (m.v (.full k)))
    (hdut : ZeroAtPoles m.mesh m.dut) (hdvt : ZeroAtPoles m.mesh m.dvt) (n : Nat) :
    PoleWindInvariant k m (afterPasses sqrt (.full k) dt n m) := by
  induction n with
  | zero => exact poleWindInvariant_start sqrt k m hmesh hfirst hu hv hdut hdvt
  | succ n ih =>
    rw [afterPasses_succ]
    exact poleWindInvariant_step sqrt k dt ih

end poles

section uniform

variable (sqrt : α → α) (k : Bool) (dt : α)

theorem poleUniformInvariant_start (m : BarotropicModel α) (hmesh : m.mesh.WellFormed)
    (hu : UniformAtPoles m.mesh (m.u (.full k))) (hv : UniformAtPoles m.mesh (m.v (.full k)))
    (hgd : UniformAtPoles m.mesh (m.gd (.full k)))
    (hdut : ZeroAtPoles m.mesh m.dut) (hdvt : ZeroAtPoles m.mesh m.dvt)
    (hlater : m.firstRun = false →
      UniformAtPoles m.mesh (m.ut (.full k)) ∧ UniformAtPoles m.mesh (m.vt (.full k))) :
    PoleUniformInvariant k m (startState sqrt (.full k) m) := by
  obtain ⟨hi, hj, -⟩ := hmesh
  have hs : ∀ i, m.mesh.is FULL ≤ i → i ≤ m.mesh.ie FULL → HaloCell m.mesh i (m.mesh.js FULL) :=
    fun i h1 h2 => ⟨⟨le_refl _, hj.le⟩, by omega, by omega⟩
  have hn : ∀ i, m.mesh.is FULL ≤ i → i ≤ m.mesh.ie FULL → HaloCell m.mesh i (m.mesh.je FULL) :=
    fun i h1 h2 => ⟨⟨hj.le, le_refl _⟩, by omega, by omega⟩
  refine ⟨startState_mesh sqrt k m, ?_, ?_, ?_, ?_, ?_⟩
  · rw [(startState_old sqrt k m).2.2]
    exact hgd
  · by_cases hf : m.firstRun = true
    · intro i i' h1 h2 h1' h2'
      rw [(startState_transformed sqrt k m hf i _ (hs i h1 h2)).2.1,
        (startState_transformed sqrt k m hf i _ (hn i h1 h2)).2.1,
        (startState_transformed sqrt k m hf i' _ (hs i' h1' h2')).2.1,
        (startState_transformed sqrt k m hf i' _ (hn i' h1' h2')).2.1,
        (hu i i' h1 h2 h1' h2').1, (hu i i' h1 h2 h1' h2').2,
        (hgd i i' h1 h2 h1' h2').1, (hgd i i' h1 h2 h1' h2').2]
      exact ⟨rfl, rfl⟩
    · have hf' : m.firstRun = false := by simpa using hf
      rw [startState_of_not_firstRun sqrt k m hf']
      exact (hlater hf').1
  · by_cases hf : m.firstRun = true
    · intro i i' h1 h2 h1' h2'
      rw [(startState_transformed sqrt k m hf i _ (hs i h1 h2)).2.2,
        (startState_transformed sqrt k m hf i _ (hn i h1 h2)).2.2,
        (startState_transformed sqrt k m hf i' _ (hs i' h1' h2')).2.2,
        (startState_transformed sqrt k m hf i' _ (hn i' h1' h2')).2.2,
        (hv i i' h1 h2 h1' h2').1, (hv i i' h1 h2 h1' h2').2,
        (hgd i i' h1 h2 h1' h2').1, (hgd i i' h1 h2 h1' h2').2]
      exact ⟨rfl, rfl⟩
    · have hf' : m.firstRun = false := by simpa using hf
      rw [startState_of_not_firstRun sqrt k m hf']
      exact (hlater hf').2
  · rw [(startState_frame sqrt k m).2.2.2.2.2.1]
    exact hdut
  · rw [(startState_frame sqrt k m).2.2.2.2.2.2.1]
    exact hdvt

theorem poleUniformInvariant_step {m s : BarotropicModel α}
    (hinv : PoleUniformInvariant k m s) :
    PoleUniformInvariant k m (iterationBody sqrt (.full k) .half (.full (!k)) dt s) := by
  refine ⟨?_, ?_, ?_, ?_, ?_, ?_⟩
  · rw [iterationBody_mesh, hinv.mesh]
  · rw [iterationBody_gd_old]
    exact hinv.gdOld
  · rw [iterationBody_ut_old]
    exact hinv.utOld
  · rw [iterationBody_vt_old]
    exact hinv.vtOld
  · intro i h1 h2
    rw [iterationBody_dut, ← hinv.mesh, (newDut_pole sqrt _ _ _ dt s i).1,
      (newDut_pole sqrt _ _ _ dt s i).2, hinv.mesh]
    exact hinv.dut i h1 h2
  · intro i h1 h2
    rw [iterationBody_dvt, ← hinv.mesh, (newDvt_pole sqrt _ _ _ dt s i).1,
      (newDvt_pole sqrt _ _ _ dt s i).2, hinv.mesh]
    exact hinv.dvt i h1 h2

/-- One pass of the iteration loop leaves new-level fields that are uniform along each pole
row. -/
theorem poleUniformInvariant_new {m s : BarotropicModel α}
    (hinv : PoleUniformInvariant k m s) (hmesh : m.mesh.WellFormed) :
    UniformAtPoles m.mesh
      ((iterationBody sqrt (.full k) .half (.full (!k)) dt s).gd (.full (!k))) ∧
    UniformAtPoles m.mesh
      ((iterationBody sqrt (.full k) .half (.full (!k)) dt s).gdt (.full (!k))) ∧
    UniformAtPoles m.mesh
      ((iterationBody sqrt (.full k) .half (.full (!k)) dt s).ut (.full (!k))) ∧
    UniformAtPoles m.mesh
      ((iterationBody sqrt (.full k) .half (.full (!k)) dt s).vt (.full (!k))) ∧
    UniformAtPoles m.mesh
      ((iterationBody sqrt (.full k) .half (.full (!k)) dt s).u (.full (!k))) ∧
    UniformAtPoles m.mesh
      ((iterationBody sqrt (.full k) .half (.full (!k)) dt s).v (.full (!k))) := by
  obtain ⟨hi, hj, -⟩ := hmesh
  have cs : ∀ i, m.mesh.is FULL ≤ i → i ≤ m.mesh.ie FULL → GridCell s.mesh i (s.mesh.js FULL) := by
    intro i h1 h2
    rw [hinv.mesh]
    exact ⟨⟨le_refl _, hj.le⟩, h1, h2⟩
  have cn : ∀ i, m.mesh.is FULL ≤ i → i ≤ m.mesh.ie FULL → GridCell s.mesh i (s.mesh.je FULL) := by
    intro i h1 h2
    rw [hinv.mesh]
    exact ⟨⟨hj.le, le_refl _⟩, h1, h2⟩
  have hgd : UniformAtPoles m.mesh
      ((iterationBody sqrt (.full k) .half (.full (!k)) dt s).gd (.full (!k))) := by
    intro i i' h1 h2 h1' h2'
    have a := iterationBody_gd_new sqrt k dt s i _ (cs i h1 h2)
    have b := iterationBody_gd_new sqrt k dt s i _ (cn i h1 h2)
    have a' := iterationBody_gd_new sqrt k dt s i' _ (cs i' h1' h2')
    have b' := iterationBody_gd_new sqrt k dt s i' _ (cn i' h1' h2')
    have d := depthTendency_pole_uniform .half s i i' (by rw [hinv.mesh]; exact h1)
      (by rw [hinv.mesh]; exact h2) (by rw [hinv.mesh]; exact h1') (by rw [hinv.mesh]; exact h2')
    rw [d.1] at a
    rw [d.2] at b
    rw [hinv.mesh] at a b a' b'
    rw [a, b, a', b', (hinv.gdOld i i' h1 h2 h1' h2').1, (hinv.gdOld i i' h1 h2 h1' h2').2]
    exact ⟨rfl, rfl⟩
  have hgdt : UniformAtPoles m.mesh
      ((iterationBody sqrt (.full k) .half (.full (!k)) dt s).gdt (.full (!k))) := by
    intro i i' h1 h2 h1' h2'
    have a := iterationBody_gdt_new sqrt k dt s i _ (cs i h1 h2)
    have b := iterationBody_gdt_new sqrt k dt s i _ (cn i h1 h2)
    have a' := iterationBody_gdt_new sqrt k dt s i' _ (cs i' h1' h2')
    have b' := iterationBody_gdt_new sqrt k dt s i' _ (cn i' h1' h2')
    rw [hinv.mesh] at a b a' b'
    rw [a, b, a', b', (hgd i i' h1 h2 h1' h2').1, (hgd i i' h1 h2 h1' h2').2]
    exact ⟨rfl, rfl⟩
  have hut : UniformAtPoles m.mesh
      ((iterationBody sqrt (.full k) .half (.full (!k)) dt s).ut (.full (!k))) := by
    intro i i' h1 h2 h1' h2'
    have a := iterationBody_ut_new sqrt k dt s i _ (cs i h1 h2)
    have b := iterationBody_ut_new sqrt k dt s i _ (cn i h1 h2)
    have a' := iterationBody_ut_new sqrt k dt s i' _ (cs i' h1' h2')
    have b' := iterationBody_ut_new sqrt k dt s i' _ (cn i' h1' h2')
    rw [(newDut_pole sqrt _ _ _ dt s i).1] at a
    rw [(newDut_pole sqrt _ _ _ dt s i).2] at b
    rw [(newDut_pole sqrt _ _ _ dt s i').1] at a'
    rw [(newDut_pole sqrt _ _ _ dt s i').2] at b'
    rw [hinv.mesh] at a b a' b'
    rw [a, b, a', b', (hinv.utOld i i' h1 h2 h1' h2').1, (hinv.utOld i i' h1 h2 h1' h2').2,
      (hinv.dut i h1 h2).1, (hinv.dut i h1 h2).2, (hinv.dut i' h1' h2').1,
      (hinv.dut i' h1' h2').2]
    exact ⟨rfl, rfl⟩
  have hvt : UniformAtPoles m.mesh
      ((iterationBody sqrt (.full k) .half (.full (!k)) dt s).vt (.full (!k))) := by
    intro i i' h1 h2 h1' h2'
    have a := iterationBody_vt_new sqrt k dt s i _ (cs i h1 h2)
    have b := iterationBody_vt_new sqrt k dt s i _ (cn i h1 h2)
    have a' := iterationBody_vt_new sqrt k dt s i' _ (cs i' h1' h2')
    have b' := iterationBody_vt_new sqrt k dt s i' _ (cn i' h1' h2')
    rw [(newDvt_pole sqrt _ _ _ dt s i).1] at a
    rw [(newDvt_pole sqrt _ _ _ dt s i).2] at b
    rw [(newDvt_pole sqrt _ _ _ dt s i').1] at a'
    rw [(newDvt_pole sqrt _ _ _ dt s i').2] at b'
    rw [hinv.mesh] at a b a' b'
    rw [a, b, a', b', (hinv.vtOld i i' h1 h2 h1' h2').1, (hinv.vtOld i i' h1 h2 h1' h2').2,
      (hinv.dvt i h1 h2).1, (hinv.dvt i h1 h2).2, (hinv.dvt i' h1' h2').1,
      (hinv.dvt i' h1' h2').2]
    exact ⟨rfl, rfl⟩
  refine ⟨hgd, hgdt, hut, hvt, ?_, ?_⟩
  · intro i i' h1 h2 h1' h2'
    have a := iterationBody_u_new sqrt k dt s i _ (cs i h1 h2)
    have b := iterationBody_u_new sqrt k dt s i _ (cn i h1 h2)
    have a' := iterationBody_u_new sqrt k dt s i' _ (cs i' h1' h2')
    have b' := iterationBody_u_new sqrt k dt s i' _ (cn i' h1' h2')
    rw [hinv.mesh] at a b a' b'
    rw [a, b, a', b', (hut i i' h1 h2 h1' h2').1, (hut i i' h1 h2 h1' h2').2,
      (hgdt i i' h1 h2 h1' h2').1, (hgdt i i' h1 h2 h1' h2').2]
    exact ⟨rfl, rfl⟩
  · intro i i' h1 h2 h1' h2'
    have a := iterationBody_v_new sqrt k dt s i _ (cs i h1 h2)
    have b := iterationBody_v_new sqrt k dt s i _ (cn i h1 h2)
    have a' := iterationBody_v_new sqrt k dt s i' _ (cs i' h1' h2')
    have b' := iterationBody_v_new sqrt k dt s i' _ (cn i' h1' h2')
    rw [hinv.mesh] at a b a' b'
    rw [a, b, a', b', (hvt i i' h1 h2 h1' h2').1, (hvt i i' h1 h2 h1' h2').2,
      (hgdt i i' h1 h2 h1' h2').1, (hgdt i i' h1 h2 h1' h2').2]
    exact ⟨rfl, rfl⟩

theorem poleUniformInvariant_afterPasses (m : BarotropicModel α) (hmesh : m.mesh.WellFormed)
    (hu : UniformAtPoles m.mesh (m.u (.full k))) (hv : UniformAtPoles m.mesh (m.v (.full k)))
    (hgd : UniformAtPoles m.mesh (m.gd (.full k)))
    (hdut : ZeroAtPoles m.mesh m.dut) (hdvt : ZeroAtPoles m.mesh m.dvt)
    (hlater : m.firstRun = false →
      UniformAtPoles m.mesh (m.ut (.full k)) ∧ UniformAtPoles m.mesh (m.vt (.full k)))
    (n : Nat) : PoleUniformInvariant k m (afterPasses sqrt (.full k) dt n m) := by
  induction n with
  | zero => exact poleUniformInvariant_start sqrt k m hmesh hu hv hgd hdut hdvt hlater
  | succ n ih =>
    rw [afterPasses_succ]
    exact poleUniformInvariant_step sqrt k dt ih

end uniform

/-! ### The small grid -/

theorem exampleModel_mesh : (exampleModel α).mesh = exampleMesh α := by
  unfold exampleModel
  rw [init_eq]

theorem exampleMesh_wellFormed : (exampleMesh α).WellFormed := by
  refine ⟨?_, ?_, ?_⟩ <;> simp [exampleMesh]

theorem exampleModel_cosLat (j : Int) :
    (exampleModel α).cosLat j =
      if j = 2 then 7 / 40 else if j = 0 then 7 / 40 else if j = 1 then 1 else 0 := by
  unfold exampleModel
  rw [init_eq]
  simp only [cosLatSet, exampleMesh, exampleRaw]
  split_ifs <;> first | (exfalso; omega) | norm_num

theorem loopSum_one_two (f : Int → α) : loopSum 1 2 f = f 1 + f 2 := by
  unfold loopSum
  have h : ((2 : Int) + 1 - 1).toNat = 2 := by decide
  rw [h]
  simp [Finset.sum_range_succ]

theorem loopSum_zero_two (f : Int → α) : loopSum 0 2 f = f 0 + f 1 + f 2 := by
  unfold loopSum
  have h : ((2 : Int) + 1 - 0).toNat = 3 := by decide
  rw [h]
  simp [Finset.sum_range_succ]

theorem exampleMesh_is : (exampleMesh α).is FULL = 1 := rfl

theorem exampleMesh_ie : (exampleMesh α).ie FULL = 2 := rfl

theorem exampleMesh_js : (exampleMesh α).js FULL = 0 := rfl

theorem exampleMesh_je : (exampleMesh α).je FULL = 2 := rfl

theorem exampleMesh_numLon : (exampleMesh α).getNumGrid 0 FULL = 2 := rfl

theorem exampleMesh_gridCell (i j : Int) :
    GridCell (exampleMesh α) i j ↔ (0 ≤ j ∧ j ≤ 2) ∧ (1 ≤ i ∧ i ≤ 2) := Iff.rfl

theorem exampleMesh_haloCell (i j : Int) :
    HaloCell (exampleMesh α) i j ↔ (0 ≤ j ∧ j ≤ 2) ∧ (0 ≤ i ∧ i ≤ 3) := by
  unfold HaloCell
  rw [exampleMesh_is, exampleMesh_ie, exampleMesh_js, exampleMesh_je]
  constructor <;> rintro ⟨h1, h2, h3⟩ <;> exact ⟨h1, by omega, by omega⟩

theorem exampleMesh_innerCell (i j : Int) :
    InnerCell (exampleMesh α) i j ↔ j = 1 ∧ (1 ≤ i ∧ i ≤ 2) := by
  unfold InnerCell
  rw [exampleMesh_is, exampleMesh_ie, exampleMesh_js, exampleMesh_je]
  constructor
  · rintro ⟨⟨h1, h2⟩, h3⟩
    exact ⟨by omega, h3⟩
  · rintro ⟨h1, h3⟩
    exact ⟨⟨by omega, by omega⟩, h3⟩

theorem exampleModel_factorLat_one : (exampleModel α).factorLat 1 = 1 / 19113000 := by
  unfold exampleModel
  rw [init_eq]
  simp only [cosLatSet, exampleMesh, exampleRaw]
  norm_num

theorem exampleModel_factorCor_one : (exampleModel α).factorCor 1 = 0 := by
  unfold exampleModel
  rw [init_eq]
  simp [exampleMesh]

theorem exampleModel_factorCur_one : (exampleModel α).factorCur 1 = 0 := by
  unfold exampleModel
  rw [init_eq]
  simp [tanLatSet, exampleMesh]

theorem alternating_shift (b : α) (i : Int) (h1 : 1 ≤ i) (h2 : i ≤ 2) :
    alternating b (i + 1) = alternating b (i - 1) := by
  unfold alternating
  have h : i = 1 ∨ i = 2 := by omega
  rcases h with h | h <;> subst h <;> norm_num

section ExampleRun

variable {b : α} {s : BarotropicModel α}

theorem ExampleInvariant.fluxU (hinv : ExampleInvariant b s) (i : Int) (h1 : 0 ≤ i)
    (h2 : i ≤ 3) : massFluxU .half s i 1 = 0 := by
  unfold Barotropic.massFluxU
  rw [hinv.mesh, exampleMesh_is, exampleMesh_ie, exampleMesh_js, exampleMesh_je,
    if_pos ⟨by omega, by omega⟩, (hinv.halfEquator i h1 h2).2.2.1]
  ring

theorem ExampleInvariant.fluxV (hinv : ExampleInvariant b s) (i : Int) (h1 : 0 ≤ i)
    (h2 : i ≤ 3) : massFluxV .half s i 1 = alternating b i := by
  unfold Barotropic.massFluxV
  rw [hinv.mesh, exampleMesh_is, exampleMesh_ie, exampleMesh_js, exampleMesh_je,
    if_pos ⟨by omega, by omega⟩, (hinv.halfEquator i h1 h2).2.2.2,
    (hinv.halfDepth i 1 ((exampleMesh_haloCell i 1).2 ⟨by omega, h1, h2⟩)).2,
    hinv.cosLat, exampleModel_cosLat]
  norm_num

theorem ExampleInvariant.fluxV_poles (hinv : ExampleInvariant b s) (i : Int) :
    massFluxV .half s i 0 = 0 ∧ massFluxV .half s i 2 = 0 := by
  unfold Barotropic.massFluxV
  rw [hinv.mesh, exampleMesh_is, exampleMesh_ie, exampleMesh_js, exampleMesh_je,
    if_neg (by omega), if_neg (by omega)]
  exact hinv.gdv i

theorem ExampleInvariant.tendency_zero (hinv : ExampleInvariant b s) (i j : Int)
    (h : GridCell (exampleMesh α) i j) : depthTendency .half s i j = 0 := by
  obtain ⟨⟨h1, h2⟩, h3, h4⟩ := (exampleMesh_gridCell i j).1 h
  have hm := hinv.mesh
  have hsum : ∀ f : Int → α, (∀ i, 1 ≤ i → i ≤ 2 → f i = alternating b i) →
      loopSum 1 2 f = 0 := by
    intro f hf
    rw [loopSum_one_two, hf 1 (by omega) (by omega), hf 2 (by omega) (by omega)]
    unfold alternating
    norm_num
  have e1 : (1 : Int) + 1 = 2 := by norm_num
  have e2 : (1 : Int) - 1 = 0 := by norm_num
  have e3 : (0 : Int) + 1 = 1 := by norm_num
  have e4 : (2 : Int) - 1 = 1 := by norm_num
  have hj : j = 0 ∨ j = 1 ∨ j = 2 := by omega
  rcases hj with hj | hj | hj <;> subst hj
  · have := depthTendency_south .half s i (by rw [hm]; exact h3)
      (by rw [hm]; exact h4) (by rw [hm, exampleMesh_js, exampleMesh_je]; omega)
    rw [hm] at this
    rw [show (0 : Int) = (exampleMesh α).js FULL from rfl, this]
    unfold southPoleTendency
    rw [hm, exampleMesh_is, exampleMesh_ie, exampleMesh_js, e3,
      hsum _ (fun i h1 h2 => hinv.fluxV i (by omega) (by omega))]
    simp
  · rw [depthTendency_interior .half s i 1 (by rw [hm]; exact h3)
      (by rw [hm]; exact h4) (by rw [hm, exampleMesh_js]; omega)
      (by rw [hm, exampleMesh_je]; omega),
      hinv.fluxU (i + 1) (by omega) (by omega), hinv.fluxU (i - 1) (by omega) (by omega),
      e1, e2, (hinv.fluxV_poles i).1,
      (hinv.fluxV_poles i).2]
    ring
  · have := depthTendency_north .half s i (by rw [hm]; exact h3)
      (by rw [hm]; exact h4)
    rw [hm] at this
    rw [show (2 : Int) = (exampleMesh α).je FULL from rfl, this]
    unfold northPoleTendency
    rw [hm, exampleMesh_is, exampleMesh_ie, exampleMesh_je, e4,
      hsum _ (fun i h1 h2 => hinv.fluxV i (by omega) (by omega))]
    simp

end ExampleRun

section pass

variable (sqrt : α → α) (k : Bool) (dt : α) (m : BarotropicModel α)

theorem iterationBody_gd_eq :
    (iterationBody sqrt (.full k) .half (.full (!k)) dt m).gd =
      newGd (.full k) .half (.full (!k)) dt m := by
  rw [iterationBody_eq]

theorem iterationBody_gdt_eq :
    (iterationBody sqrt (.full k) .half (.full (!k)) dt m).gdt =
      newGdt sqrt (.full k) .half (.full (!k)) dt m := by
  rw [iterationBody_eq]

theorem iterationBody_fv_eq :
    (iterationBody sqrt (.full k) .half (.full (!k)) dt m).fv =
      momentumFluxV m.vt .half (zonalStage sqrt (.full k) .half (.full (!k)) dt m) := by
  rw [iterationBody_eq]

theorem iterationBody_u_new_periodic (h : m.mesh.is FULL ≤ m.mesh.ie FULL) :
    PeriodicHalo m.mesh
      ((iterationBody sqrt (.full k) .half (.full (!k)) dt m).u (.full (!k))) := by
  rw [iterationBody_eq]
  exact applyBndCond_update_new_periodic k _ _ _ h

theorem iterationBody_v_new_periodic (h : m.mesh.is FULL ≤ m.mesh.ie FULL) :
    PeriodicHalo m.mesh
      ((iterationBody sqrt (.full k) .half (.full (!k)) dt m).v (.full (!k))) := by
  rw [iterationBody_eq]
  exact applyBndCond_update_new_periodic k _ _ _ h

end pass

/-- On the small grid a field with periodic halo columns is known on the halo as soon as it is
known on the cells. -/
theorem exampleMesh_halo (f x : Field α) (hper : PeriodicHalo (exampleMesh α) f)
    (hcell : ∀ i j, GridCell (exampleMesh α) i j → f i j = x i j)
    (hx : ∀ j, x 0 j = x 2 j ∧ x 3 j = x 1 j) (i j : Int)
    (h : HaloCell (exampleMesh α) i j) : f i j = x i j := by
  obtain ⟨⟨h1, h2⟩, h3, h4⟩ := (exampleMesh_haloCell i j).1 h
  obtain ⟨p1, p2⟩ := hper j h1 h2
  have p1 : f 0 j = f 2 j := p1
  have p2 : f 3 j = f 1 j := p2
  have c1 := hcell 1 j ((exampleMesh_gridCell 1 j).2 ⟨⟨h1, h2⟩, by omega, by omega⟩)
  have c2 := hcell 2 j ((exampleMesh_gridCell 2 j).2 ⟨⟨h1, h2⟩, by omega, by omega⟩)
  have hi : i = 0 ∨ i = 1 ∨ i = 2 ∨ i = 3 := by omega
  rcases hi with hi | hi | hi | hi <;> subst hi
  · rw [p1, c2, (hx j).1]
  · exact c1
  · exact c2
  · rw [p2, c1, (hx j).2]

theorem momentumFluxU_equator (w : TimeField α) (t : TimeLevelIndex) (m : BarotropicModel α)
    (hm : m.mesh = exampleMesh α) (i : Int) (h1 : 0 ≤ i) (h2 : i ≤ 3) :
    momentumFluxU w t m i 1 = w t i 1 * m.u t i 1 := by
  unfold momentumFluxU
  rw [hm, exampleMesh_is, exampleMesh_ie, exampleMesh_js, exampleMesh_je]
  exact if_pos ⟨⟨by omega, by omega⟩, by omega, by omega⟩

theorem momentumFluxV_poles (w : TimeField α) (t : TimeLevelIndex) (m : BarotropicModel α)
    (hm : m.mesh = exampleMesh α) (i : Int) :
    momentumFluxV w t m i 0 = m.fv i 0 ∧ momentumFluxV w t m i 2 = m.fv i 2 := by
  unfold momentumFluxV
  rw [hm, exampleMesh_is, exampleMesh_ie, exampleMesh_js, exampleMesh_je]
  exact ⟨if_neg (by omega), if_neg (by omega)⟩

section ExampleRun

variable {b : α} {s : BarotropicModel α} (sqrt : α → α)

theorem ExampleInvariant.gd_new (hinv : ExampleInvariant b s) (i j : Int)
    (h : HaloCell (exampleMesh α) i j) :
    newGd (.full false) .half (.full (!false)) 6371 s (.full (!false)) i j = 1 := by
  have hm := hinv.mesh
  have hper := iterationBody_gd_new_periodic id false 6371 s
    (by rw [hm, exampleMesh_is, exampleMesh_ie]; omega)
  rw [hm, iterationBody_gd_eq] at hper
  refine exampleMesh_halo _ (fun _ _ => 1) hper ?_ (fun _ => ⟨rfl, rfl⟩) i j h
  intro i j hc
  have hc' : GridCell s.mesh i j := by rw [hm]; exact hc
  have h1 := iterationBody_gd_new id false 6371 s i j hc'
  rw [iterationBody_gd_eq] at h1
  rw [h1, hinv.tendency_zero i j hc]
  have hh := (exampleMesh_gridCell i j).1 hc
  rw [(hinv.old i j ((exampleMesh_haloCell i j).2 ⟨hh.1, by omega, by omega⟩)).2.2.1]
  norm_num

theorem ExampleInvariant.gdt_new (hinv : ExampleInvariant b s) (hsqrt : sqrt 1 = 1) (i j : Int)
    (h : HaloCell (exampleMesh α) i j) :
    newGdt sqrt (.full false) .half (.full (!false)) 6371 s (.full (!false)) i j = 1 := by
  have hm := hinv.mesh
  have hper := iterationBody_gdt_new_periodic sqrt false 6371 s
    (by rw [hm, exampleMesh_is, exampleMesh_ie]; omega)
  rw [hm, iterationBody_gdt_eq] at hper
  refine exampleMesh_halo _ (fun _ _ => 1) hper ?_ (fun _ => ⟨rfl, rfl⟩) i j h
  intro i j hc
  have hc' : GridCell s.mesh i j := by rw [hm]; exact hc
  have h1 := iterationBody_gdt_new sqrt false 6371 s i j hc'
  rw [iterationBody_gdt_eq, iterationBody_gd_eq] at h1
  have hh := (exampleMesh_gridCell i j).1 hc
  rw [h1, hinv.gd_new i j ((exampleMesh_haloCell i j).2 ⟨hh.1, by omega, by omega⟩), hsqrt]

theorem ExampleInvariant.gd_half (hinv : ExampleInvariant b s) (i j : Int)
    (h : HaloCell (exampleMesh α) i j) :
    newGd (.full false) .half (.full (!false)) 6371 s .half i j = 1 := by
  have h1 := iterationBody_gd_half id false 6371 s i j
  rw [iterationBody_gd_eq] at h1
  rw [h1, hinv.gd_new i j h, (hinv.old i j h).2.2.1]
  norm_num

theorem ExampleInvariant.gdt_half (hinv : ExampleInvariant b s) (hsqrt : sqrt 1 = 1) (i j : Int)
    (h : HaloCell (exampleMesh α) i j) :
    newGdt sqrt (.full false) .half (.full (!false)) 6371 s .half i j = 1 := by
  have h1 := iterationBody_gdt_half sqrt false 6371 s i j
  rw [iterationBody_gdt_eq] at h1
  rw [h1, hinv.gdt_new sqrt hsqrt i j h, (hinv.old i j h).2.2.2.1]
  norm_num

theorem alternating_zero (b : α) : alternating b 0 = b := by
  simp [alternating]

theorem alternating_one (b : α) : alternating b 1 = -b := by
  simp [alternating]

theorem alternating_two (b : α) : alternating b 2 = b := by
  simp [alternating]

theorem alternating_three (b : α) : alternating b 3 = -b := by
  simp [alternating]

theorem exampleModel_cosLat_one : (exampleModel α).cosLat 1 = 1 := by
  rw [exampleModel_cosLat]
  simp

theorem ExampleInvariant.newDut_equator (hinv : ExampleInvariant b s) (hsqrt : sqrt 1 = 1)
    (i : Int) (h1 : 1 ≤ i) (h2 : i ≤ 2) :
    newDut sqrt (.full false) .half (.full (!false)) 6371 s i 1 = 0 := by
  have hm := hinv.mesh
  have hD : (depthStage sqrt (.full false) .half (.full (!false)) 6371 s).mesh =
      exampleMesh α := hm
  have e11 : (1 : Int) + 1 = 2 := by norm_num
  have e1m : (1 : Int) - 1 = 0 := by norm_num
  have hhalo : ∀ i, 0 ≤ i → i ≤ 3 → HaloCell (exampleMesh α) i 1 := fun i a c =>
    (exampleMesh_haloCell i 1).2 ⟨by omega, a, c⟩
  unfold newDut
  rw [if_pos (show InnerCell s.mesh i 1 from by
    rw [hm]; exact (exampleMesh_innerCell i 1).2 ⟨rfl, h1, h2⟩)]
  unfold zonalTendencyValue advectionValue
  rw [momentumFluxU_equator _ _ _ hD (i + 1) (by omega) (by omega),
    momentumFluxU_equator _ _ _ hD (i - 1) (by omega) (by omega), e11, e1m,
    (momentumFluxV_poles _ _ _ hD i).1, (momentumFluxV_poles _ _ _ hD i).2]
  show (0.5 : α) * ((s.ut .half (i + 1) 1 * s.u .half (i + 1) 1 -
      s.ut .half (i - 1) 1 * s.u .half (i - 1) 1 +
      s.u .half i 1 * (s.ut .half (i + 1) 1 - s.ut .half (i - 1) 1)) * s.factorLon 1 +
    (s.fv i 2 - s.fv i 0 + s.v .half i 1 * (s.ut .half i 2 - s.ut .half i 0) * s.cosLat 1) *
      s.factorLat 1) -
    (s.factorCor 1 + s.u .half i 1 * s.factorCur 1) * s.vt .half i 1 +
    (newGd (.full false) .half (.full (!false)) 6371 s .half (i + 1) 1 -
      newGd (.full false) .half (.full (!false)) 6371 s .half (i - 1) 1 +
      s.ghs (i + 1) 1 - s.ghs (i - 1) 1) * s.factorLon 1 *
      newGdt sqrt (.full false) .half (.full (!false)) 6371 s .half i 1 = 0
  rw [hinv.gd_half (i + 1) 1 (hhalo _ (by omega) (by omega)),
    hinv.gd_half (i - 1) 1 (hhalo _ (by omega) (by omega)),
    (hinv.halfEquator (i + 1) (by omega) (by omega)).1,
    (hinv.halfEquator (i + 1) (by omega) (by omega)).2.2.1,
    (hinv.halfEquator (i - 1) (by omega) (by omega)).1,
    (hinv.halfEquator (i - 1) (by omega) (by omega)).2.2.1,
    (hinv.halfEquator i (by omega) (by omega)).1,
    (hinv.halfPoles i (by omega) (by omega)).1, (hinv.halfPoles i (by omega) (by omega)).2.1,
    (hinv.fv i).1, (hinv.fv i).2, hinv.ghs, hinv.factorCor, hinv.factorCur,
    exampleModel_factorCor_one, exampleModel_factorCur_one]
  norm_num

theorem ExampleInvariant.newDvt_equator (hinv : ExampleInvariant b s) (hsqrt : sqrt 1 = 1)
    (i : Int) (h1 : 1 ≤ i) (h2 : i ≤ 2) :
    newDvt sqrt (.full false) .half (.full (!false)) 6371 s i 1 = - alternating 1 i / 6371 := by
  have hm := hinv.mesh
  have hD : (depthStage sqrt (.full false) .half (.full (!false)) 6371 s).mesh =
      exampleMesh α := hm
  have hZ : (zonalStage sqrt (.full false) .half (.full (!false)) 6371 s).mesh =
      exampleMesh α := hm
  have e11 : (1 : Int) + 1 = 2 := by norm_num
  have e1m : (1 : Int) - 1 = 0 := by norm_num
  have hhalo : ∀ i j, 0 ≤ i → i ≤ 3 → 0 ≤ j → j ≤ 2 → HaloCell (exampleMesh α) i j :=
    fun i j a c d e => (exampleMesh_haloCell i j).2 ⟨⟨d, e⟩, a, c⟩
  unfold newDvt
  rw [if_pos (show InnerCell s.mesh i 1 from by
    rw [hm]; exact (exampleMesh_innerCell i 1).2 ⟨rfl, h1, h2⟩)]
  unfold meridionalTendencyValue advectionValue
  rw [momentumFluxU_equator _ _ _ hZ (i + 1) (by omega) (by omega),
    momentumFluxU_equator _ _ _ hZ (i - 1) (by omega) (by omega), e11, e1m,
    (momentumFluxV_poles _ _ _ hZ i).1, (momentumFluxV_poles _ _ _ hZ i).2]
  show (0.5 : α) * ((s.vt .half (i + 1) 1 * s.u .half (i + 1) 1 -
      s.vt .half (i - 1) 1 * s.u .half (i - 1) 1 +
      s.u .half i 1 * (s.vt .half (i + 1) 1 - s.vt .half (i - 1) 1)) * s.factorLon 1 +
    (momentumFluxV s.ut .half (depthStage sqrt (.full false) .half (.full (!false)) 6371 s) i 2 -
      momentumFluxV s.ut .half (depthStage sqrt (.full false) .half (.full (!false)) 6371 s) i 0 +
      s.v .half i 1 * (s.vt .half i 2 - s.vt .half i 0) * s.cosLat 1) *
      s.factorLat 1) +
    (s.factorCor 1 + s.u .half i 1 * s.factorCur 1) * s.ut .half i 1 +
    (newGd (.full false) .half (.full (!false)) 6371 s .half i 2 -
      newGd (.full false) .half (.full (!false)) 6371 s .half i 0 +
      s.ghs i 2 - s.ghs i 0) * s.factorLat 1 * s.cosLat 1 *
      newGdt sqrt (.full false) .half (.full (!false)) 6371 s .half i 1 =
    - alternating 1 i / 6371
  rw [(momentumFluxV_poles _ _ _ hD i).1, (momentumFluxV_poles _ _ _ hD i).2]
  show (0.5 : α) * ((s.vt .half (i + 1) 1 * s.u .half (i + 1) 1 -
      s.vt .half (i - 1) 1 * s.u .half (i - 1) 1 +
      s.u .half i 1 * (s.vt .half (i + 1) 1 - s.vt .half (i - 1) 1)) * s.factorLon 1 +
    (s.fv i 2 - s.fv i 0 +
      s.v .half i 1 * (s.vt .half i 2 - s.vt .half i 0) * s.cosLat 1) *
      s.factorLat 1) +
    (s.factorCor 1 + s.u .half i 1 * s.factorCur 1) * s.ut .half i 1 +
    (newGd (.full false) .half (.full (!false)) 6371 s .half i 2 -
      newGd (.full false) .half (.full (!false)) 6371 s .half i 0 +
      s.ghs i 2 - s.ghs i 0) * s.factorLat 1 * s.cosLat 1 *
      newGdt sqrt (.full false) .half (.full (!false)) 6371 s .half i 1 =
    - alternating 1 i / 6371
  rw [hinv.gd_half i 2 (hhalo _ _ (by omega) (by omega) (by omega) (by omega)),
    hinv.gd_half i 0 (hhalo _ _ (by omega) (by omega) (by omega) (by omega)),
    hinv.gdt_half sqrt hsqrt i 1 (hhalo _ _ (by omega) (by omega) (by omega) (by omega)),
    (hinv.halfEquator (i + 1) (by omega) (by omega)).1,
    (hinv.halfEquator (i - 1) (by omega) (by omega)).1,
    (hinv.halfEquator i (by omega) (by omega)).1,
    (hinv.halfEquator i (by omega) (by omega)).2.2.1,
    (hinv.halfPoles i (by omega) (by omega)).2.2.1,
    (hinv.halfPoles i (by omega) (by omega)).2.2.2,
    (hinv.fv i).1, (hinv.fv i).2, hinv.ghs, hinv.factorCor, hinv.factorLat, hinv.cosLat,
    exampleModel_factorCor_one, exampleModel_factorLat_one, exampleModel_cosLat_one]
  have hi : i = 1 ∨ i = 2 := by omega
  rcases hi with hi | hi <;> subst hi
  · rw [alternating_one]
    norm_num [alternating]
  · rw [alternating_two]
    norm_num [alternating]

theorem ExampleInvariant.newDut_poles (hinv : ExampleInvariant b s) (i : Int) :
    newDut sqrt (.full false) .half (.full (!false)) 6371 s i 0 = 0 ∧
      newDut sqrt (.full false) .half (.full (!false)) 6371 s i 2 = 0 := by
  have hm := hinv.mesh
  unfold newDut
  rw [if_neg (show ¬ InnerCell s.mesh i 0 from by
      rw [hm, exampleMesh_innerCell]; omega),
    if_neg (show ¬ InnerCell s.mesh i 2 from by
      rw [hm, exampleMesh_innerCell]; omega)]
  exact hinv.dut i

theorem ExampleInvariant.newDvt_poles (hinv : ExampleInvariant b s) (i : Int) :
    newDvt sqrt (.full false) .half (.full (!false)) 6371 s i 0 = 0 ∧
      newDvt sqrt (.full false) .half (.full (!false)) 6371 s i 2 = 0 := by
  have hm := hinv.mesh
  unfold newDvt
  rw [if_neg (show ¬ InnerCell s.mesh i 0 from by
      rw [hm, exampleMesh_innerCell]; omega),
    if_neg (show ¬ InnerCell s.mesh i 2 from by
      rw [hm, exampleMesh_innerCell]; omega)]
  exact hinv.dvt i

end ExampleRun

section ExampleRun

variable {b : α} {s : BarotropicModel α} (sqrt : α → α)

theorem ExampleInvariant.ut_new (hinv : ExampleInvariant b s) (hsqrt : sqrt 1 = 1) (i j : Int)
    (h : HaloCell (exampleMesh α) i j) :
    (iterationBody sqrt (.full false) .half (.full (!false)) 6371 s).ut (.full (!false)) i j =
      0 := by
  have hm := hinv.mesh
  have hper := iterationBody_ut_new_periodic sqrt false 6371 s
    (by rw [hm, exampleMesh_is, exampleMesh_ie]; omega)
  rw [hm] at hper
  refine exampleMesh_halo _ (fun _ _ => 0) hper ?_ (fun _ => ⟨rfl, rfl⟩) i j h
  intro i j hc
  have hc' : GridCell s.mesh i j := by rw [hm]; exact hc
  have hh := (exampleMesh_gridCell i j).1 hc
  rw [iterationBody_ut_new sqrt false 6371 s i j hc',
    (hinv.old i j ((exampleMesh_haloCell i j).2 ⟨hh.1, by omega, by omega⟩)).2.2.2.2.1]
  have hj : j = 0 ∨ j = 1 ∨ j = 2 := by omega
  rcases hj with hj | hj | hj <;> subst hj
  · rw [(hinv.newDut_poles sqrt i).1]
    norm_num
  · rw [hinv.newDut_equator sqrt hsqrt i hh.2.1 hh.2.2]
    norm_num
  · rw [(hinv.newDut_poles sqrt i).2]
    norm_num

theorem ExampleInvariant.vt_new (hinv : ExampleInvariant b s) (hsqrt : sqrt 1 = 1) (i j : Int)
    (h : HaloCell (exampleMesh α) i j) :
    (iterationBody sqrt (.full false) .half (.full (!false)) 6371 s).vt (.full (!false)) i j =
      if j = 1 then alternating 1 i else 0 := by
  have hm := hinv.mesh
  have hper := iterationBody_vt_new_periodic sqrt false 6371 s
    (by rw [hm, exampleMesh_is, exampleMesh_ie]; omega)
  rw [hm] at hper
  refine exampleMesh_halo _ (fun i j => if j = 1 then alternating 1 i else 0) hper ?_
    (fun j => ?_) i j h
  · intro i j hc
    have hc' : GridCell s.mesh i j := by rw [hm]; exact hc
    have hh := (exampleMesh_gridCell i j).1 hc
    rw [iterationBody_vt_new sqrt false 6371 s i j hc',
      (hinv.old i j ((exampleMesh_haloCell i j).2 ⟨hh.1, by omega, by omega⟩)).2.2.2.2.2]
    have hj : j = 0 ∨ j = 1 ∨ j = 2 := by omega
    rcases hj with hj | hj | hj <;> subst hj
    · rw [(hinv.newDvt_poles sqrt i).1]
      norm_num
    · rw [hinv.newDvt_equator sqrt hsqrt i hh.2.1 hh.2.2]
      field_simp
    · rw [(hinv.newDvt_poles sqrt i).2]
      norm_num
  · dsimp only
    rw [alternating_zero, alternating_one, alternating_two, alternating_three]
    exact ⟨rfl, rfl⟩

theorem ExampleInvariant.u_new (hinv : ExampleInvariant b s) (hsqrt : sqrt 1 = 1) (i j : Int)
    (h : HaloCell (exampleMesh α) i j) :
    (iterationBody sqrt (.full false) .half (.full (!false)) 6371 s).u (.full (!false)) i j =
      0 := by
  have hm := hinv.mesh
  have hper := iterationBody_u_new_periodic sqrt false 6371 s
    (by rw [hm, exampleMesh_is, exampleMesh_ie]; omega)
  rw [hm] at hper
  refine exampleMesh_halo _ (fun _ _ => 0) hper ?_ (fun _ => ⟨rfl, rfl⟩) i j h
  intro i j hc
  have hc' : GridCell s.mesh i j := by rw [hm]; exact hc
  have hh := (exampleMesh_gridCell i j).1 hc
  have hl : HaloCell (exampleMesh α) i j :=
    (exampleMesh_haloCell i j).2 ⟨hh.1, by omega, by omega⟩
  rw [iterationBody_u_new sqrt false 6371 s i j hc', hinv.ut_new sqrt hsqrt i j hl,
    iterationBody_gdt_eq, hinv.gdt_new sqrt hsqrt i j hl]
  norm_num

theorem ExampleInvariant.v_new (hinv : ExampleInvariant b s) (hsqrt : sqrt 1 = 1) (i j : Int)
    (h : HaloCell (exampleMesh α) i j) :
    (iterationBody sqrt (.full false) .half (.full (!false)) 6371 s).v (.full (!false)) i j =
      if j = 1 then alternating 1 i else 0 := by
  have hm := hinv.mesh
  have hper := iterationBody_v_new_periodic sqrt false 6371 s
    (by rw [hm, exampleMesh_is, exampleMesh_ie]; omega)
  rw [hm] at hper
  refine exampleMesh_halo _ (fun i j => if j = 1 then alternating 1 i else 0) hper ?_
    (fun j => ?_) i j h
  · intro i j hc
    have hc' : GridCell s.mesh i j := by rw [hm]; exact hc
    have hh := (exampleMesh_gridCell i j).1 hc
    have hl : HaloCell (exampleMesh α) i j :=
      (exampleMesh_haloCell i j).2 ⟨hh.1, by omega, by omega⟩
    rw [iterationBody_v_new sqrt false 6371 s i j hc', hinv.vt_new sqrt hsqrt i j hl,
      iterationBody_gdt_eq, hinv.gdt_new sqrt hsqrt i j hl]
    norm_num
  · dsimp only
    rw [alternating_zero, alternating_one, alternating_two, alternating_three]
    exact ⟨rfl, rfl⟩

theorem alternating_half (i : Int) : (0 + alternating (1 : α) i) * 0.5 = alternating (1 / 2) i := by
  unfold alternating
  split_ifs <;> norm_num

/-- One pass of the iteration loop on the small grid leaves the meridional wind of the half
level on the equator row alternating with amplitude 1/2, whatever its amplitude was before. -/
theorem exampleInvariant_step (hinv : ExampleInvariant b s) (hsqrt : sqrt 1 = 1) :
    ExampleInvariant (1 / 2)
      (iterationBody sqrt (.full false) .half (.full (!false)) 6371 s) := by
  have hm := hinv.mesh
  have hhalo : ∀ i j, 0 ≤ i → i ≤ 3 → 0 ≤ j → j ≤ 2 → HaloCell (exampleMesh α) i j :=
    fun i j a c d e => (exampleMesh_haloCell i j).2 ⟨⟨d, e⟩, a, c⟩
  have hZ : (zonalStage sqrt (.full false) .half (.full (!false)) 6371 s).mesh =
      exampleMesh α := hm
  have hD : (depthStage sqrt (.full false) .half (.full (!false)) 6371 s).mesh =
      exampleMesh α := hm
  refine ⟨?_, ?_, ?_, ?_, ?_, ?_, ?_, ?_, ?_, ?_, ?_, ?_, ?_, ?_, ?_⟩
  · rw [iterationBody_mesh, hm]
  · rw [iterationBody_cosLat, hinv.cosLat]
  · rw [iterationBody_factorCor, hinv.factorCor]
  · rw [iterationBody_factorCur, hinv.factorCur]
  · rw [iterationBody_factorLon, hinv.factorLon]
  · rw [iterationBody_factorLat, hinv.factorLat]
  · rw [iterationBody_ghs, hinv.ghs]
  · intro i
    rw [iterationBody_fv_eq, (momentumFluxV_poles _ _ _ hZ i).1,
      (momentumFluxV_poles _ _ _ hZ i).2]
    show momentumFluxV s.ut .half (depthStage sqrt (.full false) .half (.full (!false)) 6371 s)
        i 0 = 0 ∧
      momentumFluxV s.ut .half (depthStage sqrt (.full false) .half (.full (!false)) 6371 s)
        i 2 = 0
    rw [(momentumFluxV_poles _ _ _ hD i).1, (momentumFluxV_poles _ _ _ hD i).2]
    exact hinv.fv i
  · intro i
    rw [iterationBody_dut]
    exact hinv.newDut_poles sqrt i
  · intro i
    rw [iterationBody_dvt]
    exact hinv.newDvt_poles sqrt i
  · intro i
    rw [iterationBody_gdv]
    exact hinv.fluxV_poles i
  · intro i j h
    rw [iterationBody_u_old, iterationBody_v_old, iterationBody_gd_old, iterationBody_gdt_old,
      iterationBody_ut_old, iterationBody_vt_old]
    exact hinv.old i j h
  · intro i j h
    rw [iterationBody_gd_eq, iterationBody_gdt_eq]
    exact ⟨hinv.gd_half i j h, hinv.gdt_half sqrt hsqrt i j h⟩
  · intro i h1 h2
    have hl := hhalo i 1 h1 h2 (by omega) (by omega)
    rw [iterationBody_u_half, iterationBody_v_half, iterationBody_ut_half,
      iterationBody_vt_half, hinv.u_new sqrt hsqrt i 1 hl, hinv.v_new sqrt hsqrt i 1 hl,
      hinv.ut_new sqrt hsqrt i 1 hl, hinv.vt_new sqrt hsqrt i 1 hl, if_pos rfl,
      (hinv.old i 1 hl).1, (hinv.old i 1 hl).2.1, (hinv.old i 1 hl).2.2.2.2.1,
      (hinv.old i 1 hl).2.2.2.2.2, alternating_half]
    refine ⟨?_, rfl, ?_, rfl⟩ <;> norm_num
  · intro i h1 h2
    have hl0 := hhalo i 0 h1 h2 (by omega) (by omega)
    have hl2 := hhalo i 2 h1 h2 (by omega) (by omega)
    rw [iterationBody_ut_half, iterationBody_ut_half, iterationBody_vt_half,
      iterationBody_vt_half, hinv.ut_new sqrt hsqrt i 0 hl0, hinv.ut_new sqrt hsqrt i 2 hl2,
      hinv.vt_new sqrt hsqrt i 0 hl0, hinv.vt_new sqrt hsqrt i 2 hl2,
      (hinv.old i 0 hl0).2.2.2.2.1, (hinv.old i 0 hl0).2.2.2.2.2,
      (hinv.old i 2 hl2).2.2.2.2.1, (hinv.old i 2 hl2).2.2.2.2.2,
      if_neg (by omega), if_neg (by omega)]
    norm_num

/-- The energy of the new level after a pass of the iteration loop on the small grid. -/
theorem ExampleInvariant.energy_new (hinv : ExampleInvariant b s) (hsqrt : sqrt 1 = 1) :
    calcTotalEnergy (.full (!false))
      (iterationBody sqrt (.full false) .half (.full (!false)) 6371 s) = 31500047 / 10 := by
  have hm := hinv.mesh
  have hcell : ∀ i j, 1 ≤ i → i ≤ 2 → 0 ≤ j → j ≤ 2 →
      ((iterationBody sqrt (.full false) .half (.full (!false)) 6371 s).ut
          (.full (!false)) i j ^ 2 +
        (iterationBody sqrt (.full false) .half (.full (!false)) 6371 s).vt
          (.full (!false)) i j ^ 2 +
        ((iterationBody sqrt (.full false) .half (.full (!false)) 6371 s).gd
            (.full (!false)) i j +
          (iterationBody sqrt (.full false) .half (.full (!false)) 6371 s).ghs i j) ^ 2) *
        (iterationBody sqrt (.full false) .half (.full (!false)) 6371 s).cosLat j =
      if j = 1 then 2 else if j = 0 then 7 / 40
        else if i = 1 then 3001 ^ 2 * (7 / 40) else 2999 ^ 2 * (7 / 40) := by
    intro i j h1 h2 h3 h4
    have hl : HaloCell (exampleMesh α) i j :=
      (exampleMesh_haloCell i j).2 ⟨⟨h3, h4⟩, by omega, by omega⟩
    rw [hinv.ut_new sqrt hsqrt i j hl, hinv.vt_new sqrt hsqrt i j hl, iterationBody_gd_eq,
      hinv.gd_new i j hl, iterationBody_ghs, hinv.ghs, iterationBody_cosLat, hinv.cosLat,
      exampleModel_cosLat]
    have hi : i = 1 ∨ i = 2 := by omega
    have hj : j = 0 ∨ j = 1 ∨ j = 2 := by omega
    rcases hi with hi | hi <;> rcases hj with hj | hj | hj <;> subst hi <;> subst hj <;>
      norm_num [alternating]
  rw [calcTotalEnergy_eq, iterationBody_mesh, hm, exampleMesh_is, exampleMesh_ie,
    exampleMesh_js, exampleMesh_je, loopSum_zero_two, loopSum_one_two, loopSum_one_two,
    loopSum_one_two,
    hcell 1 0 (by omega) (by omega) (by omega) (by omega),
    hcell 2 0 (by omega) (by omega) (by omega) (by omega),
    hcell 1 1 (by omega) (by omega) (by omega) (by omega),
    hcell 2 1 (by omega) (by omega) (by omega) (by omega),
    hcell 1 2 (by omega) (by omega) (by omega) (by omega),
    hcell 2 2 (by omega) (by omega) (by omega) (by omega)]
  norm_num

end ExampleRun

theorem exampleModel_firstRun : (exampleModel α).firstRun = true := by
  unfold exampleModel
  rw [init_eq]
  rfl

theorem exampleModel_ghs :
    (exampleModel α).ghs = fun i j => if j = 2 then alternating (-3000) i else 0 := by
  unfold exampleModel
  rw [init_eq]

theorem exampleModel_fv : (exampleModel α).fv = fun _ _ => 0 := by
  unfold exampleModel
  rw [init_eq]
  rfl

theorem exampleModel_rest (t : TimeLevelIndex) (i j : Int) :
    (exampleModel α).u t i j = 0 ∧ (exampleModel α).v t i j = 0 ∧
      (exampleModel α).gd t i j = 1 := by
  unfold exampleModel
  rw [init_eq]
  exact ⟨rfl, rfl, rfl⟩

theorem exampleModel_buffers (i j : Int) :
    (exampleModel α).dut i j = 0 ∧ (exampleModel α).dvt i j = 0 ∧
      (exampleModel α).gdv i j = 0 := by
  unfold exampleModel
  rw [init_eq]
  refine ⟨?_, ?_, ?_⟩ <;> simp [zeroPoleRows, exampleRaw]

section ExampleRun

variable (sqrt : α → α)

/-- The state in which the iteration loop starts on the small grid. -/
theorem exampleInvariant_start (hsqrt : sqrt 1 = 1) :
    ExampleInvariant 0 (startState sqrt (.full false) (exampleModel α)) := by
  obtain ⟨f1, -, -, -, f5, f6, f7, -, -, f10, -, f12, f13, -, f15, f16, f17, f18⟩ :=
    startState_frame sqrt false (exampleModel α)
  obtain ⟨o1, o2, o3⟩ := startState_old sqrt false (exampleModel α)
  have hmesh : ∀ i j, HaloCell (exampleMesh α) i j → HaloCell (exampleModel α).mesh i j := by
    intro i j h
    rw [exampleModel_mesh]
    exact h
  refine ⟨?_, f13, f15, f16, f17, f18, ?_, ?_, ?_, ?_, ?_, ?_, ?_, ?_, ?_⟩
  · rw [f1, exampleModel_mesh]
  · rw [f5, exampleModel_ghs]
  · intro i
    rw [f12, exampleModel_fv]
    exact ⟨rfl, rfl⟩
  · intro i
    rw [f6]
    exact ⟨(exampleModel_buffers i 0).1, (exampleModel_buffers i 2).1⟩
  · intro i
    rw [f7]
    exact ⟨(exampleModel_buffers i 0).2.1, (exampleModel_buffers i 2).2.1⟩
  · intro i
    rw [f10]
    exact ⟨(exampleModel_buffers i 0).2.2, (exampleModel_buffers i 2).2.2⟩
  · intro i j h
    obtain ⟨t1, t2, t3⟩ := startState_transformed sqrt false (exampleModel α)
      exampleModel_firstRun i j (hmesh i j h)
    rw [o1, o2, o3, t1, t2, t3, (exampleModel_rest _ i j).1, (exampleModel_rest _ i j).2.1,
      (exampleModel_rest _ i j).2.2, hsqrt]
    norm_num
  · intro i j h
    obtain ⟨-, -, t3, t4, -, -⟩ := startState_half sqrt false (exampleModel α)
      exampleModel_firstRun i j (hmesh i j h)
    rw [t3, t4, (exampleModel_rest _ i j).2.2, hsqrt]
    exact ⟨rfl, rfl⟩
  · intro i h1 h2
    obtain ⟨t1, t2, -, -, t5, t6⟩ := startState_half sqrt false (exampleModel α)
      exampleModel_firstRun i 1
      (hmesh i 1 ((exampleMesh_haloCell i 1).2 ⟨⟨by omega, by omega⟩, h1, h2⟩))
    rw [t1, t2, t5, t6, (exampleModel_rest _ i 1).1, (exampleModel_rest _ i 1).2.1]
    simp [alternating]
  · intro i h1 h2
    obtain ⟨-, -, -, -, t5, t6⟩ := startState_half sqrt false (exampleModel α)
      exampleModel_firstRun i 0
      (hmesh i 0 ((exampleMesh_haloCell i 0).2 ⟨⟨by omega, by omega⟩, h1, h2⟩))
    obtain ⟨-, -, -, -, t7, t8⟩ := startState_half sqrt false (exampleModel α)
      exampleModel_firstRun i 2
      (hmesh i 2 ((exampleMesh_haloCell i 2).2 ⟨⟨by omega, by omega⟩, h1, h2⟩))
    rw [t5, t6, t7, t8, (exampleModel_rest _ i 0).1, (exampleModel_rest _ i 0).2.1,
      (exampleModel_rest _ i 2).1, (exampleModel_rest _ i 2).2.1]
    simp

/-- The energy of the old level on the small grid. -/
theorem ExampleInvariant.energy_old {b : α} {s : BarotropicModel α}
    (hinv : ExampleInvariant b s) : calcTotalEnergy (.full false) s = 31500027 / 10 := by
  have hm := hinv.mesh
  have hcell : ∀ i j, 1 ≤ i → i ≤ 2 → 0 ≤ j → j ≤ 2 →
      (s.ut (.full false) i j ^ 2 + s.vt (.full false) i j ^ 2 +
        (s.gd (.full false) i j + s.ghs i j) ^ 2) * s.cosLat j =
      if j = 1 then 1 else if j = 0 then 7 / 40
        else if i = 1 then 3001 ^ 2 * (7 / 40) else 2999 ^ 2 * (7 / 40) := by
    intro i j h1 h2 h3 h4
    have hl : HaloCell (exampleMesh α) i j :=
      (exampleMesh_haloCell i j).2 ⟨⟨h3, h4⟩, by omega, by omega⟩
    rw [(hinv.old i j hl).2.2.1, (hinv.old i j hl).2.2.2.2.1, (hinv.old i j hl).2.2.2.2.2,
      hinv.ghs, hinv.cosLat, exampleModel_cosLat]
    have hi : i = 1 ∨ i = 2 := by omega
    have hj : j = 0 ∨ j = 1 ∨ j = 2 := by omega
    rcases hi with hi | hi <;> rcases hj with hj | hj | hj <;> subst hi <;> subst hj <;>
      norm_num [alternating]
  rw [calcTotalEnergy_eq, hm, exampleMesh_is, exampleMesh_ie,
    exampleMesh_js, exampleMesh_je, loopSum_zero_two, loopSum_one_two, loopSum_one_two,
    loopSum_one_two,
    hcell 1 0 (by omega) (by omega) (by omega) (by omega),
    hcell 2 0 (by omega) (by omega) (by omega) (by omega),
    hcell 1 1 (by omega) (by omega) (by omega) (by omega),
    hcell 2 1 (by omega) (by omega) (by omega) (by omega),
    hcell 1 2 (by omega) (by omega) (by omega) (by omega),
    hcell 2 2 (by omega) (by omega) (by omega) (by omega)]
  norm_num

/-- On the small grid the state after any number of passes satisfies the invariant. -/
theorem exampleModel_afterPasses (hsqrt : sqrt 1 = 1) (n : Nat) :
    ∃ b : α, ExampleInvariant b (afterPasses sqrt (.full false) 6371 n (exampleModel α)) := by
  induction n with
  | zero =>
    refine ⟨0, ?_⟩
    rw [afterPasses_zero]
    exact exampleInvariant_start sqrt hsqrt
  | succ n ih =>
    obtain ⟨b, hb⟩ := ih
    refine ⟨1 / 2, ?_⟩
    rw [afterPasses_succ]
    exact exampleInvariant_step sqrt hb hsqrt

/-- On the small grid the energy criterion fails at the end of every pass. -/
theorem exampleModel_criterionAt (hsqrt : sqrt 1 = 1) (n : Nat) (hn : 1 ≤ n) :
    criterionAt sqrt (.full false) 6371 n (exampleModel α) = false := by
  obtain ⟨n, rfl⟩ : ∃ k, n = k + 1 := ⟨n - 1, by omega⟩
  obtain ⟨b, hb⟩ := exampleModel_afterPasses sqrt hsqrt n
  unfold criterionAt
  rw [(exampleInvariant_start sqrt hsqrt).energy_old, afterPasses_succ]
  have h := hb.energy_new sqrt hsqrt
  have h2 : calcTotalEnergy (TimeLevelIndex.full false).plusOne
      (iterationBody sqrt (.full false) .half (.full (!false)) 6371
        (afterPasses sqrt (.full false) 6371 n (exampleModel α))) = 31500047 / 10 := h
  rw [h2]
  unfold energyCriterion
  rw [decide_eq_false_iff_not]
  norm_num [abs_of_nonneg]

end ExampleRun

/-! ### The exit of the iteration loop -/

theorem energyCriterion_iff (e0 e1 : α) :
    energyCriterion e0 e1 = true ↔ EnergyConverged e0 e1 := by
  unfold energyCriterion EnergyConverged
  exact decide_eq_true_iff

theorem criterionAt_iff (sqrt : α → α) (oldTimeIdx : TimeLevelIndex) (dt : α) (n : Nat)
    (m : BarotropicModel α) :
    criterionAt sqrt oldTimeIdx dt n m = true ↔
      EnergyConverged (energyBefore sqrt oldTimeIdx m)
        (energyAfterPass sqrt oldTimeIdx dt n m) :=
  energyCriterion_iff _ _

theorem criterionAt_false_iff (sqrt : α → α) (oldTimeIdx : TimeLevelIndex) (dt : α) (n : Nat)
    (m : BarotropicModel α) :
    criterionAt sqrt oldTimeIdx dt n m = false ↔
      ¬ EnergyConverged (energyBefore sqrt oldTimeIdx m)
        (energyAfterPass sqrt oldTimeIdx dt n m) := by
  rw [← criterionAt_iff]
  simp

section loopExit

variable (sqrt : α → α) (oldTimeIdx : TimeLevelIndex) (dt : α) (m : BarotropicModel α)

/-- When no pass before pass `k` meets the test, `integrate` leaves its loop by the `break` of
pass `k` exactly when pass `k` meets it. -/
theorem integrate_fst_eq_iff (k : Nat) (hk1 : 1 ≤ k) (hk2 : k ≤ 8)
    (hreach : ∀ n, 1 ≤ n → n < k → criterionAt sqrt oldTimeIdx dt n m = false) :
    (integrate sqrt oldTimeIdx dt m).1 = k ↔ criterionAt sqrt oldTimeIdx dt k m = true := by
  constructor
  · intro h
    by_contra hk
    have hk : criterionAt sqrt oldTimeIdx dt k m = false := by simpa using hk
    rcases criterion_first_or_never sqrt oldTimeIdx dt m with ⟨n, h1, h2, h3, h4⟩ | hnever
    · rw [integrate_break sqrt oldTimeIdx dt m n h1 h2 h4 h3] at h
      have h : n = k := h
      subst h
      rw [hk] at h3
      exact Bool.false_ne_true h3
    · rw [integrate_exhausted sqrt oldTimeIdx dt m hnever] at h
      have h : 9 = k := h
      omega
  · intro h
    rw [integrate_break sqrt oldTimeIdx dt m k hk1 hk2 hreach h]

/-- When no pass before the eighth meets the test, `integrate` runs eight passes. -/
theorem integrate_passesRun_last
    (hreach : ∀ n, 1 ≤ n → n < 8 → criterionAt sqrt oldTimeIdx dt n m = false) :
    passesRun (integrate sqrt oldTimeIdx dt m).1 = 8 := by
  by_cases h : criterionAt sqrt oldTimeIdx dt 8 m = true
  · rw [integrate_break sqrt oldTimeIdx dt m 8 (by omega) (le_refl _) hreach h]
    rfl
  · have h : criterionAt sqrt oldTimeIdx dt 8 m = false := by simpa using h
    have hall : ∀ n, 1 ≤ n → n ≤ 8 → criterionAt sqrt oldTimeIdx dt n m = false := by
      intro n h1 h2
      by_cases hn : n = 8
      · rw [hn]
        exact h
      · exact hreach n h1 (by omega)
    rw [integrate_exhausted sqrt oldTimeIdx dt m hall]
    rfl

theorem passesRun_eq_iff (iter k : Nat) (hk : k ≤ 7) : passesRun iter = k ↔ iter = k := by
  unfold passesRun
  omega

theorem integrate_fst_le :
    (integrate sqrt oldTimeIdx dt m).1 ≤ 9 := by
  rcases criterion_first_or_never sqrt oldTimeIdx dt m with ⟨n, h1, h2, h3, h4⟩ | hnever
  · rw [integrate_break sqrt oldTimeIdx dt m n h1 h2 h4 h3]
    show n ≤ 9
    omega
  · rw [integrate_exhausted sqrt oldTimeIdx dt m hnever]

end loopExit

/-! ### The run on the small grid -/

theorem exampleModel_integrate (sqrt : α → α) (hsqrt : sqrt 1 = 1) :
    integrate sqrt (.full false) 6371 (exampleModel α) =
      (9, afterPasses sqrt (.full false) 6371 8 (exampleModel α)) :=
  integrate_exhausted sqrt (.full false) 6371 (exampleModel α)
    (fun k h1 _ => exampleModel_criterionAt sqrt hsqrt k h1)

theorem exampleModel_not_converged (sqrt : α → α) (hsqrt : sqrt 1 = 1) (n : Nat) (hn : 1 ≤ n) :
    ¬ EnergyConverged (energyBefore sqrt (.full false) (exampleModel α))
      (energyAfterPass sqrt (.full false) 6371 n (exampleModel α)) :=
  (criterionAt_false_iff sqrt (.full false) 6371 n (exampleModel α)).1
    (exampleModel_criterionAt sqrt hsqrt n hn)

/-! ### The coefficients that `init` leaves -/

section coefficients

variable (mesh : Mesh α) (OMEGA : α) (m : BarotropicModel α)

theorem init_mesh : (init mesh OMEGA m).mesh = mesh := by
  rw [init_eq]

theorem init_cosLat : (init mesh OMEGA m).cosLat = cosLatSet { m with mesh := mesh } := by
  rw [init_eq]

theorem init_tanLat (j : Int) :
    (init mesh OMEGA m).tanLat j =
      if j = mesh.je FULL then 1 / (init mesh OMEGA m).cosLat (mesh.je FULL)
      else if j = mesh.js FULL then -1 / (init mesh OMEGA m).cosLat (mesh.js FULL)
      else if mesh.js FULL + 1 ≤ j ∧ j ≤ mesh.je FULL - 1 then mesh.getTanLat FULL j
      else m.tanLat j := by
  rw [init_eq]
  rfl

theorem init_factorLon (j : Int) (h1 : mesh.js FULL ≤ j) (h2 : j ≤ mesh.je FULL) :
    (init mesh OMEGA m).factorLon j =
      1 / (2 * (init mesh OMEGA m).dlon * (init mesh OMEGA m).radius *
        (init mesh OMEGA m).cosLat j) := by
  rw [init_eq]
  exact if_pos ⟨h1, h2⟩

theorem init_factorLat (j : Int) (h1 : mesh.js FULL ≤ j) (h2 : j ≤ mesh.je FULL) :
    (init mesh OMEGA m).factorLat j =
      1 / (2 * (init mesh OMEGA m).dlat * (init mesh OMEGA m).radius *
        (init mesh OMEGA m).cosLat j) := by
  rw [init_eq]
  exact if_pos ⟨h1, h2⟩

theorem init_initFactors : InitFactors (init mesh OMEGA m) := by
  intro j h1 h2
  rw [init_mesh] at h1 h2
  exact ⟨init_factorLon mesh OMEGA m j h1 h2, init_factorLat mesh OMEGA m j h1 h2⟩

theorem init_radius : (init mesh OMEGA m).radius = 6.371e6 := by
  rw [init_eq]

theorem init_dlon : (init mesh OMEGA m).dlon = mesh.getGridInterval 0 FULL 0 := by
  rw [init_eq]

theorem init_dlat : (init mesh OMEGA m).dlat = mesh.getGridInterval 1 FULL 0 := by
  rw [init_eq]

theorem init_poles_zero (i : Int) (h1 : mesh.is FULL - 1 ≤ i) (h2 : i ≤ mesh.ie FULL + 1) :
    ((init mesh OMEGA m).dut i (mesh.js FULL) = 0 ∧ (init mesh OMEGA m).dut i (mesh.je FULL) = 0) ∧
    ((init mesh OMEGA m).dvt i (mesh.js FULL) = 0 ∧ (init mesh OMEGA m).dvt i (mesh.je FULL) = 0) ∧
    ((init mesh OMEGA m).gdu i (mesh.js FULL) = 0 ∧ (init mesh OMEGA m).gdu i (mesh.je FULL) = 0) ∧
    ((init mesh OMEGA m).gdv i (mesh.js FULL) = 0 ∧
      (init mesh OMEGA m).gdv i (mesh.je FULL) = 0) := by
  rw [init_eq]
  simp [zeroPoleRows, h1, h2]

end coefficients

/-! ### The small grid -/

theorem exampleModel_wellFormed : (exampleModel α).mesh.WellFormed := by
  rw [exampleModel_mesh]
  exact exampleMesh_wellFormed

theorem exampleModel_cosLatNonzero : CosLatNonzero (exampleModel α) := by
  intro j h1 h2
  rw [exampleModel_mesh] at h1 h2
  have h1 : 0 ≤ j := h1
  have h2 : j ≤ 2 := h2
  rw [exampleModel_cosLat]
  split_ifs <;> first | (exfalso; omega) | norm_num

theorem exampleModel_initFactors : InitFactors (exampleModel α) := by
  unfold InitFactors exampleModel
  rw [init_eq]
  intro j h1 h2
  exact ⟨if_pos ⟨h1, h2⟩, if_pos ⟨h1, h2⟩⟩

theorem exampleModel_gdv : ZeroAtPoles (exampleModel α).mesh (exampleModel α).gdv :=
  fun i _ _ => ⟨(exampleModel_buffers i _).2.2, (exampleModel_buffers i _).2.2⟩

theorem exampleModel_dut : ZeroAtPoles (exampleModel α).mesh (exampleModel α).dut :=
  fun i _ _ => ⟨(exampleModel_buffers i _).1, (exampleModel_buffers i _).1⟩

theorem exampleModel_dvt : ZeroAtPoles (exampleModel α).mesh (exampleModel α).dvt :=
  fun i _ _ => ⟨(exampleModel_buffers i _).2.1, (exampleModel_buffers i _).2.1⟩

theorem exampleModel_u_periodic (t : TimeLevelIndex) :
    PeriodicHalo (exampleModel α).mesh ((exampleModel α).u t) := by
  intro j _ _
  rw [(exampleModel_rest t _ j).1, (exampleModel_rest t _ j).1, (exampleModel_rest t _ j).1,
    (exampleModel_rest t _ j).1]
  exact ⟨rfl, rfl⟩

theorem exampleModel_gd_periodic (t : TimeLevelIndex) :
    PeriodicHalo (exampleModel α).mesh ((exampleModel α).gd t) := by
  intro j _ _
  rw [(exampleModel_rest t _ j).2.2, (exampleModel_rest t _ j).2.2,
    (exampleModel_rest t _ j).2.2, (exampleModel_rest t _ j).2.2]
  exact ⟨rfl, rfl⟩

theorem exampleModel_u_poles (t : TimeLevelIndex) :
    ZeroAtPoles (exampleModel α).mesh ((exampleModel α).u t) :=
  fun i _ _ => ⟨(exampleModel_rest t i _).1, (exampleModel_rest t i _).1⟩

theorem exampleModel_v_poles (t : TimeLevelIndex) :
    ZeroAtPoles (exampleModel α).mesh ((exampleModel α).v t) :=
  fun i _ _ => ⟨(exampleModel_rest t i _).2.1, (exampleModel_rest t i _).2.1⟩

theorem exampleModel_uniform (t : TimeLevelIndex) :
    UniformAtPoles (exampleModel α).mesh ((exampleModel α).u t) ∧
    UniformAtPoles (exampleModel α).mesh ((exampleModel α).v t) ∧
    UniformAtPoles (exampleModel α).mesh ((exampleModel α).gd t) := by
  refine ⟨?_, ?_, ?_⟩ <;> intro i i' _ _ _ _
  · rw [(exampleModel_rest t i _).1, (exampleModel_rest t i' _).1, (exampleModel_rest t i _).1,
      (exampleModel_rest t i' _).1]
    exact ⟨rfl, rfl⟩
  · rw [(exampleModel_rest t i _).2.1, (exampleModel_rest t i' _).2.1,
      (exampleModel_rest t i _).2.1, (exampleModel_rest t i' _).2.1]
    exact ⟨rfl, rfl⟩
  · rw [(exampleModel_rest t i _).2.2, (exampleModel_rest t i' _).2.2,
      (exampleModel_rest t i _).2.2, (exampleModel_rest t i' _).2.2]
    exact ⟨rfl, rfl⟩

theorem exampleFlow_fields :
    (exampleFlow α).mesh = (exampleModel α).mesh ∧
    (exampleFlow α).gdv = (exampleModel α).gdv ∧
    (exampleFlow α).cosLat = (exampleModel α).cosLat ∧
    (exampleFlow α).factorLon = (exampleModel α).factorLon ∧
    (exampleFlow α).factorLat = (exampleModel α).factorLat ∧
    (exampleFlow α).dlon = (exampleModel α).dlon ∧
    (exampleFlow α).dlat = (exampleModel α).dlat ∧
    (exampleFlow α).radius = (exampleModel α).radius := by
  unfold exampleFlow
  refine ⟨?_, ?_, ?_, ?_, ?_, ?_, ?_, ?_⟩ <;> dsimp only

theorem exampleFlow_mesh : (exampleFlow α).mesh = exampleMesh α := by
  rw [exampleFlow_fields.1, exampleModel_mesh]

theorem exampleFlow_wellFormed : (exampleFlow α).mesh.WellFormed := by
  rw [exampleFlow_mesh]
  exact exampleMesh_wellFormed

theorem exampleFlow_ut_periodic (t : TimeLevelIndex) :
    PeriodicHalo (exampleFlow α).mesh ((exampleFlow α).ut t) := by
  intro j _ _
  rw [exampleFlow_mesh, exampleMesh_is, exampleMesh_ie]
  unfold exampleFlow
  exact ⟨rfl, rfl⟩

theorem exampleFlow_gdt_periodic (t : TimeLevelIndex) :
    PeriodicHalo (exampleFlow α).mesh ((exampleFlow α).gdt t) := by
  intro j _ _
  unfold exampleFlow
  exact ⟨rfl, rfl⟩

theorem exampleFlow_gdv : ZeroAtPoles (exampleFlow α).mesh (exampleFlow α).gdv := by
  rw [exampleFlow_fields.1, exampleFlow_fields.2.1]
  exact exampleModel_gdv

theorem exampleFlow_cosLatNonzero : CosLatNonzero (exampleFlow α) := by
  intro j h1 h2
  rw [exampleFlow_fields.1] at h1 h2
  rw [exampleFlow_fields.2.2.1]
  exact exampleModel_cosLatNonzero j h1 h2

theorem exampleFlow_initFactors : InitFactors (exampleFlow α) := by
  intro j h1 h2
  rw [exampleFlow_fields.1] at h1 h2
  obtain ⟨-, -, f3, f4, f5, f6, f7, f8⟩ := exampleFlow_fields (α := α)
  rw [f3, f4, f5, f6, f7, f8]
  exact exampleModel_initFactors j h1 h2

/-! ### The new level after the passes of `integrate` -/

section passes

variable (sqrt : α → α) (k : Bool) (dt : α) (m : BarotropicModel α)

/-- The mass of the new level after pass `n` is the mass of the old level. -/
theorem afterPasses_mass (hmesh : m.mesh.WellFormed) (hgdv : ZeroAtPoles m.mesh m.gdv)
    (hcos : CosLatNonzero m) (hfac : InitFactors m)
    (hhalo : if m.firstRun then
        PeriodicHalo m.mesh (m.u (.full k)) ∧ PeriodicHalo m.mesh (m.gd (.full k))
      else
        PeriodicHalo m.mesh (m.ut (.full k)) ∧ PeriodicHalo m.mesh (m.gdt (.full k)) ∧
        PeriodicHalo m.mesh (m.ut .half) ∧ PeriodicHalo m.mesh (m.gdt .half))
    (n : Nat) (hn : 1 ≤ n) :
    calcTotalMass (.full (!k)) (afterPasses sqrt (.full k) dt n m) =
      calcTotalMass (.full k) m := by
  obtain ⟨n, rfl⟩ : ∃ p, n = p + 1 := ⟨n - 1, by omega⟩
  rw [afterPasses_succ]
  exact MassInvariant.mass sqrt k dt
    (massInvariant_afterPasses sqrt k dt m hmesh hgdv hhalo n) hmesh hcos hfac

/-- The winds of the new level after pass `n` vanish on the pole rows. -/
theorem afterPasses_poles_zero (hmesh : m.mesh.WellFormed) (hfirst : m.firstRun = true)
    (hu : ZeroAtPoles m.mesh (m.u (.full k))) (hv : ZeroAtPoles m.mesh (m.v (.full k)))
    (hdut : ZeroAtPoles m.mesh m.dut) (hdvt : ZeroAtPoles m.mesh m.dvt)
    (n : Nat) (hn : 1 ≤ n) :
    ZeroAtPoles m.mesh ((afterPasses sqrt (.full k) dt n m).ut (.full (!k))) ∧
    ZeroAtPoles m.mesh ((afterPasses sqrt (.full k) dt n m).vt (.full (!k))) ∧
    ZeroAtPoles m.mesh ((afterPasses sqrt (.full k) dt n m).u (.full (!k))) ∧
    ZeroAtPoles m.mesh ((afterPasses sqrt (.full k) dt n m).v (.full (!k))) := by
  obtain ⟨n, rfl⟩ : ∃ p, n = p + 1 := ⟨n - 1, by omega⟩
  rw [afterPasses_succ]
  exact poleWindInvariant_new sqrt k dt
    (poleWindInvariant_afterPasses sqrt k dt m hmesh hfirst hu hv hdut hdvt n) hmesh

/-- The fields of the new level after pass `n` are uniform along each pole row. -/
theorem afterPasses_poles_uniform (hmesh : m.mesh.WellFormed)
    (hu : UniformAtPoles m.mesh (m.u (.full k))) (hv : UniformAtPoles m.mesh (m.v (.full k)))
    (hgd : UniformAtPoles m.mesh (m.gd (.full k)))
    (hdut : ZeroAtPoles m.mesh m.dut) (hdvt : ZeroAtPoles m.mesh m.dvt)
    (hlater : m.firstRun = false →
      UniformAtPoles m.mesh (m.ut (.full k)) ∧ UniformAtPoles m.mesh (m.vt (.full k)))
    (n : Nat) (hn : 1 ≤ n) :
    UniformAtPoles m.mesh ((afterPasses sqrt (.full k) dt n m).gd (.full (!k))) ∧
    UniformAtPoles m.mesh ((afterPasses sqrt (.full k) dt n m).gdt (.full (!k))) ∧
    UniformAtPoles m.mesh ((afterPasses sqrt (.full k) dt n m).ut (.full (!k))) ∧
    UniformAtPoles m.mesh ((afterPasses sqrt (.full k) dt n m).vt (.full (!k))) ∧
    UniformAtPoles m.mesh ((afterPasses sqrt (.full k) dt n m).u (.full (!k))) ∧
    UniformAtPoles m.mesh ((afterPasses sqrt (.full k) dt n m).v (.full (!k))) := by
  obtain ⟨n, rfl⟩ : ∃ p, n = p + 1 := ⟨n - 1, by omega⟩
  rw [afterPasses_succ]
  exact poleUniformInvariant_new sqrt k dt
    (poleUniformInvariant_afterPasses sqrt k dt m hmesh hu hv hgd hdut hdvt hlater n) hmesh

end passes

/-! ### The pole rows of the depth tendency -/

theorem calcGeopotentialDepthTendency_south (timeIdx : TimeLevelIndex) (m : BarotropicModel α)
    (i : Int) (h1 : m.mesh.is FULL ≤ i) (h2 : i ≤ m.mesh.ie FULL)
    (hj : m.mesh.js FULL < m.mesh.je FULL) :
    (calcGeopotentialDepthTendency timeIdx m).dgd i (m.mesh.js FULL) =
      (∑ x in Finset.Icc (m.mesh.is FULL) (m.mesh.ie FULL),
          (calcGeopotentialDepthTendency timeIdx m).gdv x (m.mesh.js FULL + 1)) *
        m.factorLat (m.mesh.js FULL) / (m.mesh.getNumGrid 0 FULL : α) := by
  rw [calcGeopotentialDepthTendency_eq]
  show depthTendency timeIdx m i (m.mesh.js FULL) = _
  rw [depthTendency_south timeIdx m i h1 h2 hj]
  unfold southPoleTendency
  rw [loopSum_eq_sum_Icc, zero_add, mul_div_assoc]

theorem calcGeopotentialDepthTendency_north (timeIdx : TimeLevelIndex) (m : BarotropicModel α)
    (i : Int) (h1 : m.mesh.is FULL ≤ i) (h2 : i ≤ m.mesh.ie FULL) :
    (calcGeopotentialDepthTendency timeIdx m).dgd i (m.mesh.je FULL) =
      -(∑ x in Finset.Icc (m.mesh.is FULL) (m.mesh.ie FULL),
          (calcGeopotentialDepthTendency timeIdx m).gdv x (m.mesh.je FULL - 1)) *
        m.factorLat (m.mesh.je FULL) / (m.mesh.getNumGrid 0 FULL : α) := by
  rw [calcGeopotentialDepthTendency_eq]
  show depthTendency timeIdx m i (m.mesh.je FULL) = _
  rw [depthTendency_north timeIdx m i h1 h2]
  unfold northPoleTendency
  rw [loopSum_eq_sum_Icc, zero_sub, mul_div_assoc]

/-- The sum that the debug build accumulates, as a sum over the cells of the grid. -/
theorem massTendencySum_eq_sum (m : BarotropicModel α) :
    massTendencySum m =
      ∑ j in Finset.Icc (m.mesh.js FULL) (m.mesh.je FULL),
        ∑ i in Finset.Icc (m.mesh.is FULL) (m.mesh.ie FULL), m.dgd i j * m.cosLat j := by
  rw [massTendencySum_eq, zero_add, loopSum_eq_sum_Icc]
  simp only [loopSum_eq_sum_Icc]

theorem calcGeopotentialDepthTendency_frame (timeIdx : TimeLevelIndex)
    (m : BarotropicModel α) :
    (calcGeopotentialDepthTendency timeIdx m).mesh = m.mesh ∧
      (calcGeopotentialDepthTendency timeIdx m).cosLat = m.cosLat := by
  rw [calcGeopotentialDepthTendency_eq]
  exact ⟨rfl, rfl⟩

theorem massTendencySum_zero (timeIdx : TimeLevelIndex)
    (m : BarotropicModel α) (hmesh : m.mesh.WellFormed)
    (hut : PeriodicHalo m.mesh (m.ut timeIdx)) (hgdt : PeriodicHalo m.mesh (m.gdt timeIdx))
    (hgdv : ZeroAtPoles m.mesh m.gdv) (hcos : CosLatNonzero m) (hfac : InitFactors m) :
    massTendencySum (calcGeopotentialDepthTendency timeIdx m) = 0 := by
  rw [massTendencySum_eq, calcGeopotentialDepthTendency_eq]
  simp only [zero_add]
  exact depthTendency_weighted_sum timeIdx m hmesh hut hgdt hgdv hcos hfac

/-! ### The transformation of the winds and of the depth -/

section transform

variable (sqrt : α → α) (k : Bool) (m : BarotropicModel α) (i j : Int)

theorem copyStates_transformed (hc : GridCell m.mesh i j) :
    (copyStates sqrt (.full k) .half m).gdt (.full k) i j = sqrt (m.gd (.full k) i j) ∧
    (copyStates sqrt (.full k) .half m).ut (.full k) i j =
      m.u (.full k) i j * sqrt (m.gd (.full k) i j) ∧
    (copyStates sqrt (.full k) .half m).vt (.full k) i j =
      m.v (.full k) i j * sqrt (m.gd (.full k) i j) ∧
    (copyStates sqrt (.full k) .half m).mesh = m.mesh := by
  have hh : HaloCell m.mesh i j := ⟨hc.1, by have := hc.2.1; omega, by have := hc.2.2; omega⟩
  rw [copyStates_eq sqrt _ _ (full_ne_half k)]
  refine ⟨?_, ?_, ?_, rfl⟩ <;> dsimp only <;>
    rw [if_pos (show (TimeLevelIndex.full k = .half ∨ TimeLevelIndex.full k = .full k) ∧
      HaloCell m.mesh i j from ⟨Or.inr rfl, hh⟩)]

theorem transformBackVelocity_cell (t : TimeLevelIndex) (hc : GridCell m.mesh i j) :
    (transformBackVelocity t m).u t i j = m.ut t i j / m.gdt t i j ∧
    (transformBackVelocity t m).v t i j = m.vt t i j / m.gdt t i j ∧
    (transformBackVelocity t m).gdt = m.gdt := by
  rw [transformBackVelocity_eq]
  refine ⟨?_, ?_, rfl⟩ <;> dsimp only <;>
    rw [if_pos (show t = t ∧ GridCell m.mesh i j from ⟨rfl, hc⟩)]

end transform

/-! ### The energies of the run on the small grid -/

theorem exampleModel_energyBefore (sqrt : α → α) (hsqrt : sqrt 1 = 1) :
    energyBefore sqrt (.full false) (exampleModel α) = 31500027 / 10 :=
  (exampleInvariant_start sqrt hsqrt).energy_old

theorem exampleModel_energyAfterPass (sqrt : α → α) (hsqrt : sqrt 1 = 1) (n : Nat)
    (hn : 1 ≤ n) : energyAfterPass sqrt (.full false) 6371 n (exampleModel α) = 31500047 / 10 := by
  obtain ⟨n, rfl⟩ : ∃ p, n = p + 1 := ⟨n - 1, by omega⟩
  obtain ⟨b, hb⟩ := exampleModel_afterPasses sqrt hsqrt n
  unfold energyAfterPass
  rw [afterPasses_succ]
  exact hb.energy_new sqrt hsqrt

/-! ## The properties of the specification -/

/-- C1: on a mesh with at least one longitude, two distinct pole rows and `ie - is + 1`
longitudes, when `ut` and `gdt` at the given time level have periodic halo columns, `gdv` is zero
on both pole rows, no `cosLat[j]` is zero and `factorLon`, `factorLat` are the values that `init`
computes, `calcGeopotentialDepthTendency` leaves `dgd` such that the sum of `dgd(i,j)*cosLat[j]`
over the rows `js..je` and the columns `is..ie` is exactly zero: both as the loop of the debug
build accumulates it and as a sum over the cells, so that the assertion `fabs(tmp) < 1.0e-10`
of the debug build holds and the method returns. -/
theorem calcGeopotentialDepthTendency_mass_balance (timeIdx : TimeLevelIndex)
    (m : BarotropicModel α) (hmesh : m.mesh.WellFormed)
    (hut : PeriodicHalo m.mesh (m.ut timeIdx)) (hgdt : PeriodicHalo m.mesh (m.gdt timeIdx))
    (hgdv : ZeroAtPoles m.mesh m.gdv) (hcos : CosLatNonzero m) (hfac : InitFactors m) :
    massTendencySum (calcGeopotentialDepthTendency timeIdx m) = 0 ∧
    ∑ j in Finset.Icc (m.mesh.js FULL) (m.mesh.je FULL),
      ∑ i in Finset.Icc (m.mesh.is FULL) (m.mesh.ie FULL),
        (calcGeopotentialDepthTendency timeIdx m).dgd i j * m.cosLat j = 0 ∧
    calcGeopotentialDepthTendencyDebug timeIdx m =
      some (calcGeopotentialDepthTendency timeIdx m) := by
  have h0 := massTendencySum_zero timeIdx m hmesh hut hgdt hgdv hcos hfac
  refine ⟨h0, ?_, ?_⟩
  · have h1 := massTendencySum_eq_sum (calcGeopotentialDepthTendency timeIdx m)
    rw [(calcGeopotentialDepthTendency_frame timeIdx m).1,
      (calcGeopotentialDepthTendency_frame timeIdx m).2] at h1
    rw [← h1, h0]
  · unfold calcGeopotentialDepthTendencyDebug
    simp only [h0, abs_zero]
    rw [if_pos (by norm_num)]

theorem calcGeopotentialDepthTendency_mass_balance_witness :
    massTendencySum (calcGeopotentialDepthTendency .half (exampleFlow ℚ)) = 0 ∧
    calcGeopotentialDepthTendencyDebug .half (exampleFlow ℚ) =
      some (calcGeopotentialDepthTendency .half (exampleFlow ℚ)) :=
  ⟨(calcGeopotentialDepthTendency_mass_balance .half (exampleFlow ℚ) exampleFlow_wellFormed
      (exampleFlow_ut_periodic _) (exampleFlow_gdt_periodic _) exampleFlow_gdv
      exampleFlow_cosLatNonzero exampleFlow_initFactors).1,
    (calcGeopotentialDepthTendency_mass_balance .half (exampleFlow ℚ) exampleFlow_wellFormed
      (exampleFlow_ut_periodic _) (exampleFlow_gdt_periodic _) exampleFlow_gdv
      exampleFlow_cosLatNonzero exampleFlow_initFactors).2.2⟩

/-- C3: on a mesh with two distinct pole rows, after `calcGeopotentialDepthTendency`, for every
longitude `i` in `is..ie`, `dgd(i, js)` is the sum over `is..ie` of `gdv(x, js+1)` times
`factorLat[js]` over the number of longitudes, and `dgd(i, je)` is minus the sum over `is..ie` of
`gdv(x, je-1)` times `factorLat[je]` over the number of longitudes: one value for the whole
row. -/
theorem calcGeopotentialDepthTendency_poles (timeIdx : TimeLevelIndex) (m : BarotropicModel α)
    (i : Int) (h1 : m.mesh.is FULL ≤ i) (h2 : i ≤ m.mesh.ie FULL)
    (hj : m.mesh.js FULL < m.mesh.je FULL) :
    (calcGeopotentialDepthTendency timeIdx m).dgd i (m.mesh.js FULL) =
      (∑ x in Finset.Icc (m.mesh.is FULL) (m.mesh.ie FULL),
          (calcGeopotentialDepthTendency timeIdx m).gdv x (m.mesh.js FULL + 1)) *
        m.factorLat (m.mesh.js FULL) / (m.mesh.getNumGrid 0 FULL : α) ∧
    (calcGeopotentialDepthTendency timeIdx m).dgd i (m.mesh.je FULL) =
      -(∑ x in Finset.Icc (m.mesh.is FULL) (m.mesh.ie FULL),
          (calcGeopotentialDepthTendency timeIdx m).gdv x (m.mesh.je FULL - 1)) *
        m.factorLat (m.mesh.je FULL) / (m.mesh.getNumGrid 0 FULL : α) :=
  ⟨calcGeopotentialDepthTendency_south timeIdx m i h1 h2 hj,
    calcGeopotentialDepthTendency_north timeIdx m i h1 h2⟩

theorem calcGeopotentialDepthTendency_poles_witness :
    (calcGeopotentialDepthTendency .half (exampleFlow ℚ)).dgd 1 ((exampleFlow ℚ).mesh.js FULL) =
      (∑ x in Finset.Icc ((exampleFlow ℚ).mesh.is FULL) ((exampleFlow ℚ).mesh.ie FULL),
          (calcGeopotentialDepthTendency .half (exampleFlow ℚ)).gdv x
            ((exampleFlow ℚ).mesh.js FULL + 1)) *
        (exampleFlow ℚ).factorLat ((exampleFlow ℚ).mesh.js FULL) /
          ((exampleFlow ℚ).mesh.getNumGrid 0 FULL : ℚ) :=
  (calcGeopotentialDepthTendency_poles .half (exampleFlow ℚ) 1
    (by rw [exampleFlow_mesh]; decide) (by rw [exampleFlow_mesh]; decide)
    (by rw [exampleFlow_mesh]; decide)).1

/-- C4, as stated, fails at the last pass: on the small grid with the step size 6371, where the
energy of the old level is 3150002.7 and the energy of the new level is 3150004.7 at the end of
every pass, `integrate` leaves its loop right after pass 8 although the test
`|e1 - e0| * 2 / (e1 + e0) < 5e-15` fails there. -/
theorem integrate_last_pass_exit_unconverged :
    energyBefore Real.sqrt (.full false) (exampleModel ℝ) = 31500027 / 10 ∧
    energyAfterPass Real.sqrt (.full false) 6371 8 (exampleModel ℝ) = 31500047 / 10 ∧
    passesRun (integrate Real.sqrt (.full false) 6371 (exampleModel ℝ)).1 = 8 ∧
    ¬ (passesRun (integrate Real.sqrt (.full false) 6371 (exampleModel ℝ)).1 = 8 ↔
      EnergyConverged (energyBefore Real.sqrt (.full false) (exampleModel ℝ))
        (energyAfterPass Real.sqrt (.full false) 6371 8 (exampleModel ℝ))) := by
  have hrun : passesRun (integrate Real.sqrt (.full false) 6371 (exampleModel ℝ)).1 = 8 := by
    rw [exampleModel_integrate Real.sqrt Real.sqrt_one]
    rfl
  refine ⟨exampleModel_energyBefore Real.sqrt Real.sqrt_one,
    exampleModel_energyAfterPass Real.sqrt Real.sqrt_one 8 (by omega), hrun, ?_⟩
  intro h
  exact exampleModel_not_converged Real.sqrt Real.sqrt_one 8 (by omega) (h.1 hrun)

/-- C4, amended: in `integrate`, with `e0` the energy of the old level computed once before the
loop and `e1` the energy of the new level computed at the end of pass `k`, for `k` in `1..8` and
when no earlier pass met the test `|e1 - e0| * 2 / (e1 + e0) < 5e-15`: the loop is left by the
`break` of pass `k` if and only if pass `k` meets the test; for `k` in `1..7` the loop exits
right after pass `k` if and only if pass `k` meets the test; after pass 8 the loop exits whether
or not the test is met; and when pass `k` meets the test, `integrate` has run `k` passes, returns
the state of pass `k` and the energy of its new level satisfies the inequality. -/
theorem integrate_exit_criterion (sqrt : α → α) (oldTimeIdx : TimeLevelIndex) (dt : α)
    (m : BarotropicModel α) (k : Nat) (hk1 : 1 ≤ k) (hk2 : k ≤ 8)
    (hreach : ∀ n, 1 ≤ n → n < k →
      ¬ EnergyConverged (energyBefore sqrt oldTimeIdx m)
        (energyAfterPass sqrt oldTimeIdx dt n m)) :
    ((integrate sqrt oldTimeIdx dt m).1 = k ↔
      EnergyConverged (energyBefore sqrt oldTimeIdx m)
        (energyAfterPass sqrt oldTimeIdx dt k m)) ∧
    (k ≤ 7 → (passesRun (integrate sqrt oldTimeIdx dt m).1 = k ↔
      EnergyConverged (energyBefore sqrt oldTimeIdx m)
        (energyAfterPass sqrt oldTimeIdx dt k m))) ∧
    (k = 8 → passesRun (integrate sqrt oldTimeIdx dt m).1 = 8) ∧
    (EnergyConverged (energyBefore sqrt oldTimeIdx m)
        (energyAfterPass sqrt oldTimeIdx dt k m) →
      passesRun (integrate sqrt oldTimeIdx dt m).1 = k ∧
      (integrate sqrt oldTimeIdx dt m).2 = afterPasses sqrt oldTimeIdx dt k m ∧
      EnergyConverged (energyBefore sqrt oldTimeIdx m)
        (calcTotalEnergy oldTimeIdx.plusOne (integrate sqrt oldTimeIdx dt m).2)) := by
  have hreach' : ∀ n, 1 ≤ n → n < k → criterionAt sqrt oldTimeIdx dt n m = false :=
    fun n h1 h2 => (criterionAt_false_iff sqrt oldTimeIdx dt n m).2 (hreach n h1 h2)
  have hbreak := integrate_fst_eq_iff sqrt oldTimeIdx dt m k hk1 hk2 hreach'
  rw [criterionAt_iff] at hbreak
  refine ⟨hbreak, ?_, ?_, ?_⟩
  · intro hk
    rw [passesRun_eq_iff _ k hk]
    exact hbreak
  · intro hk
    subst hk
    exact integrate_passesRun_last sqrt oldTimeIdx dt m hreach'
  · intro hc
    have hk := (criterionAt_iff sqrt oldTimeIdx dt k m).2 hc
    rw [integrate_break sqrt oldTimeIdx dt m k hk1 hk2 hreach' hk]
    refine ⟨?_, rfl, hc⟩
    show min k 8 = k
    omega

theorem integrate_exit_criterion_witness :
    ((integrate Real.sqrt (.full false) 6371 (exampleModel ℝ)).1 = 8 ↔
      EnergyConverged (energyBefore Real.sqrt (.full false) (exampleModel ℝ))
        (energyAfterPass Real.sqrt (.full false) 6371 8 (exampleModel ℝ))) ∧
    passesRun (integrate Real.sqrt (.full false) 6371 (exampleModel ℝ)).1 = 8 :=
  ⟨(integrate_exit_criterion Real.sqrt (.full false) 6371 (exampleModel ℝ) 8 (by omega) (by omega)
      (fun n h1 _ => exampleModel_not_converged Real.sqrt Real.sqrt_one n h1)).1,
    (integrate_exit_criterion Real.sqrt (.full false) 6371 (exampleModel ℝ) 8 (by omega) (by omega)
      (fun n h1 _ => exampleModel_not_converged Real.sqrt Real.sqrt_one n h1)).2.2.1 rfl⟩

/-- C8: on a mesh with two distinct pole rows, if at the old level each of `u`, `v`, `gd` has a
single value across the longitudes `is..ie` of the south pole row and a single value across those
of the north pole row (and so have `ut` and `vt` on a call that is not the first, which does not
seed them), and the tendencies `dut` and `dvt` are zero on the pole rows as `init` leaves them,
then after every pass of the iteration loop of `integrate` each of the new-level fields `gd`,
`gdt`, `ut`, `vt`, `u`, `v` again has a single value across the longitudes of each pole row, and
so it has in the state that `integrate` returns. -/
theorem integrate_poles_uniform (sqrt : α → α) (k : Bool) (dt : α) (m : BarotropicModel α)
    (hmesh : m.mesh.WellFormed)
    (hu : UniformAtPoles m.mesh (m.u (.full k))) (hv : UniformAtPoles m.mesh (m.v (.full k)))
    (hgd : UniformAtPoles m.mesh (m.gd (.full k)))
    (hdut : ZeroAtPoles m.mesh m.dut) (hdvt : ZeroAtPoles m.mesh m.dvt)
    (hlater : m.firstRun = false →
      UniformAtPoles m.mesh (m.ut (.full k)) ∧ UniformAtPoles m.mesh (m.vt (.full k))) :
    (∀ n, 1 ≤ n →
      UniformAtPoles m.mesh ((afterPasses sqrt (.full k) dt n m).gd (.full (!k))) ∧
      UniformAtPoles m.mesh ((afterPasses sqrt (.full k) dt n m).gdt (.full (!k))) ∧
      UniformAtPoles m.mesh ((afterPasses sqrt (.full k) dt n m).ut (.full (!k))) ∧
      UniformAtPoles m.mesh ((afterPasses sqrt (.full k) dt n m).vt (.full (!k))) ∧
      UniformAtPoles m.mesh ((afterPasses sqrt (.full k) dt n m).u (.full (!k))) ∧
      UniformAtPoles m.mesh ((afterPasses sqrt (.full k) dt n m).v (.full (!k)))) ∧
    (UniformAtPoles m.mesh ((integrate sqrt (.full k) dt m).2.gd (.full (!k))) ∧
      UniformAtPoles m.mesh ((integrate sqrt (.full k) dt m).2.gdt (.full (!k))) ∧
      UniformAtPoles m.mesh ((integrate sqrt (.full k) dt m).2.ut (.full (!k))) ∧
      UniformAtPoles m.mesh ((integrate sqrt (.full k) dt m).2.vt (.full (!k))) ∧
      UniformAtPoles m.mesh ((integrate sqrt (.full k) dt m).2.u (.full (!k))) ∧
      UniformAtPoles m.mesh ((integrate sqrt (.full k) dt m).2.v (.full (!k)))) := by
  refine ⟨fun n hn =>
    afterPasses_poles_uniform sqrt k dt m hmesh hu hv hgd hdut hdvt hlater n hn, ?_⟩
  obtain ⟨n, h1, -, -, h4⟩ := integrate_result sqrt (.full k) dt m
  rw [h4]
  exact afterPasses_poles_uniform sqrt k dt m hmesh hu hv hgd hdut hdvt hlater n h1

theorem integrate_poles_uniform_witness :
    UniformAtPoles (exampleModel ℝ).mesh
        ((integrate Real.sqrt (.full false) 6371 (exampleModel ℝ)).2.gd (.full (!false))) ∧
      UniformAtPoles (exampleModel ℝ).mesh
        ((integrate Real.sqrt (.full false) 6371 (exampleModel ℝ)).2.gdt (.full (!false))) :=
  ⟨(integrate_poles_uniform Real.sqrt false 6371 (exampleModel ℝ) exampleModel_wellFormed
      (exampleModel_uniform _).1 (exampleModel_uniform _).2.1 (exampleModel_uniform _).2.2
      exampleModel_dut exampleModel_dvt
      (fun h => absurd (exampleModel_firstRun.symm.trans h) (by decide))).2.1,
    (integrate_poles_uniform Real.sqrt false 6371 (exampleModel ℝ) exampleModel_wellFormed
      (exampleModel_uniform _).1 (exampleModel_uniform _).2.1 (exampleModel_uniform _).2.2
      exampleModel_dut exampleModel_dvt
      (fun h => absurd (exampleModel_firstRun.symm.trans h) (by decide))).2.2.1⟩

/-- C9: after `init` on a mesh with two distinct pole rows, for every row `j` with
`js < j < je`, `cosLat[j]` and `tanLat[j]` are the cosine and the tangent of latitude that the
mesh gives for the cell-centre row `j`; `cosLat[js]` is one quarter of the mesh cosine at the
first half-level row and `cosLat[je]` is one quarter of the mesh cosine at the last half-level
row; `tanLat[js] = -1/cosLat[js]` and `tanLat[je] = 1/cosLat[je]`. -/
theorem init_cosLat_tanLat (mesh : Mesh α) (OMEGA : α) (m : BarotropicModel α)
    (hj : mesh.js FULL < mesh.je FULL) :
    (∀ j, mesh.js FULL < j → j < mesh.je FULL →
      (init mesh OMEGA m).cosLat j = mesh.getCosLat FULL j ∧
      (init mesh OMEGA m).tanLat j = mesh.getTanLat FULL j) ∧
    (init mesh OMEGA m).cosLat (mesh.js FULL) = mesh.getCosLat HALF (mesh.js HALF) / 4 ∧
    (init mesh OMEGA m).cosLat (mesh.je FULL) = mesh.getCosLat HALF (mesh.je HALF) / 4 ∧
    (init mesh OMEGA m).tanLat (mesh.js FULL) = -1 / (init mesh OMEGA m).cosLat (mesh.js FULL) ∧
    (init mesh OMEGA m).tanLat (mesh.je FULL) = 1 / (init mesh OMEGA m).cosLat (mesh.je FULL) := by
  have hq : ∀ x : α, x * 0.25 = x / 4 := by
    intro x
    norm_num
    ring
  refine ⟨?_, ?_, ?_, ?_, ?_⟩
  · intro j h1 h2
    rw [init_tanLat, init_cosLat]
    unfold cosLatSet
    show (if j = mesh.je FULL then _ else if j = mesh.js FULL then _
        else if mesh.js FULL + 1 ≤ j ∧ j ≤ mesh.je FULL - 1 then mesh.getCosLat FULL j
        else m.cosLat j) = _ ∧ _
    rw [if_neg (by omega), if_neg (by omega), if_pos ⟨by omega, by omega⟩,
      if_neg (by omega), if_neg (by omega), if_pos ⟨by omega, by omega⟩]
    exact ⟨rfl, rfl⟩
  · rw [init_cosLat]
    unfold cosLatSet
    show (if mesh.js FULL = mesh.je FULL then _
        else if mesh.js FULL = mesh.js FULL then mesh.getCosLat HALF (mesh.js HALF) * 0.25
        else _) = _
    rw [if_neg (by omega), if_pos rfl, hq]
  · rw [init_cosLat]
    unfold cosLatSet
    show (if mesh.je FULL = mesh.je FULL then mesh.getCosLat HALF (mesh.je HALF) * 0.25
        else _) = _
    rw [if_pos rfl, hq]
  · rw [init_tanLat, if_neg (by omega), if_pos rfl]
  · rw [init_tanLat, if_pos rfl]

theorem init_cosLat_tanLat_witness :
    (init (exampleMesh ℚ) 7.292e-5 (exampleRaw ℚ)).cosLat ((exampleMesh ℚ).js FULL) =
      (exampleMesh ℚ).getCosLat HALF ((exampleMesh ℚ).js HALF) / 4 ∧
    (init (exampleMesh ℚ) 7.292e-5 (exampleRaw ℚ)).tanLat ((exampleMesh ℚ).js FULL) =
      -1 / (init (exampleMesh ℚ) 7.292e-5 (exampleRaw ℚ)).cosLat ((exampleMesh ℚ).js FULL) :=
  ⟨(init_cosLat_tanLat (exampleMesh ℚ) 7.292e-5 (exampleRaw ℚ) (by decide)).2.1,
    (init_cosLat_tanLat (exampleMesh ℚ) 7.292e-5 (exampleRaw ℚ) (by decide)).2.2.2.1⟩

/-- C10: after `init`, for every row `j` in `js..je`, both pole rows included,
`factorLon[j] = 1/(2*dlon*radius*cosLat[j])` and `factorLat[j] = 1/(2*dlat*radius*cosLat[j])`,
with the `cosLat` that `init` leaves; and wherever `cosLat[j]` is not zero the products
`factorLon[j]*cosLat[j]` and `factorLat[j]*cosLat[j]` are `1/(2*dlon*radius)` and
`1/(2*dlat*radius)`, the same on every row. -/
theorem init_factorLon_factorLat (mesh : Mesh α) (OMEGA : α) (m : BarotropicModel α) (j : Int)
    (h1 : mesh.js FULL ≤ j) (h2 : j ≤ mesh.je FULL) :
    (init mesh OMEGA m).factorLon j =
      1 / (2 * (init mesh OMEGA m).dlon * (init mesh OMEGA m).radius *
        (init mesh OMEGA m).cosLat j) ∧
    (init mesh OMEGA m).factorLat j =
      1 / (2 * (init mesh OMEGA m).dlat * (init mesh OMEGA m).radius *
        (init mesh OMEGA m).cosLat j) ∧
    ((init mesh OMEGA m).cosLat j ≠ 0 →
      (init mesh OMEGA m).factorLon j * (init mesh OMEGA m).cosLat j =
        1 / (2 * (init mesh OMEGA m).dlon * (init mesh OMEGA m).radius) ∧
      (init mesh OMEGA m).factorLat j * (init mesh OMEGA m).cosLat j =
        1 / (2 * (init mesh OMEGA m).dlat * (init mesh OMEGA m).radius)) := by
  have a := init_factorLon mesh OMEGA m j h1 h2
  have b := init_factorLat mesh OMEGA m j h1 h2
  refine ⟨a, b, fun hne => ⟨?_, ?_⟩⟩
  · rw [a, one_div_mul_mul_cancel _ _ hne]
  · rw [b, one_div_mul_mul_cancel _ _ hne]

theorem init_factorLon_factorLat_witness :
    (init (exampleMesh ℚ) 7.292e-5 (exampleRaw ℚ)).factorLat 1 =
      1 / (2 * (init (exampleMesh ℚ) 7.292e-5 (exampleRaw ℚ)).dlat *
        (init (exampleMesh ℚ) 7.292e-5 (exampleRaw ℚ)).radius *
        (init (exampleMesh ℚ) 7.292e-5 (exampleRaw ℚ)).cosLat 1) :=
  (init_factorLon_factorLat (exampleMesh ℚ) 7.292e-5 (exampleRaw ℚ) 1 (by decide)
    (by decide)).2.1

/-! ### Loops that skip rows -/

theorem forLoopAux_skip {σ : Type} (lo : Int) (n : Nat) (s : σ) :
    forLoopAux (fun _ s => s) lo n s = s := by
  induction n with
  | zero => rfl
  | succ n ih => rw [forLoopAux_succ, ih]

theorem forLoop_skip {σ : Type} (lo hi : Int) (s : σ) :
    forLoop lo hi (fun _ s => s) s = s :=
  forLoopAux_skip lo _ s

/-- A double loop whose body rewrites only the cell `(i, j)` of one component of the state,
and that skips the rows `j` with `skip j`, rewrites the cells of the rows that it does not
skip. -/
theorem forLoop_forLoop_cells_guarded {σ C : Type} (get : σ → Int → Int → C)
    (set : σ → (Int → Int → C) → σ) (g : Int → Int → σ → C → C) (body : Int → Int → σ → σ)
    (ilo ihi : σ → Int) (skip : Int → Prop) [DecidablePred skip]
    (hgs : ∀ s c, get (set s c) = c) (hss : ∀ s c c', set (set s c) c' = set s c')
    (hsg : ∀ s, set s (get s) = s)
    (hg : ∀ i j s c, g i j (set s c) = g i j s)
    (hlo : ∀ s c, ilo (set s c) = ilo s) (hhi : ∀ s c, ihi (set s c) = ihi s)
    (hbody : ∀ i j s, body i j s =
      set s (fun i' j' => if i' = i ∧ j' = j then g i j s (get s i j) else get s i' j'))
    (jlo jhi : Int) (s : σ) :
    forLoop jlo jhi
        (fun j s => if skip j then s else forLoop (ilo s) (ihi s) (fun i s => body i j s) s) s =
      set s (fun i' j' =>
        if ((jlo ≤ j' ∧ j' ≤ jhi) ∧ ¬ skip j') ∧ (ilo s ≤ i' ∧ i' ≤ ihi s) then
          g i' j' s (get s i' j')
        else get s i' j') := by
  have hrow : (fun j s => if skip j then s
        else forLoop (ilo s) (ihi s) (fun i s => body i j s) s) =
      (fun j s => forLoop (ilo s) (ihi s)
        (fun i s => (fun i j s => if skip j then s else body i j s) i j s) s) := by
    funext j s
    by_cases h : skip j
    · simp only [if_pos h]
      exact (forLoop_skip _ _ s).symm
    · simp only [if_neg h]
  rw [hrow, forLoop_forLoop_cells get set (fun i j s c => if skip j then c else g i j s c)
    (fun i j s => if skip j then s else body i j s) ilo ihi hgs hss hsg
    (by intro i j s c; funext x; simp only [hg]) hlo hhi
    (by
      intro i j s
      by_cases h : skip j
      · simp only [if_pos h]
        have : (fun i' j' => if i' = i ∧ j' = j then get s i j else get s i' j') = get s := by
          funext i' j'
          by_cases h' : i' = i ∧ j' = j
          · rw [if_pos h', h'.1, h'.2]
          · rw [if_neg h']
        rw [this, hsg]
      · simp only [if_neg h]
        exact hbody i j s)]
  congr 1
  funext i' j'
  by_cases h : skip j' <;> by_cases h1 : jlo ≤ j' ∧ j' ≤ jhi <;>
    by_cases h2 : ilo s ≤ i' ∧ i' ≤ ihi s <;> simp [h, h1, h2]

/-! ### The loops of `calcInitCond` -/

/-- The state that the loop "zonal wind speed" leaves, field by field. -/
theorem setZonalWind_eq (cos : α → α) (gridCoordComp : Nat → GridType → Int → α)
    (uGridType : FieldGridType) (tc : RossbyHaurwitzTestCase α) (initTimeIdx : TimeLevelIndex)
    (mesh : Mesh α) (Re : α) (m : BarotropicModel α) :
    setZonalWind cos gridCoordComp uGridType tc initTimeIdx mesh Re m =
      { m with
        u := fun t i j =>
          if t = initTimeIdx ∧ WindCell uGridType mesh i j then
            zonalWindValue cos gridCoordComp uGridType tc mesh Re i j
          else m.u t i j } := by
  have h := forLoop_forLoop_cells_guarded
    (fun (m : BarotropicModel α) i j t => m.u t i j)
    (fun m c => { m with u := fun t i j => c i j t })
    (fun i j _ col t =>
      if t = initTimeIdx then zonalWindValue cos gridCoordComp uGridType tc mesh Re i j
      else col t)
    (fun i j m =>
      { m with
        u := setCellAt m.u initTimeIdx i j
          (zonalWindValue cos gridCoordComp uGridType tc mesh Re i j) })
    (fun _ => mesh.is (uGridType 0)) (fun _ => mesh.ie (uGridType 0))
    (fun j => uGridType 1 = FULL ∧ (j = mesh.js FULL ∨ j = mesh.je FULL))
    (fun _ _ => rfl) (fun _ _ _ => rfl) (fun _ => rfl) (fun _ _ _ _ => rfl) (fun _ _ => rfl)
    (fun _ _ => rfl)
    (by
      intro i j m
      dsimp only
      congr 1
      funext t i' j'
      by_cases h : i' = i ∧ j' = j <;> by_cases h' : t = initTimeIdx <;>
        simp [setCellAt, h, h'])
    (mesh.js (uGridType 1)) (mesh.je (uGridType 1)) m
  unfold setZonalWind
  refine Eq.trans h ?_
  clear h
  congr 1
  funext t i j
  change (if WindCell uGridType mesh i j then _ else _ : TimeLevelIndex → α) t = _
  by_cases h : WindCell uGridType mesh i j <;> by_cases h' : t = initTimeIdx
  · rw [if_pos h, if_pos h', if_pos (show t = initTimeIdx ∧ WindCell uGridType mesh i j from ⟨h', h⟩)]
  · rw [if_pos h, if_neg h',
      if_neg (show ¬ (t = initTimeIdx ∧ WindCell uGridType mesh i j) from fun c => h' c.1)]
  · rw [if_neg h, if_neg (fun c => h c.2)]
  · rw [if_neg h, if_neg (fun c => h c.2)]

/-- The state that the loop "meridional wind speed" leaves, field by field. -/
theorem setMeridionalWind_eq (sin : α → α) (gridCoordComp : Nat → GridType → Int → α)
    (vGridType : FieldGridType) (tc : RossbyHaurwitzTestCase α) (initTimeIdx : TimeLevelIndex)
    (mesh : Mesh α) (Re : α) (m : BarotropicModel α) :
    setMeridionalWind sin gridCoordComp vGridType tc initTimeIdx mesh Re m =
      { m with
        v := fun t i j =>
          if t = initTimeIdx ∧ WindCell vGridType mesh i j then
            meridionalWindValue sin gridCoordComp vGridType tc mesh Re i j
          else m.v t i j } := by
  have h := forLoop_forLoop_cells_guarded
    (fun (m : BarotropicModel α) i j t => m.v t i j)
    (fun m c => { m with v := fun t i j => c i j t })
    (fun i j _ col t =>
      if t = initTimeIdx then meridionalWindValue sin gridCoordComp vGridType tc mesh Re i j
      else col t)
    (fun i j m =>
      { m with
        v := setCellAt m.v initTimeIdx i j
          (meridionalWindValue sin gridCoordComp vGridType tc mesh Re i j) })
    (fun _ => mesh.is (vGridType 0)) (fun _ => mesh.ie (vGridType 0))
    (fun j => vGridType 1 = FULL ∧ (j = mesh.js FULL ∨ j = mesh.je FULL))
    (fun _ _ => rfl) (fun _ _ _ => rfl) (fun _ => rfl) (fun _ _ _ _ => rfl) (fun _ _ => rfl)
    (fun _ _ => rfl)
    (by
      intro i j m
      dsimp only
      congr 1
      funext t i' j'
      by_cases h : i' = i ∧ j' = j <;> by_cases h' : t = initTimeIdx <;>
        simp [setCellAt, h, h'])
    (mesh.js (vGridType 1)) (mesh.je (vGridType 1)) m
  unfold setMeridionalWind
  refine Eq.trans h ?_
  clear h
  congr 1
  funext t i j
  change (if WindCell vGridType mesh i j then _ else _ : TimeLevelIndex → α) t = _
  by_cases h : WindCell vGridType mesh i j <;> by_cases h' : t = initTimeIdx
  · rw [if_pos h, if_pos h', if_pos (show t = initTimeIdx ∧ WindCell vGridType mesh i j from ⟨h', h⟩)]
  · rw [if_pos h, if_neg h',
      if_neg (show ¬ (t = initTimeIdx ∧ WindCell vGridType mesh i j) from fun c => h' c.1)]
  · rw [if_neg h, if_neg (fun c => h c.2)]
  · rw [if_neg h, if_neg (fun c => h c.2)]

/-- The state that the loop "surface geopotential height and geopotential depth" leaves, field
by field. -/
theorem setGeopotential_eq (cos : α → α) (gridCoordComp : Nat → GridType → Int → α) (OMEGA : α)
    (tc : RossbyHaurwitzTestCase α) (initTimeIdx : TimeLevelIndex) (mesh : Mesh α)
    (Re R2 R_1 R_2 omega2 : α) (m : BarotropicModel α) :
    setGeopotential cos gridCoordComp OMEGA tc initTimeIdx mesh Re R2 R_1 R_2 omega2 m =
      { m with
        gd := fun t i j =>
          if t = initTimeIdx ∧ InnerCell mesh i j then
            depthValue cos gridCoordComp OMEGA tc mesh Re R2 R_1 R_2 omega2 i j
          else m.gd t i j
        ghs := fun i j => if InnerCell mesh i j then 0 else m.ghs i j } := by
  have h := forLoop_forLoop_cells
    (fun (m : BarotropicModel α) i j => (fun t => m.gd t i j, m.ghs i j))
    (fun m c => { m with gd := fun t i j => (c i j).1 t, ghs := fun i j => (c i j).2 })
    (fun i j _ col =>
      (fun t =>
        if t = initTimeIdx then
          depthValue cos gridCoordComp OMEGA tc mesh Re R2 R_1 R_2 omega2 i j
        else col.1 t, (0 : α)))
    (fun i j m =>
      let m : BarotropicModel α :=
        { m with
          gd := setCellAt m.gd initTimeIdx i j
            (depthValue cos gridCoordComp OMEGA tc mesh Re R2 R_1 R_2 omega2 i j) }
      { m with ghs := setCell m.ghs i j 0 })
    (fun _ => mesh.is FULL) (fun _ => mesh.ie FULL)
    (fun _ _ => rfl) (fun _ _ _ => rfl) (fun _ => rfl) (fun _ _ _ _ => rfl) (fun _ _ => rfl)
    (fun _ _ => rfl)
    (by
      intro i j m
      dsimp only
      congr 1
      · funext t i' j'
        by_cases h : i' = i ∧ j' = j <;> by_cases h' : t = initTimeIdx <;>
          simp [setCellAt, h, h']
      · funext i' j'
        by_cases h : i' = i ∧ j' = j <;> simp [setCell, h])
    (mesh.js FULL + 1) (mesh.je FULL - 1) m
  unfold setGeopotential
  refine Eq.trans h ?_
  clear h
  congr 1
  · funext t i j
    change (if InnerCell mesh i j then _ else _ : (TimeLevelIndex → α) × α).1 t = _
    by_cases h : InnerCell mesh i j <;> by_cases h' : t = initTimeIdx
    · rw [if_pos h, if_pos (show t = initTimeIdx ∧ InnerCell mesh i j from ⟨h', h⟩)]
      exact if_pos h'
    · rw [if_pos h, if_neg (show ¬ (t = initTimeIdx ∧ InnerCell mesh i j) from fun c => h' c.1)]
      exact if_neg h'
    · rw [if_neg h, if_neg (fun c => h c.2)]
    · rw [if_neg h, if_neg (fun c => h c.2)]
  · funext i j
    change (if InnerCell mesh i j then _ else _ : (TimeLevelIndex → α) × α).2 = _
    by_cases h : InnerCell mesh i j
    · rw [if_pos h, if_pos h]
    · rw [if_neg h, if_neg h]

/-- The state that the loop "set Poles" leaves, field by field. -/
theorem setPoles_eq (uGridType vGridType : FieldGridType) (tc : RossbyHaurwitzTestCase α)
    (initTimeIdx : TimeLevelIndex) (mesh : Mesh α) (m : BarotropicModel α) :
    setPoles uGridType vGridType tc initTimeIdx mesh m =
      { m with
        u := fun t i j =>
          if uGridType 1 = FULL ∧ t = initTimeIdx ∧ PoleCell mesh i j then 0 else m.u t i j
        v := fun t i j =>
          if vGridType 1 = FULL ∧ t = initTimeIdx ∧ PoleCell mesh i j then 0 else m.v t i j
        gd := fun t i j =>
          if t = initTimeIdx ∧ PoleCell mesh i j then tc.phi0 else m.gd t i j
        ghs := fun i j => if PoleCell mesh i j then 0 else m.ghs i j } := by
  have h := forLoop_cells
    (fun (m : BarotropicModel α) i =>
      (fun t j => m.u t i j, fun t j => m.v t i j, fun t j => m.gd t i j, fun j => m.ghs i j))
    (fun m c =>
      { m with
        u := fun t i j => (c i).1 t j
        v := fun t i j => (c i).2.1 t j
        gd := fun t i j => (c i).2.2.1 t j
        ghs := fun i j => (c i).2.2.2 j })
    (fun _ _ col =>
      (fun t j =>
        if uGridType 1 = FULL ∧ t = initTimeIdx ∧ (j = mesh.js FULL ∨ j = mesh.je FULL) then 0
        else col.1 t j,
       fun t j =>
        if vGridType 1 = FULL ∧ t = initTimeIdx ∧ (j = mesh.js FULL ∨ j = mesh.je FULL) then 0
        else col.2.1 t j,
       fun t j =>
        if t = initTimeIdx ∧ (j = mesh.js FULL ∨ j = mesh.je FULL) then tc.phi0
        else col.2.2.1 t j,
       fun j => if j = mesh.js FULL ∨ j = mesh.je FULL then 0 else col.2.2.2 j))
    (fun i m =>
      let m : BarotropicModel α :=
        if uGridType 1 = FULL then
          let m : BarotropicModel α :=
            { m with u := setCellAt m.u initTimeIdx i (mesh.js FULL) 0 }
          { m with u := setCellAt m.u initTimeIdx i (mesh.je FULL) 0 }
        else m
      let m : BarotropicModel α :=
        if vGridType 1 = FULL then
          let m : BarotropicModel α :=
            { m with v := setCellAt m.v initTimeIdx i (mesh.js FULL) 0 }
          { m with v := setCellAt m.v initTimeIdx i (mesh.je FULL) 0 }
        else m
      let m : BarotropicModel α :=
        { m with gd := setCellAt m.gd initTimeIdx i (mesh.js FULL) tc.phi0 }
      let m : BarotropicModel α :=
        { m with gd := setCellAt m.gd initTimeIdx i (mesh.je FULL) tc.phi0 }
      let m : BarotropicModel α := { m with ghs := setCell m.ghs i (mesh.js FULL) 0 }
      { m with ghs := setCell m.ghs i (mesh.je FULL) 0 })
    (fun _ _ => rfl) (fun _ _ _ => rfl) (fun _ => rfl) (fun _ _ _ => rfl)
    (by
      intro i m
      by_cases hu : uGridType 1 = FULL <;> by_cases hv : vGridType 1 = FULL <;>
        simp only [hu, hv, if_true, if_false, true_and, false_and] <;>
        congr 1 <;>
        first
        | (funext t i' j
           by_cases h1 : i' = i <;> by_cases h2 : t = initTimeIdx <;>
             by_cases h3 : j = mesh.js FULL <;> by_cases h4 : j = mesh.je FULL <;>
             simp [setCellAt, h1, h2, h3, h4])
        | (funext i' j
           by_cases h1 : i' = i <;> by_cases h3 : j = mesh.js FULL <;>
             by_cases h4 : j = mesh.je FULL <;> simp [setCell, h1, h3, h4]))
    (mesh.is FULL) (mesh.ie FULL) m
  unfold setPoles
  refine Eq.trans h ?_
  clear h
  congr 1 <;>
    first
    | (funext t i j
       by_cases h1 : mesh.is FULL ≤ i ∧ i ≤ mesh.ie FULL <;> by_cases h2 : t = initTimeIdx <;>
         by_cases h3 : j = mesh.js FULL <;> by_cases h4 : j = mesh.je FULL <;>
         by_cases hu : uGridType 1 = FULL <;> by_cases hv : vGridType 1 = FULL <;>
         simp [PoleCell, h1, h2, h3, h4, hu, hv])
    | (funext i j
       by_cases h1 : mesh.is FULL ≤ i ∧ i ≤ mesh.ie FULL <;>
         by_cases h3 : j = mesh.js FULL <;> by_cases h4 : j = mesh.je FULL <;>
         simp [PoleCell, h1, h3, h4])

/-! ### The state that `calcInitCond` leaves -/

/-- The level `timeIdx` of a field once `applyBndCond(timeIdx)` has run. -/
theorem applyBndCond_plain (mesh : Mesh α) (f : TimeField α) (timeIdx : TimeLevelIndex) :
    applyBndCond mesh f timeIdx false timeIdx = fillHalo mesh (f timeIdx) := by
  unfold applyBndCond fillHalo
  simp

theorem applyBndCond_plain_cell (mesh : Mesh α) (f : TimeField α) (timeIdx : TimeLevelIndex)
    (i j : Int) (h : GridCell mesh i j) :
    applyBndCond mesh f timeIdx false timeIdx i j = f timeIdx i j := by
  rw [applyBndCond_plain, fillHalo_gridCell mesh _ i j h]

theorem applyBndCondStatic_cell (mesh : Mesh α) (f : Field α) (i j : Int)
    (h : GridCell mesh i j) : applyBndCondStatic mesh f i j = f i j :=
  fillHalo_gridCell mesh f i j h

theorem applyBndCondInit_eq (initTimeIdx : TimeLevelIndex) (mesh : Mesh α)
    (m : BarotropicModel α) :
    applyBndCondInit initTimeIdx mesh m =
      { m with
        u := applyBndCond mesh m.u initTimeIdx false
        v := applyBndCond mesh m.v initTimeIdx false
        gd := applyBndCond mesh m.gd initTimeIdx false
        ghs := applyBndCondStatic mesh m.ghs } := rfl

section initCond

variable (cos sin : α → α) (gridCoordComp : Nat → GridType → Int → α) (OMEGA : α)
  (uGridType vGridType : FieldGridType) (tc : RossbyHaurwitzTestCase α)
  (initTimeIdx : TimeLevelIndex) (m : BarotropicModel α)

/-- The state that `calcInitCond` leaves before its boundary-condition passes, field by
field. -/
theorem calcInitCond_eq :
    calcInitCond cos sin gridCoordComp OMEGA true uGridType vGridType tc initTimeIdx m =
      some (applyBndCondInit initTimeIdx m.mesh
        { m with
          u := fun t i j =>
            if uGridType 1 = FULL ∧ t = initTimeIdx ∧ PoleCell m.mesh i j then 0
            else if t = initTimeIdx ∧ WindCell uGridType m.mesh i j then
              zonalWindValue cos gridCoordComp uGridType tc m.mesh m.radius i j
            else m.u t i j
          v := fun t i j =>
            if vGridType 1 = FULL ∧ t = initTimeIdx ∧ PoleCell m.mesh i j then 0
            else if t = initTimeIdx ∧ WindCell vGridType m.mesh i j then
              meridionalWindValue sin gridCoordComp vGridType tc m.mesh m.radius i j
            else m.v t i j
          gd := fun t i j =>
            if t = initTimeIdx ∧ PoleCell m.mesh i j then tc.phi0
            else if t = initTimeIdx ∧ InnerCell m.mesh i j then
              depthValue cos gridCoordComp OMEGA tc m.mesh m.radius
                ((tc.R : α) * (tc.R : α)) ((tc.R : α) + 1) ((tc.R : α) + 2)
                (tc.omega * tc.omega) i j
            else m.gd t i j
          ghs := fun i j =>
            if PoleCell m.mesh i j then 0 else if InnerCell m.mesh i j then 0 else m.ghs i j }) := by
  unfold calcInitCond
  simp only [if_true, setZonalWind_eq, setMeridionalWind_eq, setGeopotential_eq, setPoles_eq]

/-- The fields that `calcInitCond` leaves, at the cells `is..ie` of the rows `js..je`. -/
theorem calcInitCond_cell (i j : Int) (h : GridCell m.mesh i j) :
    ∃ s, calcInitCond cos sin gridCoordComp OMEGA true uGridType vGridType tc initTimeIdx m =
        some s ∧
      s.u initTimeIdx i j =
        (if uGridType 1 = FULL ∧ PoleCell m.mesh i j then 0
          else if WindCell uGridType m.mesh i j then
            zonalWindValue cos gridCoordComp uGridType tc m.mesh m.radius i j
          else m.u initTimeIdx i j) ∧
      s.v initTimeIdx i j =
        (if vGridType 1 = FULL ∧ PoleCell m.mesh i j then 0
          else if WindCell vGridType m.mesh i j then
            meridionalWindValue sin gridCoordComp vGridType tc m.mesh m.radius i j
          else m.v initTimeIdx i j) ∧
      s.gd initTimeIdx i j =
        (if PoleCell m.mesh i j then tc.phi0
          else if InnerCell m.mesh i j then
            depthValue cos gridCoordComp OMEGA tc m.mesh m.radius
              ((tc.R : α) * (tc.R : α)) ((tc.R : α) + 1) ((tc.R : α) + 2)
              (tc.omega * tc.omega) i j
          else m.gd initTimeIdx i j) ∧
      s.ghs i j =
        (if PoleCell m.mesh i j then 0 else if InnerCell m.mesh i j then 0 else m.ghs i j) := by
  refine ⟨_, calcInitCond_eq cos sin gridCoordComp OMEGA uGridType vGridType tc initTimeIdx m,
    ?_, ?_, ?_, ?_⟩
  · rw [applyBndCondInit_eq]
    dsimp only
    rw [applyBndCond_plain_cell m.mesh _ initTimeIdx i j h]
    simp only [true_and]
  · rw [applyBndCondInit_eq]
    dsimp only
    rw [applyBndCond_plain_cell m.mesh _ initTimeIdx i j h]
    simp only [true_and]
  · rw [applyBndCondInit_eq]
    dsimp only
    rw [applyBndCond_plain_cell m.mesh _ initTimeIdx i j h]
    simp only [true_and]
  · rw [applyBndCondInit_eq]
    dsimp only
    rw [applyBndCondStatic_cell m.mesh _ i j h]

end initCond

/-! ### Rows that the tendency operators leave alone -/

theorem not_innerCell_of_outside (mesh : Mesh α) (i j : Int)
    (h : ¬ (mesh.js FULL < j ∧ j < mesh.je FULL)) : ¬ InnerCell mesh i j := by
  intro hc
  obtain ⟨⟨h1, h2⟩, -⟩ := hc
  exact h ⟨by omega, by omega⟩

theorem massFlux_outside (timeIdx : TimeLevelIndex) (m : BarotropicModel α) (i j : Int)
    (h : ¬ (m.mesh.js FULL < j ∧ j < m.mesh.je FULL)) :
    massFluxU timeIdx m i j = m.gdu i j ∧ massFluxV timeIdx m i j = m.gdv i j := by
  unfold massFluxU massFluxV
  have hn : ¬ ((m.mesh.js FULL + 1 ≤ j ∧ j ≤ m.mesh.je FULL - 1) ∧
      (m.mesh.is FULL - 1 ≤ i ∧ i ≤ m.mesh.ie FULL + 1)) := by
    intro hc
    exact h ⟨by omega, by omega⟩
  exact ⟨if_neg hn, if_neg hn⟩

theorem momentumFlux_outside (w : TimeField α) (timeIdx : TimeLevelIndex)
    (m : BarotropicModel α) (i j : Int)
    (h : ¬ (m.mesh.js FULL < j ∧ j < m.mesh.je FULL)) :
    momentumFluxU w timeIdx m i j = m.fu i j ∧ momentumFluxV w timeIdx m i j = m.fv i j := by
  unfold momentumFluxU momentumFluxV
  have hn : ¬ ((m.mesh.js FULL + 1 ≤ j ∧ j ≤ m.mesh.je FULL - 1) ∧
      (m.mesh.is FULL - 1 ≤ i ∧ i ≤ m.mesh.ie FULL + 1)) := by
    intro hc
    exact h ⟨by omega, by omega⟩
  exact ⟨if_neg hn, if_neg hn⟩

section kept

variable (timeIdx : TimeLevelIndex) (m : BarotropicModel α)

theorem calcGeopotentialDepthTendency_kept :
    PoleRowsKept m (calcGeopotentialDepthTendency timeIdx m) := by
  intro i j h
  rw [calcGeopotentialDepthTendency_eq]
  exact ⟨rfl, rfl, (massFlux_outside timeIdx m i j h).1, (massFlux_outside timeIdx m i j h).2⟩

theorem calcZonalWindAdvection_kept :
    PoleRowsKept m (calcZonalWindAdvection timeIdx m) := by
  intro i j h
  rw [calcZonalWindAdvection_eq]
  exact ⟨if_neg (not_innerCell_of_outside m.mesh i j h), rfl, rfl, rfl⟩

theorem calcZonalWindCoriolis_kept :
    PoleRowsKept m (calcZonalWindCoriolis timeIdx m) := by
  intro i j h
  rw [calcZonalWindCoriolis_eq]
  exact ⟨if_neg (not_innerCell_of_outside m.mesh i j h), rfl, rfl, rfl⟩

theorem calcZonalWindPressureGradient_kept :
    PoleRowsKept m (calcZonalWindPressureGradient timeIdx m) := by
  intro i j h
  rw [calcZonalWindPressureGradient_eq]
  exact ⟨if_neg (not_innerCell_of_outside m.mesh i j h), rfl, rfl, rfl⟩

theorem calcZonalWindTendency_kept :
    PoleRowsKept m (calcZonalWindTendency timeIdx m) := by
  intro i j h
  rw [calcZonalWindTendency_eq]
  exact ⟨if_neg (not_innerCell_of_outside m.mesh i j h), rfl, rfl, rfl⟩

theorem calcMeridionalWindAdvection_kept :
    PoleRowsKept m (calcMeridionalWindAdvection timeIdx m) := by
  intro i j h
  rw [calcMeridionalWindAdvection_eq]
  exact ⟨rfl, if_neg (not_innerCell_of_outside m.mesh i j h), rfl, rfl⟩

theorem calcMeridionalWindCoriolis_kept :
    PoleRowsKept m (calcMeridionalWindCoriolis timeIdx m) := by
  intro i j h
  rw [calcMeridionalWindCoriolis_eq]
  exact ⟨rfl, if_neg (not_innerCell_of_outside m.mesh i j h), rfl, rfl⟩

theorem calcMeridionalWindPressureGradient_kept :
    PoleRowsKept m (calcMeridionalWindPressureGradient timeIdx m) := by
  intro i j h
  rw [calcMeridionalWindPressureGradient_eq]
  exact ⟨rfl, if_neg (not_innerCell_of_outside m.mesh i j h), rfl, rfl⟩

theorem calcMeridionalWindTendency_kept :
    PoleRowsKept m (calcMeridionalWindTendency timeIdx m) := by
  intro i j h
  rw [calcMeridionalWindTendency_eq]
  exact ⟨rfl, if_neg (not_innerCell_of_outside m.mesh i j h), rfl, rfl⟩

theorem calcZonalWindAdvection_fluxKept :
    PoleFluxKept m (calcZonalWindAdvection timeIdx m) := by
  intro i j h
  rw [calcZonalWindAdvection_eq]
  exact momentumFlux_outside m.ut timeIdx m i j h

theorem calcMeridionalWindAdvection_fluxKept :
    PoleFluxKept m (calcMeridionalWindAdvection timeIdx m) := by
  intro i j h
  rw [calcMeridionalWindAdvection_eq]
  exact momentumFlux_outside m.vt timeIdx m i j h

theorem calcZonalWindAdvection_mesh :
    (calcZonalWindAdvection timeIdx m).mesh = m.mesh := by
  rw [calcZonalWindAdvection_eq]

theorem calcMeridionalWindAdvection_mesh :
    (calcMeridionalWindAdvection timeIdx m).mesh = m.mesh := by
  rw [calcMeridionalWindAdvection_eq]

end kept

theorem init_fu_fv (mesh : Mesh α) (OMEGA : α) (m : BarotropicModel α) :
    (init mesh OMEGA m).fu = m.fu ∧ (init mesh OMEGA m).fv = m.fv := by
  rw [init_eq]
  exact ⟨rfl, rfl⟩

/-! ### The tendency of the zonal and of the meridional wind -/

section tendency

variable (timeIdx : TimeLevelIndex) (m : BarotropicModel α)

theorem calcZonalWindTendency_flux (i j : Int)
    (hj : m.mesh.js FULL < j ∧ j < m.mesh.je FULL)
    (hi : m.mesh.is FULL - 1 ≤ i ∧ i ≤ m.mesh.ie FULL + 1) :
    (calcZonalWindTendency timeIdx m).fu i j = m.ut timeIdx i j * m.u timeIdx i j ∧
    (calcZonalWindTendency timeIdx m).fv i j =
      m.ut timeIdx i j * m.v timeIdx i j * m.cosLat j := by
  rw [calcZonalWindTendency_eq]
  have hc : (m.mesh.js FULL + 1 ≤ j ∧ j ≤ m.mesh.je FULL - 1) ∧
      (m.mesh.is FULL - 1 ≤ i ∧ i ≤ m.mesh.ie FULL + 1) := ⟨⟨by omega, by omega⟩, hi⟩
  exact ⟨if_pos hc, if_pos hc⟩

theorem calcMeridionalWindTendency_flux (i j : Int)
    (hj : m.mesh.js FULL < j ∧ j < m.mesh.je FULL)
    (hi : m.mesh.is FULL - 1 ≤ i ∧ i ≤ m.mesh.ie FULL + 1) :
    (calcMeridionalWindTendency timeIdx m).fu i j = m.vt timeIdx i j * m.u timeIdx i j ∧
    (calcMeridionalWindTendency timeIdx m).fv i j =
      m.vt timeIdx i j * m.v timeIdx i j * m.cosLat j := by
  rw [calcMeridionalWindTendency_eq]
  have hc : (m.mesh.js FULL + 1 ≤ j ∧ j ≤ m.mesh.je FULL - 1) ∧
      (m.mesh.is FULL - 1 ≤ i ∧ i ≤ m.mesh.ie FULL + 1) := ⟨⟨by omega, by omega⟩, hi⟩
  exact ⟨if_pos hc, if_pos hc⟩

theorem calcZonalWindTendency_dut (i j : Int) (h : InnerCell m.mesh i j) :
    (calcZonalWindTendency timeIdx m).dut i j =
      0.5 * (((calcZonalWindTendency timeIdx m).fu (i + 1) j -
            (calcZonalWindTendency timeIdx m).fu (i - 1) j +
            m.u timeIdx i j * (m.ut timeIdx (i + 1) j - m.ut timeIdx (i - 1) j)) *
          m.factorLon j +
        ((calcZonalWindTendency timeIdx m).fv i (j + 1) -
            (calcZonalWindTendency timeIdx m).fv i (j - 1) +
            m.v timeIdx i j * (m.ut timeIdx i (j + 1) - m.ut timeIdx i (j - 1)) * m.cosLat j) *
          m.factorLat j) -
      (m.factorCor j + m.u timeIdx i j * m.factorCur j) * m.vt timeIdx i j +
      (m.gd timeIdx (i + 1) j + m.ghs (i + 1) j - m.gd timeIdx (i - 1) j - m.ghs (i - 1) j) *
        m.factorLon j * m.gdt timeIdx i j := by
  rw [calcZonalWindTendency_eq]
  show (if InnerCell m.mesh i j then zonalTendencyValue timeIdx m i j else m.dut i j) = _
  rw [if_pos h]
  unfold zonalTendencyValue advectionValue
  ring

theorem calcMeridionalWindTendency_dvt (i j : Int) (h : InnerCell m.mesh i j) :
    (calcMeridionalWindTendency timeIdx m).dvt i j =
      0.5 * (((calcMeridionalWindTendency timeIdx m).fu (i + 1) j -
            (calcMeridionalWindTendency timeIdx m).fu (i - 1) j +
            m.u timeIdx i j * (m.vt timeIdx (i + 1) j - m.vt timeIdx (i - 1) j)) *
          m.factorLon j +
        ((calcMeridionalWindTendency timeIdx m).fv i (j + 1) -
            (calcMeridionalWindTendency timeIdx m).fv i (j - 1) +
            m.v timeIdx i j * (m.vt timeIdx i (j + 1) - m.vt timeIdx i (j - 1)) * m.cosLat j) *
          m.factorLat j) +
      (m.factorCor j + m.u timeIdx i j * m.factorCur j) * m.ut timeIdx i j +
      (m.gd timeIdx i (j + 1) + m.ghs i (j + 1) - m.gd timeIdx i (j - 1) - m.ghs i (j - 1)) *
        m.factorLat j * m.cosLat j * m.gdt timeIdx i j := by
  rw [calcMeridionalWindTendency_eq]
  show (if InnerCell m.mesh i j then meridionalTendencyValue timeIdx m i j else m.dvt i j) = _
  rw [if_pos h]
  unfold meridionalTendencyValue advectionValue
  ring

/-- The tendency that `calcZonalWindTendency` leaves at a cell between the poles does not
depend on what `dut` held before. -/
theorem calcZonalWindTendency_dut_fresh (d : Field α) (i j : Int) (h : InnerCell m.mesh i j) :
    (calcZonalWindTendency timeIdx { m with dut := d }).dut i j =
      (calcZonalWindTendency timeIdx m).dut i j := by
  rw [calcZonalWindTendency_eq, calcZonalWindTendency_eq]
  show (if InnerCell m.mesh i j then zonalTendencyValue timeIdx { m with dut := d } i j
      else d i j) =
    (if InnerCell m.mesh i j then zonalTendencyValue timeIdx m i j else m.dut i j)
  rw [if_pos h, if_pos h]
  rfl

/-- The tendency that `calcMeridionalWindTendency` leaves at a cell between the poles does not
depend on what `dvt` held before. -/
theorem calcMeridionalWindTendency_dvt_fresh (d : Field α) (i j : Int)
    (h : InnerCell m.mesh i j) :
    (calcMeridionalWindTendency timeIdx { m with dvt := d }).dvt i j =
      (calcMeridionalWindTendency timeIdx m).dvt i j := by
  rw [calcMeridionalWindTendency_eq, calcMeridionalWindTendency_eq]
  show (if InnerCell m.mesh i j then meridionalTendencyValue timeIdx { m with dvt := d } i j
      else d i j) =
    (if InnerCell m.mesh i j then meridionalTendencyValue timeIdx m i j else m.dvt i j)
  rw [if_pos h, if_pos h]
  rfl

theorem calcZonalWindTendency_frame :
    (calcZonalWindTendency timeIdx m).u = m.u ∧ (calcZonalWindTendency timeIdx m).v = m.v ∧
    (calcZonalWindTendency timeIdx m).ut = m.ut ∧ (calcZonalWindTendency timeIdx m).vt = m.vt ∧
    (calcZonalWindTendency timeIdx m).gd = m.gd ∧ (calcZonalWindTendency timeIdx m).gdt = m.gdt ∧
    (calcZonalWindTendency timeIdx m).ghs = m.ghs ∧
    (calcZonalWindTendency timeIdx m).dvt = m.dvt := by
  rw [calcZonalWindTendency_eq]
  exact ⟨rfl, rfl, rfl, rfl, rfl, rfl, rfl, rfl⟩

theorem calcMeridionalWindTendency_frame :
    (calcMeridionalWindTendency timeIdx m).u = m.u ∧
    (calcMeridionalWindTendency timeIdx m).v = m.v ∧
    (calcMeridionalWindTendency timeIdx m).ut = m.ut ∧
    (calcMeridionalWindTendency timeIdx m).vt = m.vt ∧
    (calcMeridionalWindTendency timeIdx m).gd = m.gd ∧
    (calcMeridionalWindTendency timeIdx m).gdt = m.gdt ∧
    (calcMeridionalWindTendency timeIdx m).ghs = m.ghs ∧
    (calcMeridionalWindTendency timeIdx m).dut = m.dut := by
  rw [calcMeridionalWindTendency_eq]
  exact ⟨rfl, rfl, rfl, rfl, rfl, rfl, rfl, rfl⟩

end tendency

/-! ### The tendencies of a pass, and the flag of the first run -/

section passParts

variable (sqrt : α → α) (k : Bool) (dt : α) (m : BarotropicModel α)

theorem depthPart_eq (o h n : TimeLevelIndex) :
    depthPart sqrt o h n dt m = depthStage sqrt o h n dt m := by
  unfold depthPart
  simp only [calcGeopotentialDepthTendency_eq, updateGeopotentialDepth_eq, applyBndCondGd_eq,
    transformGeopotentialDepth_eq, applyBndCondGdt_eq]
  rfl

theorem calcZonalWindTendency_depthStage (o h n : TimeLevelIndex) :
    calcZonalWindTendency h (depthStage sqrt o h n dt m) = zonalStage sqrt o h n dt m := by
  rw [calcZonalWindTendency_eq]
  rfl

/-- The tendencies that a pass of the iteration loop leaves are those that the three tendency
methods compute at the half level, each on the state in which the pass calls it. -/
theorem iterationBody_tendencies :
    (iterationBody sqrt (.full k) .half (.full (!k)) dt m).dgd =
      (calcGeopotentialDepthTendency .half m).dgd ∧
    (iterationBody sqrt (.full k) .half (.full (!k)) dt m).dut =
      (calcZonalWindTendency .half (depthPart sqrt (.full k) .half (.full (!k)) dt m)).dut ∧
    (iterationBody sqrt (.full k) .half (.full (!k)) dt m).dvt =
      (calcMeridionalWindTendency .half (calcZonalWindTendency .half
        (depthPart sqrt (.full k) .half (.full (!k)) dt m))).dvt := by
  rw [depthPart_eq, calcZonalWindTendency_depthStage, iterationBody_dgd, iterationBody_dut,
    iterationBody_dvt, calcGeopotentialDepthTendency_eq, calcMeridionalWindTendency_eq]
  refine ⟨rfl, ?_, rfl⟩
  rfl

/-- What one pass of the iteration loop leaves at a cell of the grid: the new level of `gd`,
`ut` and `vt` is the old level less `dt` times the tendency, and the half level of the six
fields with time levels is the mean of the old and the new level. -/
theorem iterationBody_cell (i j : Int) (h : GridCell m.mesh i j) :
    ((iterationBody sqrt (.full k) .half (.full (!k)) dt m).gd (.full (!k)) i j =
        (iterationBody sqrt (.full k) .half (.full (!k)) dt m).gd (.full k) i j -
          dt * (iterationBody sqrt (.full k) .half (.full (!k)) dt m).dgd i j ∧
      (iterationBody sqrt (.full k) .half (.full (!k)) dt m).ut (.full (!k)) i j =
        (iterationBody sqrt (.full k) .half (.full (!k)) dt m).ut (.full k) i j -
          dt * (iterationBody sqrt (.full k) .half (.full (!k)) dt m).dut i j ∧
      (iterationBody sqrt (.full k) .half (.full (!k)) dt m).vt (.full (!k)) i j =
        (iterationBody sqrt (.full k) .half (.full (!k)) dt m).vt (.full k) i j -
          dt * (iterationBody sqrt (.full k) .half (.full (!k)) dt m).dvt i j) ∧
    ((iterationBody sqrt (.full k) .half (.full (!k)) dt m).gd .half i j =
        ((iterationBody sqrt (.full k) .half (.full (!k)) dt m).gd (.full k) i j +
          (iterationBody sqrt (.full k) .half (.full (!k)) dt m).gd (.full (!k)) i j) / 2 ∧
      (iterationBody sqrt (.full k) .half (.full (!k)) dt m).gdt .half i j =
        ((iterationBody sqrt (.full k) .half (.full (!k)) dt m).gdt (.full k) i j +
          (iterationBody sqrt (.full k) .half (.full (!k)) dt m).gdt (.full (!k)) i j) / 2 ∧
      (iterationBody sqrt (.full k) .half (.full (!k)) dt m).ut .half i j =
        ((iterationBody sqrt (.full k) .half (.full (!k)) dt m).ut (.full k) i j +
          (iterationBody sqrt (.full k) .half (.full (!k)) dt m).ut (.full (!k)) i j) / 2 ∧
      (iterationBody sqrt (.full k) .half (.full (!k)) dt m).vt .half i j =
        ((iterationBody sqrt (.full k) .half (.full (!k)) dt m).vt (.full k) i j +
          (iterationBody sqrt (.full k) .half (.full (!k)) dt m).vt (.full (!k)) i j) / 2 ∧
      (iterationBody sqrt (.full k) .half (.full (!k)) dt m).u .half i j =
        ((iterationBody sqrt (.full k) .half (.full (!k)) dt m).u (.full k) i j +
          (iterationBody sqrt (.full k) .half (.full (!k)) dt m).u (.full (!k)) i j) / 2 ∧
      (iterationBody sqrt (.full k) .half (.full (!k)) dt m).v .half i j =
        ((iterationBody sqrt (.full k) .half (.full (!k)) dt m).v (.full k) i j +
          (iterationBody sqrt (.full k) .half (.full (!k)) dt m).v (.full (!k)) i j) / 2) := by
  have e : ∀ x : α, x * 0.5 = x / 2 := fun x => by norm_num; ring
  refine ⟨⟨?_, ?_, ?_⟩, ?_, ?_, ?_, ?_, ?_, ?_⟩
  · rw [iterationBody_gd_new sqrt k dt m i j h, iterationBody_gd_old, iterationBody_dgd]
  · rw [iterationBody_ut_new sqrt k dt m i j h, iterationBody_ut_old, iterationBody_dut]
  · rw [iterationBody_vt_new sqrt k dt m i j h, iterationBody_vt_old, iterationBody_dvt]
  · rw [iterationBody_gd_half, iterationBody_gd_old, e]
  · rw [iterationBody_gdt_half, iterationBody_gdt_old, e]
  · rw [iterationBody_ut_half, iterationBody_ut_old, e]
  · rw [iterationBody_vt_half, iterationBody_vt_old, e]
  · rw [iterationBody_u_half, iterationBody_u_old, e]
  · rw [iterationBody_v_half, iterationBody_v_old, e]

theorem afterPasses_mesh (n : Nat) :
    (afterPasses sqrt (.full k) dt n m).mesh = m.mesh := by
  induction n with
  | zero => rw [afterPasses_zero, startState_mesh]
  | succ n ih => rw [afterPasses_succ, iterationBody_mesh, ih]

theorem startState_firstRun : (startState sqrt (.full k) m).firstRun = false := by
  by_cases hf : m.firstRun = true
  · rw [startState_of_firstRun sqrt k m hf, copyStates_eq sqrt _ _ (full_ne_half k)]
  · have hf' : m.firstRun = false := by simpa using hf
    rw [startState_of_not_firstRun sqrt k m hf', hf']

theorem afterPasses_firstRun (n : Nat) :
    (afterPasses sqrt (.full k) dt n m).firstRun = false := by
  induction n with
  | zero => rw [afterPasses_zero, startState_firstRun]
  | succ n ih => rw [afterPasses_succ, iterationBody_firstRun, ih]

theorem integrate_firstRun : (integrate sqrt (.full k) dt m).2.firstRun = false := by
  obtain ⟨n, -, -, -, h⟩ := integrate_result sqrt (.full k) dt m
  rw [h, afterPasses_firstRun]

end passParts

/-! ### The zonal wind of the Rossby-Haurwitz wave -/

/-- Where the cosine of the latitude is not zero, the value that the loop of `calcInitCond`
computes for `u` is `a ω (cos φ + R sin² φ cos^(R-1) φ cos Rλ - cos^(R+1) φ cos Rλ)`. -/
theorem zonalWindValue_eq (cos : α → α) (gridCoordComp : Nat → GridType → Int → α)
    (uGridType : FieldGridType) (tc : RossbyHaurwitzTestCase α) (mesh : Mesh α) (Re : α)
    (i j : Int) (hR : 1 ≤ tc.R) (hc : mesh.getCosLat (uGridType 1) j ≠ 0) :
    zonalWindValue cos gridCoordComp uGridType tc mesh Re i j =
      computedZonalWind tc Re (mesh.getCosLat (uGridType 1) j) (mesh.getSinLat (uGridType 1) j)
        (cos ((tc.R : α) * gridCoordComp 0 (uGridType 0) i)) := by
  unfold zonalWindValue computedZonalWind
  obtain ⟨n, hn⟩ : ∃ n, tc.R = n + 1 := ⟨tc.R - 1, by omega⟩
  rw [hn, Nat.add_sub_cancel]
  generalize mesh.getCosLat (uGridType 1) j = c at hc
  generalize mesh.getSinLat (uGridType 1) j = s
  generalize cos (((n + 1 : Nat) : α) * gridCoordComp 0 (uGridType 0) i) = x
  field_simp
  ring

theorem exampleModel_radius : (exampleModel α).radius = 6.371e6 := by
  unfold exampleModel
  rw [init_eq]

theorem exampleMesh_windCell : WindCell centerGridType (exampleMesh α) 1 1 := by
  unfold WindCell centerGridType
  rw [exampleMesh_is, exampleMesh_ie, exampleMesh_js, exampleMesh_je]
  refine ⟨⟨⟨by omega, by omega⟩, ?_⟩, by omega, by omega⟩
  rintro ⟨-, h | h⟩ <;> omega

theorem exampleMesh_not_poleCell : ¬ PoleCell (exampleMesh α) 1 1 := by
  unfold PoleCell
  rw [exampleMesh_js, exampleMesh_je]
  rintro ⟨h | h, -⟩ <;> omega

/-- On the small grid, with column 1 at longitude 0, `calcInitCond` leaves a zero zonal wind at
the cell of column 1 on the equator row. -/
theorem exampleModel_calcInitCond (cos sin : α → α) (hcos : cos 0 = 1) (OMEGA G : α) :
    ∃ s, calcInitCond cos sin (exampleLon α) OMEGA true centerGridType centerGridType
        (rossbyHaurwitzTestCase G) (.full false) (exampleModel α) = some s ∧
      s.u (.full false) 1 1 = 0 := by
  have hcell : GridCell (exampleModel α).mesh 1 1 := by
    rw [exampleModel_mesh, exampleMesh_gridCell]
    omega
  obtain ⟨s, hs, hu, -⟩ := calcInitCond_cell cos sin (exampleLon α) OMEGA centerGridType
    centerGridType (rossbyHaurwitzTestCase G) (.full false) (exampleModel α) 1 1 hcell
  refine ⟨s, hs, ?_⟩
  rw [hu, exampleModel_mesh, if_neg (fun h => exampleMesh_not_poleCell h.2),
    if_pos exampleMesh_windCell]
  unfold zonalWindValue exampleLon exampleMesh centerGridType rossbyHaurwitzTestCase
  simp [hcos]

theorem documentedZonalWind_example (G : α) :
    documentedZonalWind (rossbyHaurwitzTestCase G) 6.371e6 1 0 1 = 6.371e6 * 3.924e-6 := by
  unfold documentedZonalWind rossbyHaurwitzTestCase
  norm_num

theorem exampleMesh_equator :
    (exampleMesh α).getCosLat FULL 1 = 1 ∧ (exampleMesh α).getSinLat FULL 1 = 0 := by
  unfold exampleMesh
  simp

/-! ### The pole rows of the initial condition -/

theorem gridCell_pole_or_inner (mesh : Mesh α) (i j : Int) (h : GridCell mesh i j) :
    PoleCell mesh i j ∨ InnerCell mesh i j := by
  unfold PoleCell InnerCell
  obtain ⟨⟨h1, h2⟩, h3⟩ := h
  by_cases hp : j = mesh.js FULL ∨ j = mesh.je FULL
  · exact Or.inl ⟨hp, h3⟩
  · refine Or.inr ⟨⟨?_, ?_⟩, h3⟩
    · have : j ≠ mesh.js FULL := fun c => hp (Or.inl c)
      omega
    · have : j ≠ mesh.je FULL := fun c => hp (Or.inr c)
      omega

section poles

variable (cos sin : α → α) (gridCoordComp : Nat → GridType → Int → α) (OMEGA : α)
  (uGridType vGridType : FieldGridType) (tc : RossbyHaurwitzTestCase α)
  (initTimeIdx : TimeLevelIndex) (m : BarotropicModel α)

theorem calcInitCond_some :
    ∃ s, calcInitCond cos sin gridCoordComp OMEGA true uGridType vGridType tc initTimeIdx m =
      some s :=
  ⟨_, calcInitCond_eq cos sin gridCoordComp OMEGA uGridType vGridType tc initTimeIdx m⟩

/-- What `calcInitCond` leaves at a cell of a pole row, for `u` and `v` at the cell centres in
latitude. -/
theorem calcInitCond_poleCell (hu : uGridType 1 = FULL) (hv : vGridType 1 = FULL)
    (s : BarotropicModel α)
    (hs : calcInitCond cos sin gridCoordComp OMEGA true uGridType vGridType tc initTimeIdx m =
      some s)
    (i j : Int) (hg : GridCell m.mesh i j) (hp : PoleCell m.mesh i j) :
    s.u initTimeIdx i j = 0 ∧ s.v initTimeIdx i j = 0 ∧ s.gd initTimeIdx i j = tc.phi0 := by
  obtain ⟨s', hs', h1, h2, h3, -⟩ := calcInitCond_cell cos sin gridCoordComp OMEGA uGridType
    vGridType tc initTimeIdx m i j hg
  obtain rfl : s' = s := Option.some.inj (hs'.symm.trans hs)
  rw [h1, h2, h3, if_pos ⟨hu, hp⟩, if_pos ⟨hv, hp⟩, if_pos hp]
  exact ⟨rfl, rfl, rfl⟩

/-- The field `ghs` is zero at every cell of the grid once `calcInitCond` has run. -/
theorem calcInitCond_ghs (s : BarotropicModel α)
    (hs : calcInitCond cos sin gridCoordComp OMEGA true uGridType vGridType tc initTimeIdx m =
      some s)
    (i j : Int) (hg : GridCell m.mesh i j) : s.ghs i j = 0 := by
  obtain ⟨s', hs', -, -, -, h4⟩ := calcInitCond_cell cos sin gridCoordComp OMEGA uGridType
    vGridType tc initTimeIdx m i j hg
  obtain rfl : s' = s := Option.some.inj (hs'.symm.trans hs)
  rw [h4]
  rcases gridCell_pole_or_inner m.mesh i j hg with hp | hi
  · rw [if_pos hp]
  · by_cases hp : PoleCell m.mesh i j
    · rw [if_pos hp]
    · rw [if_neg hp, if_pos hi]

end poles

/-! ### Sums of differences over the grid -/

theorem loopSum_empty (lo hi : Int) (f : Int → α) (h : hi < lo) : loopSum lo hi f = 0 := by
  rw [loopSum_eq_sum_Icc, Finset.Icc_eq_empty (by omega), Finset.sum_empty]

theorem loopSum_zero (lo hi : Int) : loopSum lo hi (fun _ => (0 : α)) = 0 :=
  Finset.sum_const_zero

/-- The sum of the differences `g k - g (k - 1)` over `k = lo, ..., hi` collapses to
`g hi - g (lo - 1)`. -/
theorem loopSum_diff (g : Int → α) (lo hi : Int) (h : lo ≤ hi + 1) :
    loopSum lo hi (fun k => g k - g (k - 1)) = g hi - g (lo - 1) := by
  unfold loopSum
  have key : ∀ n : Nat, ∑ x in Finset.range n, (g (lo + (x : Int)) - g (lo + (x : Int) - 1)) =
      g (lo + (n : Int) - 1) - g (lo - 1) := by
    intro n
    induction n with
    | zero => simp
    | succ n ih =>
      rw [Finset.sum_range_succ, ih]
      have e1 : lo + ((n + 1 : Nat) : Int) - 1 = lo + (n : Int) := by
        push_cast
        ring
      rw [e1]
      ring
  rw [key]
  have e : lo + ((hi + 1 - lo).toNat : Int) - 1 = hi := by omega
  rw [e]

/-- A field over the rows between the poles that is, cell by cell, a difference along the
row of a quantity with equal values at the two ends of the row, plus a difference along the
column, sums to what the columns leave at the two rows next to the poles. -/
theorem double_telescope (is ie js je : Int) (a b : α) (A B f : Int → Int → α) (hj : js < je)
    (hA : ∀ j, js + 1 ≤ j → j ≤ je - 1 → A ie j = A (is - 1) j)
    (hf : ∀ i j, is ≤ i → i ≤ ie → js + 1 ≤ j → j ≤ je - 1 →
      f i j = a * (A i j - A (i - 1) j) + b * (B i j - B i (j - 1))) :
    loopSum (js + 1) (je - 1) (fun j => loopSum is ie (fun i => f i j)) =
      b * loopSum is ie (fun i => B i (je - 1) - B i js) := by
  by_cases hi : is ≤ ie + 1
  · have hrow : ∀ j, js + 1 ≤ j → j ≤ je - 1 →
        loopSum is ie (fun i => f i j) = b * loopSum is ie (fun i => B i j - B i (j - 1)) := by
      intro j h1 h2
      rw [loopSum_congr (g := fun i => a * (A i j - A (i - 1) j) + b * (B i j - B i (j - 1)))
        (fun i h3 h4 => hf i j h3 h4 h1 h2),
        loopSum_add, loopSum_mul_left, loopSum_mul_left,
        loopSum_diff (fun i => A i j) is ie hi, hA j h1 h2]
      ring
    rw [loopSum_congr (g := fun j => b * loopSum is ie (fun i => B i j - B i (j - 1)))
      (fun j h1 h2 => hrow j h1 h2), loopSum_mul_left, loopSum_swap]
    congr 1
    apply loopSum_congr
    intro i _ _
    rw [loopSum_diff (fun j => B i j) (js + 1) (je - 1) (by omega)]
    have e : js + 1 - 1 = js := by omega
    rw [e]
  · rw [loopSum_congr (g := fun _ => (0 : α))
      (fun j _ _ => loopSum_empty is ie _ (by omega)), loopSum_zero,
      loopSum_empty is ie _ (by omega), mul_zero]

/-- The exchange of energy between the continuity equation and the pressure gradient: the
weighted sum of `Φ` times the depth tendency over all rows and that of the wind times the
pressure-gradient force over the rows between the poles cancel, when the zonal fluxes and `Φ`
are periodic, no mass flows through the pole rows and `Φ` is uniform along each pole row. -/
theorem exchange_sum_zero (is ie js je : Int) (n cL cT phiS phiN : α)
    (phi gu gv D Q : Int → Int → α)
    (hi : is ≤ ie) (hj : js < je) (hn : n = ((ie - is + 1 : Int) : α))
    (hphi : ∀ j, js + 1 ≤ j → j ≤ je - 1 →
      phi (is - 1) j = phi ie j ∧ phi (ie + 1) j = phi is j)
    (hgu : ∀ j, js + 1 ≤ j → j ≤ je - 1 →
      gu (is - 1) j = gu ie j ∧ gu (ie + 1) j = gu is j)
    (hpole : ∀ i, is ≤ i → i ≤ ie → gv i js = 0 ∧ gv i je = 0)
    (hphiS : ∀ i, is ≤ i → i ≤ ie → phi i js = phiS)
    (hphiN : ∀ i, is ≤ i → i ≤ ie → phi i je = phiN)
    (hDS : ∀ i, is ≤ i → i ≤ ie → D i js = loopSum is ie (fun k => gv k (js + 1)) * cT / n)
    (hDN : ∀ i, is ≤ i → i ≤ ie → D i je = -(loopSum is ie (fun k => gv k (je - 1)) * cT / n))
    (hD : ∀ i j, is ≤ i → i ≤ ie → js + 1 ≤ j → j ≤ je - 1 →
      D i j = (gu (i + 1) j - gu (i - 1) j) * cL + (gv i (j + 1) - gv i (j - 1)) * cT)
    (hQ : ∀ i j, is ≤ i → i ≤ ie → js + 1 ≤ j → j ≤ je - 1 →
      Q i j = gu i j * (phi (i + 1) j - phi (i - 1) j) * cL +
        gv i j * (phi i (j + 1) - phi i (j - 1)) * cT) :
    loopSum js je (fun j => loopSum is ie (fun i => phi i j * D i j)) +
      loopSum (js + 1) (je - 1) (fun j => loopSum is ie (fun i => Q i j)) = 0 := by
  have hn0 : n ≠ 0 := by
    rw [hn]
    have : (0 : Int) < ie - is + 1 := by omega
    exact_mod_cast this.ne'
  have hcount : ((ie + 1 - is : Int) : α) = n := by
    rw [hn]
    congr 1
    ring
  -- the south pole row
  have hsouth : loopSum is ie (fun i => phi i js * D i js) =
      phiS * loopSum is ie (fun k => gv k (js + 1)) * cT := by
    rw [loopSum_congr (g := fun _ => phiS * (loopSum is ie (fun k => gv k (js + 1)) * cT / n))
      (fun i h1 h2 => by rw [hDS i h1 h2, hphiS i h1 h2]),
      loopSum_const _ _ _ (by omega), hcount]
    field_simp
    ring
  -- the north pole row
  have hnorth : loopSum is ie (fun i => phi i je * D i je) =
      -(phiN * loopSum is ie (fun k => gv k (je - 1)) * cT) := by
    rw [loopSum_congr
      (g := fun _ => phiN * -(loopSum is ie (fun k => gv k (je - 1)) * cT / n))
      (fun i h1 h2 => by rw [hDN i h1 h2, hphiN i h1 h2]),
      loopSum_const _ _ _ (by omega), hcount]
    field_simp
    ring
  -- the rows between the poles
  have hinner : loopSum (js + 1) (je - 1)
        (fun j => loopSum is ie (fun i => phi i j * D i j + Q i j)) =
      cT * loopSum is ie (fun i =>
        (phi i (je - 1) * gv i (je - 1 + 1) + gv i (je - 1) * phi i (je - 1 + 1)) -
        (phi i js * gv i (js + 1) + gv i js * phi i (js + 1))) := by
    apply double_telescope is ie js je cL cT
      (fun i j => phi i j * gu (i + 1) j + gu i j * phi (i + 1) j)
      (fun i j => phi i j * gv i (j + 1) + gv i j * phi i (j + 1)) _ hj
    · intro j h1 h2
      obtain ⟨a1, a2⟩ := hphi j h1 h2
      obtain ⟨b1, b2⟩ := hgu j h1 h2
      have e : is - 1 + 1 = is := by omega
      show phi ie j * gu (ie + 1) j + gu ie j * phi (ie + 1) j =
        phi (is - 1) j * gu (is - 1 + 1) j + gu (is - 1) j * phi (is - 1 + 1) j
      rw [a2, b2, e, a1, b1]
    · intro i j h1 h2 h3 h4
      have e : j - 1 + 1 = j := by omega
      have e' : i - 1 + 1 = i := by omega
      show phi i j * D i j + Q i j =
        cL * (phi i j * gu (i + 1) j + gu i j * phi (i + 1) j -
            (phi (i - 1) j * gu (i - 1 + 1) j + gu (i - 1) j * phi (i - 1 + 1) j)) +
          cT * (phi i j * gv i (j + 1) + gv i j * phi i (j + 1) -
            (phi i (j - 1) * gv i (j - 1 + 1) + gv i (j - 1) * phi i (j - 1 + 1)))
      rw [hD i j h1 h2 h3 h4, hQ i j h1 h2 h3 h4, e, e']
      ring
  have hends : loopSum is ie (fun i =>
        (phi i (je - 1) * gv i (je - 1 + 1) + gv i (je - 1) * phi i (je - 1 + 1)) -
        (phi i js * gv i (js + 1) + gv i js * phi i (js + 1))) =
      phiN * loopSum is ie (fun k => gv k (je - 1)) -
        phiS * loopSum is ie (fun k => gv k (js + 1)) := by
    rw [loopSum_congr (g := fun i => phiN * gv i (je - 1) - phiS * gv i (js + 1))
      (fun i h1 h2 => by
        have e : je - 1 + 1 = je := by omega
        rw [e, (hpole i h1 h2).1, (hpole i h1 h2).2, hphiS i h1 h2, hphiN i h1 h2]
        ring),
      loopSum_sub, loopSum_mul_left, loopSum_mul_left]
  rw [loopSum_split_ends js je _ hj, hsouth, hnorth]
  have hsum : loopSum (js + 1) (je - 1) (fun j => loopSum is ie (fun i => phi i j * D i j)) +
      loopSum (js + 1) (je - 1) (fun j => loopSum is ie (fun i => Q i j)) =
      loopSum (js + 1) (je - 1)
        (fun j => loopSum is ie (fun i => phi i j * D i j + Q i j)) := by
    rw [← loopSum_add]
    apply loopSum_congr
    intro j _ _
    rw [← loopSum_add]
  have hsum' := hsum.trans (hinner.trans (congrArg (fun x => cT * x) hends))
  simp only at hsum'
  linear_combination hsum'

/-- The work of an advection operator: a field over the rows between the poles that is, cell
by cell, a difference along the row of a periodic quantity plus a difference along the column
of a quantity that vanishes next to both poles, sums to zero. -/
theorem double_telescope_zero (is ie js je : Int) (a b : α) (A B f : Int → Int → α)
    (hA : ∀ j, js + 1 ≤ j → j ≤ je - 1 → A ie j = A (is - 1) j)
    (hB : ∀ i, is ≤ i → i ≤ ie → B i (je - 1) = 0 ∧ B i js = 0)
    (hf : ∀ i j, is ≤ i → i ≤ ie → js + 1 ≤ j → j ≤ je - 1 →
      f i j = a * (A i j - A (i - 1) j) + b * (B i j - B i (j - 1))) :
    loopSum (js + 1) (je - 1) (fun j => loopSum is ie (fun i => f i j)) = 0 := by
  by_cases hj : js < je
  · rw [double_telescope is ie js je a b A B f hj hA hf,
      loopSum_congr (g := fun _ => (0 : α))
        (fun i h1 h2 => by rw [(hB i h1 h2).1, (hB i h1 h2).2, sub_zero]),
      loopSum_zero, mul_zero]
  · exact loopSum_empty _ _ _ (by omega)

/-! ### The work of the advection operators -/

section advection

variable (w : TimeField α) (timeIdx : TimeLevelIndex) (m : BarotropicModel α)

theorem momentumFluxU_inner (i j : Int)
    (hj : m.mesh.js FULL + 1 ≤ j ∧ j ≤ m.mesh.je FULL - 1)
    (hi : m.mesh.is FULL - 1 ≤ i ∧ i ≤ m.mesh.ie FULL + 1) :
    momentumFluxU w timeIdx m i j = w timeIdx i j * m.u timeIdx i j := by
  unfold momentumFluxU
  exact if_pos ⟨hj, hi⟩

/-- With `w` and the buffer `fv` zero on the pole rows, the flux `fv` that an advection
method reads is `w * v * cosLat` on every row of the grid. -/
theorem momentumFluxV_column (hpole : ZeroAtPoles m.mesh (w timeIdx))
    (hfv : ZeroAtPoles m.mesh m.fv) (i j : Int)
    (hj : m.mesh.js FULL ≤ j ∧ j ≤ m.mesh.je FULL)
    (hi : m.mesh.is FULL ≤ i ∧ i ≤ m.mesh.ie FULL) :
    momentumFluxV w timeIdx m i j = w timeIdx i j * m.v timeIdx i j * m.cosLat j := by
  unfold momentumFluxV
  by_cases hc : m.mesh.js FULL + 1 ≤ j ∧ j ≤ m.mesh.je FULL - 1
  · exact if_pos ⟨hc, by omega, by omega⟩
  · rw [if_neg (fun h => hc h.1)]
    have hcase : j = m.mesh.js FULL ∨ j = m.mesh.je FULL := by omega
    rcases hcase with rfl | rfl
    · rw [(hfv i hi.1 hi.2).1, (hpole i hi.1 hi.2).1]
      ring
    · rw [(hfv i hi.1 hi.2).2, (hpole i hi.1 hi.2).2]
      ring

/-- The advection of a transformed wind `w` does no net work on it: the sum of
`w * advection * cosLat` over the cells between the poles is zero. -/
theorem advectionValue_work (hu : PeriodicHalo m.mesh (m.u timeIdx))
    (hw : PeriodicHalo m.mesh (w timeIdx)) (hpole : ZeroAtPoles m.mesh (w timeIdx))
    (hfv : ZeroAtPoles m.mesh m.fv) (hcos : CosLatNonzero m) (hfac : InitFactors m) :
    loopSum (m.mesh.js FULL + 1) (m.mesh.je FULL - 1)
      (fun j => loopSum (m.mesh.is FULL) (m.mesh.ie FULL)
        (fun i => w timeIdx i j * advectionValue w timeIdx m i j * m.cosLat j)) = 0 := by
  apply double_telescope_zero (m.mesh.is FULL) (m.mesh.ie FULL) (m.mesh.js FULL)
    (m.mesh.je FULL) (0.5 * (1 / (2 * m.dlon * m.radius))) (0.5 * (1 / (2 * m.dlat * m.radius)))
    (fun i j => w timeIdx i j * w timeIdx (i + 1) j * (m.u timeIdx i j + m.u timeIdx (i + 1) j))
    (fun i j => w timeIdx i j * w timeIdx i (j + 1) *
      (m.v timeIdx i j * m.cosLat j + m.v timeIdx i (j + 1) * m.cosLat (j + 1)))
  · intro j h1 h2
    obtain ⟨a1, a2⟩ := hu j (by omega) (by omega)
    obtain ⟨b1, b2⟩ := hw j (by omega) (by omega)
    have e : m.mesh.is FULL - 1 + 1 = m.mesh.is FULL := by omega
    show w timeIdx (m.mesh.ie FULL) j * w timeIdx (m.mesh.ie FULL + 1) j *
        (m.u timeIdx (m.mesh.ie FULL) j + m.u timeIdx (m.mesh.ie FULL + 1) j) =
      w timeIdx (m.mesh.is FULL - 1) j * w timeIdx (m.mesh.is FULL - 1 + 1) j *
        (m.u timeIdx (m.mesh.is FULL - 1) j + m.u timeIdx (m.mesh.is FULL - 1 + 1) j)
    rw [a2, b2, e, a1, b1]
  · intro i h1 h2
    have e : m.mesh.je FULL - 1 + 1 = m.mesh.je FULL := by omega
    constructor
    · show w timeIdx i (m.mesh.je FULL - 1) * w timeIdx i (m.mesh.je FULL - 1 + 1) * _ = 0
      rw [e, (hpole i h1 h2).2]
      ring
    · show w timeIdx i (m.mesh.js FULL) * _ * _ = 0
      rw [(hpole i h1 h2).1]
      ring
  · intro i j h1 h2 h3 h4
    have e : j - 1 + 1 = j := by omega
    have e' : i - 1 + 1 = i := by omega
    show w timeIdx i j * advectionValue w timeIdx m i j * m.cosLat j =
      0.5 * (1 / (2 * m.dlon * m.radius)) *
          (w timeIdx i j * w timeIdx (i + 1) j * (m.u timeIdx i j + m.u timeIdx (i + 1) j) -
            w timeIdx (i - 1) j * w timeIdx (i - 1 + 1) j *
              (m.u timeIdx (i - 1) j + m.u timeIdx (i - 1 + 1) j)) +
        0.5 * (1 / (2 * m.dlat * m.radius)) *
          (w timeIdx i j * w timeIdx i (j + 1) *
              (m.v timeIdx i j * m.cosLat j + m.v timeIdx i (j + 1) * m.cosLat (j + 1)) -
            w timeIdx i (j - 1) * w timeIdx i (j - 1 + 1) *
              (m.v timeIdx i (j - 1) * m.cosLat (j - 1) +
                m.v timeIdx i (j - 1 + 1) * m.cosLat (j - 1 + 1)))
    unfold advectionValue
    rw [momentumFluxU_inner w timeIdx m (i + 1) j ⟨h3, h4⟩ ⟨by omega, by omega⟩,
      momentumFluxU_inner w timeIdx m (i - 1) j ⟨h3, h4⟩ ⟨by omega, by omega⟩,
      momentumFluxV_column w timeIdx m hpole hfv i (j + 1) ⟨by omega, by omega⟩ ⟨h1, h2⟩,
      momentumFluxV_column w timeIdx m hpole hfv i (j - 1) ⟨by omega, by omega⟩ ⟨h1, h2⟩,
      e, e', ← hfac.factorLon_mul_cosLat hcos j (by omega) (by omega),
      ← hfac.factorLat_mul_cosLat hcos j (by omega) (by omega)]
    ring

end advection

section work

variable (timeIdx : TimeLevelIndex) (m : BarotropicModel α)

/-- The work of `calcZonalWindAdvection` on `ut` is zero. -/
theorem calcZonalWindAdvection_work (hu : PeriodicHalo m.mesh (m.u timeIdx))
    (hut : PeriodicHalo m.mesh (m.ut timeIdx)) (hpole : ZeroAtPoles m.mesh (m.ut timeIdx))
    (hfv : ZeroAtPoles m.mesh m.fv) (hcos : CosLatNonzero m) (hfac : InitFactors m) :
    ∑ j in Finset.Icc (m.mesh.js FULL + 1) (m.mesh.je FULL - 1),
      ∑ i in Finset.Icc (m.mesh.is FULL) (m.mesh.ie FULL),
        m.ut timeIdx i j * (calcZonalWindAdvection timeIdx m).dut i j * m.cosLat j = 0 := by
  have h := advectionValue_work m.ut timeIdx m hu hut hpole hfv hcos hfac
  rw [loopSum_eq_sum_Icc] at h
  rw [← h]
  apply Finset.sum_congr rfl
  intro j hj
  rw [loopSum_eq_sum_Icc]
  apply Finset.sum_congr rfl
  intro i hi
  rw [Finset.mem_Icc] at hi hj
  rw [calcZonalWindAdvection_eq]
  show m.ut timeIdx i j *
      (if InnerCell m.mesh i j then advectionValue m.ut timeIdx m i j else m.dut i j) * _ = _
  rw [if_pos ⟨hj, hi⟩]

/-- The work of `calcMeridionalWindAdvection` on `vt` is zero. -/
theorem calcMeridionalWindAdvection_work (hu : PeriodicHalo m.mesh (m.u timeIdx))
    (hvt : PeriodicHalo m.mesh (m.vt timeIdx)) (hpole : ZeroAtPoles m.mesh (m.vt timeIdx))
    (hfv : ZeroAtPoles m.mesh m.fv) (hcos : CosLatNonzero m) (hfac : InitFactors m) :
    ∑ j in Finset.Icc (m.mesh.js FULL + 1) (m.mesh.je FULL - 1),
      ∑ i in Finset.Icc (m.mesh.is FULL) (m.mesh.ie FULL),
        m.vt timeIdx i j * (calcMeridionalWindAdvection timeIdx m).dvt i j * m.cosLat j = 0 := by
  have h := advectionValue_work m.vt timeIdx m hu hvt hpole hfv hcos hfac
  rw [loopSum_eq_sum_Icc] at h
  rw [← h]
  apply Finset.sum_congr rfl
  intro j hj
  rw [loopSum_eq_sum_Icc]
  apply Finset.sum_congr rfl
  intro i hi
  rw [Finset.mem_Icc] at hi hj
  rw [calcMeridionalWindAdvection_eq]
  show m.vt timeIdx i j *
      (if InnerCell m.mesh i j then advectionValue m.vt timeIdx m i j else m.dvt i j) * _ = _
  rw [if_pos ⟨hj, hi⟩]

end work

/-! ### The exchange of energy between continuity and pressure gradient -/

section exchange

variable (timeIdx : TimeLevelIndex) (m : BarotropicModel α)

theorem massFlux_inner (i j : Int)
    (hj : m.mesh.js FULL + 1 ≤ j ∧ j ≤ m.mesh.je FULL - 1)
    (hi : m.mesh.is FULL - 1 ≤ i ∧ i ≤ m.mesh.ie FULL + 1) :
    massFluxU timeIdx m i j = m.ut timeIdx i j * m.gdt timeIdx i j ∧
    massFluxV timeIdx m i j = m.vt timeIdx i j * m.gdt timeIdx i j * m.cosLat j := by
  unfold massFluxU massFluxV
  exact ⟨if_pos ⟨hj, hi⟩, if_pos ⟨hj, hi⟩⟩

/-- The amounts that the two pressure-gradient methods add to `dut` and `dvt` at a cell
between the poles. -/
theorem pressureGradient_added (i j : Int) (h : InnerCell m.mesh i j) :
    (calcZonalWindPressureGradient timeIdx m).dut i j - m.dut i j =
      (m.gd timeIdx (i + 1) j - m.gd timeIdx (i - 1) j + m.ghs (i + 1) j - m.ghs (i - 1) j) *
        m.factorLon j * m.gdt timeIdx i j ∧
    (calcMeridionalWindPressureGradient timeIdx m).dvt i j - m.dvt i j =
      (m.gd timeIdx i (j + 1) - m.gd timeIdx i (j - 1) + m.ghs i (j + 1) - m.ghs i (j - 1)) *
        m.factorLat j * m.cosLat j * m.gdt timeIdx i j := by
  rw [calcZonalWindPressureGradient_eq, calcMeridionalWindPressureGradient_eq]
  constructor
  · show (if InnerCell m.mesh i j then _ else _) - m.dut i j = _
    rw [if_pos h]
    ring
  · show (if InnerCell m.mesh i j then _ else _) - m.dvt i j = _
    rw [if_pos h]
    ring

/-- The sums of the energy exchange, in the fields that the methods leave. -/
theorem pressure_exchange_loopSum (hmesh : m.mesh.WellFormed)
    (hgd : PeriodicHalo m.mesh (m.gd timeIdx)) (hghs : PeriodicHalo m.mesh m.ghs)
    (hut : PeriodicHalo m.mesh (m.ut timeIdx)) (hgdt : PeriodicHalo m.mesh (m.gdt timeIdx))
    (huni : UniformAtPoles m.mesh (fun i j => m.gd timeIdx i j + m.ghs i j))
    (hgdv : ZeroAtPoles m.mesh m.gdv) (hcos : CosLatNonzero m) (hfac : InitFactors m) :
    loopSum (m.mesh.js FULL) (m.mesh.je FULL)
        (fun j => loopSum (m.mesh.is FULL) (m.mesh.ie FULL)
          (fun i => (m.gd timeIdx i j + m.ghs i j) *
            (depthTendency timeIdx m i j * m.cosLat j))) +
      loopSum (m.mesh.js FULL + 1) (m.mesh.je FULL - 1)
        (fun j => loopSum (m.mesh.is FULL) (m.mesh.ie FULL)
          (fun i =>
            (m.ut timeIdx i j *
                ((m.gd timeIdx (i + 1) j - m.gd timeIdx (i - 1) j +
                    m.ghs (i + 1) j - m.ghs (i - 1) j) *
                  m.factorLon j * m.gdt timeIdx i j) +
              m.vt timeIdx i j *
                ((m.gd timeIdx i (j + 1) - m.gd timeIdx i (j - 1) +
                    m.ghs i (j + 1) - m.ghs i (j - 1)) *
                  m.factorLat j * m.cosLat j * m.gdt timeIdx i j)) * m.cosLat j)) = 0 := by
  obtain ⟨hi, hj, hn⟩ := hmesh
  apply exchange_sum_zero (m.mesh.is FULL) (m.mesh.ie FULL) (m.mesh.js FULL) (m.mesh.je FULL)
    (m.mesh.getNumGrid 0 FULL : α) (1 / (2 * m.dlon * m.radius)) (1 / (2 * m.dlat * m.radius))
    (m.gd timeIdx (m.mesh.is FULL) (m.mesh.js FULL) + m.ghs (m.mesh.is FULL) (m.mesh.js FULL))
    (m.gd timeIdx (m.mesh.is FULL) (m.mesh.je FULL) + m.ghs (m.mesh.is FULL) (m.mesh.je FULL))
    (fun i j => m.gd timeIdx i j + m.ghs i j) (massFluxU timeIdx m) (massFluxV timeIdx m)
    (fun i j => depthTendency timeIdx m i j * m.cosLat j) _ hi hj (by rw [hn])
  · intro j h1 h2
    obtain ⟨a1, a2⟩ := hgd j (by omega) (by omega)
    obtain ⟨b1, b2⟩ := hghs j (by omega) (by omega)
    show m.gd timeIdx (m.mesh.is FULL - 1) j + m.ghs (m.mesh.is FULL - 1) j =
        m.gd timeIdx (m.mesh.ie FULL) j + m.ghs (m.mesh.ie FULL) j ∧
      m.gd timeIdx (m.mesh.ie FULL + 1) j + m.ghs (m.mesh.ie FULL + 1) j =
        m.gd timeIdx (m.mesh.is FULL) j + m.ghs (m.mesh.is FULL) j
    rw [a1, a2, b1, b2]
    exact ⟨rfl, rfl⟩
  · intro j h1 h2
    obtain ⟨a1, a2⟩ := hut j (by omega) (by omega)
    obtain ⟨b1, b2⟩ := hgdt j (by omega) (by omega)
    rw [(massFlux_inner timeIdx m _ j ⟨h1, h2⟩ ⟨by omega, by omega⟩).1,
      (massFlux_inner timeIdx m _ j ⟨h1, h2⟩ ⟨by omega, by omega⟩).1,
      (massFlux_inner timeIdx m _ j ⟨h1, h2⟩ ⟨by omega, by omega⟩).1,
      (massFlux_inner timeIdx m _ j ⟨h1, h2⟩ ⟨by omega, by omega⟩).1, a1, a2, b1, b2]
    exact ⟨rfl, rfl⟩
  · intro i h1 h2
    obtain ⟨a1, a2⟩ := hgdv i h1 h2
    rw [(massFlux_outside timeIdx m i _ (by omega)).2,
      (massFlux_outside timeIdx m i _ (by omega)).2]
    exact ⟨a1, a2⟩
  · intro i h1 h2
    exact (huni i (m.mesh.is FULL) h1 h2 (le_refl _) hi).1
  · intro i h1 h2
    exact (huni i (m.mesh.is FULL) h1 h2 (le_refl _) hi).2
  · intro i h1 h2
    show depthTendency timeIdx m i (m.mesh.js FULL) * m.cosLat (m.mesh.js FULL) = _
    rw [depthTendency_south timeIdx m i h1 h2 hj,
      ← hfac.factorLat_mul_cosLat hcos (m.mesh.js FULL) (le_refl _) hj.le]
    unfold southPoleTendency
    ring
  · intro i h1 h2
    show depthTendency timeIdx m i (m.mesh.je FULL) * m.cosLat (m.mesh.je FULL) = _
    rw [depthTendency_north timeIdx m i h1 h2,
      ← hfac.factorLat_mul_cosLat hcos (m.mesh.je FULL) hj.le (le_refl _)]
    unfold northPoleTendency
    ring
  · intro i j h1 h2 h3 h4
    show depthTendency timeIdx m i j * m.cosLat j = _
    rw [depthTendency_interior timeIdx m i j h1 h2 h3 h4,
      ← hfac.factorLon_mul_cosLat hcos j (by omega) (by omega),
      ← hfac.factorLat_mul_cosLat hcos j (by omega) (by omega)]
    ring
  · intro i j h1 h2 h3 h4
    rw [(massFlux_inner timeIdx m i j ⟨h3, h4⟩ ⟨by omega, by omega⟩).1,
      (massFlux_inner timeIdx m i j ⟨h3, h4⟩ ⟨by omega, by omega⟩).2,
      ← hfac.factorLon_mul_cosLat hcos j (by omega) (by omega),
      ← hfac.factorLat_mul_cosLat hcos j (by omega) (by omega)]
    ring

/-- The energy exchange in the fields of the state after the three methods. -/
theorem pressure_exchange (hmesh : m.mesh.WellFormed)
    (hgd : PeriodicHalo m.mesh (m.gd timeIdx)) (hghs : PeriodicHalo m.mesh m.ghs)
    (hut : PeriodicHalo m.mesh (m.ut timeIdx)) (hgdt : PeriodicHalo m.mesh (m.gdt timeIdx))
    (huni : UniformAtPoles m.mesh (fun i j => m.gd timeIdx i j + m.ghs i j))
    (hgdv : ZeroAtPoles m.mesh m.gdv) (hcos : CosLatNonzero m) (hfac : InitFactors m) :
    ∑ j in Finset.Icc (m.mesh.js FULL) (m.mesh.je FULL),
        ∑ i in Finset.Icc (m.mesh.is FULL) (m.mesh.ie FULL),
          (m.gd timeIdx i j + m.ghs i j) *
            (calcGeopotentialDepthTendency timeIdx m).dgd i j * m.cosLat j +
      ∑ j in Finset.Icc (m.mesh.js FULL + 1) (m.mesh.je FULL - 1),
        ∑ i in Finset.Icc (m.mesh.is FULL) (m.mesh.ie FULL),
          (m.ut timeIdx i j * ((calcZonalWindPressureGradient timeIdx m).dut i j - m.dut i j) +
            m.vt timeIdx i j *
              ((calcMeridionalWindPressureGradient timeIdx m).dvt i j - m.dvt i j)) *
            m.cosLat j = 0 := by
  have h := pressure_exchange_loopSum timeIdx m hmesh hgd hghs hut hgdt huni hgdv hcos hfac
  rw [loopSum_eq_sum_Icc, loopSum_eq_sum_Icc] at h
  rw [← h]
  congr 1
  · apply Finset.sum_congr rfl
    intro j _
    rw [loopSum_eq_sum_Icc]
    apply Finset.sum_congr rfl
    intro i _
    rw [calcGeopotentialDepthTendency_eq]
    show _ * depthTendency timeIdx m i j * _ = _
    ring
  · apply Finset.sum_congr rfl
    intro j hj
    rw [loopSum_eq_sum_Icc]
    apply Finset.sum_congr rfl
    intro i hi
    rw [Finset.mem_Icc] at hi hj
    rw [(pressureGradient_added timeIdx m i j ⟨hj, hi⟩).1,
      (pressureGradient_added timeIdx m i j ⟨hj, hi⟩).2]

end exchange

/-! ### The momentum fluxes on the pole rows -/

theorem poleFluxKept_refl (m : BarotropicModel α) : PoleFluxKept m m :=
  fun _ _ _ => ⟨rfl, rfl⟩

theorem poleFluxKept_trans {m s r : BarotropicModel α} (hmesh : s.mesh = m.mesh)
    (h1 : PoleFluxKept m s) (h2 : PoleFluxKept s r) : PoleFluxKept m r := by
  intro i j h
  obtain ⟨a1, a2⟩ := h1 i j h
  obtain ⟨b1, b2⟩ := h2 i j (by rw [hmesh]; exact h)
  exact ⟨b1.trans a1, b2.trans a2⟩

/-- No sequence of calls of the advection methods writes `fu` or `fv` on a row that does not
lie strictly between the poles, and none changes the mesh. -/
theorem advectionCalls_fluxKept (calls : List (Bool × TimeLevelIndex)) (m : BarotropicModel α) :
    (advectionCalls calls m).mesh = m.mesh ∧ PoleFluxKept m (advectionCalls calls m) := by
  induction calls generalizing m with
  | nil => exact ⟨rfl, poleFluxKept_refl m⟩
  | cons c rest ih =>
    obtain ⟨zonal, timeIdx⟩ := c
    unfold advectionCalls
    cases zonal
    · obtain ⟨h1, h2⟩ := ih (calcMeridionalWindAdvection timeIdx m)
      exact ⟨h1.trans (calcMeridionalWindAdvection_mesh timeIdx m),
        poleFluxKept_trans (calcMeridionalWindAdvection_mesh timeIdx m)
          (calcMeridionalWindAdvection_fluxKept timeIdx m) h2⟩
    · obtain ⟨h1, h2⟩ := ih (calcZonalWindAdvection timeIdx m)
      exact ⟨h1.trans (calcZonalWindAdvection_mesh timeIdx m),
        poleFluxKept_trans (calcZonalWindAdvection_mesh timeIdx m)
          (calcZonalWindAdvection_fluxKept timeIdx m) h2⟩

/-- After `init` and any sequence of calls of the advection methods, `fu` and `fv` hold on the
pole rows what the storage held before `init`. -/
theorem init_advectionCalls_flux (mesh : Mesh α) (OMEGA : α) (raw : BarotropicModel α)
    (calls : List (Bool × TimeLevelIndex)) (i : Int) :
    ((advectionCalls calls (init mesh OMEGA raw)).fu i (mesh.js FULL) = raw.fu i (mesh.js FULL) ∧
      (advectionCalls calls (init mesh OMEGA raw)).fu i (mesh.je FULL) =
        raw.fu i (mesh.je FULL)) ∧
    ((advectionCalls calls (init mesh OMEGA raw)).fv i (mesh.js FULL) = raw.fv i (mesh.js FULL) ∧
      (advectionCalls calls (init mesh OMEGA raw)).fv i (mesh.je FULL) =
        raw.fv i (mesh.je FULL)) := by
  obtain ⟨-, h⟩ := advectionCalls_fluxKept calls (init mesh OMEGA raw)
  have hs := h i (mesh.js FULL) (by rw [init_mesh]; omega)
  have hn := h i (mesh.je FULL) (by rw [init_mesh]; omega)
  rw [(init_fu_fv mesh OMEGA raw).1, (init_fu_fv mesh OMEGA raw).2] at hs hn
  exact ⟨⟨hs.1, hn.1⟩, ⟨hs.2, hn.2⟩⟩

theorem exampleStale_fv (i j : Int) : (exampleStale α).fv i j = 1 := rfl

/-! ### The wind on the small grid -/

theorem exampleWind_fields :
    (exampleWind α).mesh = (exampleModel α).mesh ∧
    (exampleWind α).gdv = (exampleModel α).gdv ∧
    (exampleWind α).cosLat = (exampleModel α).cosLat ∧
    (exampleWind α).factorLon = (exampleModel α).factorLon ∧
    (exampleWind α).factorLat = (exampleModel α).factorLat ∧
    (exampleWind α).dlon = (exampleModel α).dlon ∧
    (exampleWind α).dlat = (exampleModel α).dlat ∧
    (exampleWind α).radius = (exampleModel α).radius ∧
    (exampleWind α).fv = (exampleModel α).fv ∧
    (exampleWind α).gd = (exampleModel α).gd := by
  unfold exampleWind
  refine ⟨?_, ?_, ?_, ?_, ?_, ?_, ?_, ?_, ?_, ?_⟩ <;> dsimp only

theorem exampleWind_mesh : (exampleWind α).mesh = exampleMesh α := by
  rw [exampleWind_fields.1, exampleModel_mesh]

theorem exampleWind_wellFormed : (exampleWind α).mesh.WellFormed := by
  rw [exampleWind_mesh]
  exact exampleMesh_wellFormed

theorem exampleWind_u_periodic (t : TimeLevelIndex) :
    PeriodicHalo (exampleWind α).mesh ((exampleWind α).u t) := by
  intro j _ _
  rw [exampleWind_mesh, exampleMesh_is, exampleMesh_ie]
  unfold exampleWind
  exact ⟨rfl, rfl⟩

theorem exampleWind_v_periodic (t : TimeLevelIndex) :
    PeriodicHalo (exampleWind α).mesh ((exampleWind α).v t) := by
  intro j _ _
  unfold exampleWind
  exact ⟨rfl, rfl⟩

theorem exampleWind_ut_periodic (t : TimeLevelIndex) :
    PeriodicHalo (exampleWind α).mesh ((exampleWind α).ut t) := by
  intro j _ _
  rw [exampleWind_mesh, exampleMesh_is, exampleMesh_ie]
  unfold exampleWind
  exact ⟨rfl, rfl⟩

theorem exampleWind_vt_periodic (t : TimeLevelIndex) :
    PeriodicHalo (exampleWind α).mesh ((exampleWind α).vt t) := by
  intro j _ _
  unfold exampleWind
  exact ⟨rfl, rfl⟩

theorem exampleWind_gdt_periodic (t : TimeLevelIndex) :
    PeriodicHalo (exampleWind α).mesh ((exampleWind α).gdt t) := by
  intro j _ _
  unfold exampleWind
  exact ⟨rfl, rfl⟩

theorem exampleWind_ghs_periodic : PeriodicHalo (exampleWind α).mesh (exampleWind α).ghs := by
  intro j _ _
  unfold exampleWind
  exact ⟨rfl, rfl⟩

theorem exampleWind_gd_periodic (t : TimeLevelIndex) :
    PeriodicHalo (exampleWind α).mesh ((exampleWind α).gd t) := by
  rw [exampleWind_fields.1, exampleWind_fields.2.2.2.2.2.2.2.2.2]
  exact exampleModel_gd_periodic t

theorem exampleWind_ut_poles (t : TimeLevelIndex) :
    ZeroAtPoles (exampleWind α).mesh ((exampleWind α).ut t) := by
  intro i _ _
  rw [exampleWind_mesh, exampleMesh_js, exampleMesh_je]
  unfold exampleWind
  exact ⟨rfl, rfl⟩

theorem exampleWind_vt_poles (t : TimeLevelIndex) :
    ZeroAtPoles (exampleWind α).mesh ((exampleWind α).vt t) := by
  intro i _ _
  rw [exampleWind_mesh, exampleMesh_js, exampleMesh_je]
  unfold exampleWind
  exact ⟨rfl, rfl⟩

theorem exampleWind_fv : ZeroAtPoles (exampleWind α).mesh (exampleWind α).fv := by
  intro i _ _
  rw [exampleWind_fields.2.2.2.2.2.2.2.2.1, exampleModel_fv]
  exact ⟨rfl, rfl⟩

theorem exampleWind_gdv : ZeroAtPoles (exampleWind α).mesh (exampleWind α).gdv := by
  rw [exampleWind_fields.1, exampleWind_fields.2.1]
  exact exampleModel_gdv

theorem exampleWind_uniform (t : TimeLevelIndex) :
    UniformAtPoles (exampleWind α).mesh
      (fun i j => (exampleWind α).gd t i j + (exampleWind α).ghs i j) := by
  intro i i' _ _ _ _
  have hg : ∀ i j, (exampleWind α).gd t i j = 1 := by
    intro i j
    rw [exampleWind_fields.2.2.2.2.2.2.2.2.2]
    exact (exampleModel_rest t i j).2.2
  have hs : ∀ i j, (exampleWind α).ghs i j = 0 := by
    intro i j
    unfold exampleWind
    rfl
  constructor
  · show (exampleWind α).gd t _ _ + (exampleWind α).ghs _ _ =
      (exampleWind α).gd t _ _ + (exampleWind α).ghs _ _
    rw [hg, hg, hs, hs]
  · show (exampleWind α).gd t _ _ + (exampleWind α).ghs _ _ =
      (exampleWind α).gd t _ _ + (exampleWind α).ghs _ _
    rw [hg, hg, hs, hs]

theorem exampleWind_cosLatNonzero : CosLatNonzero (exampleWind α) := by
  intro j h1 h2
  rw [exampleWind_fields.1] at h1 h2
  rw [exampleWind_fields.2.2.1]
  exact exampleModel_cosLatNonzero j h1 h2

theorem exampleWind_initFactors : InitFactors (exampleWind α) := by
  intro j h1 h2
  rw [exampleWind_fields.1] at h1 h2
  obtain ⟨-, -, f3, f4, f5, f6, f7, f8, -, -⟩ := exampleWind_fields (α := α)
  rw [f3, f4, f5, f6, f7, f8]
  exact exampleModel_initFactors j h1 h2

theorem exampleFlow_innerCell : InnerCell (exampleFlow α).mesh 1 1 := by
  rw [exampleFlow_mesh, exampleMesh_innerCell]
  omega

theorem exampleModel_gridCell : GridCell (exampleModel α).mesh 1 1 := by
  rw [exampleModel_mesh, exampleMesh_gridCell]
  omega

theorem exampleModel_haloCell : HaloCell (exampleModel α).mesh 0 0 := by
  rw [exampleModel_mesh, exampleMesh_haloCell]
  omega

/-! ### The zonal wind that `calcInitCond` leaves between the poles -/

/-- At a cell between the poles whose row has a non-zero cosine of latitude, `calcInitCond`
leaves in a cell-centred `u` the value
`a ω (cos φ + R sin² φ cos^(R-1) φ cos Rλ - cos^(R+1) φ cos Rλ)`. -/
theorem calcInitCond_innerCell (cos sin : α → α) (gridCoordComp : Nat → GridType → Int → α)
    (OMEGA : α) (uGridType vGridType : FieldGridType) (tc : RossbyHaurwitzTestCase α)
    (initTimeIdx : TimeLevelIndex) (m : BarotropicModel α)
    (hu0 : uGridType 0 = FULL) (hu1 : uGridType 1 = FULL) (hR : 1 ≤ tc.R)
    (i j : Int) (h : InnerCell m.mesh i j) (hc : m.mesh.getCosLat FULL j ≠ 0) :
    ∃ s, calcInitCond cos sin gridCoordComp OMEGA true uGridType vGridType tc initTimeIdx m =
        some s ∧
      s.u initTimeIdx i j =
        computedZonalWind tc m.radius (m.mesh.getCosLat FULL j) (m.mesh.getSinLat FULL j)
          (cos ((tc.R : α) * gridCoordComp 0 FULL i)) := by
  obtain ⟨⟨h1, h2⟩, h3, h4⟩ := h
  obtain ⟨s, hs, hu, -⟩ := calcInitCond_cell cos sin gridCoordComp OMEGA uGridType vGridType tc
    initTimeIdx m i j ⟨⟨by omega, by omega⟩, h3, h4⟩
  refine ⟨s, hs, ?_⟩
  have hpole : ¬ PoleCell m.mesh i j := by
    rintro ⟨hp | hp, -⟩ <;> omega
  have hwind : WindCell uGridType m.mesh i j := by
    unfold WindCell
    rw [hu0, hu1]
    refine ⟨⟨⟨by omega, by omega⟩, ?_⟩, h3, h4⟩
    rintro ⟨-, hp | hp⟩ <;> omega
  rw [hu, if_neg (fun c => hpole c.2), if_pos hwind,
    zonalWindValue_eq cos gridCoordComp uGridType tc m.mesh m.radius i j hR (by rw [hu1]; exact hc),
    hu0, hu1]

/-- C11: directly after `init` the buffers `dut`, `dvt`, `gdu` and `gdv` are zero at every
longitude `is-1..ie+1` of both pole rows; and `calcGeopotentialDepthTendency`,
`calcZonalWindTendency`, `calcMeridionalWindTendency` and each of their parts (advection,
Coriolis and pressure gradient of either wind) leave `dut`, `dvt`, `gdu` and `gdv` as they were
on every row that does not lie strictly between the poles, at every longitude: these methods
write those buffers only on the rows `js+1..je-1`. -/
theorem init_and_tendencies_pole_rows (mesh : Mesh α) (OMEGA : α) (raw : BarotropicModel α)
    (timeIdx : TimeLevelIndex) (m : BarotropicModel α) :
    (∀ i, mesh.is FULL - 1 ≤ i → i ≤ mesh.ie FULL + 1 →
      ((init mesh OMEGA raw).dut i (mesh.js FULL) = 0 ∧
        (init mesh OMEGA raw).dut i (mesh.je FULL) = 0) ∧
      ((init mesh OMEGA raw).dvt i (mesh.js FULL) = 0 ∧
        (init mesh OMEGA raw).dvt i (mesh.je FULL) = 0) ∧
      ((init mesh OMEGA raw).gdu i (mesh.js FULL) = 0 ∧
        (init mesh OMEGA raw).gdu i (mesh.je FULL) = 0) ∧
      ((init mesh OMEGA raw).gdv i (mesh.js FULL) = 0 ∧
        (init mesh OMEGA raw).gdv i (mesh.je FULL) = 0)) ∧
    PoleRowsKept m (calcGeopotentialDepthTendency timeIdx m) ∧
    PoleRowsKept m (calcZonalWindTendency timeIdx m) ∧
    PoleRowsKept m (calcMeridionalWindTendency timeIdx m) ∧
    PoleRowsKept m (calcZonalWindAdvection timeIdx m) ∧
    PoleRowsKept m (calcZonalWindCoriolis timeIdx m) ∧
    PoleRowsKept m (calcZonalWindPressureGradient timeIdx m) ∧
    PoleRowsKept m (calcMeridionalWindAdvection timeIdx m) ∧
    PoleRowsKept m (calcMeridionalWindCoriolis timeIdx m) ∧
    PoleRowsKept m (calcMeridionalWindPressureGradient timeIdx m) :=
  ⟨fun i h1 h2 => init_poles_zero mesh OMEGA raw i h1 h2,
    calcGeopotentialDepthTendency_kept timeIdx m,
    calcZonalWindTendency_kept timeIdx m,
    calcMeridionalWindTendency_kept timeIdx m,
    calcZonalWindAdvection_kept timeIdx m,
    calcZonalWindCoriolis_kept timeIdx m,
    calcZonalWindPressureGradient_kept timeIdx m,
    calcMeridionalWindAdvection_kept timeIdx m,
    calcMeridionalWindCoriolis_kept timeIdx m,
    calcMeridionalWindPressureGradient_kept timeIdx m⟩

theorem init_and_tendencies_pole_rows_witness :
    (init (exampleMesh ℚ) 7.292e-5 (exampleRaw ℚ)).gdv 0 0 = 0 ∧
    (calcZonalWindTendency .half (exampleFlow ℚ)).dut 1 0 = (exampleFlow ℚ).dut 1 0 := by
  have h := init_and_tendencies_pole_rows (exampleMesh ℚ) 7.292e-5 (exampleRaw ℚ) .half
    (exampleFlow ℚ)
  have h1 := (h.1 0 (by rw [exampleMesh_is]; norm_num)
    (by rw [exampleMesh_ie]; norm_num)).2.2.2.1
  have h2 := (h.2.2.1 1 0 (by rw [exampleFlow_mesh, exampleMesh_js]; norm_num)).1
  rw [exampleMesh_js] at h1
  exact ⟨h1, h2⟩

/-- C12, as stated, fails: on the small grid, with column 1 at longitude 0, `calcInitCond`
leaves the zonal wind 0 at column 1 of the equator row, where `cos φ = 1`, `sin φ = 0` and
`cos Rλ = 1`; the formula of the documentation comment, `a ω (cos φ + R sin² φ cos^(R-1) φ
cos Rλ - cos^(R+1) φ sin φ cos Rλ)`, gives `a ω = 6.371e6 * 3.924e-6` there. The loop computes
the last term without the factor `sin φ` of the comment. -/
theorem calcInitCond_zonal_wind_differs :
    (calcInitCond Real.cos Real.sin (exampleLon ℝ) 7.292e-5 true centerGridType centerGridType
        (rossbyHaurwitzTestCase 9.80616) (.full false) (exampleModel ℝ)).map
      (fun s => s.u (.full false) 1 1) = some 0 ∧
    documentedZonalWind (rossbyHaurwitzTestCase 9.80616) (exampleModel ℝ).radius
        ((exampleModel ℝ).mesh.getCosLat FULL 1) ((exampleModel ℝ).mesh.getSinLat FULL 1)
        (Real.cos (((rossbyHaurwitzTestCase (9.80616 : ℝ)).R : ℝ) * exampleLon ℝ 0 FULL 1)) =
      6.371e6 * 3.924e-6 := by
  constructor
  · obtain ⟨s, hs, hu⟩ := exampleModel_calcInitCond Real.cos Real.sin Real.cos_zero
      (7.292e-5 : ℝ) 9.80616
    rw [hs, Option.map_some', hu]
  · have hlon : ((rossbyHaurwitzTestCase (9.80616 : ℝ)).R : ℝ) * exampleLon ℝ 0 FULL 1 = 0 := by
      unfold exampleLon
      norm_num
    rw [hlon, Real.cos_zero, exampleModel_radius, exampleModel_mesh,
      exampleMesh_equator.1, exampleMesh_equator.2]
    exact documentedZonalWind_example 9.80616

/-- C12, amended: for a wind `u` at the cell centres, at every cell of a row between the poles
whose `cos φ` is not zero and of a longitude `is..ie`, `RossbyHaurwitzTestCase::calcInitCond`
returns a state in which
`u = a ω (cos φ + R sin² φ cos^(R-1) φ cos Rλ - cos^(R+1) φ cos Rλ)` at the initial time index,
with `a` the radius of the sphere, `ω = 3.924e-6` and `R = 4`: the wind of the
Rossby-Haurwitz wave, whose last term has no factor `sin φ`. -/
theorem calcInitCond_zonal_wind (cos sin : α → α) (gridCoordComp : Nat → GridType → Int → α)
    (OMEGA : α) (uGridType vGridType : FieldGridType) (G : α) (initTimeIdx : TimeLevelIndex)
    (m : BarotropicModel α) (hu0 : uGridType 0 = FULL) (hu1 : uGridType 1 = FULL)
    (i j : Int) (h : InnerCell m.mesh i j) (hc : m.mesh.getCosLat FULL j ≠ 0) :
    ∃ s, calcInitCond cos sin gridCoordComp OMEGA true uGridType vGridType
        (rossbyHaurwitzTestCase G) initTimeIdx m = some s ∧
      s.u initTimeIdx i j =
        m.radius * 3.924e-6 *
          (m.mesh.getCosLat FULL j +
            4 * m.mesh.getSinLat FULL j ^ 2 * m.mesh.getCosLat FULL j ^ 3 *
              cos (4 * gridCoordComp 0 FULL i) -
            m.mesh.getCosLat FULL j ^ 5 * cos (4 * gridCoordComp 0 FULL i)) := by
  obtain ⟨s, hs, hu⟩ := calcInitCond_innerCell cos sin gridCoordComp OMEGA uGridType vGridType
    (rossbyHaurwitzTestCase G) initTimeIdx m hu0 hu1 (show 1 ≤ 4 by norm_num)
    i j h hc
  refine ⟨s, hs, ?_⟩
  rw [hu]
  unfold computedZonalWind rossbyHaurwitzTestCase
  norm_num

theorem calcInitCond_zonal_wind_witness :
    ∃ s, calcInitCond Real.cos Real.sin (exampleLon ℝ) 7.292e-5 true centerGridType
        centerGridType (rossbyHaurwitzTestCase 9.80616) (.full false) (exampleModel ℝ) = some s ∧
      s.u (.full false) 1 1 =
        (exampleModel ℝ).radius * 3.924e-6 *
          ((exampleModel ℝ).mesh.getCosLat FULL 1 +
            4 * (exampleModel ℝ).mesh.getSinLat FULL 1 ^ 2 *
                (exampleModel ℝ).mesh.getCosLat FULL 1 ^ 3 *
              Real.cos (4 * exampleLon ℝ 0 FULL 1) -
            (exampleModel ℝ).mesh.getCosLat FULL 1 ^ 5 * Real.cos (4 * exampleLon ℝ 0 FULL 1)) :=
  calcInitCond_zonal_wind Real.cos Real.sin (exampleLon ℝ) 7.292e-5 centerGridType
    centerGridType 9.80616 (.full false) (exampleModel ℝ) rfl rfl 1 1
    (by rw [exampleModel_mesh, exampleMesh_innerCell]; omega)
    (by rw [exampleModel_mesh, exampleMesh_equator.1]; exact one_ne_zero)

/-- C13: on a sphere, for `u` and `v` at the cell centres in latitude and a grid with the rows
`js ≤ je`, `RossbyHaurwitzTestCase::calcInitCond` returns a state in which, at the initial
time index, `u` and `v` are zero and `gd` is `phi0 = G * 8000` at every longitude `is..ie` of
both pole rows, and `ghs` is zero at every cell of the rows `js..je` and the columns
`is..ie`. -/
theorem calcInitCond_poles (cos sin : α → α) (gridCoordComp : Nat → GridType → Int → α)
    (OMEGA : α) (uGridType vGridType : FieldGridType) (G : α) (initTimeIdx : TimeLevelIndex)
    (m : BarotropicModel α) (hu : uGridType 1 = FULL) (hv : vGridType 1 = FULL)
    (hrows : m.mesh.js FULL ≤ m.mesh.je FULL) :
    ∃ s, calcInitCond cos sin gridCoordComp OMEGA true uGridType vGridType
        (rossbyHaurwitzTestCase G) initTimeIdx m = some s ∧
      (∀ i, m.mesh.is FULL ≤ i → i ≤ m.mesh.ie FULL →
        (s.u initTimeIdx i (m.mesh.js FULL) = 0 ∧ s.u initTimeIdx i (m.mesh.je FULL) = 0) ∧
        (s.v initTimeIdx i (m.mesh.js FULL) = 0 ∧ s.v initTimeIdx i (m.mesh.je FULL) = 0) ∧
        (s.gd initTimeIdx i (m.mesh.js FULL) = G * 8000 ∧
          s.gd initTimeIdx i (m.mesh.je FULL) = G * 8000)) ∧
      (∀ i j, GridCell m.mesh i j → s.ghs i j = 0) := by
  obtain ⟨s, hs⟩ := calcInitCond_some cos sin gridCoordComp OMEGA uGridType vGridType
    (rossbyHaurwitzTestCase G) initTimeIdx m
  have hphi : (rossbyHaurwitzTestCase G).phi0 = G * 8000 := by
    unfold rossbyHaurwitzTestCase
    norm_num
  refine ⟨s, hs, ?_, ?_⟩
  · intro i h1 h2
    obtain ⟨a1, a2, a3⟩ := calcInitCond_poleCell cos sin gridCoordComp OMEGA uGridType
      vGridType (rossbyHaurwitzTestCase G) initTimeIdx m hu hv s hs i (m.mesh.js FULL)
      ⟨⟨le_refl _, hrows⟩, h1, h2⟩ ⟨Or.inl rfl, h1, h2⟩
    obtain ⟨b1, b2, b3⟩ := calcInitCond_poleCell cos sin gridCoordComp OMEGA uGridType
      vGridType (rossbyHaurwitzTestCase G) initTimeIdx m hu hv s hs i (m.mesh.je FULL)
      ⟨⟨hrows, le_refl _⟩, h1, h2⟩ ⟨Or.inr rfl, h1, h2⟩
    rw [hphi] at a3 b3
    exact ⟨⟨a1, b1⟩, ⟨a2, b2⟩, ⟨a3, b3⟩⟩
  · intro i j hg
    exact calcInitCond_ghs cos sin gridCoordComp OMEGA uGridType vGridType
      (rossbyHaurwitzTestCase G) initTimeIdx m s hs i j hg

theorem calcInitCond_poles_witness :
    ∃ s, calcInitCond Real.cos Real.sin (exampleLon ℝ) 7.292e-5 true centerGridType
        centerGridType (rossbyHaurwitzTestCase 9.80616) (.full false) (exampleModel ℝ) =
        some s ∧
      s.u (.full false) 1 0 = 0 ∧ s.gd (.full false) 2 2 = 9.80616 * 8000 ∧ s.ghs 1 1 = 0 := by
  obtain ⟨s, hs, hp, hg⟩ := calcInitCond_poles Real.cos Real.sin (exampleLon ℝ) 7.292e-5
    centerGridType centerGridType (9.80616 : ℝ) (.full false) (exampleModel ℝ) rfl rfl
    exampleModel_wellFormed.2.1.le
  have h1 := (hp 1 (by rw [exampleModel_mesh, exampleMesh_is])
    (by rw [exampleModel_mesh, exampleMesh_ie]; norm_num)).1.1
  have h2 := (hp 2 (by rw [exampleModel_mesh, exampleMesh_is]; norm_num)
    (by rw [exampleModel_mesh, exampleMesh_ie])).2.2.2
  rw [exampleModel_mesh, exampleMesh_js] at h1
  rw [exampleModel_mesh, exampleMesh_je] at h2
  exact ⟨s, hs, h1, h2, hg 1 1 exampleModel_gridCell⟩

/-- C14: at every cell `(i, j)` with `js < j < je` and `is ≤ i ≤ ie`, the state `s` that
`calcZonalWindTendency(t)` leaves has
`dut(i,j) = 0.5*((fu(i+1,j)-fu(i-1,j) + u(i,j)*(ut(i+1,j)-ut(i-1,j)))*factorLon[j] +
(fv(i,j+1)-fv(i,j-1) + v(i,j)*(ut(i,j+1)-ut(i,j-1))*cosLat[j])*factorLat[j]) -
(factorCor[j] + u(i,j)*factorCur[j])*vt(i,j) +
(gd(i+1,j)+ghs(i+1,j) - gd(i-1,j)-ghs(i-1,j))*factorLon[j]*gdt(i,j)`,
with the buffers `fu`, `fv` of `s` and the other fields at level `t`; on the rows between the
poles, at the longitudes `is-1..ie+1`, `fu = ut*u` and `fv = ut*v*cosLat`; the method changes
none of the fields that the formula reads; and `dut(i,j)` is the same whatever `dut` held
before the call. -/
theorem calcZonalWindTendency_formula (timeIdx : TimeLevelIndex) (m : BarotropicModel α)
    (i j : Int) (h : InnerCell m.mesh i j) :
    (calcZonalWindTendency timeIdx m).dut i j =
      0.5 * (((calcZonalWindTendency timeIdx m).fu (i + 1) j -
            (calcZonalWindTendency timeIdx m).fu (i - 1) j +
            m.u timeIdx i j * (m.ut timeIdx (i + 1) j - m.ut timeIdx (i - 1) j)) *
          m.factorLon j +
        ((calcZonalWindTendency timeIdx m).fv i (j + 1) -
            (calcZonalWindTendency timeIdx m).fv i (j - 1) +
            m.v timeIdx i j * (m.ut timeIdx i (j + 1) - m.ut timeIdx i (j - 1)) * m.cosLat j) *
          m.factorLat j) -
      (m.factorCor j + m.u timeIdx i j * m.factorCur j) * m.vt timeIdx i j +
      (m.gd timeIdx (i + 1) j + m.ghs (i + 1) j - m.gd timeIdx (i - 1) j - m.ghs (i - 1) j) *
        m.factorLon j * m.gdt timeIdx i j ∧
    (∀ i' j', m.mesh.js FULL < j' ∧ j' < m.mesh.je FULL →
      m.mesh.is FULL - 1 ≤ i' ∧ i' ≤ m.mesh.ie FULL + 1 →
      (calcZonalWindTendency timeIdx m).fu i' j' = m.ut timeIdx i' j' * m.u timeIdx i' j' ∧
      (calcZonalWindTendency timeIdx m).fv i' j' =
        m.ut timeIdx i' j' * m.v timeIdx i' j' * m.cosLat j') ∧
    ((calcZonalWindTendency timeIdx m).u = m.u ∧ (calcZonalWindTendency timeIdx m).v = m.v ∧
      (calcZonalWindTendency timeIdx m).ut = m.ut ∧
      (calcZonalWindTendency timeIdx m).vt = m.vt ∧
      (calcZonalWindTendency timeIdx m).gd = m.gd ∧
      (calcZonalWindTendency timeIdx m).gdt = m.gdt ∧
      (calcZonalWindTendency timeIdx m).ghs = m.ghs) ∧
    (∀ d : Field α, (calcZonalWindTendency timeIdx { m with dut := d }).dut i j =
      (calcZonalWindTendency timeIdx m).dut i j) := by
  obtain ⟨f1, f2, f3, f4, f5, f6, f7, -⟩ := calcZonalWindTendency_frame timeIdx m
  exact ⟨calcZonalWindTendency_dut timeIdx m i j h,
    fun i' j' hj hi => calcZonalWindTendency_flux timeIdx m i' j' hj hi,
    ⟨f1, f2, f3, f4, f5, f6, f7⟩,
    fun d => calcZonalWindTendency_dut_fresh timeIdx m d i j h⟩

theorem calcZonalWindTendency_formula_witness :
    (calcZonalWindTendency .half (exampleFlow ℚ)).fu 1 1 =
        (exampleFlow ℚ).ut .half 1 1 * (exampleFlow ℚ).u .half 1 1 ∧
      (calcZonalWindTendency .half (exampleFlow ℚ)).fv 1 1 =
        (exampleFlow ℚ).ut .half 1 1 * (exampleFlow ℚ).v .half 1 1 * (exampleFlow ℚ).cosLat 1 :=
  (calcZonalWindTendency_formula .half (exampleFlow ℚ) 1 1 exampleFlow_innerCell).2.1 1 1
    (by rw [exampleFlow_mesh]; decide) (by rw [exampleFlow_mesh]; decide)

/-- C15: at every cell `(i, j)` with `js < j < je` and `is ≤ i ≤ ie`, the state `s` that
`calcMeridionalWindTendency(t)` leaves has
`dvt(i,j) = 0.5*((fu(i+1,j)-fu(i-1,j) + u(i,j)*(vt(i+1,j)-vt(i-1,j)))*factorLon[j] +
(fv(i,j+1)-fv(i,j-1) + v(i,j)*(vt(i,j+1)-vt(i,j-1))*cosLat[j])*factorLat[j]) +
(factorCor[j] + u(i,j)*factorCur[j])*ut(i,j) +
(gd(i,j+1)+ghs(i,j+1) - gd(i,j-1)-ghs(i,j-1))*factorLat[j]*cosLat[j]*gdt(i,j)`,
with the buffers `fu`, `fv` of `s` and the other fields at level `t`; on the rows between the
poles, at the longitudes `is-1..ie+1`, `fu = vt*u` and `fv = vt*v*cosLat`; and the method
changes none of the fields that the formula reads. The Coriolis term is added here, whereas
`calcZonalWindTendency` subtracts its Coriolis term from `dut`. -/
theorem calcMeridionalWindTendency_formula (timeIdx : TimeLevelIndex) (m : BarotropicModel α)
    (i j : Int) (h : InnerCell m.mesh i j) :
    (calcMeridionalWindTendency timeIdx m).dvt i j =
      0.5 * (((calcMeridionalWindTendency timeIdx m).fu (i + 1) j -
            (calcMeridionalWindTendency timeIdx m).fu (i - 1) j +
            m.u timeIdx i j * (m.vt timeIdx (i + 1) j - m.vt timeIdx (i - 1) j)) *
          m.factorLon j +
        ((calcMeridionalWindTendency timeIdx m).fv i (j + 1) -
            (calcMeridionalWindTendency timeIdx m).fv i (j - 1) +
            m.v timeIdx i j * (m.vt timeIdx i (j + 1) - m.vt timeIdx i (j - 1)) * m.cosLat j) *
          m.factorLat j) +
      (m.factorCor j + m.u timeIdx i j * m.factorCur j) * m.ut timeIdx i j +
      (m.gd timeIdx i (j + 1) + m.ghs i (j + 1) - m.gd timeIdx i (j - 1) - m.ghs i (j - 1)) *
        m.factorLat j * m.cosLat j * m.gdt timeIdx i j ∧
    (∀ i' j', m.mesh.js FULL < j' ∧ j' < m.mesh.je FULL →
      m.mesh.is FULL - 1 ≤ i' ∧ i' ≤ m.mesh.ie FULL + 1 →
      (calcMeridionalWindTendency timeIdx m).fu i' j' =
        m.vt timeIdx i' j' * m.u timeIdx i' j' ∧
      (calcMeridionalWindTendency timeIdx m).fv i' j' =
        m.vt timeIdx i' j' * m.v timeIdx i' j' * m.cosLat j') ∧
    ((calcMeridionalWindTendency timeIdx m).u = m.u ∧
      (calcMeridionalWindTendency timeIdx m).v = m.v ∧
      (calcMeridionalWindTendency timeIdx m).ut = m.ut ∧
      (calcMeridionalWindTendency timeIdx m).vt = m.vt ∧
      (calcMeridionalWindTendency timeIdx m).gd = m.gd ∧
      (calcMeridionalWindTendency timeIdx m).gdt = m.gdt ∧
      (calcMeridionalWindTendency timeIdx m).ghs = m.ghs) := by
  obtain ⟨f1, f2, f3, f4, f5, f6, f7, -⟩ := calcMeridionalWindTendency_frame timeIdx m
  exact ⟨calcMeridionalWindTendency_dvt timeIdx m i j h,
    fun i' j' hj hi => calcMeridionalWindTendency_flux timeIdx m i' j' hj hi,
    ⟨f1, f2, f3, f4, f5, f6, f7⟩⟩

theorem calcMeridionalWindTendency_formula_witness :
    (calcMeridionalWindTendency .half (exampleFlow ℚ)).fu 1 1 =
        (exampleFlow ℚ).vt .half 1 1 * (exampleFlow ℚ).u .half 1 1 ∧
      (calcMeridionalWindTendency .half (exampleFlow ℚ)).fv 1 1 =
        (exampleFlow ℚ).vt .half 1 1 * (exampleFlow ℚ).v .half 1 1 * (exampleFlow ℚ).cosLat 1 :=
  (calcMeridionalWindTendency_formula .half (exampleFlow ℚ) 1 1 exampleFlow_innerCell).2.1 1 1
    (by rw [exampleFlow_mesh]; decide) (by rw [exampleFlow_mesh]; decide)

/-- C16: let `s` be the state of `integrate` after `n` passes of its iteration loop and `s'`
the state after the next pass. At every cell of the rows `js..je` and the columns `is..ie` of
`s'`, the new level of `gd`, `ut` and `vt` is the old level less `dt` times `dgd`, `dut` and
`dvt`; the half level of each of `gd`, `gdt`, `ut`, `vt`, `u`, `v` is `(old + new) / 2`; and
`dgd`, `dut`, `dvt` are what `calcGeopotentialDepthTendency`, `calcZonalWindTendency` and
`calcMeridionalWindTendency` compute at the half level, each on the state in which the pass
calls it. The state that `integrate` returns is the state after one of the passes 1 to 8. -/
theorem integrate_pass_levels (sqrt : α → α) (k : Bool) (dt : α) (m : BarotropicModel α)
    (n : Nat) (i j : Int) (h : GridCell m.mesh i j) :
    ((afterPasses sqrt (.full k) dt (n + 1) m).gd (.full (!k)) i j =
        (afterPasses sqrt (.full k) dt (n + 1) m).gd (.full k) i j -
          dt * (afterPasses sqrt (.full k) dt (n + 1) m).dgd i j ∧
      (afterPasses sqrt (.full k) dt (n + 1) m).ut (.full (!k)) i j =
        (afterPasses sqrt (.full k) dt (n + 1) m).ut (.full k) i j -
          dt * (afterPasses sqrt (.full k) dt (n + 1) m).dut i j ∧
      (afterPasses sqrt (.full k) dt (n + 1) m).vt (.full (!k)) i j =
        (afterPasses sqrt (.full k) dt (n + 1) m).vt (.full k) i j -
          dt * (afterPasses sqrt (.full k) dt (n + 1) m).dvt i j) ∧
    ((afterPasses sqrt (.full k) dt (n + 1) m).gd .half i j =
        ((afterPasses sqrt (.full k) dt (n + 1) m).gd (.full k) i j +
          (afterPasses sqrt (.full k) dt (n + 1) m).gd (.full (!k)) i j) / 2 ∧
      (afterPasses sqrt (.full k) dt (n + 1) m).gdt .half i j =
        ((afterPasses sqrt (.full k) dt (n + 1) m).gdt (.full k) i j +
          (afterPasses sqrt (.full k) dt (n + 1) m).gdt (.full (!k)) i j) / 2 ∧
      (afterPasses sqrt (.full k) dt (n + 1) m).ut .half i j =
        ((afterPasses sqrt (.full k) dt (n + 1) m).ut (.full k) i j +
          (afterPasses sqrt (.full k) dt (n + 1) m).ut (.full (!k)) i j) / 2 ∧
      (afterPasses sqrt (.full k) dt (n + 1) m).vt .half i j =
        ((afterPasses sqrt (.full k) dt (n + 1) m).vt (.full k) i j +
          (afterPasses sqrt (.full k) dt (n + 1) m).vt (.full (!k)) i j) / 2 ∧
      (afterPasses sqrt (.full k) dt (n + 1) m).u .half i j =
        ((afterPasses sqrt (.full k) dt (n + 1) m).u (.full k) i j +
          (afterPasses sqrt (.full k) dt (n + 1) m).u (.full (!k)) i j) / 2 ∧
      (afterPasses sqrt (.full k) dt (n + 1) m).v .half i j =
        ((afterPasses sqrt (.full k) dt (n + 1) m).v (.full k) i j +
          (afterPasses sqrt (.full k) dt (n + 1) m).v (.full (!k)) i j) / 2) ∧
    ((afterPasses sqrt (.full k) dt (n + 1) m).dgd =
        (calcGeopotentialDepthTendency .half (afterPasses sqrt (.full k) dt n m)).dgd ∧
      (afterPasses sqrt (.full k) dt (n + 1) m).dut =
        (calcZonalWindTendency .half
          (depthPart sqrt (.full k) .half (.full (!k)) dt
            (afterPasses sqrt (.full k) dt n m))).dut ∧
      (afterPasses sqrt (.full k) dt (n + 1) m).dvt =
        (calcMeridionalWindTendency .half (calcZonalWindTendency .half
          (depthPart sqrt (.full k) .half (.full (!k)) dt
            (afterPasses sqrt (.full k) dt n m)))).dvt) ∧
    (∃ p, 1 ≤ p ∧ p ≤ 8 ∧
      (integrate sqrt (.full k) dt m).2 = afterPasses sqrt (.full k) dt p m) := by
  have hcell : GridCell (afterPasses sqrt (.full k) dt n m).mesh i j := by
    rw [afterPasses_mesh]
    exact h
  obtain ⟨p, h1, h2, -, h4⟩ := integrate_result sqrt (.full k) dt m
  rw [afterPasses_succ]
  exact ⟨(iterationBody_cell sqrt k dt _ i j hcell).1,
    (iterationBody_cell sqrt k dt _ i j hcell).2,
    iterationBody_tendencies sqrt k dt _, p, h1, h2, h4⟩

theorem integrate_pass_levels_witness :
    (afterPasses Real.sqrt (.full false) 6371 (0 + 1) (exampleModel ℝ)).gd .half 1 1 =
      ((afterPasses Real.sqrt (.full false) 6371 (0 + 1) (exampleModel ℝ)).gd (.full false) 1 1 +
        (afterPasses Real.sqrt (.full false) 6371 (0 + 1) (exampleModel ℝ)).gd
          (.full (!false)) 1 1) / 2 :=
  (integrate_pass_levels Real.sqrt false 6371 (exampleModel ℝ) 0 1 1
    exampleModel_gridCell).2.1.1

/-- C17: when `integrate` is called on a model whose flag `firstRun` is set, the state in
which it enters its iteration loop has, at every cell of the rows `js..je` and the columns
`is-1..ie+1`: the old level of `u`, `v`, `gd` unchanged and copied to the half level, the old
level of the transformed fields set to `gdt = sqrt(gd)`, `ut = u*gdt`, `vt = v*gdt`, and these
copied to the half level. Whatever the flag was, it is false in that state, after every pass
and in the state that `integrate` returns; and when the flag is false `integrate` enters its
loop in the state it was given, so that a later call, on the state that `integrate` has
returned, skips the seeding. -/
theorem integrate_first_run_seeding (sqrt : α → α) (k : Bool) (dt : α)
    (m : BarotropicModel α) :
    (m.firstRun = true → ∀ i j, HaloCell m.mesh i j →
      ((startState sqrt (.full k) m).u (.full k) i j = m.u (.full k) i j ∧
        (startState sqrt (.full k) m).v (.full k) i j = m.v (.full k) i j ∧
        (startState sqrt (.full k) m).gd (.full k) i j = m.gd (.full k) i j) ∧
      ((startState sqrt (.full k) m).u .half i j = m.u (.full k) i j ∧
        (startState sqrt (.full k) m).v .half i j = m.v (.full k) i j ∧
        (startState sqrt (.full k) m).gd .half i j = m.gd (.full k) i j) ∧
      ((startState sqrt (.full k) m).gdt (.full k) i j = sqrt (m.gd (.full k) i j) ∧
        (startState sqrt (.full k) m).ut (.full k) i j =
          m.u (.full k) i j * (startState sqrt (.full k) m).gdt (.full k) i j ∧
        (startState sqrt (.full k) m).vt (.full k) i j =
          m.v (.full k) i j * (startState sqrt (.full k) m).gdt (.full k) i j) ∧
      ((startState sqrt (.full k) m).gdt .half i j =
          (startState sqrt (.full k) m).gdt (.full k) i j ∧
        (startState sqrt (.full k) m).ut .half i j =
          (startState sqrt (.full k) m).ut (.full k) i j ∧
        (startState sqrt (.full k) m).vt .half i j =
          (startState sqrt (.full k) m).vt (.full k) i j)) ∧
    ((startState sqrt (.full k) m).firstRun = false ∧
      (∀ n, (afterPasses sqrt (.full k) dt n m).firstRun = false) ∧
      (integrate sqrt (.full k) dt m).2.firstRun = false) ∧
    (m.firstRun = false → startState sqrt (.full k) m = m) ∧
    (∀ k' : Bool, startState sqrt (.full k') (integrate sqrt (.full k) dt m).2 =
      (integrate sqrt (.full k) dt m).2) := by
  refine ⟨?_, ⟨startState_firstRun sqrt k m, fun n => afterPasses_firstRun sqrt k dt m n,
    integrate_firstRun sqrt k dt m⟩, startState_of_not_firstRun sqrt k m,
    fun k' => startState_of_not_firstRun sqrt k' _ (integrate_firstRun sqrt k dt m)⟩
  intro hf i j hc
  obtain ⟨a1, a2, a3⟩ := startState_old sqrt k m
  obtain ⟨b1, b2, b3⟩ := startState_transformed sqrt k m hf i j hc
  obtain ⟨c1, c2, c3, c4, c5, c6⟩ := startState_half sqrt k m hf i j hc
  refine ⟨⟨by rw [a1], by rw [a2], by rw [a3]⟩, ⟨c1, c2, c3⟩, ⟨b1, ?_, ?_⟩, ?_, ?_, ?_⟩
  · rw [b2, b1]
  · rw [b3, b1]
  · rw [c4, b1]
  · rw [c5, b2]
  · rw [c6, b3]

theorem integrate_first_run_seeding_witness :
    (startState Real.sqrt (.full false) (exampleModel ℝ)).gd .half 0 0 =
      (exampleModel ℝ).gd (.full false) 0 0 :=
  (((integrate_first_run_seeding Real.sqrt false 6371 (exampleModel ℝ)).1 exampleModel_firstRun
    0 0 exampleModel_haloCell).2.1).2.2

/-- C18: on the small grid, when the storage of `fv` holds 1 in every cell before `init`,
`fv` still holds 1 on both pole rows after `init`, a call of `calcZonalWindAdvection` and a
call of `calcMeridionalWindAdvection`: `init` sets `dut`, `dvt`, `gdu` and `gdv` to zero on
the pole rows but writes neither `fu` nor `fv`, and the advection methods write them on the
rows between the poles only. -/
theorem advection_keeps_stale_pole_flux :
    (advectionCalls [(true, .half), (false, .half)]
        (init (exampleMesh ℚ) 7.292e-5 (exampleStale ℚ))).fv 1 0 = 1 ∧
    (advectionCalls [(true, .half), (false, .half)]
        (init (exampleMesh ℚ) 7.292e-5 (exampleStale ℚ))).fv 1 2 = 1 := by
  have h := (init_advectionCalls_flux (exampleMesh ℚ) 7.292e-5 (exampleStale ℚ)
    [(true, .half), (false, .half)] 1).2
  rw [exampleMesh_js, exampleMesh_je, exampleStale_fv, exampleStale_fv] at h
  exact h

/-- C19: on a mesh with at least one longitude, two distinct pole rows and `ie - is + 1`
longitudes, for every state whose `gd`, `ghs`, `ut` and `gdt` (at the time level `t`) have
periodic halo columns, whose `gd + ghs` is uniform along each pole row, whose `gdv` is zero on
the pole rows, whose `cosLat` is non-zero on every row and whose `factorLon`, `factorLat` are
the values that `init` computes: the sum over the rows `js..je` and the columns `is..ie` of
`(gd+ghs)(i,j) * dgd(i,j) * cosLat[j]`, with `dgd` as `calcGeopotentialDepthTendency(t)`
leaves it, plus the sum over the rows `js+1..je-1` and the columns `is..ie` of
`(ut(i,j)*P_u(i,j) + vt(i,j)*P_v(i,j)) * cosLat[j]` is exactly zero, where `P_u` and `P_v`
are the amounts that `calcZonalWindPressureGradient(t)` and
`calcMeridionalWindPressureGradient(t)` add to `dut` and `dvt`. -/
theorem pressure_gradient_energy_exchange (timeIdx : TimeLevelIndex) (m : BarotropicModel α)
    (hmesh : m.mesh.WellFormed)
    (hgd : PeriodicHalo m.mesh (m.gd timeIdx)) (hghs : PeriodicHalo m.mesh m.ghs)
    (hut : PeriodicHalo m.mesh (m.ut timeIdx)) (hgdt : PeriodicHalo m.mesh (m.gdt timeIdx))
    (huni : UniformAtPoles m.mesh (fun i j => m.gd timeIdx i j + m.ghs i j))
    (hgdv : ZeroAtPoles m.mesh m.gdv) (hcos : CosLatNonzero m) (hfac : InitFactors m) :
    ∑ j in Finset.Icc (m.mesh.js FULL) (m.mesh.je FULL),
        ∑ i in Finset.Icc (m.mesh.is FULL) (m.mesh.ie FULL),
          (m.gd timeIdx i j + m.ghs i j) *
            (calcGeopotentialDepthTendency timeIdx m).dgd i j * m.cosLat j +
      ∑ j in Finset.Icc (m.mesh.js FULL + 1) (m.mesh.je FULL - 1),
        ∑ i in Finset.Icc (m.mesh.is FULL) (m.mesh.ie FULL),
          (m.ut timeIdx i j * ((calcZonalWindPressureGradient timeIdx m).dut i j - m.dut i j) +
            m.vt timeIdx i j *
              ((calcMeridionalWindPressureGradient timeIdx m).dvt i j - m.dvt i j)) *
            m.cosLat j = 0 :=
  pressure_exchange timeIdx m hmesh hgd hghs hut hgdt huni hgdv hcos hfac

theorem pressure_gradient_energy_exchange_witness :
    ∑ j in Finset.Icc ((exampleWind ℚ).mesh.js FULL) ((exampleWind ℚ).mesh.je FULL),
        ∑ i in Finset.Icc ((exampleWind ℚ).mesh.is FULL) ((exampleWind ℚ).mesh.ie FULL),
          ((exampleWind ℚ).gd .half i j + (exampleWind ℚ).ghs i j) *
            (calcGeopotentialDepthTendency .half (exampleWind ℚ)).dgd i j *
            (exampleWind ℚ).cosLat j +
      ∑ j in Finset.Icc ((exampleWind ℚ).mesh.js FULL + 1) ((exampleWind ℚ).mesh.je FULL - 1),
        ∑ i in Finset.Icc ((exampleWind ℚ).mesh.is FULL) ((exampleWind ℚ).mesh.ie FULL),
          ((exampleWind ℚ).ut .half i j *
              ((calcZonalWindPressureGradient .half (exampleWind ℚ)).dut i j -
                (exampleWind ℚ).dut i j) +
            (exampleWind ℚ).vt .half i j *
              ((calcMeridionalWindPressureGradient .half (exampleWind ℚ)).dvt i j -
                (exampleWind ℚ).dvt i j)) *
            (exampleWind ℚ).cosLat j = 0 :=
  pressure_gradient_energy_exchange .half (exampleWind ℚ) exampleWind_wellFormed
    (exampleWind_gd_periodic _) exampleWind_ghs_periodic (exampleWind_ut_periodic _)
    (exampleWind_gdt_periodic _) (exampleWind_uniform _) exampleWind_gdv
    exampleWind_cosLatNonzero exampleWind_initFactors

/-- C20: for every state whose `u`, `ut` and `vt` (at the time level `t`) have periodic halo
columns, whose `ut` and `vt` are zero on both pole rows, whose buffer `fv` is zero on both
pole rows, whose `cosLat` is non-zero on every row and whose `factorLon`, `factorLat` are the
values that `init` computes: with `dut` as `calcZonalWindAdvection(t)` leaves it, the sum of
`ut(i,j) * dut(i,j) * cosLat[j]` over the rows `js+1..je-1` and the columns `is..ie` is
exactly zero, and with `dvt` as `calcMeridionalWindAdvection(t)` leaves it, so is the sum of
`vt(i,j) * dvt(i,j) * cosLat[j]`. -/
theorem advection_no_net_work (timeIdx : TimeLevelIndex) (m : BarotropicModel α)
    (hu : PeriodicHalo m.mesh (m.u timeIdx))
    (hut : PeriodicHalo m.mesh (m.ut timeIdx)) (hvt : PeriodicHalo m.mesh (m.vt timeIdx))
    (hutp : ZeroAtPoles m.mesh (m.ut timeIdx)) (hvtp : ZeroAtPoles m.mesh (m.vt timeIdx))
    (hfv : ZeroAtPoles m.mesh m.fv) (hcos : CosLatNonzero m) (hfac : InitFactors m) :
    ∑ j in Finset.Icc (m.mesh.js FULL + 1) (m.mesh.je FULL - 1),
      ∑ i in Finset.Icc (m.mesh.is FULL) (m.mesh.ie FULL),
        m.ut timeIdx i j * (calcZonalWindAdvection timeIdx m).dut i j * m.cosLat j = 0 ∧
    ∑ j in Finset.Icc (m.mesh.js FULL + 1) (m.mesh.je FULL - 1),
      ∑ i in Finset.Icc (m.mesh.is FULL) (m.mesh.ie FULL),
        m.vt timeIdx i j * (calcMeridionalWindAdvection timeIdx m).dvt i j * m.cosLat j = 0 :=
  ⟨calcZonalWindAdvection_work timeIdx m hu hut hutp hfv hcos hfac,
    calcMeridionalWindAdvection_work timeIdx m hu hvt hvtp hfv hcos hfac⟩

theorem advection_no_net_work_witness :
    ∑ j in Finset.Icc ((exampleWind ℚ).mesh.js FULL + 1) ((exampleWind ℚ).mesh.je FULL - 1),
      ∑ i in Finset.Icc ((exampleWind ℚ).mesh.is FULL) ((exampleWind ℚ).mesh.ie FULL),
        (exampleWind ℚ).ut .half i j * (calcZonalWindAdvection .half (exampleWind ℚ)).dut i j *
          (exampleWind ℚ).cosLat j = 0 :=
  (advection_no_net_work .half (exampleWind ℚ) (exampleWind_u_periodic _)
    (exampleWind_ut_periodic _) (exampleWind_vt_periodic _) (exampleWind_ut_poles _)
    (exampleWind_vt_poles _) exampleWind_fv exampleWind_cosLatNonzero
    exampleWind_initFactors).1

/-! ### The Coriolis terms -/

section coriolis

variable (timeIdx : TimeLevelIndex) (m : BarotropicModel α)

/-- The amounts that the two Coriolis methods add to `dut` and `dvt` at a cell between the
poles. -/
theorem coriolis_added (i j : Int) (h : InnerCell m.mesh i j) :
    (calcZonalWindCoriolis timeIdx m).dut i j - m.dut i j =
      -((m.factorCor j + m.u timeIdx i j * m.factorCur j) * m.vt timeIdx i j) ∧
    (calcMeridionalWindCoriolis timeIdx m).dvt i j - m.dvt i j =
      (m.factorCor j + m.u timeIdx i j * m.factorCur j) * m.ut timeIdx i j := by
  rw [calcZonalWindCoriolis_eq, calcMeridionalWindCoriolis_eq]
  constructor
  · show (if InnerCell m.mesh i j then _ else _) - m.dut i j = _
    rw [if_pos h]
    ring
  · show (if InnerCell m.mesh i j then _ else _) - m.dvt i j = _
    rw [if_pos h]
    ring

/-- The two Coriolis methods add nothing to `dut` and `dvt` at any other cell. -/
theorem coriolis_added_outside (i j : Int) (h : ¬ InnerCell m.mesh i j) :
    (calcZonalWindCoriolis timeIdx m).dut i j - m.dut i j = 0 ∧
    (calcMeridionalWindCoriolis timeIdx m).dvt i j - m.dvt i j = 0 := by
  rw [calcZonalWindCoriolis_eq, calcMeridionalWindCoriolis_eq]
  constructor
  · show (if InnerCell m.mesh i j then _ else _) - m.dut i j = _
    rw [if_neg h, sub_self]
  · show (if InnerCell m.mesh i j then _ else _) - m.dvt i j = _
    rw [if_neg h, sub_self]

theorem coriolis_work (i j : Int) :
    m.ut timeIdx i j * ((calcZonalWindCoriolis timeIdx m).dut i j - m.dut i j) +
      m.vt timeIdx i j * ((calcMeridionalWindCoriolis timeIdx m).dvt i j - m.dvt i j) = 0 := by
  by_cases h : InnerCell m.mesh i j
  · rw [(coriolis_added timeIdx m i j h).1, (coriolis_added timeIdx m i j h).2]
    ring
  · rw [(coriolis_added_outside timeIdx m i j h).1, (coriolis_added_outside timeIdx m i j h).2]
    ring

end coriolis

/-! ### What `integrate` leaves untouched -/

section untouched

variable (sqrt : α → α) (k : Bool) (dt : α) (m : BarotropicModel α)

theorem iterationBody_tanLat :
    (iterationBody sqrt (.full k) .half (.full (!k)) dt m).tanLat = m.tanLat := by
  rw [iterationBody_eq]

/-- No pass of the iteration loop writes the old level of a field, nor `ghs`. -/
theorem afterPasses_old (n : Nat) :
    (afterPasses sqrt (.full k) dt n m).u (.full k) = (startState sqrt (.full k) m).u (.full k) ∧
    (afterPasses sqrt (.full k) dt n m).v (.full k) = (startState sqrt (.full k) m).v (.full k) ∧
    (afterPasses sqrt (.full k) dt n m).gd (.full k) =
      (startState sqrt (.full k) m).gd (.full k) ∧
    (afterPasses sqrt (.full k) dt n m).ut (.full k) =
      (startState sqrt (.full k) m).ut (.full k) ∧
    (afterPasses sqrt (.full k) dt n m).vt (.full k) =
      (startState sqrt (.full k) m).vt (.full k) ∧
    (afterPasses sqrt (.full k) dt n m).gdt (.full k) =
      (startState sqrt (.full k) m).gdt (.full k) ∧
    (afterPasses sqrt (.full k) dt n m).ghs = (startState sqrt (.full k) m).ghs := by
  induction n with
  | zero =>
    rw [afterPasses_zero]
    exact ⟨rfl, rfl, rfl, rfl, rfl, rfl, rfl⟩
  | succ n ih =>
    obtain ⟨h1, h2, h3, h4, h5, h6, h7⟩ := ih
    rw [afterPasses_succ, iterationBody_u_old, iterationBody_v_old, iterationBody_gd_old,
      iterationBody_ut_old, iterationBody_vt_old, iterationBody_gdt_old, iterationBody_ghs]
    exact ⟨h1, h2, h3, h4, h5, h6, h7⟩

/-- No pass of the iteration loop writes the mesh or a coefficient. -/
theorem afterPasses_coefficients (n : Nat) :
    (afterPasses sqrt (.full k) dt n m).mesh = m.mesh ∧
    (afterPasses sqrt (.full k) dt n m).radius = m.radius ∧
    (afterPasses sqrt (.full k) dt n m).dlon = m.dlon ∧
    (afterPasses sqrt (.full k) dt n m).dlat = m.dlat ∧
    (afterPasses sqrt (.full k) dt n m).cosLat = m.cosLat ∧
    (afterPasses sqrt (.full k) dt n m).tanLat = m.tanLat ∧
    (afterPasses sqrt (.full k) dt n m).factorCor = m.factorCor ∧
    (afterPasses sqrt (.full k) dt n m).factorCur = m.factorCur ∧
    (afterPasses sqrt (.full k) dt n m).factorLon = m.factorLon ∧
    (afterPasses sqrt (.full k) dt n m).factorLat = m.factorLat := by
  induction n with
  | zero =>
    obtain ⟨f1, f2, f3, f4, -, -, -, -, -, -, -, -, f13, f14, f15, f16, f17, f18⟩ :=
      startState_frame sqrt k m
    rw [afterPasses_zero]
    exact ⟨f1, f2, f3, f4, f13, f14, f15, f16, f17, f18⟩
  | succ n ih =>
    rw [afterPasses_succ, iterationBody_mesh, iterationBody_radius, iterationBody_dlon,
      iterationBody_dlat, iterationBody_cosLat, iterationBody_tanLat, iterationBody_factorCor,
      iterationBody_factorCur, iterationBody_factorLon, iterationBody_factorLat]
    exact ih

/-- The old level of `u`, `v`, `gd` and the field `ghs` after any number of passes are those
of the state that `integrate` was given. -/
theorem afterPasses_prognostic_old (n : Nat) :
    (afterPasses sqrt (.full k) dt n m).u (.full k) = m.u (.full k) ∧
    (afterPasses sqrt (.full k) dt n m).v (.full k) = m.v (.full k) ∧
    (afterPasses sqrt (.full k) dt n m).gd (.full k) = m.gd (.full k) ∧
    (afterPasses sqrt (.full k) dt n m).ghs = m.ghs := by
  obtain ⟨h1, h2, h3, -, -, -, h7⟩ := afterPasses_old sqrt k dt m n
  obtain ⟨a1, a2, a3⟩ := startState_old sqrt k m
  rw [h1, h2, h3, h7, a1, a2, a3, (startState_frame sqrt k m).2.2.2.2.1]
  exact ⟨rfl, rfl, rfl, rfl⟩

/-- On a call that is not the first, the old level of `ut`, `vt`, `gdt` after any number of
passes is that of the state that `integrate` was given. -/
theorem afterPasses_transformed_old (hf : m.firstRun = false) (n : Nat) :
    (afterPasses sqrt (.full k) dt n m).ut (.full k) = m.ut (.full k) ∧
    (afterPasses sqrt (.full k) dt n m).vt (.full k) = m.vt (.full k) ∧
    (afterPasses sqrt (.full k) dt n m).gdt (.full k) = m.gdt (.full k) := by
  obtain ⟨-, -, -, h4, h5, h6, -⟩ := afterPasses_old sqrt k dt m n
  rw [h4, h5, h6, startState_of_not_firstRun sqrt k m hf]
  exact ⟨rfl, rfl, rfl⟩

end untouched

/-! ### The depth of a pass, cell by cell -/

theorem mean_self (x : α) : (x + x) * 0.5 = x := by
  have h : (0.5 : α) = 1 / 2 := by norm_num
  rw [h]
  ring

section depth

variable (sqrt : α → α) (k : Bool) (dt : α) (s : BarotropicModel α)

theorem newGd_new_cell (i j : Int) (h : GridCell s.mesh i j) :
    newGd (.full k) .half (.full (!k)) dt s (.full (!k)) i j =
      s.gd (.full k) i j - dt * depthTendency .half s i j := by
  unfold newGd
  exact applyBndCond_update_new_cell k _ _ _ i j h

theorem newGd_new_west (j : Int) (h1 : s.mesh.js FULL ≤ j) (h2 : j ≤ s.mesh.je FULL)
    (hi : s.mesh.is FULL ≤ s.mesh.ie FULL) :
    newGd (.full k) .half (.full (!k)) dt s (.full (!k)) (s.mesh.is FULL - 1) j =
      s.gd (.full k) (s.mesh.ie FULL) j - dt * depthTendency .half s (s.mesh.ie FULL) j := by
  unfold newGd
  rw [applyBndCond_update_new, fillHalo_west _ _ j h1 h2,
    if_pos (show GridCell s.mesh (s.mesh.ie FULL) j from ⟨⟨h1, h2⟩, hi, le_refl _⟩)]

theorem newGd_new_east (j : Int) (h1 : s.mesh.js FULL ≤ j) (h2 : j ≤ s.mesh.je FULL)
    (hi : s.mesh.is FULL ≤ s.mesh.ie FULL) :
    newGd (.full k) .half (.full (!k)) dt s (.full (!k)) (s.mesh.ie FULL + 1) j =
      s.gd (.full k) (s.mesh.is FULL) j - dt * depthTendency .half s (s.mesh.is FULL) j := by
  unfold newGd
  rw [applyBndCond_update_new, fillHalo_east _ _ j h1 h2 hi,
    if_pos (show GridCell s.mesh (s.mesh.is FULL) j from ⟨⟨h1, h2⟩, le_refl _, hi⟩)]

theorem newGd_half (i j : Int) :
    newGd (.full k) .half (.full (!k)) dt s .half i j =
      (s.gd (.full k) i j + newGd (.full k) .half (.full (!k)) dt s (.full (!k)) i j) * 0.5 := by
  unfold newGd
  exact applyBndCond_update_half k _ _ _ i j

theorem newGdt_new_cell (i j : Int) (h : GridCell s.mesh i j) :
    newGdt sqrt (.full k) .half (.full (!k)) dt s (.full (!k)) i j =
      sqrt (newGd (.full k) .half (.full (!k)) dt s (.full (!k)) i j) := by
  unfold newGdt
  exact applyBndCond_update_new_cell k _ _ _ i j h

theorem newGdt_half (i j : Int) :
    newGdt sqrt (.full k) .half (.full (!k)) dt s .half i j =
      (s.gdt (.full k) i j +
        newGdt sqrt (.full k) .half (.full (!k)) dt s (.full (!k)) i j) * 0.5 := by
  unfold newGdt
  exact applyBndCond_update_half k _ _ _ i j

end depth

/-! ### A pass that starts without wind -/

section windFree

variable (sqrt : α → α) {k : Bool} (dt : α) {s : BarotropicModel α}

theorem WindFree.massFluxU_zero (hw : WindFree k s) (i j : Int)
    (hj : s.mesh.js FULL + 1 ≤ j ∧ j ≤ s.mesh.je FULL - 1)
    (hi : s.mesh.is FULL - 1 ≤ i ∧ i ≤ s.mesh.ie FULL + 1) :
    massFluxU .half s i j = 0 := by
  rw [(massFlux_inner .half s i j hj hi).1,
    (hw.half i j ⟨⟨by omega, by omega⟩, hi⟩).2.2.1, zero_mul]

theorem WindFree.massFluxV_zero (hw : WindFree k s) (i j : Int) (h : GridCell s.mesh i j) :
    massFluxV .half s i j = 0 := by
  obtain ⟨⟨h1, h2⟩, h3, h4⟩ := h
  by_cases hj : s.mesh.js FULL + 1 ≤ j ∧ j ≤ s.mesh.je FULL - 1
  · rw [(massFlux_inner .half s i j hj ⟨by omega, by omega⟩).2,
      (hw.half i j ⟨⟨h1, h2⟩, by omega, by omega⟩).2.2.2, zero_mul, zero_mul]
  · have hcase : j = s.mesh.js FULL ∨ j = s.mesh.je FULL := by omega
    rw [(massFlux_outside .half s i j (by omega)).2]
    rcases hcase with rfl | rfl
    · exact (hw.gdv i h3 h4).1
    · exact (hw.gdv i h3 h4).2

/-- A pass that starts without wind computes a zero depth tendency at every cell. -/
theorem WindFree.depthTendency_zero (hw : WindFree k s) (i j : Int) (h : GridCell s.mesh i j) :
    depthTendency .half s i j = 0 := by
  obtain ⟨hi, hj, -⟩ := hw.mesh
  obtain ⟨⟨h1, h2⟩, h3, h4⟩ := h
  by_cases hn : j = s.mesh.je FULL
  · subst hn
    rw [depthTendency_north .half s i h3 h4]
    unfold northPoleTendency
    rw [loopSum_congr (g := fun _ => (0 : α))
      (fun x a c => hw.massFluxV_zero x _ ⟨⟨by omega, by omega⟩, a, c⟩), loopSum_zero]
    ring
  · by_cases hs : j = s.mesh.js FULL
    · subst hs
      rw [depthTendency_south .half s i h3 h4 hj]
      unfold southPoleTendency
      rw [loopSum_congr (g := fun _ => (0 : α))
        (fun x a c => hw.massFluxV_zero x _ ⟨⟨by omega, by omega⟩, a, c⟩), loopSum_zero]
      ring
    · rw [depthTendency_interior .half s i j h3 h4 (by omega) (by omega),
        hw.massFluxU_zero (i + 1) j ⟨by omega, by omega⟩ ⟨by omega, by omega⟩,
        hw.massFluxU_zero (i - 1) j ⟨by omega, by omega⟩ ⟨by omega, by omega⟩,
        hw.massFluxV_zero i (j + 1) ⟨⟨by omega, by omega⟩, h3, h4⟩,
        hw.massFluxV_zero i (j - 1) ⟨⟨by omega, by omega⟩, h3, h4⟩]
      ring

/-- A pass that starts without wind leaves the depth of the old level in the new level, at
every cell. -/
theorem WindFree.depth_new (hw : WindFree k s) (i j : Int) (h : GridCell s.mesh i j) :
    newGd (.full k) .half (.full (!k)) dt s (.full (!k)) i j = s.gd (.full k) i j := by
  rw [newGd_new_cell k dt s i j h, hw.depthTendency_zero i j h]
  ring

theorem WindFree.depth_half (hw : WindFree k s) (i j : Int) (h : GridCell s.mesh i j) :
    newGd (.full k) .half (.full (!k)) dt s .half i j = s.gd (.full k) i j := by
  rw [newGd_half, hw.depth_new dt i j h, mean_self]

/-- In the west halo column the half level of `gd` is the mean of what the column held at the
old level and of the old level of column `ie`. -/
theorem WindFree.depth_half_west (hw : WindFree k s) (j : Int)
    (h1 : s.mesh.js FULL ≤ j) (h2 : j ≤ s.mesh.je FULL) :
    newGd (.full k) .half (.full (!k)) dt s .half (s.mesh.is FULL - 1) j =
      (s.gd (.full k) (s.mesh.is FULL - 1) j + s.gd (.full k) (s.mesh.ie FULL) j) * 0.5 := by
  obtain ⟨hi, -, -⟩ := hw.mesh
  rw [newGd_half, newGd_new_west k dt s j h1 h2 hi,
    hw.depthTendency_zero _ j ⟨⟨h1, h2⟩, hi, le_refl _⟩]
  ring

/-- In the east halo column the half level of `gd` is the mean of what the column held at the
old level and of the old level of column `is`. -/
theorem WindFree.depth_half_east (hw : WindFree k s) (j : Int)
    (h1 : s.mesh.js FULL ≤ j) (h2 : j ≤ s.mesh.je FULL) :
    newGd (.full k) .half (.full (!k)) dt s .half (s.mesh.ie FULL + 1) j =
      (s.gd (.full k) (s.mesh.ie FULL + 1) j + s.gd (.full k) (s.mesh.is FULL) j) * 0.5 := by
  obtain ⟨hi, -, -⟩ := hw.mesh
  rw [newGd_half, newGd_new_east k dt s j h1 h2 hi,
    hw.depthTendency_zero _ j ⟨⟨h1, h2⟩, le_refl _, hi⟩]
  ring

/-- Without wind the tendency `dut` of a pass is the pressure-gradient term alone. -/
theorem WindFree.newDut_inner (hw : WindFree k s) (i j : Int) (h : InnerCell s.mesh i j) :
    newDut sqrt (.full k) .half (.full (!k)) dt s i j =
      (newGd (.full k) .half (.full (!k)) dt s .half (i + 1) j -
          newGd (.full k) .half (.full (!k)) dt s .half (i - 1) j +
          s.ghs (i + 1) j - s.ghs (i - 1) j) * s.factorLon j *
        newGdt sqrt (.full k) .half (.full (!k)) dt s .half i j := by
  obtain ⟨⟨h1, h2⟩, h3, h4⟩ := h
  have hpole : ZeroAtPoles s.mesh (s.ut .half) := fun x a c =>
    ⟨(hw.half x _ ⟨⟨le_refl _, by omega⟩, by omega, by omega⟩).2.2.1,
      (hw.half x _ ⟨⟨by omega, le_refl _⟩, by omega, by omega⟩).2.2.1⟩
  unfold newDut
  rw [if_pos (show InnerCell s.mesh i j from ⟨⟨h1, h2⟩, h3, h4⟩)]
  unfold zonalTendencyValue advectionValue
  rw [momentumFluxU_inner (depthStage sqrt (.full k) .half (.full (!k)) dt s).ut .half
      (depthStage sqrt (.full k) .half (.full (!k)) dt s) (i + 1) j
      (show s.mesh.js FULL + 1 ≤ j ∧ j ≤ s.mesh.je FULL - 1 from ⟨h1, h2⟩)
      (show s.mesh.is FULL - 1 ≤ i + 1 ∧ i + 1 ≤ s.mesh.ie FULL + 1 from ⟨by omega, by omega⟩),
    momentumFluxU_inner (depthStage sqrt (.full k) .half (.full (!k)) dt s).ut .half
      (depthStage sqrt (.full k) .half (.full (!k)) dt s) (i - 1) j
      (show s.mesh.js FULL + 1 ≤ j ∧ j ≤ s.mesh.je FULL - 1 from ⟨h1, h2⟩)
      (show s.mesh.is FULL - 1 ≤ i - 1 ∧ i - 1 ≤ s.mesh.ie FULL + 1 from ⟨by omega, by omega⟩),
    momentumFluxV_column (depthStage sqrt (.full k) .half (.full (!k)) dt s).ut .half
      (depthStage sqrt (.full k) .half (.full (!k)) dt s) (show ZeroAtPoles s.mesh (s.ut .half) from hpole)
      (show ZeroAtPoles s.mesh s.fv from hw.fv) i (j + 1)
      (show s.mesh.js FULL ≤ j + 1 ∧ j + 1 ≤ s.mesh.je FULL from ⟨by omega, by omega⟩)
      (show s.mesh.is FULL ≤ i ∧ i ≤ s.mesh.ie FULL from ⟨h3, h4⟩),
    momentumFluxV_column (depthStage sqrt (.full k) .half (.full (!k)) dt s).ut .half
      (depthStage sqrt (.full k) .half (.full (!k)) dt s) (show ZeroAtPoles s.mesh (s.ut .half) from hpole)
      (show ZeroAtPoles s.mesh s.fv from hw.fv) i (j - 1)
      (show s.mesh.js FULL ≤ j - 1 ∧ j - 1 ≤ s.mesh.je FULL from ⟨by omega, by omega⟩)
      (show s.mesh.is FULL ≤ i ∧ i ≤ s.mesh.ie FULL from ⟨h3, h4⟩)]
  show (0.5 : α) * ((s.ut .half (i + 1) j * s.u .half (i + 1) j -
      s.ut .half (i - 1) j * s.u .half (i - 1) j +
      s.u .half i j * (s.ut .half (i + 1) j - s.ut .half (i - 1) j)) * s.factorLon j +
    (s.ut .half i (j + 1) * s.v .half i (j + 1) * s.cosLat (j + 1) -
      s.ut .half i (j - 1) * s.v .half i (j - 1) * s.cosLat (j - 1) +
      s.v .half i j * (s.ut .half i (j + 1) - s.ut .half i (j - 1)) * s.cosLat j) *
      s.factorLat j) -
    (s.factorCor j + s.u .half i j * s.factorCur j) * s.vt .half i j +
    (newGd (.full k) .half (.full (!k)) dt s .half (i + 1) j -
      newGd (.full k) .half (.full (!k)) dt s .half (i - 1) j +
      s.ghs (i + 1) j - s.ghs (i - 1) j) * s.factorLon j *
      newGdt sqrt (.full k) .half (.full (!k)) dt s .half i j = _
  have a1 := (hw.half (i + 1) j ⟨⟨by omega, by omega⟩, by omega, by omega⟩).2.2.1
  have a2 := (hw.half (i - 1) j ⟨⟨by omega, by omega⟩, by omega, by omega⟩).2.2.1
  have a3 := (hw.half i (j + 1) ⟨⟨by omega, by omega⟩, by omega, by omega⟩).2.2.1
  have a4 := (hw.half i (j - 1) ⟨⟨by omega, by omega⟩, by omega, by omega⟩).2.2.1
  obtain ⟨b1, b2, -, b4⟩ := hw.half i j ⟨⟨by omega, by omega⟩, by omega, by omega⟩
  rw [a1, a2, a3, a4, b1, b2, b4]
  ring

theorem zonalStage_fv_poles (hfv : ZeroAtPoles s.mesh s.fv) :
    ZeroAtPoles s.mesh (zonalStage sqrt (.full k) .half (.full (!k)) dt s).fv := by
  intro i h1 h2
  have hs := (momentumFlux_outside s.ut .half
    (depthStage sqrt (.full k) .half (.full (!k)) dt s) i (s.mesh.js FULL)
    (show ¬ (s.mesh.js FULL < s.mesh.js FULL ∧ s.mesh.js FULL < s.mesh.je FULL) from
      by omega)).2
  have hn := (momentumFlux_outside s.ut .half
    (depthStage sqrt (.full k) .half (.full (!k)) dt s) i (s.mesh.je FULL)
    (show ¬ (s.mesh.js FULL < s.mesh.je FULL ∧ s.mesh.je FULL < s.mesh.je FULL) from
      by omega)).2
  exact ⟨hs.trans (hfv i h1 h2).1, hn.trans (hfv i h1 h2).2⟩

/-- Without wind the tendency `dvt` of a pass is the pressure-gradient term alone. -/
theorem WindFree.newDvt_inner (hw : WindFree k s) (i j : Int) (h : InnerCell s.mesh i j) :
    newDvt sqrt (.full k) .half (.full (!k)) dt s i j =
      (newGd (.full k) .half (.full (!k)) dt s .half i (j + 1) -
          newGd (.full k) .half (.full (!k)) dt s .half i (j - 1) +
          s.ghs i (j + 1) - s.ghs i (j - 1)) * s.factorLat j * s.cosLat j *
        newGdt sqrt (.full k) .half (.full (!k)) dt s .half i j := by
  obtain ⟨⟨h1, h2⟩, h3, h4⟩ := h
  have hpole : ZeroAtPoles s.mesh (s.vt .half) := fun x a c =>
    ⟨(hw.half x _ ⟨⟨le_refl _, by omega⟩, by omega, by omega⟩).2.2.2,
      (hw.half x _ ⟨⟨by omega, le_refl _⟩, by omega, by omega⟩).2.2.2⟩
  unfold newDvt
  rw [if_pos (show InnerCell s.mesh i j from ⟨⟨h1, h2⟩, h3, h4⟩)]
  unfold meridionalTendencyValue advectionValue
  rw [momentumFluxU_inner (zonalStage sqrt (.full k) .half (.full (!k)) dt s).vt .half
      (zonalStage sqrt (.full k) .half (.full (!k)) dt s) (i + 1) j
      (show s.mesh.js FULL + 1 ≤ j ∧ j ≤ s.mesh.je FULL - 1 from ⟨h1, h2⟩)
      (show s.mesh.is FULL - 1 ≤ i + 1 ∧ i + 1 ≤ s.mesh.ie FULL + 1 from ⟨by omega, by omega⟩),
    momentumFluxU_inner (zonalStage sqrt (.full k) .half (.full (!k)) dt s).vt .half
      (zonalStage sqrt (.full k) .half (.full (!k)) dt s) (i - 1) j
      (show s.mesh.js FULL + 1 ≤ j ∧ j ≤ s.mesh.je FULL - 1 from ⟨h1, h2⟩)
      (show s.mesh.is FULL - 1 ≤ i - 1 ∧ i - 1 ≤ s.mesh.ie FULL + 1 from ⟨by omega, by omega⟩),
    momentumFluxV_column (zonalStage sqrt (.full k) .half (.full (!k)) dt s).vt .half
      (zonalStage sqrt (.full k) .half (.full (!k)) dt s) (show ZeroAtPoles s.mesh (s.vt .half) from hpole)
      (show ZeroAtPoles s.mesh (zonalStage sqrt (.full k) .half (.full (!k)) dt s).fv from
        zonalStage_fv_poles sqrt dt hw.fv) i (j + 1)
      (show s.mesh.js FULL ≤ j + 1 ∧ j + 1 ≤ s.mesh.je FULL from ⟨by omega, by omega⟩)
      (show s.mesh.is FULL ≤ i ∧ i ≤ s.mesh.ie FULL from ⟨h3, h4⟩),
    momentumFluxV_column (zonalStage sqrt (.full k) .half (.full (!k)) dt s).vt .half
      (zonalStage sqrt (.full k) .half (.full (!k)) dt s) (show ZeroAtPoles s.mesh (s.vt .half) from hpole)
      (show ZeroAtPoles s.mesh (zonalStage sqrt (.full k) .half (.full (!k)) dt s).fv from
        zonalStage_fv_poles sqrt dt hw.fv) i (j - 1)
      (show s.mesh.js FULL ≤ j - 1 ∧ j - 1 ≤ s.mesh.je FULL from ⟨by omega, by omega⟩)
      (show s.mesh.is FULL ≤ i ∧ i ≤ s.mesh.ie FULL from ⟨h3, h4⟩)]
  show (0.5 : α) * ((s.vt .half (i + 1) j * s.u .half (i + 1) j -
      s.vt .half (i - 1) j * s.u .half (i - 1) j +
      s.u .half i j * (s.vt .half (i + 1) j - s.vt .half (i - 1) j)) * s.factorLon j +
    (s.vt .half i (j + 1) * s.v .half i (j + 1) * s.cosLat (j + 1) -
      s.vt .half i (j - 1) * s.v .half i (j - 1) * s.cosLat (j - 1) +
      s.v .half i j * (s.vt .half i (j + 1) - s.vt .half i (j - 1)) * s.cosLat j) *
      s.factorLat j) +
    (s.factorCor j + s.u .half i j * s.factorCur j) * s.ut .half i j +
    (newGd (.full k) .half (.full (!k)) dt s .half i (j + 1) -
      newGd (.full k) .half (.full (!k)) dt s .half i (j - 1) +
      s.ghs i (j + 1) - s.ghs i (j - 1)) * s.factorLat j * s.cosLat j *
      newGdt sqrt (.full k) .half (.full (!k)) dt s .half i j = _
  have a1 := (hw.half (i + 1) j ⟨⟨by omega, by omega⟩, by omega, by omega⟩).2.2.2
  have a2 := (hw.half (i - 1) j ⟨⟨by omega, by omega⟩, by omega, by omega⟩).2.2.2
  have a3 := (hw.half i (j + 1) ⟨⟨by omega, by omega⟩, by omega, by omega⟩).2.2.2
  have a4 := (hw.half i (j - 1) ⟨⟨by omega, by omega⟩, by omega, by omega⟩).2.2.2
  obtain ⟨b1, b2, b3, -⟩ := hw.half i j ⟨⟨by omega, by omega⟩, by omega, by omega⟩
  rw [a1, a2, a3, a4, b1, b2, b3]
  ring

end windFree

/-! ### A pass that starts at rest over a level surface -/

section level

variable (sqrt : α → α) {k : Bool} (dt : α) {s : BarotropicModel α} {c : α}

/-- With `gd + ghs = c` at the old level and periodic halo columns of `ghs`, the half level
that a pass without wind computes has `gd + ghs = c` too, in the halo columns as well. -/
theorem WindFree.level_half (hw : WindFree k s)
    (hlevel : ∀ i j, HaloCell s.mesh i j → s.gd (.full k) i j + s.ghs i j = c)
    (hghs : PeriodicHalo s.mesh s.ghs) (i j : Int) (h : HaloCell s.mesh i j) :
    newGd (.full k) .half (.full (!k)) dt s .half i j + s.ghs i j = c := by
  obtain ⟨hi, -, -⟩ := hw.mesh
  obtain ⟨⟨h1, h2⟩, h3, h4⟩ := h
  have e : (0.5 : α) = 1 / 2 := by norm_num
  by_cases hwest : i = s.mesh.is FULL - 1
  · subst hwest
    rw [hw.depth_half_west dt j h1 h2, e]
    have a1 := hlevel (s.mesh.is FULL - 1) j ⟨⟨h1, h2⟩, by omega, by omega⟩
    have a2 := hlevel (s.mesh.ie FULL) j ⟨⟨h1, h2⟩, by omega, by omega⟩
    have a3 := (hghs j h1 h2).1
    linear_combination (1 / 2 : α) * a1 + (1 / 2 : α) * a2 + (1 / 2 : α) * a3
  · by_cases heast : i = s.mesh.ie FULL + 1
    · subst heast
      rw [hw.depth_half_east dt j h1 h2, e]
      have a1 := hlevel (s.mesh.ie FULL + 1) j ⟨⟨h1, h2⟩, by omega, by omega⟩
      have a2 := hlevel (s.mesh.is FULL) j ⟨⟨h1, h2⟩, by omega, by omega⟩
      have a3 := (hghs j h1 h2).2
      linear_combination (1 / 2 : α) * a1 + (1 / 2 : α) * a2 + (1 / 2 : α) * a3
    · rw [hw.depth_half dt i j ⟨⟨h1, h2⟩, by omega, by omega⟩]
      exact hlevel i j ⟨⟨h1, h2⟩, h3, h4⟩

theorem WindFree.newDut_zero (hw : WindFree k s)
    (hlevel : ∀ i j, HaloCell s.mesh i j → s.gd (.full k) i j + s.ghs i j = c)
    (hghs : PeriodicHalo s.mesh s.ghs) (i j : Int) (h : GridCell s.mesh i j) :
    newDut sqrt (.full k) .half (.full (!k)) dt s i j = 0 := by
  obtain ⟨⟨h1, h2⟩, h3, h4⟩ := h
  by_cases hin : InnerCell s.mesh i j
  · obtain ⟨⟨h5, h6⟩, -⟩ := hin
    have a1 := hw.level_half dt hlevel hghs (i + 1) j ⟨⟨h1, h2⟩, by omega, by omega⟩
    have a2 := hw.level_half dt hlevel hghs (i - 1) j ⟨⟨h1, h2⟩, by omega, by omega⟩
    rw [hw.newDut_inner sqrt dt i j ⟨⟨h5, h6⟩, h3, h4⟩]
    have e : newGd (.full k) .half (.full (!k)) dt s .half (i + 1) j -
        newGd (.full k) .half (.full (!k)) dt s .half (i - 1) j +
        s.ghs (i + 1) j - s.ghs (i - 1) j = 0 := by
      linear_combination a1 - a2
    rw [e, zero_mul, zero_mul]
  · have hcase : j = s.mesh.js FULL ∨ j = s.mesh.je FULL := by
      by_contra hc
      exact hin ⟨⟨by omega, by omega⟩, h3, h4⟩
    rcases hcase with rfl | rfl
    · rw [(newDut_pole sqrt _ _ _ dt s i).1]
      exact (hw.dut i h3 h4).1
    · rw [(newDut_pole sqrt _ _ _ dt s i).2]
      exact (hw.dut i h3 h4).2

theorem WindFree.newDvt_zero (hw : WindFree k s)
    (hlevel : ∀ i j, HaloCell s.mesh i j → s.gd (.full k) i j + s.ghs i j = c)
    (hghs : PeriodicHalo s.mesh s.ghs) (i j : Int) (h : GridCell s.mesh i j) :
    newDvt sqrt (.full k) .half (.full (!k)) dt s i j = 0 := by
  obtain ⟨⟨h1, h2⟩, h3, h4⟩ := h
  by_cases hin : InnerCell s.mesh i j
  · obtain ⟨⟨h5, h6⟩, -⟩ := hin
    have a1 := hw.level_half dt hlevel hghs i (j + 1) ⟨⟨by omega, by omega⟩, by omega, by omega⟩
    have a2 := hw.level_half dt hlevel hghs i (j - 1) ⟨⟨by omega, by omega⟩, by omega, by omega⟩
    rw [hw.newDvt_inner sqrt dt i j ⟨⟨h5, h6⟩, h3, h4⟩]
    have e : newGd (.full k) .half (.full (!k)) dt s .half i (j + 1) -
        newGd (.full k) .half (.full (!k)) dt s .half i (j - 1) +
        s.ghs i (j + 1) - s.ghs i (j - 1) = 0 := by
      linear_combination a1 - a2
    rw [e, zero_mul, zero_mul, zero_mul]
  · have hcase : j = s.mesh.js FULL ∨ j = s.mesh.je FULL := by
      by_contra hc
      exact hin ⟨⟨by omega, by omega⟩, h3, h4⟩
    rcases hcase with rfl | rfl
    · rw [(newDvt_pole sqrt _ _ _ dt s i).1]
      exact (hw.dvt i h3 h4).1
    · rw [(newDvt_pole sqrt _ _ _ dt s i).2]
      exact (hw.dvt i h3 h4).2

/-- What a pass leaves at a cell of the grid when it starts at rest over a level surface:
zero tendencies, and in the new level the depth of the old level and no wind. -/
theorem WindFree.pass (hw : WindFree k s)
    (hlevel : ∀ i j, HaloCell s.mesh i j → s.gd (.full k) i j + s.ghs i j = c)
    (hghs : PeriodicHalo s.mesh s.ghs) (i j : Int) (h : GridCell s.mesh i j) :
    ((iterationBody sqrt (.full k) .half (.full (!k)) dt s).dgd i j = 0 ∧
      (iterationBody sqrt (.full k) .half (.full (!k)) dt s).dut i j = 0 ∧
      (iterationBody sqrt (.full k) .half (.full (!k)) dt s).dvt i j = 0) ∧
    (iterationBody sqrt (.full k) .half (.full (!k)) dt s).gd (.full (!k)) i j =
      s.gd (.full k) i j ∧
    ((iterationBody sqrt (.full k) .half (.full (!k)) dt s).ut (.full (!k)) i j = 0 ∧
      (iterationBody sqrt (.full k) .half (.full (!k)) dt s).vt (.full (!k)) i j = 0) ∧
    ((iterationBody sqrt (.full k) .half (.full (!k)) dt s).u (.full (!k)) i j = 0 ∧
      (iterationBody sqrt (.full k) .half (.full (!k)) dt s).v (.full (!k)) i j = 0) := by
  have hl : HaloCell s.mesh i j := ⟨h.1, by have := h.2; omega, by have := h.2; omega⟩
  have hd := hw.depthTendency_zero i j h
  have hu := hw.newDut_zero sqrt dt hlevel hghs i j h
  have hv := hw.newDvt_zero sqrt dt hlevel hghs i j h
  have hut : (iterationBody sqrt (.full k) .half (.full (!k)) dt s).ut (.full (!k)) i j = 0 := by
    rw [iterationBody_ut_new sqrt k dt s i j h, hu, (hw.old i j hl).1]
    ring
  have hvt : (iterationBody sqrt (.full k) .half (.full (!k)) dt s).vt (.full (!k)) i j = 0 := by
    rw [iterationBody_vt_new sqrt k dt s i j h, hv, (hw.old i j hl).2]
    ring
  refine ⟨⟨?_, ?_, ?_⟩, ?_, ⟨hut, hvt⟩, ?_, ?_⟩
  · rw [iterationBody_dgd, hd]
  · rw [iterationBody_dut, hu]
  · rw [iterationBody_dvt, hv]
  · rw [iterationBody_gd_new sqrt k dt s i j h, hd]
    ring
  · rw [iterationBody_u_new sqrt k dt s i j h, hut, zero_div]
  · rw [iterationBody_v_new sqrt k dt s i j h, hvt, zero_div]

/-- The energy of the new level after a pass that starts at rest over a level surface is the
energy of the old level. -/
theorem WindFree.energy (hw : WindFree k s)
    (hlevel : ∀ i j, HaloCell s.mesh i j → s.gd (.full k) i j + s.ghs i j = c)
    (hghs : PeriodicHalo s.mesh s.ghs) :
    calcTotalEnergy (.full (!k)) (iterationBody sqrt (.full k) .half (.full (!k)) dt s) =
      calcTotalEnergy (.full k) s := by
  rw [calcTotalEnergy_eq, calcTotalEnergy_eq, iterationBody_mesh, iterationBody_cosLat,
    iterationBody_ghs, zero_add, zero_add]
  apply loopSum_congr
  intro j h1 h2
  apply loopSum_congr
  intro i h3 h4
  have hc : GridCell s.mesh i j := ⟨⟨h1, h2⟩, h3, h4⟩
  have hl : HaloCell s.mesh i j := ⟨⟨h1, h2⟩, by omega, by omega⟩
  obtain ⟨-, a1, ⟨a2, a3⟩, -⟩ := hw.pass sqrt dt hlevel hghs i j hc
  rw [a1, a2, a3, (hw.old i j hl).1, (hw.old i j hl).2]

/-- The energy of a state at rest over a level surface, cell by cell. -/
theorem WindFree.energy_eq (hw : WindFree k s)
    (hlevel : ∀ i j, HaloCell s.mesh i j → s.gd (.full k) i j + s.ghs i j = c) :
    calcTotalEnergy (.full k) s =
      ∑ j in Finset.Icc (s.mesh.js FULL) (s.mesh.je FULL),
        ∑ _i in Finset.Icc (s.mesh.is FULL) (s.mesh.ie FULL), c ^ 2 * s.cosLat j := by
  rw [calcTotalEnergy_eq, zero_add, loopSum_eq_sum_Icc]
  apply Finset.sum_congr rfl
  intro j hj
  rw [loopSum_eq_sum_Icc]
  apply Finset.sum_congr rfl
  intro i hi
  rw [Finset.mem_Icc] at hi hj
  have hl : HaloCell s.mesh i j := ⟨hj, by omega, by omega⟩
  rw [(hw.old i j hl).1, (hw.old i j hl).2, hlevel i j hl]
  ring

/-- The energy of a state at rest over a level surface of non-zero height is positive when
every row has a positive `cosLat`. -/
theorem WindFree.energy_pos (hw : WindFree k s)
    (hlevel : ∀ i j, HaloCell s.mesh i j → s.gd (.full k) i j + s.ghs i j = c)
    (hc : c ≠ 0) (hcos : ∀ j, s.mesh.js FULL ≤ j → j ≤ s.mesh.je FULL → 0 < s.cosLat j) :
    0 < calcTotalEnergy (.full k) s := by
  obtain ⟨hi, hj, -⟩ := hw.mesh
  rw [hw.energy_eq hlevel]
  apply Finset.sum_pos
  · intro j hj'
    rw [Finset.mem_Icc] at hj'
    apply Finset.sum_pos
    · intro i _
      exact mul_pos (by positivity) (hcos j hj'.1 hj'.2)
    · exact Finset.nonempty_Icc.mpr hi
  · exact Finset.nonempty_Icc.mpr hj.le

end level

theorem energyCriterion_self (e : α) : energyCriterion e e = true := by
  rw [energyCriterion_iff]
  unfold EnergyConverged
  rw [sub_self, abs_zero, zero_mul, zero_div]
  norm_num

/-! ### The first call of `integrate` on a model at rest -/

section atRest

variable (sqrt : α → α) {k : Bool} (dt : α) {m : BarotropicModel α} {c : α}

/-- On the first call, on a model at rest, `integrate` enters its loop without wind. -/
theorem AtRest.windFree (hr : AtRest k m) : WindFree k (startState sqrt (.full k) m) := by
  obtain ⟨f1, -, -, -, -, f6, f7, -, -, f10, -, f12, -⟩ := startState_frame sqrt k m
  refine ⟨?_, ?_, ?_, ?_, ?_, ?_, ?_⟩
  · rw [f1]
    exact hr.mesh
  · intro i j h
    rw [f1] at h
    obtain ⟨c1, c2, -, -, c5, c6⟩ := startState_half sqrt k m hr.firstRun i j h
    rw [c1, c2, c5, c6, (hr.wind i j h).1, (hr.wind i j h).2, zero_mul]
    exact ⟨rfl, rfl, rfl, rfl⟩
  · intro i j h
    rw [f1] at h
    obtain ⟨-, b2, b3⟩ := startState_transformed sqrt k m hr.firstRun i j h
    rw [b2, b3, (hr.wind i j h).1, (hr.wind i j h).2, zero_mul]
    exact ⟨rfl, rfl⟩
  · rw [f1, f12]
    exact hr.fv
  · rw [f1, f10]
    exact hr.gdv
  · rw [f1, f6]
    exact hr.dut
  · rw [f1, f7]
    exact hr.dvt

theorem AtRest.level (hlevel : ∀ i j, HaloCell m.mesh i j → m.gd (.full k) i j + m.ghs i j = c)
    (i j : Int) (h : HaloCell (startState sqrt (.full k) m).mesh i j) :
    (startState sqrt (.full k) m).gd (.full k) i j + (startState sqrt (.full k) m).ghs i j =
      c := by
  rw [startState_mesh] at h
  rw [(startState_old sqrt k m).2.2, (startState_frame sqrt k m).2.2.2.2.1]
  exact hlevel i j h

theorem AtRest.ghs (hghs : PeriodicHalo m.mesh m.ghs) :
    PeriodicHalo (startState sqrt (.full k) m).mesh (startState sqrt (.full k) m).ghs := by
  rw [startState_mesh, (startState_frame sqrt k m).2.2.2.2.1]
  exact hghs

theorem afterPasses_one (k : Bool) (m : BarotropicModel α) :
    afterPasses sqrt (.full k) dt 1 m =
      iterationBody sqrt (.full k) .half (.full (!k)) dt (startState sqrt (.full k) m) := by
  rw [show (1 : Nat) = 0 + 1 from rfl, afterPasses_succ, afterPasses_zero]

/-- On the first call, on a model at rest over a level surface, `integrate` leaves its loop
by the `break` of the first pass. -/
theorem AtRest.integrate_first (hr : AtRest k m)
    (hlevel : ∀ i j, HaloCell m.mesh i j → m.gd (.full k) i j + m.ghs i j = c)
    (hghs : PeriodicHalo m.mesh m.ghs) :
    integrate sqrt (.full k) dt m = (1, afterPasses sqrt (.full k) dt 1 m) := by
  apply integrate_break sqrt (.full k) dt m 1 (le_refl _) (by omega)
  · intro k' h1 h2
    omega
  · unfold criterionAt
    rw [afterPasses_one]
    show energyCriterion _ (calcTotalEnergy (.full (!k)) _) = true
    rw [(hr.windFree sqrt).energy sqrt dt (AtRest.level sqrt hlevel) (AtRest.ghs sqrt hghs)]
    exact energyCriterion_self _

end atRest

/-! ### States at rest on the small grid -/

theorem exampleModel_factorLon_one : (exampleModel α).factorLon 1 = 1 / 38226000 := by
  unfold exampleModel
  rw [init_eq]
  simp only [cosLatSet, exampleMesh, exampleRaw]
  norm_num

theorem exampleRest_fields :
    (exampleRest α).mesh = (exampleModel α).mesh ∧
    (exampleRest α).u = (exampleModel α).u ∧
    (exampleRest α).v = (exampleModel α).v ∧
    (exampleRest α).fv = (exampleModel α).fv ∧
    (exampleRest α).gdv = (exampleModel α).gdv ∧
    (exampleRest α).dut = (exampleModel α).dut ∧
    (exampleRest α).dvt = (exampleModel α).dvt ∧
    (exampleRest α).factorLon = (exampleModel α).factorLon ∧
    (exampleRest α).firstRun = (exampleModel α).firstRun := by
  unfold exampleRest exampleModel
  refine ⟨?_, ?_, ?_, ?_, ?_, ?_, ?_, ?_, ?_⟩ <;> dsimp only

theorem exampleCalm_fields :
    (exampleCalm α).mesh = (exampleModel α).mesh ∧
    (exampleCalm α).u = (exampleModel α).u ∧
    (exampleCalm α).v = (exampleModel α).v ∧
    (exampleCalm α).fv = (exampleModel α).fv ∧
    (exampleCalm α).gdv = (exampleModel α).gdv ∧
    (exampleCalm α).dut = (exampleModel α).dut ∧
    (exampleCalm α).dvt = (exampleModel α).dvt ∧
    (exampleCalm α).factorLon = (exampleModel α).factorLon ∧
    (exampleCalm α).firstRun = (exampleModel α).firstRun := by
  unfold exampleCalm exampleModel
  refine ⟨?_, ?_, ?_, ?_, ?_, ?_, ?_, ?_, ?_⟩ <;> dsimp only

theorem exampleRest_mesh : (exampleRest α).mesh = exampleMesh α := by
  rw [exampleRest_fields.1, exampleModel_mesh]

theorem exampleCalm_mesh : (exampleCalm α).mesh = exampleMesh α := by
  rw [exampleCalm_fields.1, exampleModel_mesh]

theorem exampleRest_gd (t : TimeLevelIndex) (i j : Int) :
    (exampleRest α).gd t i j = if i = 0 then 1 else 4 := by
  unfold exampleRest
  rfl

theorem exampleRest_ghs (i j : Int) : (exampleRest α).ghs i j = if i = 0 then 3 else 0 := by
  unfold exampleRest
  rfl

theorem exampleCalm_gd (t : TimeLevelIndex) (i j : Int) :
    (exampleCalm α).gd t i j = if i = 0 ∨ i = 2 then 1 else 4 := by
  unfold exampleCalm
  rfl

theorem exampleCalm_ghs (i j : Int) :
    (exampleCalm α).ghs i j = if i = 0 ∨ i = 2 then 3 else 0 := by
  unfold exampleCalm
  rfl

theorem exampleRest_wind (t : TimeLevelIndex) (i j : Int) :
    (exampleRest α).u t i j = 0 ∧ (exampleRest α).v t i j = 0 := by
  rw [exampleRest_fields.2.1, exampleRest_fields.2.2.1]
  exact ⟨(exampleModel_rest t i j).1, (exampleModel_rest t i j).2.1⟩

theorem exampleCalm_wind (t : TimeLevelIndex) (i j : Int) :
    (exampleCalm α).u t i j = 0 ∧ (exampleCalm α).v t i j = 0 := by
  rw [exampleCalm_fields.2.1, exampleCalm_fields.2.2.1]
  exact ⟨(exampleModel_rest t i j).1, (exampleModel_rest t i j).2.1⟩

theorem exampleRest_flux (i j : Int) : (exampleRest α).fu i j = 0 ∧ (exampleRest α).fv i j = 0 := by
  unfold exampleRest
  rw [init_eq]
  exact ⟨rfl, rfl⟩

theorem exampleRest_level (t : TimeLevelIndex) (i j : Int) :
    (exampleRest α).gd t i j + (exampleRest α).ghs i j = 4 := by
  rw [exampleRest_gd, exampleRest_ghs]
  split_ifs <;> norm_num

theorem exampleCalm_level (t : TimeLevelIndex) (i j : Int) :
    (exampleCalm α).gd t i j + (exampleCalm α).ghs i j = 4 := by
  rw [exampleCalm_gd, exampleCalm_ghs]
  split_ifs <;> norm_num

theorem exampleRest_gd_pos (t : TimeLevelIndex) (i j : Int) : 0 < (exampleRest α).gd t i j := by
  rw [exampleRest_gd]
  split_ifs <;> norm_num

theorem exampleRest_firstRun : (exampleRest α).firstRun = true := by
  rw [exampleRest_fields.2.2.2.2.2.2.2.2, exampleModel_firstRun]

theorem exampleCalm_firstRun : (exampleCalm α).firstRun = true := by
  rw [exampleCalm_fields.2.2.2.2.2.2.2.2, exampleModel_firstRun]

theorem exampleRest_wellFormed : (exampleRest α).mesh.WellFormed := by
  rw [exampleRest_mesh]
  exact exampleMesh_wellFormed

theorem exampleCalm_wellFormed : (exampleCalm α).mesh.WellFormed := by
  rw [exampleCalm_mesh]
  exact exampleMesh_wellFormed

theorem exampleRest_fv : ZeroAtPoles (exampleRest α).mesh (exampleRest α).fv :=
  fun i _ _ => ⟨(exampleRest_flux i _).2, (exampleRest_flux i _).2⟩

theorem exampleRest_gdv : ZeroAtPoles (exampleRest α).mesh (exampleRest α).gdv := by
  rw [exampleRest_fields.1, exampleRest_fields.2.2.2.2.1]
  exact exampleModel_gdv

theorem exampleRest_dut : ZeroAtPoles (exampleRest α).mesh (exampleRest α).dut := by
  rw [exampleRest_fields.1, exampleRest_fields.2.2.2.2.2.1]
  exact exampleModel_dut

theorem exampleRest_dvt : ZeroAtPoles (exampleRest α).mesh (exampleRest α).dvt := by
  rw [exampleRest_fields.1, exampleRest_fields.2.2.2.2.2.2.1]
  exact exampleModel_dvt

theorem exampleCalm_fv : ZeroAtPoles (exampleCalm α).mesh (exampleCalm α).fv := by
  intro i _ _
  rw [exampleCalm_fields.2.2.2.1, exampleModel_fv]
  exact ⟨rfl, rfl⟩

theorem exampleCalm_gdv : ZeroAtPoles (exampleCalm α).mesh (exampleCalm α).gdv := by
  rw [exampleCalm_fields.1, exampleCalm_fields.2.2.2.2.1]
  exact exampleModel_gdv

theorem exampleCalm_dut : ZeroAtPoles (exampleCalm α).mesh (exampleCalm α).dut := by
  rw [exampleCalm_fields.1, exampleCalm_fields.2.2.2.2.2.1]
  exact exampleModel_dut

theorem exampleCalm_dvt : ZeroAtPoles (exampleCalm α).mesh (exampleCalm α).dvt := by
  rw [exampleCalm_fields.1, exampleCalm_fields.2.2.2.2.2.2.1]
  exact exampleModel_dvt

theorem exampleCalm_ghs_periodic : PeriodicHalo (exampleCalm α).mesh (exampleCalm α).ghs := by
  intro j _ _
  rw [exampleCalm_mesh, exampleMesh_is, exampleMesh_ie, exampleCalm_ghs, exampleCalm_ghs,
    exampleCalm_ghs, exampleCalm_ghs]
  norm_num

/-- The surface geopotential of `exampleRest` is not periodic: the halo column 0 holds 3, the
column 2 holds 0. -/
theorem exampleRest_ghs_not_periodic :
    ¬ PeriodicHalo (exampleRest α).mesh (exampleRest α).ghs := by
  intro h
  have h1 := (h 1 (by rw [exampleRest_mesh, exampleMesh_js]; norm_num)
    (by rw [exampleRest_mesh, exampleMesh_je]; norm_num)).1
  rw [exampleRest_mesh, exampleMesh_is, exampleMesh_ie, exampleRest_ghs, exampleRest_ghs] at h1
  norm_num at h1

theorem exampleRest_atRest : AtRest false (exampleRest α) :=
  ⟨exampleRest_wellFormed, exampleRest_firstRun, fun i j _ => exampleRest_wind _ i j,
    exampleRest_fv, exampleRest_gdv, exampleRest_dut, exampleRest_dvt⟩

/-- The first pass of `integrate` on `exampleRest`, whatever the step: at the cell of column 1
on the equator row the tendency `dut` is `(4 - 5.5 + 0 - 3) * (1/38226000) * 2`. -/
theorem exampleRest_dut_first_pass (sqrt : α → α) (hsqrt : sqrt 4 = 2) (dt : α) :
    (afterPasses sqrt (.full false) dt 1 (exampleRest α)).dut 1 1 = -(3 / 38226000) := by
  have hw := exampleRest_atRest.windFree (α := α) sqrt
  obtain ⟨f1, -, -, -, f5, -, -, -, -, -, -, -, -, -, -, -, f17, -⟩ :=
    startState_frame sqrt false (exampleRest α)
  have hin : InnerCell (startState sqrt (.full false) (exampleRest α)).mesh 1 1 := by
    rw [f1, exampleRest_mesh, exampleMesh_innerCell]
    omega
  have hc11 : GridCell (startState sqrt (.full false) (exampleRest α)).mesh 1 1 := by
    rw [f1, exampleRest_mesh, exampleMesh_gridCell]
    omega
  have hc21 : GridCell (startState sqrt (.full false) (exampleRest α)).mesh (1 + 1) 1 := by
    rw [f1, exampleRest_mesh, exampleMesh_gridCell]
    omega
  have hl11 : HaloCell (exampleRest α).mesh 1 1 := by
    rw [exampleRest_mesh, exampleMesh_haloCell]
    omega
  have hwest := hw.depth_half_west dt 1
    (by rw [f1, exampleRest_mesh, exampleMesh_js]; norm_num)
    (by rw [f1, exampleRest_mesh, exampleMesh_je]; norm_num)
  rw [f1, exampleRest_mesh, exampleMesh_is, exampleMesh_ie,
    (startState_old sqrt false (exampleRest α)).2.2, exampleRest_gd, exampleRest_gd] at hwest
  have heast := hw.depth_half dt (1 + 1) 1 hc21
  rw [(startState_old sqrt false (exampleRest α)).2.2, exampleRest_gd] at heast
  have hgdt : newGdt sqrt (.full false) .half (.full (!false)) dt
      (startState sqrt (.full false) (exampleRest α)) .half 1 1 = 2 := by
    rw [newGdt_half, newGdt_new_cell sqrt false dt _ 1 1 hc11, hw.depth_new dt 1 1 hc11,
      (startState_transformed sqrt false (exampleRest α) exampleRest_firstRun 1 1 hl11).1,
      (startState_old sqrt false (exampleRest α)).2.2, exampleRest_gd]
    norm_num
    rw [hsqrt]
    norm_num
  rw [afterPasses_one, iterationBody_dut, hw.newDut_inner sqrt dt 1 1 hin, hwest, heast, hgdt,
    f5, f17, exampleRest_ghs, exampleRest_ghs, exampleRest_fields.2.2.2.2.2.2.2.1,
    exampleModel_factorLon_one]
  norm_num

theorem exampleCalm_atRest : AtRest false (exampleCalm α) :=
  ⟨exampleCalm_wellFormed, exampleCalm_firstRun, fun i j _ => exampleCalm_wind _ i j,
    exampleCalm_fv, exampleCalm_gdv, exampleCalm_dut, exampleCalm_dvt⟩

theorem real_sqrt_four : Real.sqrt 4 = 2 := by
  rw [show (4 : ℝ) = 2 ^ 2 by norm_num]
  exact Real.sqrt_sq (by norm_num)

theorem exampleCalm_gd_pos (t : TimeLevelIndex) (i j : Int) : 0 < (exampleCalm α).gd t i j := by
  rw [exampleCalm_gd]
  split_ifs <;> norm_num

theorem exampleCalm_cosLat : (exampleCalm α).cosLat = (exampleModel α).cosLat := by
  unfold exampleCalm exampleModel
  dsimp only

theorem exampleCalm_cosLat_pos (j : Int) (h1 : (exampleCalm α).mesh.js FULL ≤ j)
    (h2 : j ≤ (exampleCalm α).mesh.je FULL) : 0 < (exampleCalm α).cosLat j := by
  rw [exampleCalm_mesh, exampleMesh_js] at h1
  rw [exampleCalm_mesh, exampleMesh_je] at h2
  rw [exampleCalm_cosLat, exampleModel_cosLat]
  have hj : j = 0 ∨ j = 1 ∨ j = 2 := by omega
  rcases hj with hj | hj | hj <;> subst hj <;> norm_num

/-- C21: for every state, every time level `t` and every cell `(i, j)`, if `C_u` is the amount
that `calcZonalWindCoriolis(t)` adds to `dut(i,j)` and `C_v` the amount that
`calcMeridionalWindCoriolis(t)` adds to `dvt(i,j)`, then `ut(i,j)*C_u + vt(i,j)*C_v = 0`; at a
cell between the poles (`js < j < je`, `is ≤ i ≤ ie`) the amounts are
`C_u = -(factorCor[j] + u(i,j)*factorCur[j])*vt(i,j)` and
`C_v = (factorCor[j] + u(i,j)*factorCur[j])*ut(i,j)`, and at every other cell both are
zero. -/
theorem coriolis_energy_neutral (timeIdx : TimeLevelIndex) (m : BarotropicModel α)
    (i j : Int) :
    m.ut timeIdx i j * ((calcZonalWindCoriolis timeIdx m).dut i j - m.dut i j) +
      m.vt timeIdx i j * ((calcMeridionalWindCoriolis timeIdx m).dvt i j - m.dvt i j) = 0 ∧
    (InnerCell m.mesh i j →
      (calcZonalWindCoriolis timeIdx m).dut i j - m.dut i j =
        -((m.factorCor j + m.u timeIdx i j * m.factorCur j) * m.vt timeIdx i j) ∧
      (calcMeridionalWindCoriolis timeIdx m).dvt i j - m.dvt i j =
        (m.factorCor j + m.u timeIdx i j * m.factorCur j) * m.ut timeIdx i j) ∧
    (¬ InnerCell m.mesh i j →
      (calcZonalWindCoriolis timeIdx m).dut i j - m.dut i j = 0 ∧
      (calcMeridionalWindCoriolis timeIdx m).dvt i j - m.dvt i j = 0) :=
  ⟨coriolis_work timeIdx m i j, coriolis_added timeIdx m i j,
    coriolis_added_outside timeIdx m i j⟩

theorem coriolis_energy_neutral_witness :
    (calcZonalWindCoriolis .half (exampleFlow ℚ)).dut 1 1 - (exampleFlow ℚ).dut 1 1 =
        -(((exampleFlow ℚ).factorCor 1 +
          (exampleFlow ℚ).u .half 1 1 * (exampleFlow ℚ).factorCur 1) *
          (exampleFlow ℚ).vt .half 1 1) ∧
      (calcMeridionalWindCoriolis .half (exampleFlow ℚ)).dvt 1 1 - (exampleFlow ℚ).dvt 1 1 =
        ((exampleFlow ℚ).factorCor 1 +
          (exampleFlow ℚ).u .half 1 1 * (exampleFlow ℚ).factorCur 1) *
          (exampleFlow ℚ).ut .half 1 1 :=
  (coriolis_energy_neutral .half (exampleFlow ℚ) 1 1).2.1 exampleFlow_innerCell

/-- C22: for every input state and every `dt`, the state that `integrate` returns, and the
state after any number of passes of its loop, hold the old level of `u`, `v`, `gd` and the
field `ghs` of the input state in every cell, halo included; when the flag `firstRun` is not
set (a call after the first) they also hold the old level of `ut`, `vt`, `gdt` of the input
state; in any case no pass changes the old level of `ut`, `vt`, `gdt` or the flag `firstRun`
that the loop started with; and the mesh and the coefficients are those of the input state. So `integrate` writes
the half level, the new level, the buffers and, on the first call, the old level of the
transformed fields, and nothing else. -/
theorem integrate_keeps_old_level (sqrt : α → α) (k : Bool) (dt : α) (m : BarotropicModel α) :
    ((integrate sqrt (.full k) dt m).2.u (.full k) = m.u (.full k) ∧
      (integrate sqrt (.full k) dt m).2.v (.full k) = m.v (.full k) ∧
      (integrate sqrt (.full k) dt m).2.gd (.full k) = m.gd (.full k) ∧
      (integrate sqrt (.full k) dt m).2.ghs = m.ghs) ∧
    (m.firstRun = false →
      (integrate sqrt (.full k) dt m).2.ut (.full k) = m.ut (.full k) ∧
      (integrate sqrt (.full k) dt m).2.vt (.full k) = m.vt (.full k) ∧
      (integrate sqrt (.full k) dt m).2.gdt (.full k) = m.gdt (.full k)) ∧
    (∀ n,
      ((afterPasses sqrt (.full k) dt n m).u (.full k) = m.u (.full k) ∧
        (afterPasses sqrt (.full k) dt n m).v (.full k) = m.v (.full k) ∧
        (afterPasses sqrt (.full k) dt n m).gd (.full k) = m.gd (.full k) ∧
        (afterPasses sqrt (.full k) dt n m).ghs = m.ghs) ∧
      ((afterPasses sqrt (.full k) dt n m).ut (.full k) =
          (afterPasses sqrt (.full k) dt 0 m).ut (.full k) ∧
        (afterPasses sqrt (.full k) dt n m).vt (.full k) =
          (afterPasses sqrt (.full k) dt 0 m).vt (.full k) ∧
        (afterPasses sqrt (.full k) dt n m).gdt (.full k) =
          (afterPasses sqrt (.full k) dt 0 m).gdt (.full k) ∧
        (afterPasses sqrt (.full k) dt n m).firstRun =
          (afterPasses sqrt (.full k) dt 0 m).firstRun)) ∧
    ((integrate sqrt (.full k) dt m).2.mesh = m.mesh ∧
      (integrate sqrt (.full k) dt m).2.radius = m.radius ∧
      (integrate sqrt (.full k) dt m).2.dlon = m.dlon ∧
      (integrate sqrt (.full k) dt m).2.dlat = m.dlat ∧
      (integrate sqrt (.full k) dt m).2.cosLat = m.cosLat ∧
      (integrate sqrt (.full k) dt m).2.tanLat = m.tanLat ∧
      (integrate sqrt (.full k) dt m).2.factorCor = m.factorCor ∧
      (integrate sqrt (.full k) dt m).2.factorCur = m.factorCur ∧
      (integrate sqrt (.full k) dt m).2.factorLon = m.factorLon ∧
      (integrate sqrt (.full k) dt m).2.factorLat = m.factorLat) := by
  obtain ⟨p, -, -, -, hp⟩ := integrate_result sqrt (.full k) dt m
  refine ⟨?_, ?_, ?_, ?_⟩
  · rw [hp]
    exact afterPasses_prognostic_old sqrt k dt m p
  · intro hf
    rw [hp]
    exact afterPasses_transformed_old sqrt k dt m hf p
  · intro n
    obtain ⟨-, -, -, h4, h5, h6, -⟩ := afterPasses_old sqrt k dt m n
    rw [afterPasses_firstRun, afterPasses_firstRun, afterPasses_zero]
    exact ⟨afterPasses_prognostic_old sqrt k dt m n, h4, h5, h6, rfl⟩
  · rw [hp]
    exact afterPasses_coefficients sqrt k dt m p

theorem integrate_keeps_old_level_witness :
    (integrate Real.sqrt (.full true) 6371
        (integrate Real.sqrt (.full false) 6371 (exampleModel ℝ)).2).2.ut (.full true) =
      (integrate Real.sqrt (.full false) 6371 (exampleModel ℝ)).2.ut (.full true) := by
  obtain ⟨-, h, -⟩ := integrate_keeps_old_level Real.sqrt true 6371
    (integrate Real.sqrt (.full false) 6371 (exampleModel ℝ)).2
  exact (h (integrate_firstRun Real.sqrt false 6371 (exampleModel ℝ))).1

/-- C23, as stated, fails where the halo of the surface geopotential is not periodic: the
state `exampleRest` on the small grid is one on which `integrate` has not run, with `u` and `v`
zero, `gd > 0` and `gd + ghs = 4` in every cell, halo included, and `fu`, `fv` zero in every
cell, and yet the first pass of `integrate` with a step of 1 leaves
`dut(1,1) = -3/38226000`. Its `ghs` is 3 in the halo column 0 and 0 elsewhere: the
boundary-condition pass fills the halo column of the new level of `gd` from column 2, the half
level of `gd` in the halo column becomes the mean `(1 + 4)/2`, and `gd + ghs` is `5.5` there
against 4 in column 2. -/
theorem integrate_rest_halo_counterexample :
    (exampleRest ℝ).firstRun = true ∧
    (∀ i j, (exampleRest ℝ).u (.full false) i j = 0 ∧ (exampleRest ℝ).v (.full false) i j = 0) ∧
    (∀ i j, 0 < (exampleRest ℝ).gd (.full false) i j) ∧
    (∀ i j, (exampleRest ℝ).gd (.full false) i j + (exampleRest ℝ).ghs i j = 4) ∧
    (∀ i j, (exampleRest ℝ).fu i j = 0 ∧ (exampleRest ℝ).fv i j = 0) ∧
    (afterPasses Real.sqrt (.full false) 1 1 (exampleRest ℝ)).dut 1 1 = -(3 / 38226000) :=
  ⟨exampleRest_firstRun, fun i j => exampleRest_wind _ i j, fun i j => exampleRest_gd_pos _ i j,
    fun i j => exampleRest_level _ i j, fun i j => exampleRest_flux i j,
    exampleRest_dut_first_pass Real.sqrt real_sqrt_four 1⟩

/-- C23, amended: on a mesh with at least one longitude and two distinct pole rows, let
`integrate` be called for the first time (the flag `firstRun` set) on a state whose `u` and `v`
at the old level are zero, whose `gd` at the old level is positive and whose `gd + ghs` at the
old level has one common non-zero value `c`, at every cell of the rows `js..je` and the columns
`is-1..ie+1`, whose `ghs` has periodic halo columns, whose buffers `fv`, `gdv`, `dut`, `dvt` are
zero on the pole rows, and whose `cosLat` is positive on every row, and let the square root be
positive on the positive numbers. Then for every `dt` the first pass leaves
`dgd = dut = dvt = 0` at every cell of the rows `js..je` and the columns `is..ie`, the new level
of `gd`, `u`, `v` equals the old level there, and the new level of `gdt` is positive there, so
that the quotients `ut / gdt` and `vt / gdt` have a non-zero divisor; the energy `e0` of the old
level is positive and the energy of the new level equals it, so that the quotient of the energy
test is `0 / (2 e0)`, and `integrate` leaves its loop by the `break` of the first pass, with
`iter = 1` and the state of that pass. -/
theorem integrate_rest_fixed_point (sqrt : α → α) (k : Bool) (dt c : α)
    (m : BarotropicModel α) (hmesh : m.mesh.WellFormed) (hfirst : m.firstRun = true)
    (hwind : ∀ i j, HaloCell m.mesh i j → m.u (.full k) i j = 0 ∧ m.v (.full k) i j = 0)
    (hgd : ∀ i j, HaloCell m.mesh i j → 0 < m.gd (.full k) i j)
    (hlevel : ∀ i j, HaloCell m.mesh i j → m.gd (.full k) i j + m.ghs i j = c)
    (hc : c ≠ 0) (hghs : PeriodicHalo m.mesh m.ghs)
    (hfv : ZeroAtPoles m.mesh m.fv) (hgdv : ZeroAtPoles m.mesh m.gdv)
    (hdut : ZeroAtPoles m.mesh m.dut) (hdvt : ZeroAtPoles m.mesh m.dvt)
    (hcos : ∀ j, m.mesh.js FULL ≤ j → j ≤ m.mesh.je FULL → 0 < m.cosLat j)
    (hsqrt : ∀ x, 0 < x → 0 < sqrt x) :
    (∀ i j, GridCell m.mesh i j →
      ((afterPasses sqrt (.full k) dt 1 m).dgd i j = 0 ∧
        (afterPasses sqrt (.full k) dt 1 m).dut i j = 0 ∧
        (afterPasses sqrt (.full k) dt 1 m).dvt i j = 0) ∧
      ((afterPasses sqrt (.full k) dt 1 m).gd (.full (!k)) i j = m.gd (.full k) i j ∧
        (afterPasses sqrt (.full k) dt 1 m).u (.full (!k)) i j = m.u (.full k) i j ∧
        (afterPasses sqrt (.full k) dt 1 m).v (.full (!k)) i j = m.v (.full k) i j) ∧
      0 < (afterPasses sqrt (.full k) dt 1 m).gdt (.full (!k)) i j) ∧
    0 < energyBefore sqrt (.full k) m ∧
    energyAfterPass sqrt (.full k) dt 1 m = energyBefore sqrt (.full k) m ∧
    integrate sqrt (.full k) dt m = (1, afterPasses sqrt (.full k) dt 1 m) := by
  have hr : AtRest k m := ⟨hmesh, hfirst, hwind, hfv, hgdv, hdut, hdvt⟩
  have hw := hr.windFree sqrt
  have hl := AtRest.level (k := k) sqrt hlevel
  have hg := AtRest.ghs (k := k) sqrt hghs
  refine ⟨?_, ?_, ?_, hr.integrate_first sqrt dt hlevel hghs⟩
  · intro i j hc
    have hc' : GridCell (startState sqrt (.full k) m).mesh i j := by
      rw [startState_mesh]
      exact hc
    have hh : HaloCell m.mesh i j := ⟨hc.1, by have := hc.2; omega, by have := hc.2; omega⟩
    obtain ⟨a1, a2, -, a4, a5⟩ := hw.pass sqrt dt hl hg i j hc'
    have hpos : 0 < (iterationBody sqrt (.full k) .half (.full (!k)) dt
        (startState sqrt (.full k) m)).gdt (.full (!k)) i j := by
      rw [iterationBody_gdt_new sqrt k dt _ i j hc', a2, (startState_old sqrt k m).2.2]
      exact hsqrt _ (hgd i j hh)
    rw [afterPasses_one, a2, a4, a5, (startState_old sqrt k m).2.2, (hwind i j hh).1,
      (hwind i j hh).2]
    exact ⟨a1, ⟨rfl, rfl, rfl⟩, hpos⟩
  · unfold energyBefore
    apply hw.energy_pos hl hc
    intro j h1 h2
    rw [startState_mesh] at h1 h2
    rw [(startState_frame sqrt k m).2.2.2.2.2.2.2.2.2.2.2.2.1]
    exact hcos j h1 h2
  · unfold energyAfterPass energyBefore
    rw [afterPasses_one]
    exact hw.energy sqrt dt hl hg

theorem integrate_rest_fixed_point_witness :
    0 < energyBefore Real.sqrt (.full false) (exampleCalm ℝ) ∧
      energyAfterPass Real.sqrt (.full false) 1 1 (exampleCalm ℝ) =
        energyBefore Real.sqrt (.full false) (exampleCalm ℝ) ∧
      integrate Real.sqrt (.full false) 1 (exampleCalm ℝ) =
        (1, afterPasses Real.sqrt (.full false) 1 1 (exampleCalm ℝ)) :=
  (integrate_rest_fixed_point Real.sqrt false 1 4 (exampleCalm ℝ) exampleCalm_wellFormed
    exampleCalm_firstRun (fun i j _ => exampleCalm_wind _ i j)
    (fun i j _ => exampleCalm_gd_pos _ i j)
    (fun i j _ => exampleCalm_level _ i j) (by norm_num) exampleCalm_ghs_periodic exampleCalm_fv
    exampleCalm_gdv exampleCalm_dut exampleCalm_dvt exampleCalm_cosLat_pos
    (fun _ hx => Real.sqrt_pos.2 hx)).2

/-! ### The build with assertions -/

section debug

variable (sqrt : α → α) (o h n : TimeLevelIndex) (dt e0 : α)

/-- A pass of the build with assertions is the pass of the build without them when the assertion
holds, and ends the run when it fails. -/
theorem iterationBodyDebug_eq (m : BarotropicModel α) :
    iterationBodyDebug sqrt o h n dt m =
      if DebugAssertion h m then some (iterationBody sqrt o h n dt m) else none := by
  unfold iterationBodyDebug calcGeopotentialDepthTendencyDebug DebugAssertion
  by_cases hc : |massTendencySum (calcGeopotentialDepthTendency h m)| < 1.0e-10
  · simp only [hc, if_true]
    rfl
  · simp only [hc, if_false]

theorem runIterationsDebug_zero (iter : Nat) (m : BarotropicModel α) :
    runIterationsDebug sqrt o h n dt e0 0 iter m = some (iter, m) := rfl

theorem runIterationsDebug_succ (remaining iter : Nat) (m : BarotropicModel α) :
    runIterationsDebug sqrt o h n dt e0 (remaining + 1) iter m =
      if DebugAssertion h m then
        if energyCriterion e0 (calcTotalEnergy n (iterationBody sqrt o h n dt m)) then
          some (iter, iterationBody sqrt o h n dt m)
        else runIterationsDebug sqrt o h n dt e0 remaining (iter + 1)
          (iterationBody sqrt o h n dt m)
      else none := by
  show (match iterationBodyDebug sqrt o h n dt m with
    | none => none
    | some m =>
      if energyCriterion e0 (calcTotalEnergy n m) then some (iter, m)
      else runIterationsDebug sqrt o h n dt e0 remaining (iter + 1) m) = _
  rw [iterationBodyDebug_eq]
  by_cases hc : DebugAssertion h m
  · rw [if_pos hc, if_pos hc]
  · rw [if_neg hc, if_neg hc]

/-- The loop variable never falls below its starting value. -/
theorem runIterations_fst_ge (remaining iter : Nat) (m : BarotropicModel α) :
    iter ≤ (runIterations sqrt o h n dt e0 remaining iter m).1 := by
  induction remaining generalizing iter m with
  | zero => exact le_refl _
  | succ r ih =>
    rw [runIterations_succ]
    split_ifs
    · exact le_refl _
    · exact le_trans (Nat.le_succ _) (ih (iter + 1) _)

/-- The loop of the build with assertions gives the result of the loop without them when the
assertion holds at the start of each pass that loop runs, and no result when it fails at the
start of one of them. -/
theorem runIterationsDebug_eq (remaining iter : Nat) (m : BarotropicModel α) :
    ((∀ p, p < min ((runIterations sqrt o h n dt e0 remaining iter m).1 + 1 - iter) remaining →
        DebugAssertion h ((iterationBody sqrt o h n dt)^[p] m)) →
      runIterationsDebug sqrt o h n dt e0 remaining iter m =
        some (runIterations sqrt o h n dt e0 remaining iter m)) ∧
    ((∃ p, p < min ((runIterations sqrt o h n dt e0 remaining iter m).1 + 1 - iter) remaining ∧
        ¬ DebugAssertion h ((iterationBody sqrt o h n dt)^[p] m)) →
      runIterationsDebug sqrt o h n dt e0 remaining iter m = none) := by
  induction remaining generalizing iter m with
  | zero =>
    refine ⟨fun _ => rfl, ?_⟩
    rintro ⟨p, hp, -⟩
    simp at hp
  | succ r ih =>
    rw [runIterationsDebug_succ, runIterations_succ]
    by_cases hcrit : energyCriterion e0 (calcTotalEnergy n (iterationBody sqrt o h n dt m)) = true
    · rw [if_pos hcrit, if_pos hcrit]
      have hone : min (iter + 1 - iter) (r + 1) = 1 := by
        rw [Nat.add_sub_cancel_left]
        omega
      show ((∀ p, p < min (iter + 1 - iter) (r + 1) → _) → _) ∧
        ((∃ p, p < min (iter + 1 - iter) (r + 1) ∧ _) → _)
      rw [hone]
      constructor
      · intro hall
        have h0 : DebugAssertion h m := hall 0 Nat.one_pos
        rw [if_pos h0]
      · rintro ⟨p, hp, hnot⟩
        have hp0 : p = 0 := by omega
        subst hp0
        have h0 : ¬ DebugAssertion h m := hnot
        rw [if_neg h0]
    · rw [if_neg hcrit, if_neg hcrit]
      have hge := runIterations_fst_ge sqrt o h n dt e0 r (iter + 1)
        (iterationBody sqrt o h n dt m)
      obtain ⟨ih1, ih2⟩ := ih (iter + 1) (iterationBody sqrt o h n dt m)
      have hcount : min ((runIterations sqrt o h n dt e0 r (iter + 1)
            (iterationBody sqrt o h n dt m)).1 + 1 - iter) (r + 1) =
          min ((runIterations sqrt o h n dt e0 r (iter + 1)
            (iterationBody sqrt o h n dt m)).1 + 1 - (iter + 1)) r + 1 := by
        omega
      rw [hcount]
      constructor
      · intro hall
        have h0 : DebugAssertion h m := hall 0 (Nat.succ_pos _)
        rw [if_pos h0]
        apply ih1
        intro p hp
        have := hall (p + 1) (by omega)
        rwa [Function.iterate_succ_apply] at this
      · rintro ⟨p, hp, hnot⟩
        by_cases hc : DebugAssertion h m
        · rw [if_pos hc]
          apply ih2
          cases p with
          | zero => exact absurd hc hnot
          | succ q =>
            refine ⟨q, by omega, ?_⟩
            rwa [Function.iterate_succ_apply] at hnot
        · rw [if_neg hc]

end debug

section run

variable (sqrt : α → α) (oldTimeIdx : TimeLevelIndex) (dt : α) (m : BarotropicModel α)

theorem integrateDebug_eq :
    integrateDebug sqrt oldTimeIdx dt m =
      runIterationsDebug sqrt oldTimeIdx oldTimeIdx.plusHalf oldTimeIdx.plusOne dt
        (calcTotalEnergy oldTimeIdx (startState sqrt oldTimeIdx m)) 8 1
        (startState sqrt oldTimeIdx m) := rfl

/-- The build with assertions returns what the build without them returns, when the assertion
holds at the start of each pass that `integrate` runs. -/
theorem integrateDebug_of_assertions
    (hall : ∀ p, p < passesRun (integrate sqrt oldTimeIdx dt m).1 →
      DebugAssertion oldTimeIdx.plusHalf (afterPasses sqrt oldTimeIdx dt p m)) :
    integrateDebug sqrt oldTimeIdx dt m = some (integrate sqrt oldTimeIdx dt m) := by
  rw [integrateDebug_eq, integrate_eq]
  apply (runIterationsDebug_eq sqrt _ _ _ dt _ 8 1 _).1
  intro p hp
  apply hall p
  rw [integrate_eq]
  unfold passesRun
  rwa [Nat.add_sub_cancel] at hp

/-- The build with assertions returns nothing when the assertion fails at the start of a pass
that `integrate` runs. -/
theorem integrateDebug_of_failure
    (hsome : ∃ p, p < passesRun (integrate sqrt oldTimeIdx dt m).1 ∧
      ¬ DebugAssertion oldTimeIdx.plusHalf (afterPasses sqrt oldTimeIdx dt p m)) :
    integrateDebug sqrt oldTimeIdx dt m = none := by
  rw [integrateDebug_eq]
  apply (runIterationsDebug_eq sqrt _ _ _ dt _ 8 1 _).2
  obtain ⟨p, hp, hnot⟩ := hsome
  refine ⟨p, ?_, hnot⟩
  rw [integrate_eq] at hp
  unfold passesRun at hp
  rwa [Nat.add_sub_cancel]

/-- The build with assertions returns a result exactly when the assertion holds at the start of
each pass that `integrate` runs, and that result is the one of the build without them. -/
theorem integrateDebug_eq_some_iff (r : Nat × BarotropicModel α) :
    integrateDebug sqrt oldTimeIdx dt m = some r ↔
      r = integrate sqrt oldTimeIdx dt m ∧
        ∀ p, p < passesRun r.1 →
          DebugAssertion oldTimeIdx.plusHalf (afterPasses sqrt oldTimeIdx dt p m) := by
  constructor
  · intro hr
    by_cases hall : ∀ p, p < passesRun (integrate sqrt oldTimeIdx dt m).1 →
        DebugAssertion oldTimeIdx.plusHalf (afterPasses sqrt oldTimeIdx dt p m)
    · rw [integrateDebug_of_assertions sqrt oldTimeIdx dt m hall] at hr
      have e : r = integrate sqrt oldTimeIdx dt m := (Option.some.inj hr).symm
      rw [e]
      exact ⟨rfl, hall⟩
    · push_neg at hall
      rw [integrateDebug_of_failure sqrt oldTimeIdx dt m hall] at hr
      exact absurd hr (by simp)
  · rintro ⟨e, hall⟩
    rw [e] at hall ⊢
    exact integrateDebug_of_assertions sqrt oldTimeIdx dt m hall

theorem integrateDebug_eq_none_iff :
    integrateDebug sqrt oldTimeIdx dt m = none ↔
      ∃ p, p < passesRun (integrate sqrt oldTimeIdx dt m).1 ∧
        ¬ DebugAssertion oldTimeIdx.plusHalf (afterPasses sqrt oldTimeIdx dt p m) := by
  constructor
  · intro hr
    by_contra hno
    push_neg at hno
    rw [integrateDebug_of_assertions sqrt oldTimeIdx dt m hno] at hr
    exact absurd hr (by simp)
  · exact integrateDebug_of_failure sqrt oldTimeIdx dt m

end run

/-! ### The assertion under the preconditions of the mass balance -/

section balance

variable (sqrt : α → α) (k : Bool) (dt : α) (m : BarotropicModel α)

/-- Under the preconditions of the mass balance the sum that the assertion tests is zero at the
start of every pass. -/
theorem afterPasses_massTendencySum (hmesh : m.mesh.WellFormed)
    (hgdv : ZeroAtPoles m.mesh m.gdv) (hcos : CosLatNonzero m) (hfac : InitFactors m)
    (hhalo : if m.firstRun then
        PeriodicHalo m.mesh (m.u (.full k)) ∧ PeriodicHalo m.mesh (m.gd (.full k))
      else
        PeriodicHalo m.mesh (m.ut (.full k)) ∧ PeriodicHalo m.mesh (m.gdt (.full k)) ∧
        PeriodicHalo m.mesh (m.ut .half) ∧ PeriodicHalo m.mesh (m.gdt .half))
    (p : Nat) :
    massTendencySum
      (calcGeopotentialDepthTendency .half (afterPasses sqrt (.full k) dt p m)) = 0 := by
  have hinv := massInvariant_afterPasses sqrt k dt m hmesh hgdv hhalo p
  apply massTendencySum_zero
  · rw [hinv.mesh]; exact hmesh
  · rw [hinv.mesh]; exact hinv.utHalf
  · rw [hinv.mesh]; exact hinv.gdtHalf
  · rw [hinv.mesh]; exact hinv.gdv
  · intro j h1 h2
    rw [hinv.cosLat]
    rw [hinv.mesh] at h1 h2
    exact hcos j h1 h2
  · intro j h1 h2
    rw [hinv.factorLon, hinv.factorLat, hinv.dlon, hinv.dlat, hinv.radius, hinv.cosLat]
    rw [hinv.mesh] at h1 h2
    exact hfac j h1 h2

theorem afterPasses_debugAssertion (hmesh : m.mesh.WellFormed)
    (hgdv : ZeroAtPoles m.mesh m.gdv) (hcos : CosLatNonzero m) (hfac : InitFactors m)
    (hhalo : if m.firstRun then
        PeriodicHalo m.mesh (m.u (.full k)) ∧ PeriodicHalo m.mesh (m.gd (.full k))
      else
        PeriodicHalo m.mesh (m.ut (.full k)) ∧ PeriodicHalo m.mesh (m.gdt (.full k)) ∧
        PeriodicHalo m.mesh (m.ut .half) ∧ PeriodicHalo m.mesh (m.gdt .half))
    (p : Nat) :
    DebugAssertion .half (afterPasses sqrt (.full k) dt p m) := by
  unfold DebugAssertion
  rw [afterPasses_massTendencySum sqrt k dt m hmesh hgdv hcos hfac hhalo p, abs_zero]
  norm_num

end balance

/-! ### A state with a halo that is not periodic -/

theorem exampleModel_factorLat_zero : (exampleModel α).factorLat 0 = 1 / 3344775 := by
  unfold exampleModel
  rw [init_eq]
  simp only [cosLatSet, exampleMesh, exampleRaw]
  norm_num

theorem exampleOpen_fields :
    (exampleOpen α).mesh = (exampleModel α).mesh ∧
    (exampleOpen α).v = (exampleModel α).v ∧
    (exampleOpen α).gd = (exampleModel α).gd ∧
    (exampleOpen α).gdv = (exampleModel α).gdv ∧
    (exampleOpen α).cosLat = (exampleModel α).cosLat ∧
    (exampleOpen α).factorLon = (exampleModel α).factorLon ∧
    (exampleOpen α).factorLat = (exampleModel α).factorLat ∧
    (exampleOpen α).firstRun = (exampleModel α).firstRun := by
  unfold exampleOpen
  refine ⟨?_, ?_, ?_, ?_, ?_, ?_, ?_, ?_⟩ <;> dsimp only

theorem exampleOpen_mesh : (exampleOpen α).mesh = exampleMesh α := by
  rw [exampleOpen_fields.1, exampleModel_mesh]

theorem exampleOpen_firstRun : (exampleOpen α).firstRun = true := by
  rw [exampleOpen_fields.2.2.2.2.2.2.2, exampleModel_firstRun]

theorem exampleOpen_u (t : TimeLevelIndex) (i j : Int) :
    (exampleOpen α).u t i j = if i = 3 ∧ j = 1 then 1 else 0 := by
  unfold exampleOpen
  rfl

/-- The halo columns of the wind `u` of `exampleOpen` are not periodic images: on the equator
row the halo column 3 holds 1, the column 1 holds 0. -/
theorem exampleOpen_u_not_periodic (t : TimeLevelIndex) :
    ¬ PeriodicHalo (exampleOpen α).mesh ((exampleOpen α).u t) := by
  intro h
  have h1 := (h 1 (by rw [exampleOpen_mesh, exampleMesh_js]; norm_num)
    (by rw [exampleOpen_mesh, exampleMesh_je]; norm_num)).2
  rw [exampleOpen_mesh, exampleMesh_is, exampleMesh_ie, exampleOpen_u, exampleOpen_u] at h1
  norm_num at h1

/-- The sum that the assertion tests, in terms of the tendency that the method computes. -/
theorem massTendencySum_calc (timeIdx : TimeLevelIndex) (m : BarotropicModel α) :
    massTendencySum (calcGeopotentialDepthTendency timeIdx m) =
      loopSum (m.mesh.js FULL) (m.mesh.je FULL)
        (fun j => loopSum (m.mesh.is FULL) (m.mesh.ie FULL)
          (fun i => depthTendency timeIdx m i j * m.cosLat j)) := by
  rw [massTendencySum_eq, calcGeopotentialDepthTendency_eq]
  simp only [zero_add]

section openHalo

variable (sqrt : α → α)

theorem exampleOpen_start_mesh :
    (startState sqrt (.full false) (exampleOpen α)).mesh = exampleMesh α := by
  rw [startState_mesh, exampleOpen_mesh]

theorem exampleOpen_fluxU (hsqrt : sqrt 1 = 1) (i : Int) (h1 : 0 ≤ i) (h2 : i ≤ 3) :
    massFluxU .half (startState sqrt (.full false) (exampleOpen α)) i 1 =
      if i = 3 then 1 else 0 := by
  have hc : HaloCell (exampleOpen α).mesh i 1 := by
    rw [exampleOpen_mesh, exampleMesh_haloCell]
    omega
  obtain ⟨-, -, -, g4, g5, -⟩ :=
    startState_half sqrt false (exampleOpen α) exampleOpen_firstRun i 1 hc
  unfold Barotropic.massFluxU
  rw [exampleOpen_start_mesh, exampleMesh_is, exampleMesh_ie, exampleMesh_js, exampleMesh_je,
    if_pos ⟨by omega, by omega⟩, g4, g5, exampleOpen_fields.2.2.1,
    (exampleModel_rest _ i 1).2.2, hsqrt, exampleOpen_u]
  split_ifs with ha hb hb
  · norm_num
  · exact absurd ha.1 hb
  · exact absurd ⟨hb, rfl⟩ ha
  · norm_num

theorem exampleOpen_fluxV (i j : Int) :
    massFluxV .half (startState sqrt (.full false) (exampleOpen α)) i j = 0 := by
  unfold Barotropic.massFluxV
  rw [exampleOpen_start_mesh, exampleMesh_is, exampleMesh_ie, exampleMesh_js, exampleMesh_je]
  split_ifs with hc
  · have hh : HaloCell (exampleOpen α).mesh i j := by
      rw [exampleOpen_mesh, exampleMesh_haloCell]
      omega
    obtain ⟨-, -, -, -, -, g6⟩ :=
      startState_half sqrt false (exampleOpen α) exampleOpen_firstRun i j hh
    rw [g6, exampleOpen_fields.2.1, (exampleModel_rest _ i j).2.1]
    simp
  · rw [(startState_frame sqrt false (exampleOpen α)).2.2.2.2.2.2.2.2.2.1,
      exampleOpen_fields.2.2.2.1]
    exact (exampleModel_buffers i j).2.2

/-- The tendency `dgd` that the first pass computes on `exampleOpen`: zero but at the cell of
column 2 on the equator row, whose eastern neighbour is the halo column 3. -/
theorem exampleOpen_tendency (hsqrt : sqrt 1 = 1) (i j : Int)
    (h : GridCell (exampleMesh α) i j) :
    depthTendency .half (startState sqrt (.full false) (exampleOpen α)) i j =
      if i = 2 ∧ j = 1 then 1 / 38226000 else 0 := by
  obtain ⟨⟨h1, h2⟩, h3, h4⟩ := (exampleMesh_gridCell i j).1 h
  have hm := exampleOpen_start_mesh (α := α) sqrt
  have hj : j = 0 ∨ j = 1 ∨ j = 2 := by omega
  rcases hj with hj | hj | hj <;> subst hj
  · have := depthTendency_south .half (startState sqrt (.full false) (exampleOpen α)) i
      (by rw [hm]; exact h3) (by rw [hm]; exact h4)
      (by rw [hm, exampleMesh_js, exampleMesh_je]; omega)
    rw [hm] at this
    rw [if_neg (by omega), show (0 : Int) = (exampleMesh α).js FULL from rfl, this]
    unfold southPoleTendency
    rw [hm, exampleMesh_is, exampleMesh_ie, loopSum_one_two, exampleOpen_fluxV,
      exampleOpen_fluxV]
    simp
  · rw [depthTendency_interior .half _ i 1 (by rw [hm]; exact h3)
      (by rw [hm]; exact h4) (by rw [hm, exampleMesh_js]; omega)
      (by rw [hm, exampleMesh_je]; omega), exampleOpen_fluxV, exampleOpen_fluxV,
      exampleOpen_fluxU sqrt hsqrt (i + 1) (by omega) (by omega),
      exampleOpen_fluxU sqrt hsqrt (i - 1) (by omega) (by omega),
      (startState_frame sqrt false (exampleOpen α)).2.2.2.2.2.2.2.2.2.2.2.2.2.2.2.2.1,
      exampleOpen_fields.2.2.2.2.2.1, exampleModel_factorLon_one]
    have hi : i = 1 ∨ i = 2 := by omega
    rcases hi with hi | hi <;> subst hi <;> norm_num
  · have := depthTendency_north .half (startState sqrt (.full false) (exampleOpen α)) i
      (by rw [hm]; exact h3) (by rw [hm]; exact h4)
    rw [hm] at this
    rw [if_neg (by omega), show (2 : Int) = (exampleMesh α).je FULL from rfl, this]
    unfold northPoleTendency
    rw [hm, exampleMesh_is, exampleMesh_ie, loopSum_one_two, exampleOpen_fluxV,
      exampleOpen_fluxV]
    simp

/-- The sum `tmp` that the assertion tests in the first pass on `exampleOpen`. -/
theorem exampleOpen_massTendencySum (hsqrt : sqrt 1 = 1) :
    massTendencySum (calcGeopotentialDepthTendency .half
      (startState sqrt (.full false) (exampleOpen α))) = 1 / 38226000 := by
  rw [massTendencySum_calc]
  have hcell : ∀ i j, 1 ≤ i → i ≤ 2 → 0 ≤ j → j ≤ 2 →
      depthTendency .half (startState sqrt (.full false) (exampleOpen α)) i j =
        if i = 2 ∧ j = 1 then 1 / 38226000 else 0 :=
    fun i j h1 h2 h3 h4 => exampleOpen_tendency sqrt hsqrt i j
      ((exampleMesh_gridCell i j).2 ⟨⟨h3, h4⟩, h1, h2⟩)
  rw [exampleOpen_start_mesh, exampleMesh_is, exampleMesh_ie, exampleMesh_js, exampleMesh_je,
    loopSum_zero_two, loopSum_one_two, loopSum_one_two, loopSum_one_two,
    hcell 1 0 (by omega) (by omega) (by omega) (by omega),
    hcell 2 0 (by omega) (by omega) (by omega) (by omega),
    hcell 1 1 (by omega) (by omega) (by omega) (by omega),
    hcell 2 1 (by omega) (by omega) (by omega) (by omega),
    hcell 1 2 (by omega) (by omega) (by omega) (by omega),
    hcell 2 2 (by omega) (by omega) (by omega) (by omega),
    (startState_frame sqrt false (exampleOpen α)).2.2.2.2.2.2.2.2.2.2.2.2.1,
    exampleOpen_fields.2.2.2.2.1, exampleModel_cosLat_one]
  norm_num

/-- The assertion fails in the first pass on `exampleOpen`. -/
theorem exampleOpen_not_debugAssertion (hsqrt : sqrt 1 = 1) (dt : α) :
    ¬ DebugAssertion .half (afterPasses sqrt (.full false) dt 0 (exampleOpen α)) := by
  rw [afterPasses_zero]
  unfold DebugAssertion
  rw [exampleOpen_massTendencySum sqrt hsqrt]
  rw [abs_of_pos (by norm_num)]
  norm_num

end openHalo

/-! ### A state whose depth turns negative at a pole -/

theorem exampleDrift_fields :
    (exampleDrift α).mesh = (exampleModel α).mesh ∧
    (exampleDrift α).u = (exampleModel α).u ∧
    (exampleDrift α).gd = (exampleModel α).gd ∧
    (exampleDrift α).gdv = (exampleModel α).gdv ∧
    (exampleDrift α).dut = (exampleModel α).dut ∧
    (exampleDrift α).dvt = (exampleModel α).dvt ∧
    (exampleDrift α).cosLat = (exampleModel α).cosLat ∧
    (exampleDrift α).factorLat = (exampleModel α).factorLat ∧
    (exampleDrift α).firstRun = (exampleModel α).firstRun := by
  unfold exampleDrift
  refine ⟨?_, ?_, ?_, ?_, ?_, ?_, ?_, ?_, ?_⟩ <;> dsimp only

theorem exampleDrift_mesh : (exampleDrift α).mesh = exampleMesh α := by
  rw [exampleDrift_fields.1, exampleModel_mesh]

theorem exampleDrift_wellFormed : (exampleDrift α).mesh.WellFormed := by
  rw [exampleDrift_mesh]
  exact exampleMesh_wellFormed

theorem exampleDrift_firstRun : (exampleDrift α).firstRun = true := by
  rw [exampleDrift_fields.2.2.2.2.2.2.2.2, exampleModel_firstRun]

theorem exampleDrift_v (t : TimeLevelIndex) (i j : Int) :
    (exampleDrift α).v t i j = if j = 1 then 1 else 0 := by
  unfold exampleDrift
  rfl

theorem exampleDrift_gd (t : TimeLevelIndex) (i j : Int) : (exampleDrift α).gd t i j = 1 := by
  rw [exampleDrift_fields.2.2.1]
  exact (exampleModel_rest t i j).2.2

theorem exampleDrift_u_poles (t : TimeLevelIndex) :
    ZeroAtPoles (exampleDrift α).mesh ((exampleDrift α).u t) := by
  rw [exampleDrift_fields.1, exampleDrift_fields.2.1]
  exact exampleModel_u_poles t

theorem exampleDrift_v_poles (t : TimeLevelIndex) :
    ZeroAtPoles (exampleDrift α).mesh ((exampleDrift α).v t) := by
  intro i _ _
  rw [exampleDrift_mesh, exampleMesh_js, exampleMesh_je, exampleDrift_v, exampleDrift_v]
  norm_num

theorem exampleDrift_dut : ZeroAtPoles (exampleDrift α).mesh (exampleDrift α).dut := by
  rw [exampleDrift_fields.1, exampleDrift_fields.2.2.2.2.1]
  exact exampleModel_dut

theorem exampleDrift_dvt : ZeroAtPoles (exampleDrift α).mesh (exampleDrift α).dvt := by
  rw [exampleDrift_fields.1, exampleDrift_fields.2.2.2.2.2.1]
  exact exampleModel_dvt

section drift

variable (sqrt : α → α)

theorem exampleDrift_start_mesh :
    (startState sqrt (.full false) (exampleDrift α)).mesh = exampleMesh α := by
  rw [startState_mesh, exampleDrift_mesh]

theorem exampleDrift_fluxV (hsqrt : sqrt 1 = 1) (i : Int) (h1 : 0 ≤ i) (h2 : i ≤ 3) :
    massFluxV .half (startState sqrt (.full false) (exampleDrift α)) i 1 = 1 := by
  have hc : HaloCell (exampleDrift α).mesh i 1 := by
    rw [exampleDrift_mesh, exampleMesh_haloCell]
    omega
  obtain ⟨-, -, -, g4, -, g6⟩ :=
    startState_half sqrt false (exampleDrift α) exampleDrift_firstRun i 1 hc
  unfold Barotropic.massFluxV
  rw [exampleDrift_start_mesh, exampleMesh_is, exampleMesh_ie, exampleMesh_js, exampleMesh_je,
    if_pos ⟨by omega, by omega⟩, g4, g6, exampleDrift_gd, hsqrt, exampleDrift_v,
    (startState_frame sqrt false (exampleDrift α)).2.2.2.2.2.2.2.2.2.2.2.2.1,
    exampleDrift_fields.2.2.2.2.2.2.1, exampleModel_cosLat_one]
  norm_num

/-- The first pass of `integrate` on `exampleDrift` with the step `dt`: the wind of the equator
row carries depth away from the south pole, whose new depth is `1 - dt / 3344775`. -/
theorem exampleDrift_gd_first_pass (hsqrt : sqrt 1 = 1) (dt : α) :
    (afterPasses sqrt (.full false) dt 1 (exampleDrift α)).gd (.full (!false)) 1 0 =
      1 - dt * (1 / 3344775) := by
  have hm := exampleDrift_start_mesh (α := α) sqrt
  have hc : GridCell (startState sqrt (.full false) (exampleDrift α)).mesh 1 0 := by
    rw [hm, exampleMesh_gridCell]
    omega
  have hs := depthTendency_south .half (startState sqrt (.full false) (exampleDrift α)) 1
    (by rw [hm, exampleMesh_is]) (by rw [hm, exampleMesh_ie]; omega)
    (by rw [hm, exampleMesh_js, exampleMesh_je]; omega)
  rw [hm, exampleMesh_js] at hs
  rw [afterPasses_one, iterationBody_gd_new sqrt false dt _ 1 0 hc, hs,
    (startState_old sqrt false (exampleDrift α)).2.2, exampleDrift_gd]
  unfold southPoleTendency
  rw [hm, exampleMesh_is, exampleMesh_ie, exampleMesh_js, loopSum_one_two,
    show (0 : Int) + 1 = 1 from rfl,
    exampleDrift_fluxV sqrt hsqrt 1 (by omega) (by omega),
    exampleDrift_fluxV sqrt hsqrt 2 (by omega) (by omega),
    (startState_frame sqrt false (exampleDrift α)).2.2.2.2.2.2.2.2.2.2.2.2.2.2.2.2.2,
    exampleDrift_fields.2.2.2.2.2.2.2.1, exampleModel_factorLat_zero, exampleMesh_numLon]
  norm_num

/-- In the state that a pass leaves, the transformed depth of a cell is the square root of its
depth, and its winds are the quotients of the transformed winds by the transformed depth. -/
theorem afterPasses_quotients (k : Bool) (dt : α) (m : BarotropicModel α) (n : Nat)
    (hn : 1 ≤ n) (i j : Int) (hc : GridCell m.mesh i j) :
    (afterPasses sqrt (.full k) dt n m).gdt (.full (!k)) i j =
        sqrt ((afterPasses sqrt (.full k) dt n m).gd (.full (!k)) i j) ∧
      (afterPasses sqrt (.full k) dt n m).u (.full (!k)) i j =
        (afterPasses sqrt (.full k) dt n m).ut (.full (!k)) i j /
          (afterPasses sqrt (.full k) dt n m).gdt (.full (!k)) i j ∧
      (afterPasses sqrt (.full k) dt n m).v (.full (!k)) i j =
        (afterPasses sqrt (.full k) dt n m).vt (.full (!k)) i j /
          (afterPasses sqrt (.full k) dt n m).gdt (.full (!k)) i j := by
  obtain ⟨n, rfl⟩ : ∃ p, n = p + 1 := ⟨n - 1, by omega⟩
  have hc' : GridCell (afterPasses sqrt (.full k) dt n m).mesh i j := by
    rw [afterPasses_mesh]
    exact hc
  rw [afterPasses_succ]
  exact ⟨iterationBody_gdt_new sqrt k dt _ i j hc', iterationBody_u_new sqrt k dt _ i j hc',
    iterationBody_v_new sqrt k dt _ i j hc'⟩

end drift

/-! ### The depth of the state of rest on the small grid -/

theorem exampleModel_gd_new (sqrt : α → α) (hsqrt : sqrt 1 = 1) (n : Nat) (hn : 1 ≤ n)
    (i j : Int) (hc : GridCell (exampleModel α).mesh i j) :
    (afterPasses sqrt (.full false) 6371 n (exampleModel α)).gd (.full (!false)) i j = 1 := by
  obtain ⟨n, rfl⟩ : ∃ p, n = p + 1 := ⟨n - 1, by omega⟩
  obtain ⟨b, hb⟩ := exampleModel_afterPasses sqrt hsqrt n
  rw [exampleModel_mesh, exampleMesh_gridCell] at hc
  rw [afterPasses_succ, iterationBody_gd_eq]
  exact hb.gd_new i j ((exampleMesh_haloCell i j).2 ⟨hc.1, by omega, by omega⟩)

/-! ## The passes of `integrate`, the assertion and the square roots -/

/-- C7, as stated, fails where a pass leaves a depth that is not positive on a pole row:
`exampleDrift` is the state on the small grid after `init` with `gd = 1`, `u = 0` and a wind
`v` that is 1 on the equator row and zero on both pole rows, so that the hypotheses of the claim
hold on the first call of `integrate`. With `dt = 1e7` the first pass leaves the depth
`gd = 1 - 1e7/3344775 = -266209/133791` at the cell of column 1 of the south pole row. The pass
then sets `gdt` to the square root of this negative number and `u`, `v` to the quotients
`ut / gdt`, `vt / gdt`: in the floating-point arithmetic of the code the square root is NaN and
so are `u` and `v` at the pole, not zero. -/
theorem integrate_poles_negative_depth :
    (exampleDrift ℝ).mesh.WellFormed ∧ (exampleDrift ℝ).firstRun = true ∧
    ZeroAtPoles (exampleDrift ℝ).mesh ((exampleDrift ℝ).u (.full false)) ∧
    ZeroAtPoles (exampleDrift ℝ).mesh ((exampleDrift ℝ).v (.full false)) ∧
    ZeroAtPoles (exampleDrift ℝ).mesh (exampleDrift ℝ).dut ∧
    ZeroAtPoles (exampleDrift ℝ).mesh (exampleDrift ℝ).dvt ∧
    (∀ i j, (exampleDrift ℝ).gd (.full false) i j = 1) ∧
    (afterPasses Real.sqrt (.full false) 10000000 1 (exampleDrift ℝ)).gd (.full (!false)) 1 0 =
      -(266209 / 133791) ∧
    (afterPasses Real.sqrt (.full false) 10000000 1 (exampleDrift ℝ)).gdt (.full (!false)) 1 0 =
      Real.sqrt (-(266209 / 133791)) ∧
    (afterPasses Real.sqrt (.full false) 10000000 1 (exampleDrift ℝ)).u (.full (!false)) 1 0 =
      (afterPasses Real.sqrt (.full false) 10000000 1 (exampleDrift ℝ)).ut (.full (!false)) 1 0 /
        Real.sqrt (-(266209 / 133791)) ∧
    (afterPasses Real.sqrt (.full false) 10000000 1 (exampleDrift ℝ)).v (.full (!false)) 1 0 =
      (afterPasses Real.sqrt (.full false) 10000000 1 (exampleDrift ℝ)).vt (.full (!false)) 1 0 /
        Real.sqrt (-(266209 / 133791)) := by
  have hgd : (afterPasses Real.sqrt (.full false) 10000000 1 (exampleDrift ℝ)).gd
      (.full (!false)) 1 0 = -(266209 / 133791) := by
    rw [exampleDrift_gd_first_pass Real.sqrt Real.sqrt_one]
    norm_num
  have hc : GridCell (exampleDrift ℝ).mesh 1 0 := by
    rw [exampleDrift_mesh, exampleMesh_gridCell]
    omega
  obtain ⟨q1, q2, q3⟩ := afterPasses_quotients Real.sqrt false 10000000 (exampleDrift ℝ) 1
    (le_refl _) 1 0 hc
  rw [hgd] at q1
  rw [q1] at q2 q3
  exact ⟨exampleDrift_wellFormed, exampleDrift_firstRun, exampleDrift_u_poles _,
    exampleDrift_v_poles _, exampleDrift_dut, exampleDrift_dvt,
    fun i j => exampleDrift_gd _ i j, hgd, q1, q2, q3⟩

/-- C7, amended: on a mesh with two distinct pole rows, let `integrate` be called for the first
time on a state whose old-level winds `u` and `v` are zero at every longitude of both pole
rows, whose tendencies `dut` and `dvt` are zero there as `init` leaves them, and whose old-level
depth `gd` is not negative at any cell of the rows `js..je` and the columns `is-1..ie+1`, and
let the square root be positive on the positive numbers. Then for every `dt` and every pass `n`
such that the passes `1..n` leave a positive new-level depth `gd` at every cell of the grid,
the new-level `gdt` is positive at every cell of the grid, so that the quotients `ut / gdt` and
`vt / gdt` have a non-zero divisor, and the new-level `ut`, `vt`, `u` and `v` are zero at every
longitude of both pole rows; and so they are in the state that `integrate` returns, when each
pass that it has run leaves a positive depth. -/
theorem integrate_poles_zero_wind (sqrt : α → α) (k : Bool) (dt : α) (m : BarotropicModel α)
    (hmesh : m.mesh.WellFormed) (hfirst : m.firstRun = true)
    (hu : ZeroAtPoles m.mesh (m.u (.full k))) (hv : ZeroAtPoles m.mesh (m.v (.full k)))
    (hdut : ZeroAtPoles m.mesh m.dut) (hdvt : ZeroAtPoles m.mesh m.dvt)
    (hsqrt : ∀ x, 0 < x → 0 < sqrt x)
    (hold : ∀ i j, HaloCell m.mesh i j → 0 ≤ m.gd (.full k) i j) :
    (∀ n, 1 ≤ n →
      (∀ p, 1 ≤ p → p ≤ n → ∀ i j, GridCell m.mesh i j →
        0 < (afterPasses sqrt (.full k) dt p m).gd (.full (!k)) i j) →
      (∀ i j, GridCell m.mesh i j →
        0 < (afterPasses sqrt (.full k) dt n m).gdt (.full (!k)) i j) ∧
      ZeroAtPoles m.mesh ((afterPasses sqrt (.full k) dt n m).ut (.full (!k))) ∧
      ZeroAtPoles m.mesh ((afterPasses sqrt (.full k) dt n m).vt (.full (!k))) ∧
      ZeroAtPoles m.mesh ((afterPasses sqrt (.full k) dt n m).u (.full (!k))) ∧
      ZeroAtPoles m.mesh ((afterPasses sqrt (.full k) dt n m).v (.full (!k)))) ∧
    ((∀ p, 1 ≤ p → p ≤ passesRun (integrate sqrt (.full k) dt m).1 →
        ∀ i j, GridCell m.mesh i j →
          0 < (afterPasses sqrt (.full k) dt p m).gd (.full (!k)) i j) →
      (∀ i j, GridCell m.mesh i j →
        0 < (integrate sqrt (.full k) dt m).2.gdt (.full (!k)) i j) ∧
      ZeroAtPoles m.mesh ((integrate sqrt (.full k) dt m).2.ut (.full (!k))) ∧
      ZeroAtPoles m.mesh ((integrate sqrt (.full k) dt m).2.vt (.full (!k))) ∧
      ZeroAtPoles m.mesh ((integrate sqrt (.full k) dt m).2.u (.full (!k))) ∧
      ZeroAtPoles m.mesh ((integrate sqrt (.full k) dt m).2.v (.full (!k)))) := by
  have _ := hold
  have hpass : ∀ n, 1 ≤ n →
      (∀ p, 1 ≤ p → p ≤ n → ∀ i j, GridCell m.mesh i j →
        0 < (afterPasses sqrt (.full k) dt p m).gd (.full (!k)) i j) →
      (∀ i j, GridCell m.mesh i j →
        0 < (afterPasses sqrt (.full k) dt n m).gdt (.full (!k)) i j) ∧
      ZeroAtPoles m.mesh ((afterPasses sqrt (.full k) dt n m).ut (.full (!k))) ∧
      ZeroAtPoles m.mesh ((afterPasses sqrt (.full k) dt n m).vt (.full (!k))) ∧
      ZeroAtPoles m.mesh ((afterPasses sqrt (.full k) dt n m).u (.full (!k))) ∧
      ZeroAtPoles m.mesh ((afterPasses sqrt (.full k) dt n m).v (.full (!k))) := by
    intro n hn hpos
    refine ⟨?_, afterPasses_poles_zero sqrt k dt m hmesh hfirst hu hv hdut hdvt n hn⟩
    intro i j hc
    rw [(afterPasses_quotients sqrt k dt m n hn i j hc).1]
    exact hsqrt _ (hpos n hn (le_refl _) i j hc)
  refine ⟨hpass, ?_⟩
  obtain ⟨n, h1, -, h3, h4⟩ := integrate_result sqrt (.full k) dt m
  rw [h3, h4]
  exact hpass n h1

theorem integrate_poles_zero_wind_witness :
    (∀ i j, GridCell (exampleModel ℝ).mesh i j →
        0 < (integrate Real.sqrt (.full false) 6371 (exampleModel ℝ)).2.gdt
          (.full (!false)) i j) ∧
      ZeroAtPoles (exampleModel ℝ).mesh
        ((integrate Real.sqrt (.full false) 6371 (exampleModel ℝ)).2.ut (.full (!false))) ∧
      ZeroAtPoles (exampleModel ℝ).mesh
        ((integrate Real.sqrt (.full false) 6371 (exampleModel ℝ)).2.vt (.full (!false))) ∧
      ZeroAtPoles (exampleModel ℝ).mesh
        ((integrate Real.sqrt (.full false) 6371 (exampleModel ℝ)).2.u (.full (!false))) ∧
      ZeroAtPoles (exampleModel ℝ).mesh
        ((integrate Real.sqrt (.full false) 6371 (exampleModel ℝ)).2.v (.full (!false))) :=
  (integrate_poles_zero_wind Real.sqrt false 6371 (exampleModel ℝ) exampleModel_wellFormed
    exampleModel_firstRun (exampleModel_u_poles _) (exampleModel_v_poles _) exampleModel_dut
    exampleModel_dvt (fun _ hx => Real.sqrt_pos.2 hx)
    (fun i j _ => by rw [(exampleModel_rest _ i j).2.2]; exact zero_le_one)).2
    (fun p h1 _ i j hc => by
      rw [exampleModel_gd_new Real.sqrt Real.sqrt_one p h1 i j hc]
      exact one_pos)

end Barotropic
